import Mathlib

/-!
# CANopen4Drives: SDO client, bus router, node, PDO handler, sync handler and drive

A shallow embedding of `src/src/COSDOHandler.{h,cpp}`, of the transmit path, the receive
ring, the node table and the dispatch of `src/src/COMsgHandler.{h,cpp}`, of
`src/src/CONode.{h,cpp}`, of `src/src/COPDOHandler.{h,cpp}`, of
`src/src/COSyncHandler.{h,cpp}` and of the communication part of the drive
(`src/CO402Drive/CO402Drive.h`, `src/src/CO402Drive.cpp`: `ResetComState`, `InitPDOs`,
`Update`).

Conventions of the embedding

* Machine integers are `Nat`.  A value that is merely copied from one cell to a cell of the
  same C type is copied as it is; every arithmetic result is reduced modulo the width of the
  cell that receives it (`% 256` for `uint8_t`, `% 2 ^ 32` for `uint32_t`), and an assignment
  to a bit field is truncated to the width of the field.
* An array of bytes (`uint8_t payload[8]`, the memory behind a `uint8_t *`) is a function
  `Nat → Nat` from the index to the byte stored there.
* The bit fields of `SDO_CS_Init` and `SDO_CS_Seg` are allocated from the least significant
  bit of the command byte upwards (the layout of the target compiler, and the one of CiA 301):
  `s`/`c` is bit 0, `e` bit 1, the two-bit `n` of `SDO_CS_Init` bits 2-3, the three-bit `n`
  of `SDO_CS_Seg` bits 1-3, `x`/`t` bit 4 and `cs` bits 5-7.  Multi-byte members are
  little-endian.
* An index `ActRxTxLen + iter` into the caller's memory is computed in `uint32_t`, hence
  reduced modulo `2 ^ 32`.
* A member function becomes a function from the object before the call to the object after
  the call; what it returns through a pointer argument is returned next to the object.
* A signed value that is compared or cast (the NMT state of a node, an `int8_t` node id) is
  an `Int`.
* An object another object points to is kept inside it: the router inside the SDO client,
  the SDO client inside the node, the node inside the PDO handler, the PDO handler inside
  the drive; the sync handler has the router it points to as a member.  A pointer to an entry of
  the object dictionary is an address (a `Nat`, 0 for `NULL`) into a memory `Nat → ODEntry`
  that is passed to the function and, where the function writes to it, returned.
* Output on `Serial` is left out.
-/

namespace CANopen4Drives

/-! ## Bit fields of the command byte -/

/-- The value of the bit field of width `w` whose lowest bit is bit `lo` of the byte `b`. -/
def getBits (b lo w : Nat) : Nat := (b / 2 ^ lo) % 2 ^ w

/-- The `uint8_t` cell `b` after `v` was assigned to its bit field of width `w` at bit `lo`:
the value is truncated to the field, the other bits of the cell are kept. -/
def setBits (b lo w v : Nat) : Nat :=
  b % 2 ^ lo + (v % 2 ^ w) * 2 ^ lo + ((b % 256) / 2 ^ (lo + w)) * 2 ^ (lo + w)

/-- Assignment to a bit field of `control`, the first byte of the payload `p`. -/
def setCtl (p : Nat → Nat) (lo w v : Nat) : Nat → Nat :=
  Function.update p 0 (setBits (p 0) lo w v)

/-- Field `MsgExp.control.s`. -/
def ctl_s (p : Nat → Nat) : Nat := getBits (p 0) 0 1
/-- Field `MsgExp.control.e`. -/
def ctl_e (p : Nat → Nat) : Nat := getBits (p 0) 1 1
/-- Field `MsgExp.control.n` (two bits). -/
def ctl_n (p : Nat → Nat) : Nat := getBits (p 0) 2 2
/-- Field `MsgExp.control.x`. -/
def ctl_x (p : Nat → Nat) : Nat := getBits (p 0) 4 1
/-- Field `control.cs`, at the same place in `SDO_CS_Init` and `SDO_CS_Seg`. -/
def ctl_cs (p : Nat → Nat) : Nat := getBits (p 0) 5 3
/-- Field `MsgSeg.control.c`. -/
def seg_c (p : Nat → Nat) : Nat := getBits (p 0) 0 1
/-- Field `MsgSeg.control.n` (three bits). -/
def seg_n (p : Nat → Nat) : Nat := getBits (p 0) 1 3
/-- Field `MsgSeg.control.t`. -/
def seg_t (p : Nat → Nat) : Nat := getBits (p 0) 4 1

/-- Member `MsgExp.Idx` (bytes 1-2, little-endian). -/
def msgIdx (p : Nat → Nat) : Nat := p 1 + 256 * p 2
/-- Member `MsgExp.SubIdx` (byte 3). -/
def msgSubIdx (p : Nat → Nat) : Nat := p 3
/-- Member `MsgExp.Data.u32` (bytes 4-7, little-endian). -/
def msgU32 (p : Nat → Nat) : Nat := p 4 + 256 * p 5 + 65536 * p 6 + 16777216 * p 7

/-- Assignment `MsgExp.Idx = v` of a `uint16_t`. -/
def setIdx (p : Nat → Nat) (v : Nat) : Nat → Nat :=
  Function.update (Function.update p 1 (v % 256)) 2 (v / 256 % 256)

/-- Assignment `MsgExp.SubIdx = v` of a `uint8_t`. -/
def setSubIdx (p : Nat → Nat) (v : Nat) : Nat → Nat := Function.update p 3 v

/-- Assignment `MsgExp.Data.u32 = v` of a `uint32_t`. -/
def setU32 (p : Nat → Nat) (v : Nat) : Nat → Nat :=
  Function.update (Function.update (Function.update (Function.update p
    4 (v % 256)) 5 (v / 256 % 256)) 6 (v / 65536 % 256)) 7 (v / 16777216 % 256)

/-- The loop `for(iter = 0; iter < n; iter++) dst[dIdx iter] = src[sIdx iter];`
where `dst` and `src` do not overlap. -/
def forCopy (dst : Nat → Nat) (dIdx : Nat → Nat) (src : Nat → Nat) (sIdx : Nat → Nat) :
    Nat → (Nat → Nat)
  | 0 => dst
  | k + 1 => Function.update (forCopy dst dIdx src sIdx k) (dIdx k) (src (sIdx k))

/-- The first eight bytes of a byte array, as a list. -/
def bytes8 (p : Nat → Nat) : List Nat := [p 0, p 1, p 2, p 3, p 4, p 5, p 6, p 7]

/-! ## The bus router: transmit path (`COMsgHandler`) -/

/-- Enumeration `COTxStatus`. -/
inductive COTxStatus where
  | eCOTxOffline
  | eCOTxIdle
  | eCOTxBusy
  | eCOTxTimeOut
  deriving DecidableEq, Repr

/-- Value `eCANSdoReq` of enumeration `COService`. -/
def eCANSdoReq : Nat := 0x600

/-- Value `eCANSdoResp` of enumeration `COService`. -/
def eCANSdoResp : Nat := 0x580

/-- Value `InvalidSlot`. -/
def InvalidSlot : Nat := 0xff

/-- Struct `CANMsg`. -/
structure CANMsg where
  Id : Nat
  len : Nat
  isRTR : Bool
  serviceType : Nat
  payload : Nat → Nat

/-- Frame type of the driver's `can_frame_t`. -/
inductive can_frame_type_t where
  | CAN_FRAME_TYPE_DATA
  | CAN_FRAME_TYPE_REMOTE
  deriving DecidableEq, Repr

/-- The driver's frame `can_frame_t`, as far as `SendMsg` fills it. -/
structure can_frame_t where
  id : Nat
  type : can_frame_type_t
  data_length_code : Nat
  data : Nat → Nat

/-- Modelled from the spec: the CAN peripheral driver `UNOR4CAN`, which is not part of the
sources.  Its interface is `send(frame) → bool`: post for transmission, false iff busy.
`busy` is the answer the peripheral gives, `offered` lists every frame passed to `send`,
`posted` the frames it accepted for transmission, oldest first. -/
structure UNOR4CAN where
  busy : Bool
  offered : List can_frame_t
  posted : List can_frame_t

/-- Modelled from the spec: `UNOR4CAN::send`, post for transmission, false iff busy. -/
def UNOR4CAN.send (c : UNOR4CAN) (f : can_frame_t) : Bool × UNOR4CAN :=
  if c.busy then (false, { c with offered := c.offered ++ [f] })
  else (true, { c with offered := c.offered ++ [f], posted := c.posted ++ [f] })

/-- Value `eCANNone` of enumeration `COService`. -/
def eCANNone : Nat := 0xFFFF
/-- Value `eCANNMT` of enumeration `COService`. -/
def eCANNMT : Nat := 0x000
/-- Value `eCANSyncEmcy` of enumeration `COService`. -/
def eCANSyncEmcy : Nat := 0x080
/-- Value `eCANTPDO1` of enumeration `COService`. -/
def eCANTPDO1 : Nat := 0x180
/-- Value `eCANRPDO1` of enumeration `COService`. -/
def eCANRPDO1 : Nat := 0x200
/-- Value `eCANTPDO2` of enumeration `COService`. -/
def eCANTPDO2 : Nat := 0x280
/-- Value `eCANRPDO2` of enumeration `COService`. -/
def eCANRPDO2 : Nat := 0x300
/-- Value `eCANTPDO3` of enumeration `COService`. -/
def eCANTPDO3 : Nat := 0x380
/-- Value `eCANRPDO3` of enumeration `COService`. -/
def eCANRPDO3 : Nat := 0x400
/-- Value `eCANTPDO4` of enumeration `COService`. -/
def eCANTPDO4 : Nat := 0x480
/-- Value `eCANRPDO4` of enumeration `COService`. -/
def eCANRPDO4 : Nat := 0x500
/-- Value `eCANGuarding` of enumeration `COService`. -/
def eCANGuarding : Nat := 0x700

/-- Constant `MsgHandler_MaxNodes`. -/
def MsgHandler_MaxNodes : Nat := 10
/-- Constant `NumRxBuffers`. -/
def NumRxBuffers : Nat := 20
/-- Constant `invalidNodeId`. -/
def invalidNodeId : Int := -1

/-- Class `COMsgHandler`.  `CORxVector` is the ring of `NumRxBuffers` received messages,
`nodeId` the table of the `MsgHandler_MaxNodes` slots; of a registered callback
(`OnRxSDOCb[i]` and the like) the model keeps whether `callback` is not `NULL`.  The members
of the receive side have the values the constructor gives them as defaults (zero where C
leaves them indeterminate). -/
structure COMsgHandler where
  can : UNOR4CAN
  TxStatus : COTxStatus
  CORxVector : Nat → CANMsg :=
    fun _ => { Id := 0, len := 0, isRTR := false, serviceType := eCANNone, payload := fun _ => 0 }
  CORxNextRead : Nat := 0
  CORxNextWrite : Nat := 0
  NumRxMessages : Nat := 0
  NumProcessedMessages : Nat := 0
  nodeId : Nat → Int := fun _ => invalidNodeId
  OnRxSDOCb : Nat → Bool := fun _ => false
  OnRxNmtCb : Nat → Bool := fun _ => false
  OnRxEMCYCb : Nat → Bool := fun _ => false
  OnRxPDOCb : Nat → Bool := fun _ => false
  actTime : Nat := 0

/-- Method `COMsgHandler::SendMsg`. -/
def COMsgHandler.SendMsg (h : COMsgHandler) (msg : CANMsg) : Bool × COMsgHandler :=
  if h.TxStatus = COTxStatus.eCOTxIdle then
    let TxMsg : can_frame_t :=
      if msg.isRTR then
        { id := msg.Id, type := can_frame_type_t.CAN_FRAME_TYPE_REMOTE,
          data_length_code := 0, data := fun _ => 0 }
      else
        { id := msg.Id, type := can_frame_type_t.CAN_FRAME_TYPE_DATA,
          data_length_code := msg.len, data := msg.payload }
    let r := h.can.send TxMsg
    (r.1, { h with TxStatus := COTxStatus.eCOTxBusy, can := r.2 })
  else
    (false, h)

/-- Method `COMsgHandler::OnRxHandler` for the event `CAN_EVENT_TX_COMPLETE`. -/
def COMsgHandler.OnTxComplete (h : COMsgHandler) : COMsgHandler :=
  { h with TxStatus := COTxStatus.eCOTxIdle }

/-! ## The bus router: receive path -/

/-- The events of the driver's callback (`can_event_t`) named in `COMsgHandler::OnRxHandler`. -/
inductive can_event_t where
  | CAN_EVENT_TX_COMPLETE
  | CAN_EVENT_RX_COMPLETE
  | CAN_EVENT_ERR_WARNING
  | CAN_EVENT_ERR_PASSIVE
  | CAN_EVENT_ERR_BUS_OFF
  | CAN_EVENT_BUS_RECOVERY
  | CAN_EVENT_MAILBOX_MESSAGE_LOST
  | CAN_EVENT_ERR_BUS_LOCK
  | CAN_EVENT_ERR_CHANNEL
  | CAN_EVENT_TX_ABORTED
  | CAN_EVENT_ERR_GLOBAL
  | CAN_EVENT_TX_FIFO_EMPTY
  deriving DecidableEq, Repr

/-- The argument `can_callback_args_t` of the driver's callback: the event and the frame. -/
structure can_callback_args_t where
  event : can_event_t
  frame : can_frame_t

/-- The statements of `case CAN_EVENT_RX_COMPLETE:` of `COMsgHandler::OnRxHandler`: the frame
is copied into slot `CORxNextWrite` of the ring (`memcpy` of `data_length_code` bytes for a
data frame), classified, and the write index moves on. -/
def COMsgHandler.onRxComplete (h : COMsgHandler) (frame : can_frame_t) : COMsgHandler :=
  let old := h.CORxVector h.CORxNextWrite
  let m : CANMsg :=
    if frame.type = can_frame_type_t.CAN_FRAME_TYPE_REMOTE then
      { Id := frame.id, len := frame.data_length_code, isRTR := true,
        serviceType := frame.id &&& 0xFF80, payload := old.payload }
    else
      { Id := frame.id, len := frame.data_length_code, isRTR := false,
        serviceType := frame.id &&& 0xFF80,
        payload := forCopy old.payload (fun i => i) frame.data (fun i => i)
          frame.data_length_code }
  let w := (h.CORxNextWrite + 1) % 256
  { h with
    CORxVector := Function.update h.CORxVector h.CORxNextWrite m
    NumRxMessages := (h.NumRxMessages + 1) % 65536
    CORxNextWrite := if w = NumRxBuffers then 0 else w }

/-- Method `COMsgHandler::OnRxHandler(can_callback_args_t *)`. -/
def COMsgHandler.OnRxHandler (h : COMsgHandler) (p_args : can_callback_args_t) :
    COMsgHandler :=
  match p_args.event with
  | can_event_t.CAN_EVENT_TX_COMPLETE => h.OnTxComplete
  | can_event_t.CAN_EVENT_RX_COMPLETE => h.onRxComplete p_args.frame
  | _ => h

/-- The conversion `(uint8_t)` of an `int16_t`. -/
def castU8 (x : Int) : Nat := (x % 256).toNat

/-- The slot variable of `COMsgHandler::FindNode` after the first `k` rounds of its loop
(`i = 0 .. k - 1`): a later slot with the node id replaces an earlier one. -/
def COMsgHandler.findUpTo (h : COMsgHandler) (NodeId : Nat) : Nat → Nat
  | 0 => InvalidSlot
  | k + 1 => if castU8 (h.nodeId k) = NodeId then k else COMsgHandler.findUpTo h NodeId k

/-- Method `COMsgHandler::FindNode`. -/
def COMsgHandler.FindNode (h : COMsgHandler) (NodeId : Nat) : Nat :=
  h.findUpTo NodeId MsgHandler_MaxNodes

/-- The four arrays of callbacks of the router. -/
inductive COCallback where
  | SDO
  | Nmt
  | EMCY
  | PDO
  deriving DecidableEq, Repr

/-- One call of a registered callback by `Update`: which array, which slot, and the message
passed to it. -/
structure Invocation where
  cb : COCallback
  NodeHandle : Nat
  Msg : CANMsg

/-- The `switch(RxMsg->serviceType)` of `COMsgHandler::Update` for a message whose node was
found in slot `NodeHandle`: the callbacks it calls. -/
def COMsgHandler.dispatch (h : COMsgHandler) (NodeHandle : Nat) (RxMsg : CANMsg) :
    List Invocation :=
  if RxMsg.serviceType = eCANSyncEmcy then
    if h.OnRxEMCYCb NodeHandle then [⟨COCallback.EMCY, NodeHandle, RxMsg⟩] else []
  else if RxMsg.serviceType = eCANSdoResp then
    if h.OnRxSDOCb NodeHandle then [⟨COCallback.SDO, NodeHandle, RxMsg⟩] else []
  else if RxMsg.serviceType = eCANTPDO1 ∨ RxMsg.serviceType = eCANTPDO2
      ∨ RxMsg.serviceType = eCANTPDO3 ∨ RxMsg.serviceType = eCANTPDO4 then
    if h.OnRxPDOCb NodeHandle then [⟨COCallback.PDO, NodeHandle, RxMsg⟩] else []
  else if RxMsg.serviceType = eCANGuarding then
    if h.OnRxNmtCb NodeHandle then [⟨COCallback.Nmt, NodeHandle, RxMsg⟩] else []
  else
    []

/-- What `COMsgHandler::Update` does with the message `RxMsg` it takes from the ring: the
node id `Id & 0x7F` is looked up with `FindNode`, and if a slot is found the `switch` on the
service type calls the callback; the callbacks called. -/
def COMsgHandler.callsFor (h : COMsgHandler) (RxMsg : CANMsg) : List Invocation :=
  let thisNodeId := RxMsg.Id &&& 0x7F
  let NodeHandle := h.FindNode thisNodeId
  if NodeHandle ≠ InvalidSlot then h.dispatch NodeHandle RxMsg else []

/-- Method `COMsgHandler::Update(timeNow)`; the second component lists the callbacks called. -/
def COMsgHandler.Update (h : COMsgHandler) (timeNow : Nat) : COMsgHandler × List Invocation :=
  let h1 := { h with actTime := timeNow }
  if h1.CORxNextWrite ≠ h1.CORxNextRead then
    let RxMsg := h1.CORxVector h1.CORxNextRead
    let calls := h1.callsFor RxMsg
    let r := (h1.CORxNextRead + 1) % 256
    ({ h1 with
       CORxNextRead := if r = NumRxBuffers then 0 else r
       NumProcessedMessages := (h1.NumProcessedMessages + 1) % 65536 }, calls)
  else
    (h1, [])

/-- The loop of `COMsgHandler::RegisterNode` from slot `i` on, with `k` slots still to
look at: the first slot that holds `invalidNodeId`. -/
def COMsgHandler.findFree (h : COMsgHandler) : Nat → Nat → Nat
  | 0, _ => InvalidSlot
  | k + 1, i => if h.nodeId i = invalidNodeId then i else COMsgHandler.findFree h k (i + 1)

/-- Method `COMsgHandler::RegisterNode(thisNodeId)`; the second component is the slot
returned. -/
def COMsgHandler.RegisterNode (h : COMsgHandler) (thisNodeId : Nat) : COMsgHandler × Nat :=
  let slot := h.findFree MsgHandler_MaxNodes 0
  if slot ≠ InvalidSlot then
    ({ h with nodeId := Function.update h.nodeId slot (thisNodeId : Int) }, slot)
  else
    (h, slot)

/-- Method `COMsgHandler::Register_OnRxSDOCb(NodeHandle, Cb)`; `Cb` says whether the callback
of the holder passed is not `NULL`. -/
def COMsgHandler.Register_OnRxSDOCb (h : COMsgHandler) (NodeHandle : Nat) (Cb : Bool) :
    COMsgHandler :=
  if NodeHandle < MsgHandler_MaxNodes then
    { h with OnRxSDOCb := Function.update h.OnRxSDOCb NodeHandle Cb }
  else h

/-- Method `COMsgHandler::Register_OnRxNmtCb(NodeHandle, Cb)`. -/
def COMsgHandler.Register_OnRxNmtCb (h : COMsgHandler) (NodeHandle : Nat) (Cb : Bool) :
    COMsgHandler :=
  if NodeHandle < MsgHandler_MaxNodes then
    { h with OnRxNmtCb := Function.update h.OnRxNmtCb NodeHandle Cb }
  else h

/-- Method `COMsgHandler::Register_OnRxEMCYCb(NodeHandle, Cb)`. -/
def COMsgHandler.Register_OnRxEMCYCb (h : COMsgHandler) (NodeHandle : Nat) (Cb : Bool) :
    COMsgHandler :=
  if NodeHandle < MsgHandler_MaxNodes then
    { h with OnRxEMCYCb := Function.update h.OnRxEMCYCb NodeHandle Cb }
  else h

/-- Method `COMsgHandler::Register_OnRxPDOCb(NodeHandle, Cb)`. -/
def COMsgHandler.Register_OnRxPDOCb (h : COMsgHandler) (NodeHandle : Nat) (Cb : Bool) :
    COMsgHandler :=
  if NodeHandle < MsgHandler_MaxNodes then
    { h with OnRxPDOCb := Function.update h.OnRxPDOCb NodeHandle Cb }
  else h

/-! ## The SDO client (`COSDOHandler`) -/

/-- Constant `SDORespTimeOut`. -/
def SDORespTimeOut : Nat := 20

/-- Constant `SDOInitUploadReq`. -/
def SDOInitUploadReq : Nat := 2
/-- Constant `SDOInitUploadResponse`. -/
def SDOInitUploadResponse : Nat := 2
/-- Constant `SDOUploadSegReq`. -/
def SDOUploadSegReq : Nat := 3
/-- Constant `SDOUploadSegResp`. -/
def SDOUploadSegResp : Nat := 0
/-- Constant `SDOInitDownloadReq`. -/
def SDOInitDownloadReq : Nat := 1
/-- Constant `SDOInitDownloadResp`. -/
def SDOInitDownloadResp : Nat := 3
/-- Constant `SDODownloadSegReq`. -/
def SDODownloadSegReq : Nat := 0
/-- Constant `SDODownloadSegResp`. -/
def SDODownloadSegResp : Nat := 1
/-- Constant `SDOErrorReqResp`. -/
def SDOErrorReqResp : Nat := 4
/-- Constant `SegDataLen`. -/
def SegDataLen : Nat := 7

/-- Enumeration `COSDOCommStates`. -/
inductive COSDOCommStates where
  | eCO_SDOUnknown
  | eCO_SDOIdle
  | eCO_SDOWaiting
  | eCO_SDOBusy
  | eCO_SDODone
  | eCO_SDOError
  | eCO_SDORetry
  | eCO_SDOTimeout
  deriving DecidableEq, Repr

/-- Enumeration `COSDORequestType`. -/
inductive COSDORequestType where
  | eSDONoRequest
  | eSDOReadRequestInit
  | eSDOReadRequestSeg
  | eSDOWriteRequestExp
  | eSDOWriteRequestSeg
  deriving DecidableEq, Repr

/-- Class `COSDOHandler`.  `SDOReqData` is the payload of `SDORequestMsg`; `Handler` is the
router the client points to; `ClientDataPtr` is the memory behind the pointer of that name,
indexed from the pointer. -/
structure COSDOHandler where
  nodeId : Int
  SDORequestMsg : CANMsg
  nextToggle : Nat
  SDORxTxState : COSDOCommStates
  RWObjectsAccessStep : Nat
  MaxRxLen : Nat
  ExpectedRxTxLen : Nat
  ActRxTxLen : Nat
  ClientDataPtr : Nat → Nat
  requestedService : COSDORequestType
  requestedIdx : Nat
  requestedSub : Nat
  Handler : COMsgHandler
  RequestSentAt : Nat
  actTime : Nat
  isTimerActive : Bool
  TORetryCounter : Nat
  TORetryMax : Nat
  BusyRetryCounter : Nat
  BusyRetryMax : Nat

/-- The payload `SDOReqData` points to. -/
def COSDOHandler.SDOReqData (s : COSDOHandler) : Nat → Nat := s.SDORequestMsg.payload

/-- The frames the driver accepted for transmission so far. -/
def COSDOHandler.posted (s : COSDOHandler) : List can_frame_t := s.Handler.can.posted

/-- The frames passed to the driver so far. -/
def COSDOHandler.offered (s : COSDOHandler) : List can_frame_t := s.Handler.can.offered

/-- Method `COSDOHandler::GetComState`. -/
def COSDOHandler.GetComState (s : COSDOHandler) : COSDOCommStates := s.SDORxTxState

/-- Method `COSDOHandler::ResetComState`. -/
def COSDOHandler.ResetComState (s : COSDOHandler) : COSDOHandler :=
  { s with
    SDORxTxState := COSDOCommStates.eCO_SDOIdle
    requestedService := COSDORequestType.eSDONoRequest
    TORetryCounter := 0
    BusyRetryCounter := 0 }

/-- Method `COSDOHandler::SendRequest`. -/
def COSDOHandler.SendRequest (s : COSDOHandler) (Msg : CANMsg) : Bool × COSDOHandler :=
  let r := s.Handler.SendMsg Msg
  (r.1, { s with Handler := r.2 })

/-- The block `case eCO_SDORetry:` of `ReadSDO` and of `WriteSDO` (the same statements in
both): try to send `SDORequestMsg`. -/
def COSDOHandler.caseRetry (s : COSDOHandler) : COSDOHandler :=
  let r := s.SendRequest s.SDORequestMsg
  if r.1 then
    { r.2 with
      SDORxTxState := COSDOCommStates.eCO_SDOWaiting
      BusyRetryCounter := 0
      RequestSentAt := r.2.actTime
      isTimerActive := true }
  else
    let c := (r.2.BusyRetryCounter + 1) % 256
    if c > r.2.BusyRetryMax then
      { r.2 with BusyRetryCounter := c, SDORxTxState := COSDOCommStates.eCO_SDOError }
    else
      { r.2 with BusyRetryCounter := c, SDORxTxState := COSDOCommStates.eCO_SDORetry }

/-- Method `COSDOHandler::ReadSDO(Idx, SubIdx, dataptr, length)`.  The second component is
`*length` after the call; the value returned is `SDORxTxState` of the first. -/
def COSDOHandler.ReadSDO (s : COSDOHandler) (Idx SubIdx : Nat) (dataptr : Nat → Nat)
    (length : Nat) : COSDOHandler × Nat :=
  match s.SDORxTxState with
  | COSDOCommStates.eCO_SDOIdle =>
    let p := s.SDOReqData
    let p := setIdx p Idx
    let p := setSubIdx p SubIdx
    let p := setU32 p 0
    let p := setCtl p 5 3 SDOInitUploadReq
    let p := setCtl p 4 1 0
    let p := setCtl p 2 2 0
    let p := setCtl p 1 1 0
    let p := setCtl p 0 1 0
    let s1 := { s with
      SDORequestMsg := { s.SDORequestMsg with payload := p }
      requestedIdx := Idx
      requestedSub := SubIdx
      MaxRxLen := length
      ActRxTxLen := 0
      nextToggle := 0
      ClientDataPtr := dataptr
      requestedService := COSDORequestType.eSDOReadRequestInit }
    (s1.caseRetry, length)
  | COSDOCommStates.eCO_SDORetry => (s.caseRetry, length)
  | COSDOCommStates.eCO_SDODone =>
    ({ s with requestedService := COSDORequestType.eSDONoRequest }, s.ActRxTxLen)
  | _ => (s, length)

/-- Method `COSDOHandler::WriteSDO(Idx, SubIdx, Data, len)`; the value returned is
`SDORxTxState` of the result. -/
def COSDOHandler.WriteSDO (s : COSDOHandler) (Idx SubIdx : Nat) (Data : Nat → Nat)
    (len : Nat) : COSDOHandler :=
  match s.SDORxTxState with
  | COSDOCommStates.eCO_SDOIdle =>
    let p := s.SDOReqData
    let p := setIdx p Idx
    let p := setSubIdx p SubIdx
    let p := setCtl p 5 3 SDOInitDownloadReq
    let s2 : COSDOHandler :=
      if len ≤ 4 then
        let p := setCtl p 1 1 1
        let p := setCtl p 2 2 (4 - len)
        let p := setCtl p 0 1 1
        let p := setCtl p 4 1 0
        let p := setU32 p 0
        let p :=
          if len = 1 then Function.update p 4 (Data 0)
          else if len = 2 then Function.update (Function.update p 4 (Data 0)) 5 (Data 1)
          else if len = 4 then
            Function.update (Function.update (Function.update (Function.update p
              4 (Data 0)) 5 (Data 1)) 6 (Data 2)) 7 (Data 3)
          else p
        { s with
          SDORequestMsg := { s.SDORequestMsg with payload := p }
          ExpectedRxTxLen := len
          ActRxTxLen := 0 }
      else
        let p := setCtl p 1 1 0
        let p := setCtl p 2 2 0
        let p := setCtl p 0 1 1
        let p := setU32 p len
        { s with
          SDORequestMsg := { s.SDORequestMsg with payload := p }
          ExpectedRxTxLen := len
          ActRxTxLen := 0
          ClientDataPtr := Data
          nextToggle := 0 }
    let s3 := { s2 with
      requestedService := COSDORequestType.eSDOWriteRequestExp
      requestedIdx := Idx
      requestedSub := SubIdx }
    s3.caseRetry
  | COSDOCommStates.eCO_SDORetry => s.caseRetry
  | COSDOCommStates.eCO_SDODone =>
    { s with requestedService := COSDORequestType.eSDONoRequest }
  | _ => s

/-- Method `COSDOHandler::OnTimeOut`. -/
def COSDOHandler.OnTimeOut (s : COSDOHandler) : COSDOHandler :=
  if s.TORetryCounter < s.TORetryMax then
    { s with
      SDORxTxState := COSDOCommStates.eCO_SDORetry
      TORetryCounter := (s.TORetryCounter + 1) % 256 }
  else
    { s with SDORxTxState := COSDOCommStates.eCO_SDOTimeout, TORetryCounter := 0 }

/-- Method `COSDOHandler::SetActTime`. -/
def COSDOHandler.SetActTime (s : COSDOHandler) (time : Nat) : COSDOHandler :=
  let s1 := { s with actTime := time }
  if s1.isTimerActive = true ∧ (s1.RequestSentAt + SDORespTimeOut) % 2 ^ 32 < s1.actTime then
    { s1.OnTimeOut with isTimerActive := false }
  else
    s1

/-- The statements `if(SendRequest(&SDORequestMsg)) ... else ...` that end each branch of
`OnRxHandler` which asks for or sends the next segment. -/
def COSDOHandler.sendSegment (s : COSDOHandler) : COSDOHandler :=
  let r := s.SendRequest s.SDORequestMsg
  if r.1 then
    { r.2 with
      SDORxTxState := COSDOCommStates.eCO_SDOWaiting
      RequestSentAt := r.2.actTime
      BusyRetryCounter := 0 }
  else
    { r.2 with SDORxTxState := COSDOCommStates.eCO_SDORetry, isTimerActive := false }

/-- Branch of `OnRxHandler` for a response to the initiate-upload request
(`requestedService == eSDOReadRequestInit`, `cs == SDOInitUploadResponse`). -/
def COSDOHandler.onUploadInitResp (s : COSDOHandler) (R : Nat → Nat) : COSDOHandler :=
  if msgIdx R = s.requestedIdx ∧ msgSubIdx R = s.requestedSub then
    if ctl_e R = 1 ∧ ctl_s R = 1 then
      let act := 4 - ctl_n R
      let d :=
        if act = 1 then Function.update s.ClientDataPtr 0 (R 4)
        else if act = 2 then Function.update (Function.update s.ClientDataPtr 0 (R 4)) 1 (R 5)
        else if act = 4 then
          Function.update (Function.update (Function.update (Function.update s.ClientDataPtr
            0 (R 4)) 1 (R 5)) 2 (R 6)) 3 (R 7)
        else s.ClientDataPtr
      { s with
        ActRxTxLen := act
        ClientDataPtr := d
        isTimerActive := false
        SDORxTxState := COSDOCommStates.eCO_SDODone }
    else if ctl_e R = 0 ∧ ctl_s R = 1 then
      let p := s.SDOReqData
      let p := setCtl p 5 3 SDOUploadSegReq
      let p := setCtl p 4 1 s.nextToggle
      let p := forCopy p (fun iter => 1 + iter) (fun _ => 0) (fun iter => iter) 7
      let s1 := { s with
        SDORequestMsg := { s.SDORequestMsg with payload := p }
        ExpectedRxTxLen := msgU32 R
        ActRxTxLen := 0
        requestedService := COSDORequestType.eSDOReadRequestSeg }
      s1.sendSegment
    else
      s
  else
    { s with SDORxTxState := COSDOCommStates.eCO_SDOError }

/-- Branch of `OnRxHandler` for a response to an upload-segment request
(`requestedService == eSDOReadRequestSeg`, `cs == SDOUploadSegResp`). -/
def COSDOHandler.onUploadSegResp (s : COSDOHandler) (R : Nat → Nat) : COSDOHandler :=
  if seg_t R = s.nextToggle then
    let length := 7 - seg_n R
    let d := forCopy s.ClientDataPtr (fun iter => (s.ActRxTxLen + iter) % 2 ^ 32)
      R (fun iter => 1 + iter) length
    let s1 := { s with ClientDataPtr := d, ActRxTxLen := (s.ActRxTxLen + length) % 2 ^ 32 }
    if seg_c R = 0 then
      let nt := if s1.nextToggle ≠ 0 then 0 else 1
      let s2 := { s1 with
        SDORequestMsg := { s1.SDORequestMsg with payload := setCtl s1.SDOReqData 4 1 nt }
        nextToggle := nt }
      s2.sendSegment
    else
      { s1 with isTimerActive := false, SDORxTxState := COSDOCommStates.eCO_SDODone }
  else
    { s with SDORxTxState := COSDOCommStates.eCO_SDOError }

/-- Branch of `OnRxHandler` for a response to the initiate-download request
(`requestedService == eSDOWriteRequestExp`, `cs == SDOInitDownloadResp`). -/
def COSDOHandler.onDownloadInitResp (s : COSDOHandler) (R : Nat → Nat) : COSDOHandler :=
  if msgIdx R = s.requestedIdx ∧ msgSubIdx R = s.requestedSub then
    if s.ExpectedRxTxLen ≤ 4 then
      { s with
        SDORxTxState := COSDOCommStates.eCO_SDODone
        isTimerActive := false
        ActRxTxLen := s.ExpectedRxTxLen }
    else
      let p := setCtl s.SDOReqData 0 1 0
      let length := if s.ExpectedRxTxLen < 8 then s.ExpectedRxTxLen else 7
      let p := if s.ExpectedRxTxLen < 8 then setCtl p 0 1 1 else p
      let p := setCtl p 5 3 SDODownloadSegReq
      let p := setCtl p 4 1 0
      let p := forCopy p (fun iter => 1 + iter)
        s.ClientDataPtr (fun iter => (s.ActRxTxLen + iter) % 2 ^ 32) SegDataLen
      let p := forCopy p (fun iter => 1 + iter)
        s.ClientDataPtr (fun iter => (s.ActRxTxLen + iter) % 2 ^ 32) length
      let s1 := { s with
        SDORequestMsg := { s.SDORequestMsg with payload := p }
        nextToggle := 0
        ActRxTxLen := length
        requestedService := COSDORequestType.eSDOWriteRequestSeg }
      s1.sendSegment
  else
    { s with SDORxTxState := COSDOCommStates.eCO_SDOError }

/-- Branch of `OnRxHandler` for a response to a download-segment request
(`requestedService == eSDOWriteRequestSeg`, `cs == SDODownloadSegResp`). -/
def COSDOHandler.onDownloadSegResp (s : COSDOHandler) : COSDOHandler :=
  let length := (s.ExpectedRxTxLen + 2 ^ 32 - s.ActRxTxLen) % 2 ^ 32
  if length > 0 then
    let nt := if s.nextToggle ≠ 0 then 0 else 1
    let p := setCtl s.SDOReqData 4 1 nt
    let p := if length < 8 then setCtl p 0 1 1 else setCtl p 0 1 0
    let length := if length < 8 then length else 7
    let p := setCtl p 1 3 (7 - length)
    let p := forCopy p (fun iter => 1 + iter)
      s.ClientDataPtr (fun iter => (s.ActRxTxLen + iter) % 2 ^ 32) SegDataLen
    let p := forCopy p (fun iter => 1 + iter)
      s.ClientDataPtr (fun iter => (s.ActRxTxLen + iter) % 2 ^ 32) length
    let s1 := { s with
      SDORequestMsg := { s.SDORequestMsg with payload := p }
      nextToggle := nt
      ActRxTxLen := (s.ActRxTxLen + length) % 2 ^ 32 }
    s1.sendSegment
  else
    { s with SDORxTxState := COSDOCommStates.eCO_SDODone, isTimerActive := false }

/-- Method `COSDOHandler::OnRxHandler`. -/
def COSDOHandler.OnRxHandler (s : COSDOHandler) (Msg : CANMsg) : COSDOHandler :=
  let R := Msg.payload
  if ctl_cs R = SDOErrorReqResp then
    { s with SDORxTxState := COSDOCommStates.eCO_SDOError, isTimerActive := false }
  else if s.requestedService = COSDORequestType.eSDOReadRequestInit
      ∧ ctl_cs R = SDOInitUploadResponse then
    s.onUploadInitResp R
  else if s.requestedService = COSDORequestType.eSDOReadRequestSeg
      ∧ ctl_cs R = SDOUploadSegResp then
    s.onUploadSegResp R
  else if s.requestedService = COSDORequestType.eSDOWriteRequestExp
      ∧ ctl_cs R = SDOInitDownloadResp then
    s.onDownloadInitResp R
  else if s.requestedService = COSDORequestType.eSDOWriteRequestSeg
      ∧ ctl_cs R = SDODownloadSegResp then
    s.onDownloadSegResp
  else
    s

/-- Method `COSDOHandler::SetTORetryMax`. -/
def COSDOHandler.SetTORetryMax (s : COSDOHandler) (value : Nat) : COSDOHandler :=
  { s with TORetryMax := value }

/-- Method `COSDOHandler::SetBusyRetryMax`. -/
def COSDOHandler.SetBusyRetryMax (s : COSDOHandler) (value : Nat) : COSDOHandler :=
  { s with BusyRetryMax := value }

/-- Struct `ODEntry`.  `Value` is the memory behind the pointer of that name as the caller
holds it; what the client stores there during a read is `ClientDataPtr` of the client. -/
structure ODEntry where
  Idx : Nat
  SubIdx : Nat
  Value : Nat → Nat
  len : Nat

/-- Method `COSDOHandler::ReadObjects(Objects, nrEntries)`.  The components are the client,
the vector of entries and the value returned.  The local `actLength` starts as 0 (it is
indeterminate in C and only copied to `MaxRxLen`). -/
def COSDOHandler.ReadObjects (s : COSDOHandler) (Objects : Nat → ODEntry) (nrEntries : Nat) :
    COSDOHandler × (Nat → ODEntry) × COSDOCommStates :=
  let e := Objects s.RWObjectsAccessStep
  let r := s.ReadSDO e.Idx e.SubIdx e.Value 0
  let stepResult := r.1.SDORxTxState
  if stepResult = COSDOCommStates.eCO_SDODone then
    let Objects1 := Function.update Objects s.RWObjectsAccessStep { e with len := r.2 }
    let step := (r.1.RWObjectsAccessStep + 1) % 256
    let s1 := ({ r.1 with RWObjectsAccessStep := step } : COSDOHandler).ResetComState
    if step = nrEntries then
      ({ s1 with RWObjectsAccessStep := 0 }, Objects1, COSDOCommStates.eCO_SDODone)
    else
      (s1, Objects1, COSDOCommStates.eCO_SDOBusy)
  else if stepResult = COSDOCommStates.eCO_SDOError then
    (r.1, Objects, COSDOCommStates.eCO_SDOError)
  else
    (r.1, Objects, COSDOCommStates.eCO_SDOBusy)

/-- Method `COSDOHandler::WriteObjects(Objects, nrEntries)`; the components are the client
and the value returned. -/
def COSDOHandler.WriteObjects (s : COSDOHandler) (Objects : Nat → ODEntry) (nrEntries : Nat) :
    COSDOHandler × COSDOCommStates :=
  let e := Objects s.RWObjectsAccessStep
  let r := s.WriteSDO e.Idx e.SubIdx e.Value e.len
  let stepResult := r.SDORxTxState
  if stepResult = COSDOCommStates.eCO_SDODone then
    let step := (r.RWObjectsAccessStep + 1) % 256
    let s1 := ({ r with RWObjectsAccessStep := step } : COSDOHandler).ResetComState
    if step = nrEntries then
      ({ s1 with RWObjectsAccessStep := 0 }, COSDOCommStates.eCO_SDODone)
    else
      (s1, COSDOCommStates.eCO_SDOBusy)
  else if stepResult = COSDOCommStates.eCO_SDOError then
    (r, COSDOCommStates.eCO_SDOError)
  else
    (r, COSDOCommStates.eCO_SDOBusy)

/-- The single-entry operation of `ReadObjects`: `ReadSDO` for the entry at the cursor. -/
def COSDOHandler.readStep (s : COSDOHandler) (Objects : Nat → ODEntry) : COSDOHandler × Nat :=
  s.ReadSDO (Objects s.RWObjectsAccessStep).Idx (Objects s.RWObjectsAccessStep).SubIdx
    (Objects s.RWObjectsAccessStep).Value 0

/-- The single-entry operation of `WriteObjects`: `WriteSDO` for the entry at the cursor. -/
def COSDOHandler.writeStep (s : COSDOHandler) (Objects : Nat → ODEntry) : COSDOHandler :=
  s.WriteSDO (Objects s.RWObjectsAccessStep).Idx (Objects s.RWObjectsAccessStep).SubIdx
    (Objects s.RWObjectsAccessStep).Value (Objects s.RWObjectsAccessStep).len

/-- The constructor `COSDOHandler()` with the default member initialisers of the class.
Members C leaves indeterminate (`SDORequestMsg`, `ClientDataPtr`, `requestedIdx`,
`requestedSub`, `RequestSentAt`, `actTime`) are zero here; `Handler` is the router the
client is going to be attached to. -/
def COSDOHandler.new (MsgHandler : COMsgHandler) : COSDOHandler :=
  { nodeId := -1
    SDORequestMsg := { Id := 0, len := 0, isRTR := false, serviceType := 0, payload := fun _ => 0 }
    nextToggle := 0
    SDORxTxState := COSDOCommStates.eCO_SDOIdle
    RWObjectsAccessStep := 0
    MaxRxLen := 0
    ExpectedRxTxLen := 0
    ActRxTxLen := 0
    ClientDataPtr := fun _ => 0
    requestedService := COSDORequestType.eSDONoRequest
    requestedIdx := 0
    requestedSub := 0
    Handler := MsgHandler
    RequestSentAt := 0
    actTime := 0
    isTimerActive := false
    TORetryCounter := 0
    TORetryMax := 1
    BusyRetryCounter := 0
    BusyRetryMax := 5 }

/-- Method `COSDOHandler::init(MsgHandler, ThisNode, MsgHandle)` for a node id in 1..127;
`MsgHandle` is an `int8_t` and is compared with `InvalidSlot` after integer promotion.  The
callback of the client is registered at the router the client points to from then on. -/
def COSDOHandler.init (s : COSDOHandler) (MsgHandler : COMsgHandler) (ThisNode : Nat)
    (MsgHandle : Int) : COSDOHandler :=
  let s1 := { s with nodeId := (ThisNode : Int), Handler := MsgHandler }
  let s2 :=
    if MsgHandle ≠ (InvalidSlot : Int) then
      { s1 with
        SDORequestMsg := { s1.SDORequestMsg with
          Id := eCANSdoReq ||| ThisNode
          len := 8
          isRTR := false
          serviceType := eCANSdoReq }
        Handler := s1.Handler.Register_OnRxSDOCb (castU8 MsgHandle) true
        SDORxTxState := COSDOCommStates.eCO_SDOIdle }
    else
      { s1 with SDORxTxState := COSDOCommStates.eCO_SDOError }
  { s2 with requestedService := COSDORequestType.eSDONoRequest }

/-! ## Scenarios: a router that is open, a client attached to it, and a server that answers -/

/-- The router after `Open()` on a peripheral that accepts frames and has sent none. -/
def openRouter : COMsgHandler :=
  { can := { busy := false, offered := [], posted := [] }, TxStatus := COTxStatus.eCOTxIdle }

/-- A client constructed and attached with `init` to the open router for node `node`. -/
def attached (node : Nat) : COSDOHandler :=
  (COSDOHandler.new openRouter).init openRouter node 0

/-- A response frame of the server of node `node` with the given eight payload bytes. -/
def respMsg (node : Nat) (b : List Nat) : CANMsg :=
  { Id := eCANSdoResp ||| node, len := 8, isRTR := false, serviceType := eCANSdoResp,
    payload := fun i => b.getD i 0 }

/-- The transmitter can take a frame: the router is idle and the peripheral accepts. -/
def COSDOHandler.txReady (s : COSDOHandler) : Prop :=
  s.Handler.TxStatus = COTxStatus.eCOTxIdle ∧ s.Handler.can.busy = false

/-- The client after the router it points to has seen the event `CAN_EVENT_TX_COMPLETE`. -/
def COSDOHandler.afterTxComplete (s : COSDOHandler) : COSDOHandler :=
  { s with Handler := s.Handler.OnTxComplete }

/-- A response arrives: the transmission of the request before it has completed (event
`CAN_EVENT_TX_COMPLETE` at the router), then the router passes the frame to `OnRxHandler`. -/
def COSDOHandler.onResponse (s : COSDOHandler) (Msg : CANMsg) : COSDOHandler :=
  s.afterTxComplete.OnRxHandler Msg

/-- The client after the first `k` responses of the sequence `resp`. -/
def COSDOHandler.feed (s : COSDOHandler) (resp : Nat → CANMsg) : Nat → COSDOHandler
  | 0 => s
  | k + 1 => (COSDOHandler.feed s resp k).onResponse (resp k)

/-- A memory area holding the given bytes (zero behind them). -/
def memOf (b : List Nat) : Nat → Nat := fun i => b.getD i 0

/-- The data frame `SendMsg` builds from a message that is not a remote request. -/
def frameOf (m : CANMsg) : can_frame_t :=
  { id := m.Id, type := can_frame_type_t.CAN_FRAME_TYPE_DATA,
    data_length_code := m.len, data := m.payload }

/-- What `init` establishes for the request message of node `node` and no method changes:
identifier `0x600 | node`, eight bytes, not a remote request. -/
def COSDOHandler.inited (s : COSDOHandler) (node : Nat) : Prop :=
  s.SDORequestMsg.Id = eCANSdoReq ||| node ∧ s.SDORequestMsg.len = 8
    ∧ s.SDORequestMsg.isRTR = false

/-- The bit fields of the two command-byte layouts, as (lowest bit, width). -/
def ctlFields : List (Nat × Nat) := [(0, 1), (1, 1), (2, 2), (4, 1), (5, 3), (1, 3)]

/-- What segment number `k` (from 0) of a download of the `L` bytes `Data` has to be:
a download-segment request with toggle `k mod 2`, `c` set exactly when no byte is left
after it, and the bytes `7k ..` of the data in its data field. -/
def SegOK (Data : Nat → Nat) (L k : Nat) (f : can_frame_t) : Prop :=
  ctl_cs f.data = SDODownloadSegReq ∧ seg_t f.data = k % 2
    ∧ seg_c f.data = (if L ≤ 7 * k + 7 then 1 else 0)
    ∧ ∀ j, j < 7 → 7 * k + j < L → f.data (1 + j) = Data (7 * k + j)

/-- The client in the middle of a segmented download of the `L` bytes `Data`, after `m`
segments were sent behind the frames `P0` and the initiate frame. -/
def DlInv (P0 : List can_frame_t) (Data : Nat → Nat) (L m : Nat) (s : COSDOHandler) : Prop :=
  s.SDORxTxState = COSDOCommStates.eCO_SDOWaiting
    ∧ s.requestedService = COSDORequestType.eSDOWriteRequestSeg
    ∧ s.ExpectedRxTxLen = L ∧ s.ActRxTxLen = min (7 * m) L ∧ s.nextToggle = (m + 1) % 2
    ∧ s.ClientDataPtr = Data ∧ s.Handler.can.busy = false ∧ s.SDORequestMsg.isRTR = false
    ∧ ctl_cs s.SDOReqData = SDODownloadSegReq
    ∧ ∃ init segs, s.posted = P0 ++ init :: segs ∧ ctl_cs init.data = SDOInitDownloadReq
        ∧ segs.length = m
        ∧ ∀ k f, segs[k]? = some f → SegOK Data L k f

/-- Ten bytes `01 02 .. 0A` to be downloaded. -/
def tenBytes : Nat → Nat := memOf [1, 2, 3, 4, 5, 6, 7, 8, 9, 10]

/-- The answers of the server of node 3 to a segmented download to 0x2000.0: the
initiate-download response, then download-segment responses with toggle 0, 1, 1, ... -/
def downloadResponses : Nat → CANMsg
  | 0 => respMsg 3 [0x60, 0x00, 0x20, 0x00, 0, 0, 0, 0]
  | 1 => respMsg 3 [0x20, 0, 0, 0, 0, 0, 0, 0]
  | _ => respMsg 3 [0x30, 0, 0, 0, 0, 0, 0, 0]

/-- Answers of a server to a download to 0x2000.0 whose first download-segment response
carries toggle 1 although the segment it answers was sent with toggle 0. -/
def downloadWrongToggle : Nat → CANMsg
  | 0 => respMsg 3 [0x60, 0x00, 0x20, 0x00, 0, 0, 0, 0]
  | _ => respMsg 3 [0x30, 0, 0, 0, 0, 0, 0, 0]

/-- Answers of a server to an upload of 0x2000.0: the initiate-upload response announcing
21 bytes, a first segment with toggle 0, a second with toggle 1, and a third that carries
toggle 1 again. -/
def uploadRepeatedToggle : Nat → CANMsg
  | 0 => respMsg 3 [0x41, 0x00, 0x20, 0x00, 21, 0, 0, 0]
  | 1 => respMsg 3 [0x00, 1, 2, 3, 4, 5, 6, 7]
  | 2 => respMsg 3 [0x10, 8, 9, 10, 11, 12, 13, 14]
  | _ => respMsg 3 [0x11, 15, 16, 17, 18, 19, 20, 21]

/-- An expedited initiate-upload response for 0x2000.0 with `e = 1`, `s = 1`, `n = 1`:
three data bytes `11 22 33`. -/
def uploadThreeBytes : CANMsg := respMsg 3 [0x47, 0x00, 0x20, 0x00, 0x11, 0x22, 0x33, 0x00]

/-- What is to be seen of a posted frame: identifier, length code and the eight data bytes. -/
def wire (f : can_frame_t) : Nat × Nat × List Nat := (f.id, f.data_length_code, bytes8 f.data)

/-- The number of data bytes `7 - n` of upload segment `k` (from 0), which is response
`k + 1` of the sequence `resp` (response 0 answers the initiate request). -/
def segLen (resp : Nat → CANMsg) (k : Nat) : Nat := 7 - seg_n (resp (k + 1)).payload

/-- The number of data bytes of the upload segments before segment `k`. -/
def segOff (resp : Nat → CANMsg) : Nat → Nat
  | 0 => 0
  | k + 1 => segOff resp k + segLen resp k

/-- The buffer `buf` after the data bytes of the first `m` upload segments of `resp` were
written to it one behind the other. -/
def uploaded (buf : Nat → Nat) (resp : Nat → CANMsg) : Nat → (Nat → Nat)
  | 0 => buf
  | m + 1 => fun i =>
    if segOff resp m ≤ i ∧ i < segOff resp m + segLen resp m then
      (resp (m + 1)).payload (1 + (i - segOff resp m))
    else uploaded buf resp m i

/-- The client in the middle of a segmented upload into `buf`, after the initiate response
and `m` segment responses of `resp`: it has asked for segment `m` and waits. -/
def UlInv (P0 : List can_frame_t) (buf : Nat → Nat) (resp : Nat → CANMsg) (m : Nat)
    (s : COSDOHandler) : Prop :=
  s.SDORxTxState = COSDOCommStates.eCO_SDOWaiting
    ∧ s.requestedService = COSDORequestType.eSDOReadRequestSeg
    ∧ s.ActRxTxLen = segOff resp m ∧ s.nextToggle = m % 2
    ∧ s.ClientDataPtr = uploaded buf resp m
    ∧ s.Handler.can.busy = false ∧ s.SDORequestMsg.isRTR = false
    ∧ ctl_cs s.SDOReqData = SDOUploadSegReq
    ∧ ∃ init reqs, s.posted = P0 ++ init :: reqs ∧ ctl_cs init.data = SDOInitUploadReq
        ∧ reqs.length = m + 1
        ∧ ∀ k f, reqs[k]? = some f → ctl_cs f.data = SDOUploadSegReq ∧ seg_t f.data = k % 2

/-- The answers of the server of node 3 to an upload of the ten bytes `01 .. 0A` of
0x2000.0: the initiate-upload response (segmented, ten bytes), a segment with toggle 0 and
seven bytes, and a last segment with toggle 1, three bytes and `c = 1`. -/
def uploadResponses : Nat → CANMsg
  | 0 => respMsg 3 [0x41, 0x00, 0x20, 0x00, 0x0A, 0, 0, 0]
  | 1 => respMsg 3 [0x00, 1, 2, 3, 4, 5, 6, 7]
  | _ => respMsg 3 [0x19, 8, 9, 10, 0, 0, 0, 0]

/-! ## Scenarios of the receive side and of repeated calls -/

/-- The transmitter takes no frame: the router is not idle or the peripheral is busy. -/
def COSDOHandler.txBlocked (s : COSDOHandler) : Prop :=
  s.Handler.TxStatus ≠ COTxStatus.eCOTxIdle ∨ s.Handler.can.busy = true

/-- The client after `k` calls of `ReadSDO` with the same arguments. -/
def COSDOHandler.readCalls (s : COSDOHandler) (Idx SubIdx : Nat) (dataptr : Nat → Nat)
    (length : Nat) : Nat → COSDOHandler
  | 0 => s
  | k + 1 => ((COSDOHandler.readCalls s Idx SubIdx dataptr length k).ReadSDO
      Idx SubIdx dataptr length).1

/-- The client after `k` calls of `WriteSDO` with the same arguments. -/
def COSDOHandler.writeCalls (s : COSDOHandler) (Idx SubIdx : Nat) (Data : Nat → Nat)
    (len : Nat) : Nat → COSDOHandler
  | 0 => s
  | k + 1 => (COSDOHandler.writeCalls s Idx SubIdx Data len k).WriteSDO Idx SubIdx Data len

/-- A router that is open and whose transmission of an earlier frame has not completed. -/
def busyRouter : COMsgHandler := { openRouter with TxStatus := COTxStatus.eCOTxBusy }

/-- A client attached to the busy router for node `node`. -/
def attachedBusy (node : Nat) : COSDOHandler :=
  (COSDOHandler.new busyRouter).init busyRouter node 0

/-- The router after the frames `fs` were received one after the other (event
`CAN_EVENT_RX_COMPLETE` for each). -/
def COMsgHandler.rxAll (h : COMsgHandler) : List can_frame_t → COMsgHandler
  | [] => h
  | f :: fs => COMsgHandler.rxAll
      (h.OnRxHandler { event := can_event_t.CAN_EVENT_RX_COMPLETE, frame := f }) fs

/-- The router after `k` calls of `Update`, call `j` with the time `now j`. -/
def COMsgHandler.updates (h : COMsgHandler) (now : Nat → Nat) : Nat → COMsgHandler
  | 0 => h
  | k + 1 => ((COMsgHandler.updates h now k).Update (now k)).1

/-- The number of frames in the ring that `Update` has not looked at yet. -/
def COMsgHandler.pending (h : COMsgHandler) : Nat :=
  (h.CORxNextWrite + NumRxBuffers - h.CORxNextRead) % NumRxBuffers

/-- The message `m` of the ring is the received frame `f`: identifier, length, kind and
classification of `f`, and for a data frame its data bytes. -/
def storedAs (m : CANMsg) (f : can_frame_t) : Prop :=
  m.Id = f.id ∧ m.len = f.data_length_code
    ∧ (m.isRTR = true ↔ f.type = can_frame_type_t.CAN_FRAME_TYPE_REMOTE)
    ∧ m.serviceType = f.id &&& 0xFF80
    ∧ (f.type = can_frame_type_t.CAN_FRAME_TYPE_DATA →
        ∀ i, i < f.data_length_code → m.payload i = f.data i)

/-- The open router with node 3 registered and an SDO callback registered for it. -/
def routerNode3 : COMsgHandler :=
  (openRouter.RegisterNode 3).1.Register_OnRxSDOCb (openRouter.RegisterNode 3).2 true

/-- A data frame with identifier `id` and the eight data bytes `b`. -/
def dataFrame (id : Nat) (b : List Nat) : can_frame_t :=
  { id := id, type := can_frame_type_t.CAN_FRAME_TYPE_DATA, data_length_code := 8,
    data := fun i => b.getD i 0 }

/-- Two entries of an object dictionary: 0x1000.0 (four bytes) and 0x1001.0 (one byte). -/
def twoObjects : Nat → ODEntry
  | 0 => { Idx := 0x1000, SubIdx := 0, Value := memOf [], len := 4 }
  | _ => { Idx := 0x1001, SubIdx := 0, Value := memOf [], len := 1 }

/-- Whether a callback is registered in array `cb` at slot `slot` of the router. -/
def COMsgHandler.registeredCb (h : COMsgHandler) (cb : COCallback) (slot : Nat) : Bool :=
  match cb with
  | COCallback.SDO => h.OnRxSDOCb slot
  | COCallback.Nmt => h.OnRxNmtCb slot
  | COCallback.EMCY => h.OnRxEMCYCb slot
  | COCallback.PDO => h.OnRxPDOCb slot

/-- The client after `k` rounds of the caller's loop while no response arrives: the
transmission of the frame before has completed, `SetActTime(now j)`, then the same `ReadSDO`
call. -/
def COSDOHandler.pollRead (s : COSDOHandler) (Idx SubIdx : Nat) (dataptr : Nat → Nat)
    (length : Nat) (now : Nat → Nat) : Nat → COSDOHandler
  | 0 => s
  | k + 1 => (((COSDOHandler.pollRead s Idx SubIdx dataptr length now k).afterTxComplete.SetActTime
      (now k)).ReadSDO Idx SubIdx dataptr length).1

/-- The initiate-upload response for 0x2000.0 with `e = 0`, `s = 1` and length field 0. -/
def uploadZeroLength : CANMsg := respMsg 3 [0x41, 0x00, 0x20, 0x00, 0, 0, 0, 0]

/-- The upload-segment response with toggle 0, `c = 1` and `n = 7` (no data byte). -/
def uploadEmptySegment : CANMsg := respMsg 3 [0x0F, 0, 0, 0, 0, 0, 0, 0]

/-- The answers of the server of node 3 to the reads of 0x1000.0 (four bytes `92 01 02 00`)
and of 0x1001.0 (one byte `05`). -/
def twoObjectsResponses : Nat → CANMsg
  | 0 => respMsg 3 [0x43, 0x00, 0x10, 0x00, 0x92, 0x01, 0x02, 0x00]
  | _ => respMsg 3 [0x4F, 0x01, 0x10, 0x00, 0x05, 0, 0, 0]

/-- The caller's loop over `ReadObjects(Objects, n)` with a server that answers: `k` calls,
and after a call that leaves the client Waiting the next response of `resp` arrives.  The
components are the client, the entries, the value the last call returned and the number of
responses that have arrived. -/
def COSDOHandler.readObjectsLoop (s : COSDOHandler) (Objects : Nat → ODEntry) (n : Nat)
    (resp : Nat → CANMsg) : Nat → COSDOHandler × (Nat → ODEntry) × COSDOCommStates × Nat
  | 0 => (s, Objects, COSDOCommStates.eCO_SDOBusy, 0)
  | k + 1 =>
    let p := COSDOHandler.readObjectsLoop s Objects n resp k
    let r := p.1.ReadObjects p.2.1 n
    if r.1.SDORxTxState = COSDOCommStates.eCO_SDOWaiting then
      (r.1.onResponse (resp p.2.2.2), r.2.1, r.2.2, p.2.2.2 + 1)
    else
      (r.1, r.2.1, r.2.2, p.2.2.2)

/-! ## The node table of the router -/

/-- Method `COMsgHandler::UnRegisterNode(NodeHandle)`. -/
def COMsgHandler.UnRegisterNode (h : COMsgHandler) (NodeHandle : Nat) : COMsgHandler :=
  if NodeHandle < MsgHandler_MaxNodes then
    { h with
      nodeId := Function.update h.nodeId NodeHandle invalidNodeId
      OnRxSDOCb := Function.update h.OnRxSDOCb NodeHandle false
      OnRxNmtCb := Function.update h.OnRxNmtCb NodeHandle false
      OnRxEMCYCb := Function.update h.OnRxEMCYCb NodeHandle false
      OnRxPDOCb := Function.update h.OnRxPDOCb NodeHandle false }
  else h

/-- A call that changes the node table: `RegisterNode(thisNodeId)` or
`UnRegisterNode(NodeHandle)`. -/
inductive NodeTableCall where
  | register (thisNodeId : Nat)
  | unregister (NodeHandle : Nat)

/-- The router after the calls `cs`, one after the other. -/
def COMsgHandler.tableCalls (h : COMsgHandler) : List NodeTableCall → COMsgHandler
  | [] => h
  | NodeTableCall.register thisNodeId :: cs =>
    COMsgHandler.tableCalls (h.RegisterNode thisNodeId).1 cs
  | NodeTableCall.unregister NodeHandle :: cs =>
    COMsgHandler.tableCalls (h.UnRegisterNode NodeHandle) cs

/-- No node id is stored in more than one slot of the node table. -/
def COMsgHandler.oneSlotPerNode (h : COMsgHandler) : Prop :=
  ∀ i j, i < MsgHandler_MaxNodes → j < MsgHandler_MaxNodes →
    h.nodeId i ≠ invalidNodeId → h.nodeId i = h.nodeId j → i = j

/-- Every `RegisterNode` among the calls `cs` is for a node id that no slot holds at the
moment of the call. -/
def COMsgHandler.registersNew (h : COMsgHandler) : List NodeTableCall → Prop
  | [] => True
  | NodeTableCall.register thisNodeId :: cs =>
    (∀ i, i < MsgHandler_MaxNodes → h.nodeId i ≠ (thisNodeId : Int))
      ∧ COMsgHandler.registersNew (h.RegisterNode thisNodeId).1 cs
  | NodeTableCall.unregister NodeHandle :: cs =>
    COMsgHandler.registersNew (h.UnRegisterNode NodeHandle) cs

/-! ## The node: NMT commands, guarding and heartbeat (`CONode`) -/

/-- Value `eNMTStateOffline` of enumeration `NMTNodeState`; a node state is kept as the
integer of the enumerator, since the code compares states with `<` and casts received bytes
to the enumeration. -/
def eNMTStateOffline : Int := -128
/-- Value `eNMTWaitForBoot` of enumeration `NMTNodeState`. -/
def eNMTWaitForBoot : Int := -3
/-- Value `eNMTBootMsgReceived` of enumeration `NMTNodeState`. -/
def eNMTBootMsgReceived : Int := -2
/-- Value `eNMTBooting` of enumeration `NMTNodeState`. -/
def eNMTBooting : Int := -1
/-- Value `eNMTStateReset` of enumeration `NMTNodeState`. -/
def eNMTStateReset : Int := 0
/-- Value `eNMTStatePreOp` of enumeration `NMTNodeState`. -/
def eNMTStatePreOp : Int := 127
/-- Value `eNMTStateOperational` of enumeration `NMTNodeState`. -/
def eNMTStateOperational : Int := 5
/-- Value `eNMTStateStopped` of enumeration `NMTNodeState`. -/
def eNMTStateStopped : Int := 4

/-- Enumeration `CONodeCommStates`. -/
inductive CONodeCommStates where
  | eCO_NodeIdle
  | eCO_NodeWaiting
  | eCO_NodeRetry
  | eCO_NodeBusy
  | eCO_NodeDone
  | eCO_NodeError
  | eCO_NodeGuardingFailed
  deriving DecidableEq, Repr

/-- Enumeration `COGuardingState`. -/
inductive COGuardingState where
  | eCO_GuardingOff
  | eCO_GuardingConfigured
  | eCO_GuardingExpected
  | eCO_GuardingWaiting
  | eCO_GuardingReceivedIntime
  | eCO_GuardingTimeOut
  | eCO_GuardingError
  deriving DecidableEq, Repr

/-- The integer of an enumerator of `COGuardingState`. -/
def COGuardingState.val : COGuardingState → Nat
  | COGuardingState.eCO_GuardingOff => 0
  | COGuardingState.eCO_GuardingConfigured => 1
  | COGuardingState.eCO_GuardingExpected => 2
  | COGuardingState.eCO_GuardingWaiting => 3
  | COGuardingState.eCO_GuardingReceivedIntime => 4
  | COGuardingState.eCO_GuardingTimeOut => 5
  | COGuardingState.eCO_GuardingError => 6

/-- Constant `NMTCommandFrameLength`. -/
def NMTCommandFrameLength : Nat := 2
/-- Constant `NMTGuardingFrameLength`. -/
def NMTGuardingFrameLength : Nat := 1
/-- Constant `NMT_StartRemoteNode`. -/
def NMT_StartRemoteNode : Nat := 0x01
/-- Constant `NMT_StopRemoteNode`. -/
def NMT_StopRemoteNode : Nat := 0x02
/-- Constant `NMT_EnterPreop`. -/
def NMT_EnterPreop : Nat := 0x80
/-- Constant `NMT_ResetRemoteNode`. -/
def NMT_ResetRemoteNode : Nat := 0x81
/-- Constant `NMT_ResetComRemoteNode`. -/
def NMT_ResetComRemoteNode : Nat := 0x82
/-- Constant `SDORequestTimeout`. -/
def SDORequestTimeout : Nat := 200

/-- The difference `a - b` of two `uint32_t`. -/
def sub32 (a b : Nat) : Nat := (a % 2 ^ 32 + 2 ^ 32 - b % 2 ^ 32) % 2 ^ 32

/-- The bytes of a variable that holds `v`, lowest byte first (the memory behind a pointer
to the variable on the little-endian target). -/
def leBytes (v : Nat) : Nat → Nat := fun i => v / 256 ^ i % 256

/-- The overload `COSDOHandler::ReadSDO(ODEntry *)`: the read of the entry, and
`ResetComState` once it returns Done.  The components are the client, the entry (its `len`
is `*length` after the call) and the value returned. -/
def COSDOHandler.ReadSDOEntry (s : COSDOHandler) (Object : ODEntry) :
    COSDOHandler × ODEntry × COSDOCommStates :=
  let r := s.ReadSDO Object.Idx Object.SubIdx Object.Value Object.len
  let returnValue := r.1.SDORxTxState
  if returnValue = COSDOCommStates.eCO_SDODone then
    (r.1.ResetComState, { Object with len := r.2 }, returnValue)
  else
    (r.1, { Object with len := r.2 }, returnValue)

/-- The overload `COSDOHandler::WriteSDO(ODEntry *)`: the write of the entry, and
`ResetComState` once it returns Done.  The components are the client and the value
returned. -/
def COSDOHandler.WriteSDOEntry (s : COSDOHandler) (Object : ODEntry) :
    COSDOHandler × COSDOCommStates :=
  let r := s.WriteSDO Object.Idx Object.SubIdx Object.Value Object.len
  let returnValue := r.SDORxTxState
  if returnValue = COSDOCommStates.eCO_SDODone then
    (r.ResetComState, returnValue)
  else
    (r, returnValue)

/-- Class `CONode`.  The router the members `Handler` and `RWSDO.Handler` both point to
(`init` passes the same pointer on) is kept in `RWSDO.Handler`.  `NmtCommand` is an `NMTMsg`
that is passed to `SendRequest` as a `CANMsg`: the members `command` and `nodeId` lie where
`payload[0]` and `payload[1]` do, so it is kept as a `CANMsg`.  Of the entries of the object
dictionary held by the node only `ODRemoteNodeType` changes (its `len`); the others are
functions of the members their `Value` points to. -/
structure CONode where
  RWSDO : COSDOHandler
  EmcyCode : Nat
  FAULHABERErrorWord : Nat
  CiA301ErrorWord : Nat
  ConfigStep : Nat
  NodeId : Int
  GuardingRequest : CANMsg
  GuardTime : Nat
  LiveTimeFactor : Nat
  HeartbeatProducerTime : Nat
  HeartbeatConsumerTime : Nat
  RemoteHBMissedTime : Nat
  isGuardingActive : Bool
  GuardRequestSentAt : Nat
  NumGuardRequestsOpen : Nat
  expectedToggleBit : Nat
  isHeartbeatActive : Bool
  HeatbeatReceivedAt : Nat
  GuardingState : COGuardingState
  isTimerActive : Bool
  NmtCommand : CANMsg
  RequestState : CONodeCommStates
  ConfigState : CONodeCommStates
  actTime : Nat
  TORetryCounter : Nat
  TORetryMax : Nat
  BusyRetryCounter : Nat
  BusyRetryMax : Nat
  NodeState : Int
  ReportedState : Int
  isLive : Bool
  RequestTime : Nat
  ODRemoteNodeType : ODEntry

/-- The router the node points to. -/
def CONode.Handler (n : CONode) : COMsgHandler := n.RWSDO.Handler

/-- The node with the router it points to replaced by `h`. -/
def CONode.withHandler (n : CONode) (h : COMsgHandler) : CONode :=
  { n with RWSDO := { n.RWSDO with Handler := h } }

/-- The entry `ODGuardTime` = {0x100C, 0x00, &GuardTime, 2}. -/
def CONode.ODGuardTime (n : CONode) : ODEntry :=
  { Idx := 0x100C, SubIdx := 0x00, Value := leBytes n.GuardTime, len := 2 }

/-- The entry `ODLiveTimeFactor` = {0x100D, 0x00, &LiveTimeFactor, 1}. -/
def CONode.ODLiveTimeFactor (n : CONode) : ODEntry :=
  { Idx := 0x100D, SubIdx := 0x00, Value := leBytes n.LiveTimeFactor, len := 1 }

/-- The entry `ODProducerHeartbeatTime` = {0x1017, 0x00, &HeartbeatProducerTime, 2}. -/
def CONode.ODProducerHeartbeatTime (n : CONode) : ODEntry :=
  { Idx := 0x1017, SubIdx := 0x00, Value := leBytes n.HeartbeatProducerTime, len := 2 }

/-- The entry `ODConsumerHeartbeatTime` = {0x1016, 0x01, &HeartbeatConsumerTime, 4}. -/
def CONode.ODConsumerHeartbeatTime (n : CONode) : ODEntry :=
  { Idx := 0x1016, SubIdx := 0x01, Value := leBytes n.HeartbeatConsumerTime, len := 4 }

/-- The constructor `CONode()` with the default member initialisers of the class; members
C leaves indeterminate (`GuardingRequest`, `NmtCommand`, `GuardRequestSentAt`,
`HeatbeatReceivedAt`, `actTime`, `RemoteNodeTypeValue`) are zero here.  `MsgHandler` is the
router the node is going to be attached to. -/
def CONode.new (MsgHandler : COMsgHandler) : CONode :=
  { RWSDO := COSDOHandler.new MsgHandler
    EmcyCode := 0
    FAULHABERErrorWord := 0
    CiA301ErrorWord := 0
    ConfigStep := 0
    NodeId := invalidNodeId
    GuardingRequest :=
      { Id := 0, len := 0, isRTR := false, serviceType := 0, payload := fun _ => 0 }
    GuardTime := 0
    LiveTimeFactor := 0
    HeartbeatProducerTime := 0
    HeartbeatConsumerTime := 0
    RemoteHBMissedTime := 0
    isGuardingActive := false
    GuardRequestSentAt := 0
    NumGuardRequestsOpen := 0
    expectedToggleBit := 0
    isHeartbeatActive := false
    HeatbeatReceivedAt := 0
    GuardingState := COGuardingState.eCO_GuardingOff
    isTimerActive := false
    NmtCommand := { Id := 0, len := 0, isRTR := false, serviceType := 0, payload := fun _ => 0 }
    RequestState := CONodeCommStates.eCO_NodeIdle
    ConfigState := CONodeCommStates.eCO_NodeIdle
    actTime := 0
    TORetryCounter := 0
    TORetryMax := 1
    BusyRetryCounter := 0
    BusyRetryMax := 1
    NodeState := eNMTStateOffline
    ReportedState := eNMTStateReset
    isLive := false
    RequestTime := 0
    ODRemoteNodeType := { Idx := 0x1000, SubIdx := 0x00, Value := fun _ => 0, len := 4 } }

/-- Method `CONode::init(MsgHandler, ThisNode, MsgHandle)` for a node id in 1..127;
`MsgHandle` is an `int8_t` and is compared with `InvalidSlot` after integer promotion. -/
def CONode.init (n : CONode) (MsgHandler : COMsgHandler) (ThisNode : Nat) (MsgHandle : Int) :
    CONode :=
  let n1 := ({ n with NodeId := (ThisNode : Int) } : CONode).withHandler MsgHandler
  if MsgHandle ≠ (InvalidSlot : Int) then
    let n2 := { n1 with
      RWSDO := n1.RWSDO.init MsgHandler ThisNode MsgHandle
      GuardingRequest := { n1.GuardingRequest with
        Id := eCANGuarding ||| ThisNode
        len := 0
        isRTR := true
        serviceType := eCANGuarding }
      NmtCommand :=
        { Id := eCANNMT
          len := NMTCommandFrameLength
          isRTR := false
          serviceType := eCANNMT
          payload := Function.update n1.NmtCommand.payload 1 (ThisNode % 256) } }
    let n3 := n2.withHandler (n2.Handler.Register_OnRxNmtCb (castU8 MsgHandle) true)
    let n4 := { n3 with
      ConfigState := CONodeCommStates.eCO_NodeIdle
      RequestState := CONodeCommStates.eCO_NodeIdle
      ConfigStep := 0 }
    let n5 := n4.withHandler (n4.Handler.Register_OnRxEMCYCb (castU8 MsgHandle) true)
    { n5 with NodeState := eNMTStateOffline, isLive := false }
  else
    { n1 with
      ConfigState := CONodeCommStates.eCO_NodeError
      RequestState := CONodeCommStates.eCO_NodeError }

/-- Method `CONode::ResetSDOState`. -/
def CONode.ResetSDOState (n : CONode) : CONode :=
  { n with RWSDO := n.RWSDO.ResetComState }

/-- Method `CONode::ResetComState`. -/
def CONode.ResetComState (n : CONode) : CONode :=
  ({ n with
    ConfigState := CONodeCommStates.eCO_NodeIdle
    RequestState := CONodeCommStates.eCO_NodeIdle
    TORetryCounter := 0
    BusyRetryCounter := 0
    ConfigStep := 0 } : CONode).ResetSDOState

/-- Method `CONode::PresetHBMissedTime`. -/
def CONode.PresetHBMissedTime (n : CONode) (ThresholdTime : Nat) : CONode :=
  { n with RemoteHBMissedTime := ThresholdTime }

/-- Method `CONode::forceNodeState`. -/
def CONode.forceNodeState (n : CONode) (forcedState : Int) : CONode :=
  { n with NodeState := forcedState }

/-- Method `CONode::SendRequest`; the second component is the value returned. -/
def CONode.SendRequest (n : CONode) (Msg : CANMsg) : CONode × CONodeCommStates :=
  let r := n.Handler.SendMsg Msg
  let n1 := n.withHandler r.2
  if r.1 then
    ({ n1 with RequestState := CONodeCommStates.eCO_NodeDone, BusyRetryCounter := 0 },
      CONodeCommStates.eCO_NodeDone)
  else
    let c := (n1.BusyRetryCounter + 1) % 256
    if c > n1.BusyRetryMax then
      ({ n1 with
        BusyRetryCounter := c
        RequestState := CONodeCommStates.eCO_NodeError
        isTimerActive := false }, CONodeCommStates.eCO_NodeError)
    else
      ({ n1 with
        BusyRetryCounter := c
        RequestState := CONodeCommStates.eCO_NodeRetry
        isTimerActive := false }, CONodeCommStates.eCO_NodeRetry)

/-- The statements of `case eCO_NodeRetry:` of the five functions that send an NMT command:
`SendRequest((CANMsg *)&NmtCommand)`, and if it returns Done, `RequestState = eCO_NodeIdle`
and the assignments `after` of the function. -/
def CONode.sendNmtCommand (n : CONode) (after : CONode → CONode) :
    CONode × CONodeCommStates :=
  let r := n.SendRequest n.NmtCommand
  if r.2 = CONodeCommStates.eCO_NodeDone then
    (after { r.1 with RequestState := CONodeCommStates.eCO_NodeIdle }, r.2)
  else
    r

/-- The `switch(RequestState)` of the five functions that send an NMT command: in Idle the
command byte is set (and control falls through), in Retry the command is sent, in every
other state nothing is done and Busy is returned. -/
def CONode.nmtCommand (n : CONode) (command : Nat) (after : CONode → CONode) :
    CONode × CONodeCommStates :=
  match n.RequestState with
  | CONodeCommStates.eCO_NodeIdle =>
    ({ n with NmtCommand := { n.NmtCommand with
        payload := Function.update n.NmtCommand.payload 0 command } } : CONode).sendNmtCommand
      after
  | CONodeCommStates.eCO_NodeRetry => n.sendNmtCommand after
  | _ => (n, CONodeCommStates.eCO_NodeBusy)

/-- Method `CONode::SendResetNode`; the second component is the value returned. -/
def CONode.SendResetNode (n : CONode) : CONode × CONodeCommStates :=
  n.nmtCommand NMT_ResetRemoteNode fun m =>
    { m with isLive := false, NodeState := eNMTWaitForBoot, ReportedState := eNMTWaitForBoot }

/-- Method `CONode::SendResetCom`. -/
def CONode.SendResetCom (n : CONode) : CONode × CONodeCommStates :=
  n.nmtCommand NMT_ResetComRemoteNode fun m =>
    { m with isLive := false, NodeState := eNMTWaitForBoot, ReportedState := eNMTWaitForBoot }

/-- Method `CONode::SendStartNode`. -/
def CONode.SendStartNode (n : CONode) : CONode × CONodeCommStates :=
  n.nmtCommand NMT_StartRemoteNode fun m =>
    { m with
      NodeState := eNMTStateOperational
      ReportedState := eNMTStateOperational
      HeatbeatReceivedAt := m.actTime }

/-- Method `CONode::SendStopNode`. -/
def CONode.SendStopNode (n : CONode) : CONode × CONodeCommStates :=
  n.nmtCommand NMT_StopRemoteNode fun m =>
    { m with NodeState := eNMTStateStopped, ReportedState := eNMTStateStopped }

/-- Method `CONode::SendPreopNode`. -/
def CONode.SendPreopNode (n : CONode) : CONode × CONodeCommStates :=
  n.nmtCommand NMT_EnterPreop fun m =>
    { m with
      NodeState := eNMTStatePreOp
      ReportedState := eNMTStatePreOp
      HeatbeatReceivedAt := m.actTime }

/-- Method `CONode::EmcyHandler`. -/
def CONode.EmcyHandler (n : CONode) (Msg : CANMsg) : CONode :=
  { n with
    EmcyCode := (Msg.payload 1 * 256 ||| Msg.payload 0) % 65536
    FAULHABERErrorWord := Msg.payload 2
    CiA301ErrorWord := (Msg.payload 4 * 256 ||| Msg.payload 3) % 256 }

/-- The `switch(requestComState)` that ends each step of `ActivateGuarding` and of
`ActivateHeartbeat`: on Done the assignments `onDone` of the step, on Error and on Timeout
`ConfigState = eCO_NodeError`. -/
def CONode.configSwitch (n : CONode) (requestComState : COSDOCommStates)
    (onDone : CONode → CONode) : CONode :=
  match requestComState with
  | COSDOCommStates.eCO_SDODone => onDone n
  | COSDOCommStates.eCO_SDOError => { n with ConfigState := CONodeCommStates.eCO_NodeError }
  | COSDOCommStates.eCO_SDOTimeout => { n with ConfigState := CONodeCommStates.eCO_NodeError }
  | _ => n

/-- Method `CONode::ActivateGuarding`; the second component is the value returned. -/
def CONode.ActivateGuarding (n : CONode) : CONode × CONodeCommStates :=
  let n' :=
    if n.ConfigStep = 0 then
      let r := n.RWSDO.WriteSDOEntry n.ODProducerHeartbeatTime
      let n1 := { n with
        RWSDO := r.1
        ConfigState := CONodeCommStates.eCO_NodeBusy
        isHeartbeatActive := false }
      n1.configSwitch r.2 fun m => { m with ConfigStep := 1 }
    else if n.ConfigStep = 1 then
      let r := n.RWSDO.WriteSDOEntry n.ODConsumerHeartbeatTime
      let n1 := { n with RWSDO := r.1, ConfigState := CONodeCommStates.eCO_NodeBusy }
      n1.configSwitch r.2 fun m => { m with ConfigStep := 2 }
    else if n.ConfigStep = 2 then
      let r := n.RWSDO.WriteSDOEntry n.ODGuardTime
      let n1 := { n with RWSDO := r.1 }
      n1.configSwitch r.2 fun m => { m with ConfigStep := 3 }
    else if n.ConfigStep = 3 then
      let r := n.RWSDO.WriteSDOEntry n.ODLiveTimeFactor
      let n1 := { n with RWSDO := r.1 }
      n1.configSwitch r.2 fun m =>
        { m with
          isGuardingActive := true
          NumGuardRequestsOpen := 0
          expectedToggleBit := 0
          GuardingState := COGuardingState.eCO_GuardingConfigured
          ConfigState := CONodeCommStates.eCO_NodeDone
          ConfigStep := 0 }
    else
      n
  (n', n'.ConfigState)

/-- Method `CONode::ActivateHeartbeat`; the second component is the value returned. -/
def CONode.ActivateHeartbeat (n : CONode) : CONode × CONodeCommStates :=
  let n' :=
    if n.ConfigStep = 0 then
      let r := n.RWSDO.WriteSDOEntry n.ODGuardTime
      let n1 := { n with
        RWSDO := r.1
        ConfigState := CONodeCommStates.eCO_NodeBusy
        isGuardingActive := false }
      n1.configSwitch r.2 fun m => { m with ConfigStep := 1 }
    else if n.ConfigStep = 1 then
      let r := n.RWSDO.WriteSDOEntry n.ODLiveTimeFactor
      let n1 := { n with RWSDO := r.1 }
      n1.configSwitch r.2 fun m => { m with ConfigStep := 2 }
    else if n.ConfigStep = 2 then
      let r := n.RWSDO.WriteSDOEntry n.ODProducerHeartbeatTime
      let n1 := { n with RWSDO := r.1 }
      n1.configSwitch r.2 fun m => { m with ConfigStep := 3 }
    else if n.ConfigStep = 3 then
      let r := n.RWSDO.WriteSDOEntry n.ODConsumerHeartbeatTime
      let n1 := { n with RWSDO := r.1 }
      n1.configSwitch r.2 fun m =>
        { m with
          isHeartbeatActive := true
          GuardingState := COGuardingState.eCO_GuardingConfigured
          HeatbeatReceivedAt := m.actTime
          ConfigState := CONodeCommStates.eCO_NodeDone
          ConfigStep := 0 }
    else
      n
  (n', n'.ConfigState)

/-- Method `CONode::ConfigureGuarding(Time, Factor)`; the second component is the value
returned. -/
def CONode.ConfigureGuarding (n : CONode) (Time Factor : Nat) : CONode × CONodeCommStates :=
  let n1 := { n with
    GuardTime := Time
    LiveTimeFactor := Factor
    HeartbeatProducerTime := 0
    HeartbeatConsumerTime := 0
    RemoteHBMissedTime := 0 }
  if n1.NodeState < eNMTStatePreOp then (n1, CONodeCommStates.eCO_NodeDone)
  else n1.ActivateGuarding

/-- Method `CONode::ConfigureRemoteHeartbeatProducer(Time)`; `Time + Time/4` is computed in
`int` (32 bits on the target) and stored in a `uint32_t`. -/
def CONode.ConfigureRemoteHeartbeatProducer (n : CONode) (Time : Nat) :
    CONode × CONodeCommStates :=
  let n1 := { n with
    HeartbeatProducerTime := Time
    RemoteHBMissedTime := (Time + Time / 4) % 2 ^ 32
    GuardTime := 0
    LiveTimeFactor := 0 }
  if n1.NodeState < eNMTStatePreOp then (n1, CONodeCommStates.eCO_NodeDone)
  else n1.ActivateHeartbeat

/-- Method `CONode::ConfigureRemoteHeartbeatConsumer(TxNode, ThresholdTime)`. -/
def CONode.ConfigureRemoteHeartbeatConsumer (n : CONode) (TxNode ThresholdTime : Nat) :
    CONode × CONodeCommStates :=
  let n1 := { n with
    HeartbeatConsumerTime := TxNode * 65536 ||| ThresholdTime
    GuardTime := 0
    LiveTimeFactor := 0 }
  if n1.NodeState < eNMTStatePreOp then (n1, CONodeCommStates.eCO_NodeDone)
  else n1.ActivateHeartbeat

/-- Method `CONode::OnRxHandler(CANMsg *)`, the callback for NMT messages of the node. -/
def CONode.OnRxHandler (n : CONode) (Msg : CANMsg) : CONode :=
  if Msg.Id = n.GuardingRequest.Id ∧ Msg.len = NMTGuardingFrameLength then
    if Msg.payload 0 = 0 then
      { n with
        NodeState := eNMTBootMsgReceived
        isLive := true
        isGuardingActive := false
        isHeartbeatActive := false
        ConfigStep := 0 }
    else if n.isGuardingActive = true
        ∧ n.GuardingState.val < COGuardingState.eCO_GuardingError.val then
      if Msg.payload 0 &&& 0x80 = n.expectedToggleBit then
        { n with
          ReportedState := ((Msg.payload 0 &&& 0x7F : Nat) : Int)
          GuardingState := COGuardingState.eCO_GuardingReceivedIntime
          expectedToggleBit := if n.expectedToggleBit = 0x80 then 0 else 0x80 }
      else
        n
    else if n.isHeartbeatActive = true then
      { n with
        NodeState := ((Msg.payload 0 &&& 0x7F : Nat) : Int)
        HeatbeatReceivedAt := n.actTime }
    else
      n
  else
    n

/-- The statements of `case eNMTStateOffline:` of `InitRemoteNode` and of `Update` (the same
in both): every `SDORequestTimeout` ms the device type 0x1000.0 is read; when the read is
Done the node is reset. -/
def CONode.caseOffline (n : CONode) : CONode :=
  if sub32 n.actTime n.RequestTime > SDORequestTimeout then
    let r := n.RWSDO.ReadSDOEntry n.ODRemoteNodeType
    let n1 := { n with RWSDO := r.1, ODRemoteNodeType := r.2.1 }
    match r.2.2 with
    | COSDOCommStates.eCO_SDOTimeout =>
      { n1 with RWSDO := n1.RWSDO.ResetComState, RequestTime := n1.actTime }
    | COSDOCommStates.eCO_SDOError =>
      { n1 with RWSDO := n1.RWSDO.ResetComState, RequestTime := n1.actTime }
    | COSDOCommStates.eCO_SDODone =>
      let q := n1.SendResetNode
      if q.2 = CONodeCommStates.eCO_NodeDone then { q.1 with RequestTime := q.1.actTime }
      else q.1
    | _ => n1
  else
    n

/-- The statements of `case eNMTStateReset:` of `InitRemoteNode` and of `Update` (the same
in both): guarding or heartbeat is configured, whichever has a time set; when that is Done
the node is in PreOp. -/
def CONode.caseReset (n : CONode) : CONode :=
  let r : CONode × CONodeCommStates :=
    if n.GuardTime > 0 then n.ActivateGuarding
    else if n.HeartbeatProducerTime > 0 then n.ActivateHeartbeat
    else (n, CONodeCommStates.eCO_NodeDone)
  if r.2 = CONodeCommStates.eCO_NodeDone then
    { r.1 with
      NodeState := eNMTStatePreOp
      ConfigState := CONodeCommStates.eCO_NodeIdle
      GuardingState :=
        if r.1.GuardingState = COGuardingState.eCO_GuardingConfigured
        then COGuardingState.eCO_GuardingExpected else r.1.GuardingState }
  else
    r.1

/-- The block `if(isGuardingActive)` of `CONode::Update`. -/
def CONode.guardingStep (n : CONode) : CONode :=
  if n.isGuardingActive = true then
    match n.GuardingState with
    | COGuardingState.eCO_GuardingExpected =>
      let r := n.Handler.SendMsg n.GuardingRequest
      let n1 := n.withHandler r.2
      if r.1 then
        { n1 with
          GuardRequestSentAt := n1.actTime
          GuardingState := COGuardingState.eCO_GuardingWaiting }
      else
        n1
    | COGuardingState.eCO_GuardingWaiting =>
      if sub32 n.actTime n.GuardRequestSentAt > n.GuardTime then
        { n with
          GuardingState := COGuardingState.eCO_GuardingTimeOut
          NumGuardRequestsOpen := (n.NumGuardRequestsOpen + 1) % 256 }
      else
        n
    | COGuardingState.eCO_GuardingReceivedIntime =>
      if sub32 n.actTime n.GuardRequestSentAt > n.GuardTime then
        { n with
          GuardingState := COGuardingState.eCO_GuardingExpected
          NumGuardRequestsOpen := 0
          NodeState := n.ReportedState }
      else
        n
    | COGuardingState.eCO_GuardingTimeOut =>
      if n.NumGuardRequestsOpen < n.LiveTimeFactor then
        { n with GuardingState := COGuardingState.eCO_GuardingExpected }
      else
        { n with
          GuardingState := COGuardingState.eCO_GuardingError
          NodeState := eNMTStateOffline }
    | _ => n
  else
    n

/-- The block `if(isHeartbeatActive)` of `CONode::Update`. -/
def CONode.heartbeatStep (n : CONode) : CONode :=
  if n.isHeartbeatActive = true then
    if sub32 n.actTime n.HeatbeatReceivedAt > n.RemoteHBMissedTime then
      { n with
        GuardingState := COGuardingState.eCO_GuardingError
        NodeState := eNMTStateOffline }
    else
      n
  else
    n

/-- The first two statements of `InitRemoteNode` and of `Update`: `actTime = Time;
RWSDO.SetActTime(Time);`. -/
def CONode.setTime (n : CONode) (Time : Nat) : CONode :=
  { n with actTime := Time, RWSDO := n.RWSDO.SetActTime Time }

/-- Method `CONode::InitRemoteNode(Time)`; the value returned is `NodeState` of the
result. -/
def CONode.InitRemoteNode (n : CONode) (Time : Nat) : CONode :=
  let n1 := n.setTime Time
  if n1.NodeState = eNMTStateOffline then n1.caseOffline
  else if n1.NodeState = eNMTWaitForBoot ∨ n1.NodeState = eNMTBootMsgReceived then
    if n1.isLive = true then { n1 with NodeState := eNMTBooting } else n1
  else if n1.NodeState = eNMTBooting then { n1 with NodeState := eNMTStateReset }
  else if n1.NodeState = eNMTStateReset then n1.caseReset
  else n1

/-- Method `CONode::Update(Time)`; the value returned is `NodeState` of the result. -/
def CONode.Update (n : CONode) (Time : Nat) : CONode :=
  let n1 := n.setTime Time
  if n1.NodeState = eNMTStateOffline then n1.caseOffline
  else if n1.NodeState = eNMTWaitForBoot ∨ n1.NodeState = eNMTBootMsgReceived then
    if n1.isLive = true then { n1 with NodeState := eNMTBooting } else n1
  else if n1.NodeState = eNMTBooting then { n1 with NodeState := eNMTStateReset }
  else if n1.NodeState = eNMTStateReset then n1.caseReset
  else if n1.NodeState = eNMTStatePreOp ∨ n1.NodeState = eNMTStateOperational then
    n1.guardingStep.heartbeatStep
  else n1

/-! ## Scenarios of the node -/

/-- A node constructed and attached with `init` to the open router for node `node`. -/
def nodeAttached (node : Nat) : CONode :=
  (CONode.new openRouter).init openRouter node 0

/-- The node after the router it points to has seen the event `CAN_EVENT_TX_COMPLETE`. -/
def CONode.afterTxComplete (n : CONode) : CONode :=
  n.withHandler n.Handler.OnTxComplete

/-- An NMT message of node `node` (boot-up, guarding response or heartbeat) with the one
data byte `b`. -/
def nmtMsg (node b : Nat) : CANMsg :=
  { Id := eCANGuarding ||| node, len := 1, isRTR := false, serviceType := eCANGuarding,
    payload := fun i => [b].getD i 0 }

/-- What happens to a node: a call of one of its methods by the application, a message
passed to one of its callbacks by the router, or the completion of a transmission. -/
inductive NodeEvent where
  | configureGuarding (Time Factor : Nat)
  | configureHeartbeatProducer (Time : Nat)
  | configureHeartbeatConsumer (TxNode ThresholdTime : Nat)
  | initRemoteNode (Time : Nat)
  | update (Time : Nat)
  | rxNmt (Msg : CANMsg)
  | rxEmcy (Msg : CANMsg)
  | rxSdo (Msg : CANMsg)
  | txComplete

/-- The node after the event `e`. -/
def CONode.event (n : CONode) : NodeEvent → CONode
  | NodeEvent.configureGuarding Time Factor => (n.ConfigureGuarding Time Factor).1
  | NodeEvent.configureHeartbeatProducer Time => (n.ConfigureRemoteHeartbeatProducer Time).1
  | NodeEvent.configureHeartbeatConsumer TxNode ThresholdTime =>
    (n.ConfigureRemoteHeartbeatConsumer TxNode ThresholdTime).1
  | NodeEvent.initRemoteNode Time => n.InitRemoteNode Time
  | NodeEvent.update Time => n.Update Time
  | NodeEvent.rxNmt Msg => n.OnRxHandler Msg
  | NodeEvent.rxEmcy Msg => n.EmcyHandler Msg
  | NodeEvent.rxSdo Msg => { n with RWSDO := n.RWSDO.OnRxHandler Msg }
  | NodeEvent.txComplete => n.afterTxComplete

/-- The node after the events `es`, one after the other. -/
def CONode.run (n : CONode) : List NodeEvent → CONode
  | [] => n
  | e :: es => CONode.run (n.event e) es

/-- The events of one SDO write that the server of node 3 confirms: the call `e` that sends
the request, the completion of the transmission, the initiate-download response for object
`Idx`.`SubIdx`, and the call `e` again, which finds the write Done. -/
def confirmedWrite (e : NodeEvent) (Idx SubIdx : Nat) : List NodeEvent :=
  [e, NodeEvent.txComplete,
    NodeEvent.rxSdo (respMsg 3 [0x60, Idx % 256, Idx / 256, SubIdx, 0, 0, 0, 0]), e]

/-- Node 3 boots and reaches PreOp with nothing to configure; `ConfigureGuarding(50, 3)` is
called until it is Done (four confirmed writes), which activates guarding;
`ConfigureGuarding(100, 3)` is called until its first three writes are confirmed; then the
application changes its mind and calls `ConfigureRemoteHeartbeatProducer(1000)` until that
is Done. -/
def guardingThenHeartbeat : List NodeEvent :=
  [NodeEvent.rxNmt (nmtMsg 3 0), NodeEvent.update 1, NodeEvent.update 2, NodeEvent.update 3]
    ++ confirmedWrite (NodeEvent.configureGuarding 50 3) 0x1017 0
    ++ confirmedWrite (NodeEvent.configureGuarding 50 3) 0x1016 1
    ++ confirmedWrite (NodeEvent.configureGuarding 50 3) 0x100C 0
    ++ confirmedWrite (NodeEvent.configureGuarding 50 3) 0x100D 0
    ++ confirmedWrite (NodeEvent.configureGuarding 100 3) 0x1017 0
    ++ confirmedWrite (NodeEvent.configureGuarding 100 3) 0x1016 1
    ++ confirmedWrite (NodeEvent.configureGuarding 100 3) 0x100C 0
    ++ confirmedWrite (NodeEvent.configureHeartbeatProducer 1000) 0x1016 1

/-- What the claim says of one of the five functions that send an NMT command, for the node
`n` of id `node` before the call, the result `r` of the call, the command byte `cmd` and the
node state `target`: the message passed to `SendMsg` of the router has identifier 0x000,
length 2 and the data bytes `cmd`, `node`; if `SendMsg` returns true the call returns Done
and the node state is `target`, otherwise the node state is as before and the call does not
return Done; a router that is Idle passes the frame to the driver. -/
def NmtCommandSent (n : CONode) (node : Nat) (r : CONode × CONodeCommStates) (cmd : Nat)
    (target : Int) : Prop :=
  ∃ m : CANMsg, m.Id = 0x000 ∧ m.len = 2 ∧ m.isRTR = false
    ∧ m.payload 0 = cmd ∧ m.payload 1 = node
    ∧ r.1.Handler = (n.Handler.SendMsg m).2
    ∧ ((n.Handler.SendMsg m).1 = true →
        r.2 = CONodeCommStates.eCO_NodeDone ∧ r.1.NodeState = target)
    ∧ ((n.Handler.SendMsg m).1 = false →
        r.2 ≠ CONodeCommStates.eCO_NodeDone ∧ r.1.NodeState = n.NodeState)
    ∧ (n.Handler.TxStatus = COTxStatus.eCOTxIdle →
        ∃ f, r.1.Handler.can.offered = n.Handler.can.offered ++ [f]
          ∧ f.id = 0x000 ∧ f.data_length_code = 2
          ∧ f.type = can_frame_type_t.CAN_FRAME_TYPE_DATA
          ∧ f.data 0 = cmd ∧ f.data 1 = node)

/-- The node of id 3 is told to supervise by heartbeat with a producer time of 1000 ms while
it boots: boot-up message, `ConfigureRemoteHeartbeatProducer(1000)` (stored only), two calls
of `Update` that lead to Reset, and the four confirmed writes of `ActivateHeartbeat` driven
by `Update`; the node is then in PreOp with heartbeat supervision active since time 6. -/
def bootWithHeartbeat : List NodeEvent :=
  [NodeEvent.rxNmt (nmtMsg 3 0), NodeEvent.configureHeartbeatProducer 1000,
    NodeEvent.update 1, NodeEvent.update 2]
    ++ confirmedWrite (NodeEvent.update 3) 0x100C 0
    ++ confirmedWrite (NodeEvent.update 4) 0x100D 0
    ++ confirmedWrite (NodeEvent.update 5) 0x1017 0
    ++ confirmedWrite (NodeEvent.update 6) 0x1016 1

/-- An emergency message of node `node` with the eight data bytes `b`. -/
def emcyMsg (node : Nat) (b : List Nat) : CANMsg :=
  { Id := eCANSyncEmcy ||| node, len := 8, isRTR := false, serviceType := eCANSyncEmcy,
    payload := fun i => b.getD i 0 }

/-! ## The PDO handler (`COPDOHandler`) -/

/-- Constant `MaxPDOMappingEntries`. -/
def MaxPDOMappingEntries : Nat := 8

/-- Constant `NrPDOs`. -/
def NrPDOs : Nat := 4

/-- Enumeration `COPDOCommStates`. -/
inductive COPDOCommStates where
  | eCO_PDOIdle
  | eCO_PDOWaiting
  | eCO_PDORetry
  | eCO_PDOBusy
  | eCO_PDODone
  | eCO_PDOError
  deriving DecidableEq, Repr

/-- Struct `PDOMapping`.  An element of `Entries` is an `ODEntry *`, here the address of
the entry in the memory of the application (0 is `NULL`); the array has
`MaxPDOMappingEntries` elements, an index beyond them reads what the function gives. -/
structure PDOMapping where
  NrEntries : Nat
  Entries : Nat → Nat

/-- Struct `PDOTransmType`. -/
structure PDOTransmType where
  COBId : Nat
  isValid : Bool
  pending : Nat
  sentAt : Nat
  TransmType : Nat
  hasInhibitTime : Bool
  inhibitTime : Nat
  hasEventTimer : Bool
  eventTimer : Nat

/-- Enumeration `PDODir`. -/
inductive PDODir where
  | eCO_PDORx
  | eCO_PDOTx
  deriving DecidableEq, Repr

/-- Constant `RxPDOTransmTypeBaseIndex`. -/
def RxPDOTransmTypeBaseIndex : Nat := 0x1400

/-- Constant `RxPDOMappingTypeBaseIndex`. -/
def RxPDOMappingTypeBaseIndex : Nat := 0x1600

/-- Constant `TxPDOTransmTypeBaseIndex`. -/
def TxPDOTransmTypeBaseIndex : Nat := 0x1800

/-- Constant `TxPDOMappingTypeBaseIndex`. -/
def TxPDOMappingTypeBaseIndex : Nat := 0x1A00

/-- Constant `PDOComSettingsSubIdxCobId`. -/
def PDOComSettingsSubIdxCobId : Nat := 1

/-- Constant `PDOComSettingsSubIdxTType`. -/
def PDOComSettingsSubIdxTType : Nat := 2

/-- Constant `PDOComSettingsSubIdxInhTime`. -/
def PDOComSettingsSubIdxInhTime : Nat := 3

/-- Constant `PDOComSettingsSubIdxEvtTimer`. -/
def PDOComSettingsSubIdxEvtTimer : Nat := 5

/-- Constant `PDOInvalidFlag`. -/
def PDOInvalidFlag : Nat := 0x80000000

/-- The conversion of an `int8_t` to `uint16_t`. -/
def castU16 (x : Int) : Nat := (x % 65536).toNat

/-- The assignment `*Value = v` through a pointer to a variable of `n` bytes: the `n` bytes
behind `Value` are those of `v`, lowest first. -/
def storeLE (Value : Nat → Nat) (n v : Nat) : Nat → Nat :=
  fun i => if i < n then leBytes v i else Value i

/-- Class `COPDOHandler`.  `Node` is the node the member `Node` points to; the member
`Handler` points to the router of that node (`init` is given both), which is kept in
`Node.RWSDO.Handler`.  The member `RWSDO` (set by `RegisterSDOHandler`) is used by no
method and is left out.

Modelled from the spec: the member `PDOConfigTimeout`, which `SetPDOConfigTimeout` assigns
and `WriteObject` and `ConfigureRxTxPDO` compare with, is not declared in
`COPDOHandler.h`; it is the time in ms a configuration access may take. -/
structure COPDOHandler where
  Node : CONode
  RequestSentAt : Nat
  actTime : Nat
  isTimerActive : Bool
  TORetryCounter : Nat
  TORetryMax : Nat
  BusyRetryCounter : Nat
  BusyRetryMax : Nat
  nextTx : Nat
  PDOConfigSequenceAccessStep : Nat
  PDOConfigSingleStepAccessStep : Nat
  PDOsConfigured : Nat
  Channel : Nat
  nodeId : Int
  RxPDOSettings : Nat → PDOTransmType
  RxPDOMapping : Nat → PDOMapping
  RxPDOLength : Nat → Nat
  TxPDOSettings : Nat → PDOTransmType
  TxPDOMapping : Nat → PDOMapping
  TxPDOLength : Nat → Nat
  SDORxTxState : COSDOCommStates
  TxPDO : CANMsg
  RequestState : COPDOCommStates
  PDOConfigTimeout : Nat

/-- The router the PDO handler points to. -/
def COPDOHandler.Handler (p : COPDOHandler) : COMsgHandler := p.Node.Handler

/-- The PDO handler with the router it points to replaced by `h`. -/
def COPDOHandler.withHandler (p : COPDOHandler) (h : COMsgHandler) : COPDOHandler :=
  { p with Node := p.Node.withHandler h }

/-- The PDO handler with the SDO client of its node replaced by `s`. -/
def COPDOHandler.withRWSDO (p : COPDOHandler) (s : COSDOHandler) : COPDOHandler :=
  { p with Node := { p.Node with RWSDO := s } }

/-- The constructor `COPDOHandler()` with the default member initialisers of the class.  The
descriptors, mappings and lengths of the PDOs 0..3 are set by its loop; whatever the
constructor leaves indeterminate is zero here (`NULL`, `false`).  `MyNode` is the node the
handler is going to be attached to, `Timeout` the value of `PDOConfigTimeout`. -/
def COPDOHandler.new (MyNode : CONode) (Timeout : Nat) : COPDOHandler :=
  { Node := MyNode
    RequestSentAt := 0
    actTime := 0
    isTimerActive := false
    TORetryCounter := 0
    TORetryMax := 1
    BusyRetryCounter := 0
    BusyRetryMax := 1
    nextTx := 0
    PDOConfigSequenceAccessStep := 0
    PDOConfigSingleStepAccessStep := 0
    PDOsConfigured := 0
    Channel := InvalidSlot
    nodeId := invalidNodeId
    RxPDOSettings := fun _ =>
      { COBId := 0, isValid := false, pending := 0, sentAt := 0, TransmType := 0,
        hasInhibitTime := false, inhibitTime := 0, hasEventTimer := false, eventTimer := 0 }
    RxPDOMapping := fun _ => { NrEntries := 0, Entries := fun _ => 0 }
    RxPDOLength := fun _ => 0
    TxPDOSettings := fun _ =>
      { COBId := 0, isValid := false, pending := 0, sentAt := 0, TransmType := 0,
        hasInhibitTime := false, inhibitTime := 0, hasEventTimer := false, eventTimer := 0 }
    TxPDOMapping := fun _ => { NrEntries := 0, Entries := fun _ => 0 }
    TxPDOLength := fun _ => 0
    SDORxTxState := COSDOCommStates.eCO_SDOUnknown
    TxPDO := { Id := 0, len := 0, isRTR := false, serviceType := 0, payload := fun _ => 0 }
    RequestState := COPDOCommStates.eCO_PDOIdle
    PDOConfigTimeout := Timeout }

/-- Method `COPDOHandler::init(MsgHandler, MyNode, ThisNode, MsgHandle)`; `MsgHandle` is an
`int8_t` and is compared with `InvalidSlot` after integer promotion. -/
def COPDOHandler.init (p : COPDOHandler) (MsgHandler : COMsgHandler) (MyNode : CONode)
    (ThisNode : Int) (MsgHandle : Int) : COPDOHandler :=
  let p1 := ({ p with
    nodeId := ThisNode
    Node := MyNode
    PDOConfigSequenceAccessStep := 0
    PDOConfigSingleStepAccessStep := 0 } : COPDOHandler).withHandler MsgHandler
  if MsgHandle ≠ (InvalidSlot : Int) then
    { p1.withHandler (p1.Handler.Register_OnRxPDOCb (castU8 MsgHandle) true) with
      RequestState := COPDOCommStates.eCO_PDOIdle
      SDORxTxState := COSDOCommStates.eCO_SDOUnknown }
  else
    { p1 with RequestState := COPDOCommStates.eCO_PDOError }

/-- Method `COPDOHandler::ResetSDOState`. -/
def COPDOHandler.ResetSDOState (p : COPDOHandler) : COPDOHandler :=
  p.withRWSDO p.Node.RWSDO.ResetComState

/-- Method `COPDOHandler::ResetComState`. -/
def COPDOHandler.ResetComState (p : COPDOHandler) : COPDOHandler :=
  { p with
    RequestState := COPDOCommStates.eCO_PDOIdle
    TORetryCounter := 0
    BusyRetryCounter := 0
    PDOConfigSequenceAccessStep := 0
    PDOConfigSingleStepAccessStep := 0 }

/-- Method `COPDOHandler::SetPDOConfigTimeout`. -/
def COPDOHandler.SetPDOConfigTimeout (p : COPDOHandler) (value : Nat) : COPDOHandler :=
  { p with PDOConfigTimeout := value }

/-- Method `COPDOHandler::FlagPDOsInvalid`. -/
def COPDOHandler.FlagPDOsInvalid (p : COPDOHandler) : COPDOHandler :=
  { p with PDOsConfigured := 0 }

/-- The COB-ID `(uint16_t)base | nodeId` of a preset, `nodeId` being an `int8_t`. -/
def presetCOBId (base : Nat) (nodeId : Int) : Nat := (base ||| castU16 nodeId) % 65536

/-- Method `COPDOHandler::PresetRxPDOTransmission`. -/
def COPDOHandler.PresetRxPDOTransmission (p : COPDOHandler) (PDONr TransmType : Nat) :
    COPDOHandler :=
  let d := { p.RxPDOSettings PDONr with TransmType := TransmType }
  let d :=
    if PDONr = 0 then { d with COBId := presetCOBId eCANRPDO1 p.nodeId }
    else if PDONr = 1 then { d with COBId := presetCOBId eCANRPDO2 p.nodeId }
    else if PDONr = 2 then { d with COBId := presetCOBId eCANRPDO3 p.nodeId }
    else if PDONr = 3 then { d with COBId := presetCOBId eCANRPDO4 p.nodeId }
    else d
  { p with RxPDOSettings := Function.update p.RxPDOSettings PDONr d }

/-- Method `COPDOHandler::PresetTxPDOTransmission`. -/
def COPDOHandler.PresetTxPDOTransmission (p : COPDOHandler) (PDONr TransmType : Nat)
    (InhibitTime EvtTimer : Nat) : COPDOHandler :=
  let d := { p.TxPDOSettings PDONr with
    TransmType := TransmType
    inhibitTime := InhibitTime
    eventTimer := EvtTimer }
  let d := if InhibitTime > 0 then { d with hasInhibitTime := true } else d
  let d := if EvtTimer > 0 then { d with hasEventTimer := true } else d
  let d :=
    if PDONr = 0 then { d with COBId := presetCOBId eCANTPDO1 p.nodeId }
    else if PDONr = 1 then { d with COBId := presetCOBId eCANTPDO2 p.nodeId }
    else if PDONr = 2 then { d with COBId := presetCOBId eCANTPDO3 p.nodeId }
    else if PDONr = 3 then { d with COBId := presetCOBId eCANTPDO4 p.nodeId }
    else d
  { p with TxPDOSettings := Function.update p.TxPDOSettings PDONr d }

/-- The loop of `PresetRxPDOMapping` and `PresetTxPDOMapping` over `iter < NrEntries`:
the element `iter` of the mapping is `Entries[iter]`, and the `len` of the entry it points
to (in `od`, the memory of the application) is added to the 8-bit length of the PDO. -/
def presetLoop (od : Nat → ODEntry) (Entries : Nat → Nat) (NrEntries : Nat)
    (st : (Nat → Nat) × Nat) : (Nat → Nat) × Nat :=
  (List.range NrEntries).foldl
    (fun st iter =>
      (Function.update st.1 iter (Entries iter), (st.2 + (od (Entries iter)).len) % 256))
    st

/-- Method `COPDOHandler::PresetRxPDOMapping`. -/
def COPDOHandler.PresetRxPDOMapping (p : COPDOHandler) (od : Nat → ODEntry)
    (PDONr NrEntries : Nat) (Entries : Nat → Nat) : COPDOHandler :=
  let r := presetLoop od Entries NrEntries ((p.RxPDOMapping PDONr).Entries, p.RxPDOLength PDONr)
  { p with
    RxPDOMapping := Function.update p.RxPDOMapping PDONr
      { NrEntries := NrEntries, Entries := r.1 }
    RxPDOLength := Function.update p.RxPDOLength PDONr r.2 }

/-- Method `COPDOHandler::PresetTxPDOMapping`. -/
def COPDOHandler.PresetTxPDOMapping (p : COPDOHandler) (od : Nat → ODEntry)
    (PDONr NrEntries : Nat) (Entries : Nat → Nat) : COPDOHandler :=
  let r := presetLoop od Entries NrEntries ((p.TxPDOMapping PDONr).Entries, p.TxPDOLength PDONr)
  { p with
    TxPDOMapping := Function.update p.TxPDOMapping PDONr
      { NrEntries := NrEntries, Entries := r.1 }
    TxPDOLength := Function.update p.TxPDOLength PDONr r.2 }

/-- Method `COPDOHandler::PresetRxPDOisValid`. -/
def COPDOHandler.PresetRxPDOisValid (p : COPDOHandler) (PdoNr : Nat) (isValid : Bool) :
    COPDOHandler :=
  { p with RxPDOSettings :=
      Function.update p.RxPDOSettings PdoNr { p.RxPDOSettings PdoNr with isValid := isValid } }

/-- Method `COPDOHandler::PresetTxPDOisValid`. -/
def COPDOHandler.PresetTxPDOisValid (p : COPDOHandler) (PdoNr : Nat) (isValid : Bool) :
    COPDOHandler :=
  { p with TxPDOSettings :=
      Function.update p.TxPDOSettings PdoNr { p.TxPDOSettings PdoNr with isValid := isValid } }

/-- The statements of `WriteObject` from `case eCO_SDOWaiting:` on:
`SDORxTxState = Node->RWSDO.WriteSDO((ODEntry *)&Object)`. -/
def COPDOHandler.writeCase (p : COPDOHandler) (Object : ODEntry) : COPDOHandler :=
  let w := p.Node.RWSDO.WriteSDOEntry Object
  { p.withRWSDO w.1 with SDORxTxState := w.2 }

/-- Method `COPDOHandler::WriteObject(Idx, SubIdx, ObjValue, ObjLen)`; `ObjValue` is the
value of the variable the third argument points to.  The second component is the value
returned. -/
def COPDOHandler.WriteObject (p : COPDOHandler) (Idx SubIdx ObjValue ObjLen : Nat) :
    COPDOHandler × COPDOCommStates :=
  let Object : ODEntry :=
    { Idx := Idx, SubIdx := SubIdx, Value := leBytes ObjValue, len := ObjLen }
  let r : COPDOHandler × COPDOCommStates :=
    match p.SDORxTxState with
    | COSDOCommStates.eCO_SDOUnknown =>
      let p1 := { p.withRWSDO p.Node.RWSDO.ResetComState with
        SDORxTxState := COSDOCommStates.eCO_SDOIdle }
      let p2 := { p1 with RequestSentAt := p1.actTime }
      (p2.writeCase Object, COPDOCommStates.eCO_PDOBusy)
    | COSDOCommStates.eCO_SDOIdle =>
      let p2 := { p with RequestSentAt := p.actTime }
      (p2.writeCase Object, COPDOCommStates.eCO_PDOBusy)
    | COSDOCommStates.eCO_SDORetry =>
      let p2 := { p with RequestSentAt := p.actTime }
      (p2.writeCase Object, COPDOCommStates.eCO_PDOBusy)
    | COSDOCommStates.eCO_SDOWaiting => (p.writeCase Object, COPDOCommStates.eCO_PDOBusy)
    | COSDOCommStates.eCO_SDOBusy => (p.writeCase Object, COPDOCommStates.eCO_PDOBusy)
    | COSDOCommStates.eCO_SDODone =>
      ({ p with SDORxTxState := COSDOCommStates.eCO_SDOIdle }, COPDOCommStates.eCO_PDODone)
    | _ => (p, COPDOCommStates.eCO_PDOError)
  if sub32 r.1.actTime r.1.RequestSentAt > r.1.PDOConfigTimeout then
    (r.1, COPDOCommStates.eCO_PDOError)
  else
    r

/-- Method `COPDOHandler::SetRxPDOInvalid`. -/
def COPDOHandler.SetRxPDOInvalid (p : COPDOHandler) (PdoNr : Nat) :
    COPDOHandler × COPDOCommStates :=
  let ObjValue := (p.RxPDOSettings PdoNr).COBId ||| PDOInvalidFlag
  let ObjLen := 4
  p.WriteObject (RxPDOTransmTypeBaseIndex + PdoNr) PDOComSettingsSubIdxCobId ObjValue ObjLen

/-- Method `COPDOHandler::SetTxPDOInvalid`. -/
def COPDOHandler.SetTxPDOInvalid (p : COPDOHandler) (PdoNr : Nat) :
    COPDOHandler × COPDOCommStates :=
  let ObjValue := (p.TxPDOSettings PdoNr).COBId ||| PDOInvalidFlag
  let ObjLen := 4
  p.WriteObject (TxPDOTransmTypeBaseIndex + PdoNr) PDOComSettingsSubIdxCobId ObjValue ObjLen

/-- Method `COPDOHandler::SetRxPDOValid`. -/
def COPDOHandler.SetRxPDOValid (p : COPDOHandler) (PdoNr : Nat) :
    COPDOHandler × COPDOCommStates :=
  let ObjValue := (p.RxPDOSettings PdoNr).COBId
  let ObjLen := 4
  let ObjValue :=
    if (p.RxPDOMapping PdoNr).NrEntries = 0 ∨ ¬ (p.RxPDOSettings PdoNr).isValid = true then
      ObjValue ||| PDOInvalidFlag
    else ObjValue
  p.WriteObject (RxPDOTransmTypeBaseIndex + PdoNr) PDOComSettingsSubIdxCobId ObjValue ObjLen

/-- Method `COPDOHandler::SetTxPDOValid`. -/
def COPDOHandler.SetTxPDOValid (p : COPDOHandler) (PdoNr : Nat) :
    COPDOHandler × COPDOCommStates :=
  let ObjValue := (p.TxPDOSettings PdoNr).COBId
  let ObjLen := 4
  let ObjValue :=
    if (p.TxPDOMapping PdoNr).NrEntries = 0 ∨ ¬ (p.TxPDOSettings PdoNr).isValid = true then
      ObjValue ||| PDOInvalidFlag
    else ObjValue
  p.WriteObject (TxPDOTransmTypeBaseIndex + PdoNr) PDOComSettingsSubIdxCobId ObjValue ObjLen

/-- The value `(Idx << 16) | (SubIdx << 8) | (len * 8)` of a mapping parameter, as a
`uint32_t`. -/
def mappingValue (e : ODEntry) : Nat :=
  (e.Idx * 65536 ||| e.SubIdx * 256 ||| e.len * 8 % 2 ^ 32) % 2 ^ 32

/-- The end of `WriteRxPDOMapping` and `WriteTxPDOMapping`, from `if(doTransmit)` on;
`resetSDO` says whether `case eCO_PDODone:` calls `Node->RWSDO.ResetComState()` (the Rx
function does, the Tx function does not). -/
def COPDOHandler.mappingTransmit (p : COPDOHandler) (resetSDO doTransmit : Bool)
    (ObjIdx ObjSubIdx ObjValue ObjLen : Nat) (returnValue : COPDOCommStates) :
    COPDOHandler × COPDOCommStates :=
  if doTransmit then
    let r := p.WriteObject ObjIdx ObjSubIdx ObjValue ObjLen
    match r.2 with
    | COPDOCommStates.eCO_PDODone =>
      let p1 := { r.1 with
        PDOConfigSingleStepAccessStep := (r.1.PDOConfigSingleStepAccessStep + 1) % 256 }
      (if resetSDO then p1.withRWSDO p1.Node.RWSDO.ResetComState else p1, returnValue)
    | COPDOCommStates.eCO_PDOError => (r.1, COPDOCommStates.eCO_PDOError)
    | _ => (r.1, returnValue)
  else
    ({ p with PDOConfigSingleStepAccessStep := (p.PDOConfigSingleStepAccessStep + 1) % 256 },
      returnValue)

/-- Method `COPDOHandler::WriteRxPDOMapping`; `od` is the memory of the application with the
entries the mapping points to.  In a step the `switch` does not name (8..255) the locals
`ObjIdx`, `ObjSubIdx`, `ObjValue` and `ObjLen` are passed on indeterminate, here as 0. -/
def COPDOHandler.WriteRxPDOMapping (p : COPDOHandler) (od : Nat → ODEntry) (PdoNr : Nat) :
    COPDOHandler × COPDOCommStates :=
  let step := p.PDOConfigSingleStepAccessStep
  let Busy := COPDOCommStates.eCO_PDOBusy
  if step = 0 then
    p.mappingTransmit true true (RxPDOMappingTypeBaseIndex + PdoNr) 0 0 1 Busy
  else if step ≤ 4 then
    let entry := step - 1
    let e := (p.RxPDOMapping PdoNr).Entries entry
    if e ≠ 0 then
      p.mappingTransmit true true (RxPDOMappingTypeBaseIndex + PdoNr) step
        (mappingValue (od e)) 4 Busy
    else
      p.mappingTransmit true false (RxPDOMappingTypeBaseIndex + PdoNr) step 0 0 Busy
  else if step = 5 then
    p.mappingTransmit true true (RxPDOMappingTypeBaseIndex + PdoNr) 0
      (p.RxPDOMapping PdoNr).NrEntries 1 Busy
  else if step = 6 then
    p.mappingTransmit true true (RxPDOTransmTypeBaseIndex + PdoNr) PDOComSettingsSubIdxTType
      (p.RxPDOSettings PdoNr).TransmType 1 Busy
  else if step = 7 then
    ({ p with PDOConfigSingleStepAccessStep := 0 } : COPDOHandler).mappingTransmit true false
      0 0 0 0 COPDOCommStates.eCO_PDODone
  else
    p.mappingTransmit true true 0 0 0 0 Busy

/-- Method `COPDOHandler::WriteTxPDOMapping`; see `WriteRxPDOMapping`. -/
def COPDOHandler.WriteTxPDOMapping (p : COPDOHandler) (od : Nat → ODEntry) (PdoNr : Nat) :
    COPDOHandler × COPDOCommStates :=
  let step := p.PDOConfigSingleStepAccessStep
  let Busy := COPDOCommStates.eCO_PDOBusy
  if step = 0 then
    p.mappingTransmit false true (TxPDOMappingTypeBaseIndex + PdoNr) 0 0 1 Busy
  else if step ≤ 4 then
    let entry := step - 1
    let e := (p.TxPDOMapping PdoNr).Entries entry
    if e ≠ 0 then
      p.mappingTransmit false true (TxPDOMappingTypeBaseIndex + PdoNr) step
        (mappingValue (od e)) 4 Busy
    else
      p.mappingTransmit false false (TxPDOMappingTypeBaseIndex + PdoNr) step 0 0 Busy
  else if step = 5 then
    p.mappingTransmit false true (TxPDOMappingTypeBaseIndex + PdoNr) 0
      (p.TxPDOMapping PdoNr).NrEntries 1 Busy
  else if step = 6 then
    p.mappingTransmit false true (TxPDOTransmTypeBaseIndex + PdoNr) PDOComSettingsSubIdxTType
      (p.TxPDOSettings PdoNr).TransmType 1 Busy
  else if step = 7 then
    p.mappingTransmit false (p.TxPDOSettings PdoNr).hasInhibitTime
      (TxPDOTransmTypeBaseIndex + PdoNr) PDOComSettingsSubIdxInhTime
      (p.TxPDOSettings PdoNr).inhibitTime 2 Busy
  else if step = 8 then
    p.mappingTransmit false (p.TxPDOSettings PdoNr).hasEventTimer
      (TxPDOTransmTypeBaseIndex + PdoNr) PDOComSettingsSubIdxEvtTimer
      (p.TxPDOSettings PdoNr).eventTimer 2 Busy
  else if step = 9 then
    ({ p with PDOConfigSingleStepAccessStep := 0 } : COPDOHandler).mappingTransmit false false
      0 0 0 0 COPDOCommStates.eCO_PDODone
  else
    p.mappingTransmit false true 0 0 0 0 Busy

/-- Method `COPDOHandler::ConfigureRxTxPDO(PdoNr, Dir, time)`.  The local `StepState` is
not initialised and is assigned in the steps 0..2 only; `stale` is the value it holds when
it is tested without having been assigned (step 3 and beyond).  The second component is the
value returned. -/
def COPDOHandler.ConfigureRxTxPDO (p : COPDOHandler) (od : Nat → ODEntry)
    (stale : COPDOCommStates) (PdoNr : Nat) (Dir : PDODir) (time : Nat) :
    COPDOHandler × COPDOCommStates :=
  let p0 := { p with actTime := time }
  let r : COPDOHandler × COPDOCommStates × COPDOCommStates :=
    if p0.PDOConfigSequenceAccessStep = 0 then
      let s := if Dir = PDODir.eCO_PDORx then p0.SetRxPDOInvalid PdoNr
        else p0.SetTxPDOInvalid PdoNr
      (s.1, s.2, COPDOCommStates.eCO_PDOBusy)
    else if p0.PDOConfigSequenceAccessStep = 1 then
      let s := if Dir = PDODir.eCO_PDORx then p0.WriteRxPDOMapping od PdoNr
        else p0.WriteTxPDOMapping od PdoNr
      (s.1, s.2, COPDOCommStates.eCO_PDOBusy)
    else if p0.PDOConfigSequenceAccessStep = 2 then
      let s := if Dir = PDODir.eCO_PDORx then p0.SetRxPDOValid PdoNr
        else p0.SetTxPDOValid PdoNr
      (s.1, s.2, COPDOCommStates.eCO_PDOBusy)
    else if p0.PDOConfigSequenceAccessStep = 3 then
      ({ p0 with PDOConfigSequenceAccessStep := 0 }, stale, COPDOCommStates.eCO_PDODone)
    else
      (p0, stale, COPDOCommStates.eCO_PDOBusy)
  let StepState := r.2.1
  let r2 : COPDOHandler × COPDOCommStates :=
    if StepState = COPDOCommStates.eCO_PDODone then
      ({ r.1 with
        PDOConfigSequenceAccessStep := (r.1.PDOConfigSequenceAccessStep + 1) % 256
        PDOConfigSingleStepAccessStep := 0 }, r.2.2)
    else if StepState = COPDOCommStates.eCO_PDOError then
      (r.1, COPDOCommStates.eCO_PDOError)
    else
      (r.1, r.2.2)
  if sub32 r2.1.actTime r2.1.RequestSentAt > r2.1.PDOConfigTimeout then
    (r2.1, COPDOCommStates.eCO_PDOError)
  else
    r2

/-- Method `COPDOHandler::ConfigurePresetPDOs(timestamp)`; `stale` as in
`ConfigureRxTxPDO`.  The second component is the value returned. -/
def COPDOHandler.ConfigurePresetPDOs (p : COPDOHandler) (od : Nat → ODEntry)
    (stale : COPDOCommStates) (timestamp : Nat) : COPDOHandler × COPDOCommStates :=
  let returnValue := COPDOCommStates.eCO_PDOBusy
  if p.PDOsConfigured < NrPDOs then
    let r := p.ConfigureRxTxPDO od stale p.PDOsConfigured PDODir.eCO_PDORx timestamp
    if r.2 = COPDOCommStates.eCO_PDODone then
      ({ r.1 with PDOsConfigured := (r.1.PDOsConfigured + 1) % 256 }, returnValue)
    else
      (r.1, returnValue)
  else if p.PDOsConfigured = 2 * NrPDOs then
    (p, COPDOCommStates.eCO_PDODone)
  else
    let r := p.ConfigureRxTxPDO od stale ((p.PDOsConfigured + 256 - NrPDOs) % 256)
      PDODir.eCO_PDOTx timestamp
    if r.2 = COPDOCommStates.eCO_PDODone then
      ({ r.1 with PDOsConfigured := (r.1.PDOsConfigured + 1) % 256 }, returnValue)
    else
      (r.1, returnValue)

/-- Method `COPDOHandler::SendRequest`; the second component is the value returned. -/
def COPDOHandler.SendRequest (p : COPDOHandler) (Msg : CANMsg) : COPDOHandler × Bool :=
  let r := p.Handler.SendMsg Msg
  let p1 := p.withHandler r.2
  if r.1 then
    ({ p1 with RequestState := COPDOCommStates.eCO_PDOIdle, BusyRetryCounter := 0 }, true)
  else
    let c := (p1.BusyRetryCounter + 1) % 256
    if c > p1.BusyRetryMax then
      ({ p1 with BusyRetryCounter := c, RequestState := COPDOCommStates.eCO_PDOError }, false)
    else
      ({ p1 with BusyRetryCounter := c, RequestState := COPDOCommStates.eCO_PDORetry }, false)

/-- The body of the loop of `TransmitPdo` for the mapped entry at address `e`: the bytes of
its value are appended to the payload, lowest first; `st` is the payload and `writeIdx`
(a `uint8_t`).  A width other than 1, 2 or 4 appends nothing. -/
def txEntry (od : Nat → ODEntry) (e : Nat) (st : (Nat → Nat) × Nat) : (Nat → Nat) × Nat :=
  let Value := (od e).Value
  if (od e).len = 1 then
    let tempValue := Value 0
    (Function.update st.1 st.2 (tempValue % 256), (st.2 + 1) % 256)
  else if (od e).len = 2 then
    let tempValue := Value 0 + 256 * Value 1
    let pl := Function.update st.1 st.2 (tempValue % 256)
    let w := (st.2 + 1) % 256
    let tempValue := tempValue / 256
    let pl := Function.update pl w (tempValue % 256)
    (pl, (w + 1) % 256)
  else if (od e).len = 4 then
    let tempValue := Value 0 + 256 * Value 1 + 65536 * Value 2 + 16777216 * Value 3
    let pl := Function.update st.1 st.2 (tempValue % 256)
    let w := (st.2 + 1) % 256
    let tempValue := tempValue / 256
    let pl := Function.update pl w (tempValue % 256)
    let w := (w + 1) % 256
    let tempValue := tempValue / 256
    let pl := Function.update pl w (tempValue % 256)
    let w := (w + 1) % 256
    let tempValue := tempValue / 256
    let pl := Function.update pl w (tempValue % 256)
    (pl, (w + 1) % 256)
  else
    st

/-- The loop of `TransmitPdo`: `n` more entries from index `iter` on. -/
def txLoop (od : Nat → ODEntry) (Entries : Nat → Nat) :
    Nat → Nat → (Nat → Nat) × Nat → (Nat → Nat) × Nat
  | 0, _, st => st
  | n + 1, iter, st => txLoop od Entries n (iter + 1) (txEntry od (Entries iter) st)

/-- Method `COPDOHandler::TransmitPdo(PdoNr)`; `od` is the memory of the application with
the entries the mapping points to.  The second component is the value returned. -/
def COPDOHandler.TransmitPdo (p : COPDOHandler) (od : Nat → ODEntry) (PdoNr : Nat) :
    COPDOHandler × Bool :=
  let p1 :=
    if p.RequestState = COPDOCommStates.eCO_PDOIdle then
      let r :=
        if (p.RxPDOSettings PdoNr).isValid = true ∧ (p.RxPDOMapping PdoNr).NrEntries > 0 then
          txLoop od (p.RxPDOMapping PdoNr).Entries (p.RxPDOMapping PdoNr).NrEntries 0
            (p.TxPDO.payload, 0)
        else
          (p.TxPDO.payload, 0)
      { p with TxPDO := { p.TxPDO with
          payload := r.1
          len := r.2
          Id := (p.RxPDOSettings PdoNr).COBId } }
    else p
  p1.SendRequest p1.TxPDO

/-- The body of the loop of `COPDOHandler::OnRxHandler` for the mapped entry at address
`e`: as many bytes of the payload as the entry is wide are put together, lowest first, and
assigned to the variable the entry points to; `st` is the memory of the application and
`readIdx` (a `uint8_t`).  A width other than 1, 2 or 4 reads nothing. -/
def rxEntry (payload : Nat → Nat) (e : Nat) (st : (Nat → ODEntry) × Nat) :
    (Nat → ODEntry) × Nat :=
  let od := st.1
  if (od e).len = 1 then
    let tempValue := payload st.2 % 256
    (Function.update od e { od e with Value := storeLE (od e).Value 1 tempValue },
      (st.2 + 1) % 256)
  else if (od e).len = 2 then
    let tempValue := payload st.2 % 65536
    let r := (st.2 + 1) % 256
    let tempValue := tempValue ||| payload r * 256 % 65536
    (Function.update od e { od e with Value := storeLE (od e).Value 2 tempValue },
      (r + 1) % 256)
  else if (od e).len = 4 then
    let tempValue := payload st.2 % 2 ^ 32
    let r := (st.2 + 1) % 256
    let tempValue := tempValue ||| payload r * 256 % 2 ^ 32
    let r := (r + 1) % 256
    let tempValue := tempValue ||| payload r * 256 * 256 % 2 ^ 32
    let r := (r + 1) % 256
    let tempValue := tempValue ||| payload r * 256 * 256 * 256 % 2 ^ 32
    (Function.update od e { od e with Value := storeLE (od e).Value 4 tempValue },
      (r + 1) % 256)
  else
    st

/-- The loop of `COPDOHandler::OnRxHandler`: `n` more entries from index `iter` on. -/
def rxLoop (payload : Nat → Nat) (Entries : Nat → Nat) :
    Nat → Nat → (Nat → ODEntry) × Nat → (Nat → ODEntry) × Nat
  | 0, _, st => st
  | n + 1, iter, st => rxLoop payload Entries n (iter + 1) (rxEntry payload (Entries iter) st)

/-- Method `COPDOHandler::OnRxHandler(RxMsg)`.  The handler itself does not change; the
value is the memory of the application after the call, `od` the memory before. -/
def COPDOHandler.OnRxHandler (p : COPDOHandler) (od : Nat → ODEntry) (RxMsg : CANMsg) :
    Nat → ODEntry :=
  let PdoNr := (RxMsg.Id / 256 + 65535) % 65536
  if (p.TxPDOSettings PdoNr).isValid = true ∧ (p.TxPDOMapping PdoNr).NrEntries > 0 then
    (rxLoop RxMsg.payload (p.TxPDOMapping PdoNr).Entries (p.TxPDOMapping PdoNr).NrEntries 0
      (od, 0)).1
  else
    od

/-- The body of the inner loop of `TxPDOsAsync` for the entry `iterEntry` of the RPDO
`iterPDO`; `st` is the handler and the local `returnValue`.

`TPDOTTypeAsync` is a constant that is declared nowhere in the sources; it is a parameter
here. -/
def COPDOHandler.asyncEntry (TPDOTTypeAsync entry iterPDO : Nat) (st : COPDOHandler × Bool)
    (iterEntry : Nat) : COPDOHandler × Bool :=
  let p := st.1
  if (p.RxPDOMapping iterPDO).Entries iterEntry = entry then
    let p1 :=
      if (p.RxPDOSettings iterPDO).TransmType = TPDOTTypeAsync then
        { p with
          RxPDOSettings := Function.update p.RxPDOSettings iterPDO
            { p.RxPDOSettings iterPDO with
              pending := ((p.RxPDOSettings iterPDO).pending + 1) % 256 } }
      else p
    (p1, true)
  else
    st

/-- The body of the outer loop of `TxPDOsAsync` for the RPDO `iterPDO`: the inner loop
over `iterEntry < RxPDOMapping[iterPDO].NrEntries`. -/
def COPDOHandler.asyncPDO (TPDOTTypeAsync entry : Nat) (st : COPDOHandler × Bool)
    (iterPDO : Nat) : COPDOHandler × Bool :=
  (List.range (st.1.RxPDOMapping iterPDO).NrEntries).foldl
    (COPDOHandler.asyncEntry TPDOTTypeAsync entry iterPDO) st

/-- Method `COPDOHandler::TxPDOsAsync(entry)`; `entry` is the address of the entry.  The
second component is the value returned. -/
def COPDOHandler.TxPDOsAsync (p : COPDOHandler) (TPDOTTypeAsync entry : Nat) :
    COPDOHandler × Bool :=
  (List.range NrPDOs).foldl (COPDOHandler.asyncPDO TPDOTTypeAsync entry) (p, false)

/-! ## Scenarios of the PDO handler -/

/-- A PDO handler constructed with the time-out `Timeout` and attached with `init` to the
attached node `node` and to its router. -/
def pdoAttached (node Timeout : Nat) : COPDOHandler :=
  (COPDOHandler.new (nodeAttached node) Timeout).init (nodeAttached node).Handler
    (nodeAttached node) node 0

/-- A memory of the application with five entries of a drive: at address 1 the controlword
0x6040.00 (2 bytes, value 0x000F), at 2 the target position 0x607A.00 (4 bytes, value
0x00012345), at 3 the statusword 0x6041.00 (2 bytes), at 4 the position actual value
0x6064.00 (4 bytes), at 5 the modes of operation 0x6060.00 (1 byte, value 1). -/
def driveOD : Nat → ODEntry
  | 1 => { Idx := 0x6040, SubIdx := 0, Value := memOf [0x0F, 0x00], len := 2 }
  | 2 => { Idx := 0x607A, SubIdx := 0, Value := memOf [0x45, 0x23, 0x01, 0x00], len := 4 }
  | 3 => { Idx := 0x6041, SubIdx := 0, Value := memOf [0, 0], len := 2 }
  | 4 => { Idx := 0x6064, SubIdx := 0, Value := memOf [0, 0, 0, 0], len := 4 }
  | 5 => { Idx := 0x6060, SubIdx := 0, Value := memOf [1], len := 1 }
  | _ => { Idx := 0, SubIdx := 0, Value := fun _ => 0, len := 0 }

/-- The handler of node `node` with the presets of a drive: RPDO1 (controlword, target
position) and TPDO1 (statusword, position actual value), both of transmission type 255 and
valid; RPDO2 of type 255 with the modes of operation mapped but not flagged valid. -/
def pdoPreset (node Timeout : Nat) : COPDOHandler :=
  ((((((((pdoAttached node Timeout).PresetRxPDOTransmission 0 255).PresetTxPDOTransmission
    0 255 0 0).PresetRxPDOMapping driveOD 0 2 (memOf [1, 2])).PresetTxPDOMapping driveOD 0 2
    (memOf [3, 4])).PresetRxPDOisValid 0 true).PresetTxPDOisValid 0 true).PresetRxPDOTransmission
    1 255).PresetRxPDOMapping driveOD 1 1 (memOf [5])

/-- The PDO handler after the transmission of the last frame has completed and the response
`Msg` of the SDO server has been passed to the SDO client of the node. -/
def COPDOHandler.onSdoResponse (p : COPDOHandler) (Msg : CANMsg) : COPDOHandler :=
  p.withRWSDO (p.Node.RWSDO.onResponse Msg)

/-- The handler after `k` calls of `ConfigurePresetPDOs`, call `i` at the time `time i`. -/
def COPDOHandler.configCalls (p : COPDOHandler) (od : Nat → ODEntry) (stale : COPDOCommStates)
    (time : Nat → Nat) : Nat → COPDOHandler
  | 0 => p
  | k + 1 => ((p.configCalls od stale time k).ConfigurePresetPDOs od stale (time k)).1

/-- The abort of the write to 0x1400.01: abort code 0x06010002 (attempt to write a read-only
object). -/
def abortCobIdWrite : CANMsg := respMsg 3 [0x80, 0x00, 0x14, 0x01, 0x02, 0x00, 0x01, 0x06]

/-- The handler of node 3 with the presets of a drive after `ConfigurePresetPDOs` at time 10
(the write of the COB-ID of RPDO1 is posted), the abort of that write by the server, and
`ConfigurePresetPDOs` at time 11. -/
def abortedConfig : COPDOHandler :=
  ((((pdoPreset 3 1000).ConfigurePresetPDOs driveOD COPDOCommStates.eCO_PDOBusy
    10).1.onSdoResponse abortCobIdWrite).ConfigurePresetPDOs driveOD COPDOCommStates.eCO_PDOBusy
    11).1

/-- The place of the mapped entry `i` in the payload of a PDO: the sum of the widths of the
entries before it.  For `i = NrEntries` it is the sum of all widths. -/
def pdoOffset (od : Nat → ODEntry) (Entries : Nat → Nat) : Nat → Nat
  | 0 => 0
  | i + 1 => pdoOffset od Entries i + (od (Entries i)).len

/-- A memory of the application with four entries of two bytes each at the addresses 1..4:
0x2001.00 = 0x1234, 0x2002.00 = 0xABCD, 0x2003.00 = 0x0001, 0x2004.00 = 0xFFFF. -/
def fourWords : Nat → ODEntry
  | 1 => { Idx := 0x2001, SubIdx := 0, Value := memOf [0x34, 0x12], len := 2 }
  | 2 => { Idx := 0x2002, SubIdx := 0, Value := memOf [0xCD, 0xAB], len := 2 }
  | 3 => { Idx := 0x2003, SubIdx := 0, Value := memOf [0x01, 0x00], len := 2 }
  | 4 => { Idx := 0x2004, SubIdx := 0, Value := memOf [0xFF, 0xFF], len := 2 }
  | _ => { Idx := 0, SubIdx := 0, Value := fun _ => 0, len := 0 }

/-- The same four entries with other values (0x5555 each). -/
def fourWordsOther : Nat → ODEntry :=
  fun a => { fourWords a with Value := if 1 ≤ a ∧ a ≤ 4 then memOf [0x55, 0x55] else fun _ => 0 }

/-- The handler of node 3 with RPDO1 and TPDO1 both mapped to the four entries at the
addresses 1..4, of transmission type 255 and valid. -/
def pdoFourWords : COPDOHandler :=
  ((((((pdoAttached 3 1000).PresetRxPDOTransmission 0 255).PresetTxPDOTransmission
    0 255 0 0).PresetRxPDOMapping fourWords 0 4 (memOf [1, 2, 3, 4])).PresetTxPDOMapping
    fourWords 0 4 (memOf [1, 2, 3, 4])).PresetRxPDOisValid 0 true).PresetTxPDOisValid 0 true

/-- A received TPDO1 of node 3 with the length and the payload of `TxPDO` of `p`. -/
def tpdoOf (p : COPDOHandler) : CANMsg :=
  { Id := 0x183, len := p.TxPDO.len, isRTR := false, serviceType := eCANTPDO1,
    payload := p.TxPDO.payload }

/-- The number of matches of `entry` in a mapping: how many of its first `NrEntries`
elements are the address `entry`. -/
def PDOMapping.matchCount (m : PDOMapping) (entry : Nat) : Nat :=
  (List.range m.NrEntries).countP fun j => decide (m.Entries j = entry)

/-- The handler with the counters `pending` of its RPDOs replaced by `f`. -/
def COPDOHandler.withPending (p : COPDOHandler) (f : Nat → Nat) : COPDOHandler :=
  { p with RxPDOSettings := fun i => { p.RxPDOSettings i with pending := f i } }

/-- The handler of node 3 with three RPDOs preset on the entries of a drive: RPDO1 of
transmission type 255 with the controlword and the target position, RPDO2 of type 254 with
the controlword, RPDO3 of type 1 with the target position; RPDO4 has no mapping. -/
def pdoAsyncMix : COPDOHandler :=
  ((((((pdoAttached 3 1000).PresetRxPDOTransmission 0 255).PresetRxPDOMapping driveOD 0 2
    (memOf [1, 2])).PresetRxPDOTransmission 1 254).PresetRxPDOMapping driveOD 1 1
    (memOf [1])).PresetRxPDOTransmission 2 1).PresetRxPDOMapping driveOD 2 1 (memOf [2])

/-- The counters `pending` of the four RPDOs. -/
def COPDOHandler.pendings (p : COPDOHandler) : List Nat :=
  (List.range NrPDOs).map fun i => (p.RxPDOSettings i).pending

/-! ## The sync handler (`COSyncHandler`) -/

/-- Value `eSyncStateOffline` of enumeration `SyncMasterState`. -/
def eSyncStateOffline : Int := -1

/-- Value `eSyncStatePreOp` of enumeration `SyncMasterState`. -/
def eSyncStatePreOp : Int := 127

/-- Value `eSyncStateOperational` of enumeration `SyncMasterState`. -/
def eSyncStateOperational : Int := 5

/-- Value `eSyncStateStopped` of enumeration `SyncMasterState`. -/
def eSyncStateStopped : Int := 4

/-- Enumeration `COSyncCommStates`. -/
inductive COSyncCommStates where
  | eCO_SyncIdle
  | eCO_SyncBusy
  | eCO_SyncRetry
  | eCO_SyncError
  deriving DecidableEq, Repr

/-- Enumeration `COSyncState`. -/
inductive COSyncState where
  | eSyncIdle
  | eSyncSyncSent
  deriving DecidableEq, Repr

/-- Class `COSyncHandler`.  `Handler` is the router the handler points to.  `NmtCommand` is
an `NMTMsg` kept as a `CANMsg` (payload 0 is `command`, payload 1 is `nodeId`), as in
`CONode`. -/
structure COSyncHandler where
  ProducerHBTime : Nat
  SyncInterval : Nat
  HBProducerId : Nat
  HBMessage : CANMsg
  SyncMessage : CANMsg
  NmtCommand : CANMsg
  Handler : COMsgHandler
  SyncTxState : COSyncCommStates
  lastSync : Nat
  lastHB : Nat
  SyncState : Int
  BusyRetryCounter : Nat
  BusyRetryMax : Nat

/-- The constructor `COSyncHandler(thisId)` with the default member initialisers of the
class (the two assignments to `lastSync`, `lastHB` and `SyncState` in its body declare
locals); the three messages, which C leaves indeterminate, are zero here.  `MsgHandler` is
the router the handler is going to be attached to. -/
def COSyncHandler.new (MsgHandler : COMsgHandler) (thisId : Nat) : COSyncHandler :=
  { ProducerHBTime := 0
    SyncInterval := 100
    HBProducerId := thisId
    HBMessage := { Id := 0, len := 0, isRTR := false, serviceType := 0, payload := fun _ => 0 }
    SyncMessage := { Id := 0, len := 0, isRTR := false, serviceType := 0, payload := fun _ => 0 }
    NmtCommand := { Id := 0, len := 0, isRTR := false, serviceType := 0, payload := fun _ => 0 }
    Handler := MsgHandler
    SyncTxState := COSyncCommStates.eCO_SyncIdle
    lastSync := 0
    lastHB := 0
    SyncState := eSyncStateOffline
    BusyRetryCounter := 0
    BusyRetryMax := 1 }

/-- Method `COSyncHandler::init(ThisHandler)`. -/
def COSyncHandler.init (y : COSyncHandler) (ThisHandler : COMsgHandler) : COSyncHandler :=
  { y with
    Handler := ThisHandler
    HBMessage :=
      { Id := eCANGuarding ||| y.HBProducerId
        len := 1
        isRTR := false
        serviceType := eCANGuarding
        payload := Function.update y.HBMessage.payload 0 0 }
    SyncMessage := { y.SyncMessage with
      Id := eCANSyncEmcy
      len := 0
      isRTR := false
      serviceType := eCANSyncEmcy }
    NmtCommand :=
      { Id := eCANNMT
        len := NMTCommandFrameLength
        isRTR := false
        serviceType := eCANNMT
        payload := Function.update y.NmtCommand.payload 1 0 } }

/-- Method `COSyncHandler::SetState`. -/
def COSyncHandler.SetState (y : COSyncHandler) (newState : Int) : COSyncHandler :=
  { y with SyncState := newState }

/-- Method `COSyncHandler::SendRequest`; the second component is the value returned. -/
def COSyncHandler.SendRequest (y : COSyncHandler) (Msg : CANMsg) : COSyncHandler × Bool :=
  let r := y.Handler.SendMsg Msg
  let y1 := { y with Handler := r.2 }
  if r.1 then
    ({ y1 with SyncTxState := COSyncCommStates.eCO_SyncIdle, BusyRetryCounter := 0 }, true)
  else
    let c := (y1.BusyRetryCounter + 1) % 256
    if c > y1.BusyRetryMax then
      ({ y1 with BusyRetryCounter := c, SyncTxState := COSyncCommStates.eCO_SyncError }, false)
    else
      ({ y1 with BusyRetryCounter := c, SyncTxState := COSyncCommStates.eCO_SyncRetry }, false)

/-- The statements `if(ProducerHBTime > 0) ...` of `COSyncHandler::Update`, the same in both
branches: when the producer time has passed since `lastHB`, the state of the master is
written to the heartbeat message and the message is sent. -/
def COSyncHandler.hbStep (y : COSyncHandler) (actTime : Nat) : COSyncHandler :=
  if y.ProducerHBTime > 0 then
    if sub32 actTime y.lastHB ≥ y.ProducerHBTime then
      let y1 := { y with HBMessage := { y.HBMessage with
        payload := Function.update y.HBMessage.payload 0 (castU8 y.SyncState) } }
      let r := y1.SendRequest y1.HBMessage
      if r.2 then { r.1 with lastHB := actTime } else r.1
    else y
  else y

/-- Method `COSyncHandler::Update(actTime)`; the second component is the value returned.
The condition of the second branch is the enumeration constant `eSyncStateOperational`
itself, as the source has it. -/
def COSyncHandler.Update (y : COSyncHandler) (actTime : Nat) : COSyncHandler × COSyncState :=
  if y.SyncState = eSyncStatePreOp then
    (y.hbStep actTime, COSyncState.eSyncIdle)
  else if eSyncStateOperational ≠ 0 then
    let y1 := y.hbStep actTime
    if y1.SyncInterval > 0 then
      if sub32 actTime y1.lastSync ≥ y1.SyncInterval then
        let r := y1.SendRequest y1.SyncMessage
        if r.2 then ({ r.1 with lastSync := actTime }, COSyncState.eSyncSyncSent)
        else (r.1, COSyncState.eSyncIdle)
      else (y1, COSyncState.eSyncIdle)
    else (y1, COSyncState.eSyncIdle)
  else
    (y, COSyncState.eSyncIdle)

/-- The `switch(SyncTxState)` of `SendResetNodes` and `SendStartNodes`: in Idle the command
byte is set (and control falls through), in Retry the command is sent and, if that works,
the state of the master becomes `target`. -/
def COSyncHandler.nmtCommand (y : COSyncHandler) (command : Nat) (target : Int) :
    COSyncHandler × COSyncCommStates :=
  let send := fun (z : COSyncHandler) =>
    let r := z.SendRequest z.NmtCommand
    if r.2 then ({ r.1 with SyncState := target }, COSyncCommStates.eCO_SyncIdle)
    else (r.1, COSyncCommStates.eCO_SyncBusy)
  match y.SyncTxState with
  | COSyncCommStates.eCO_SyncIdle =>
    send { y with NmtCommand := { y.NmtCommand with
      payload := Function.update y.NmtCommand.payload 0 command } }
  | COSyncCommStates.eCO_SyncRetry => send y
  | _ => (y, COSyncCommStates.eCO_SyncBusy)

/-- Method `COSyncHandler::SendResetNodes`. -/
def COSyncHandler.SendResetNodes (y : COSyncHandler) : COSyncHandler × COSyncCommStates :=
  y.nmtCommand NMT_ResetRemoteNode eSyncStatePreOp

/-- Method `COSyncHandler::SendStartNodes`. -/
def COSyncHandler.SendStartNodes (y : COSyncHandler) : COSyncHandler × COSyncCommStates :=
  y.nmtCommand NMT_StartRemoteNode eSyncStateOperational

/-- A sync handler constructed for the producer id 127 and attached with `init` to the open
router. -/
def syncAttached : COSyncHandler := (COSyncHandler.new openRouter 127).init openRouter

/-- The frames of a router as identifier, type and length. -/
def heads (fs : List can_frame_t) : List (Nat × can_frame_type_t × Nat) :=
  fs.map fun f => (f.id, f.type, f.data_length_code)

/-! ## The cyclic update of the PDO handler -/

/-- The loop of `COPDOHandler::Update` for `synchState == eSyncSyncSent`: for every RPDO of
transmission type 1, `pending = true`. -/
def COPDOHandler.syncLoop (p : COPDOHandler) : COPDOHandler :=
  (List.range NrPDOs).foldl
    (fun q iterPDO =>
      if (q.RxPDOSettings iterPDO).TransmType = 1 then
        { q with
          RxPDOSettings := Function.update q.RxPDOSettings iterPDO
            { q.RxPDOSettings iterPDO with pending := 1 } }
      else q)
    p

/-- The statements `nextTx++; if(nextTx == NrPDOs) nextTx = 0;` of `COPDOHandler::Update`. -/
def COPDOHandler.advanceTx (p : COPDOHandler) : COPDOHandler :=
  let n := (p.nextTx + 1) % 256
  { p with nextTx := if n = NrPDOs then 0 else n }

/-- The second half of `COPDOHandler::Update`: the RPDO `nextTx` is transmitted if it is
pending. -/
def COPDOHandler.txStep (p : COPDOHandler) (od : Nat → ODEntry) : COPDOHandler :=
  if (p.RxPDOSettings p.nextTx).pending > 0 then
    let r := p.TransmitPdo od p.nextTx
    if r.2 then
      let q : COPDOHandler := { r.1 with
        RxPDOSettings := Function.update r.1.RxPDOSettings r.1.nextTx
          { r.1.RxPDOSettings r.1.nextTx with sentAt := r.1.actTime } }
      let q : COPDOHandler :=
        if (q.RxPDOSettings q.nextTx).pending > 0 then
          { q with
            RxPDOSettings := Function.update q.RxPDOSettings q.nextTx
              { q.RxPDOSettings q.nextTx with
                pending := (q.RxPDOSettings q.nextTx).pending - 1 } }
        else q
      q.advanceTx
    else r.1
  else p.advanceTx

/-- Method `COPDOHandler::Update(time, synchState)`; `od` is the memory of the application
with the entries the mappings point to.  The second component is the value returned. -/
def COPDOHandler.Update (p : COPDOHandler) (od : Nat → ODEntry) (time : Nat)
    (synchState : COSyncState) : COPDOHandler × COPDOCommStates :=
  let p0 := { p with actTime := time }
  let p1 := if synchState = COSyncState.eSyncSyncSent then p0.syncLoop else p0
  let p2 := p1.txStep od
  (p2, p2.RequestState)

/-- The handler of node 3 with RPDO1 of transmission type 1 (sent with every SYNC), mapped
to the controlword and the target position and valid, while the transmission of a frame of
another sender has not completed (the router is Busy). -/
def pdoSyncBusy : COPDOHandler :=
  ((((pdoAttached 3 1000).PresetRxPDOTransmission 0 1).PresetRxPDOMapping driveOD 0 2
    (memOf [1, 2])).PresetRxPDOisValid 0 true).withHandler
      { (pdoAttached 3 1000).Handler with TxStatus := COTxStatus.eCOTxBusy }

/-- The memory `driveOD` after the application has changed the controlword to 0x001F and the
target position to 0x00054321. -/
def driveODLater : Nat → ODEntry
  | 1 => { Idx := 0x6040, SubIdx := 0, Value := memOf [0x1F, 0x00], len := 2 }
  | 2 => { Idx := 0x607A, SubIdx := 0, Value := memOf [0x21, 0x43, 0x05, 0x00], len := 4 }
  | a => driveOD a

/-- The handler `pdoPreset` while the transmission of a frame of another sender has not
completed (the router is Busy). -/
def pdoPresetBusy : COPDOHandler :=
  (pdoPreset 3 1000).withHandler
    { (pdoPreset 3 1000).Handler with TxStatus := COTxStatus.eCOTxBusy }

/-- The handler after the transmission in progress has completed. -/
def COPDOHandler.afterTxComplete (p : COPDOHandler) : COPDOHandler :=
  p.withHandler p.Handler.OnTxComplete

/-! ## Scenarios of the router, the node and the client -/

/-- The open router while the peripheral takes no frame (`send` returns false). -/
def driverBusyRouter : COMsgHandler :=
  { openRouter with can := { openRouter.can with busy := true } }

/-- The router with the peripheral ready to take frames again. -/
def COMsgHandler.driverFree (h : COMsgHandler) : COMsgHandler :=
  { h with can := { h.can with busy := false } }

/-- What holds of a call of one of the five functions that send an NMT command, for the node
`n` before the call, the result `r` of the call and the command byte `cmd` of the function:
if the call returns Done, one frame has been offered to the driver, and its command byte is
`cmd` if the call found `RequestState` Idle, and otherwise the byte that was in `NmtCommand`
before the call; a call that finds `RequestState` Idle and does not return Done leaves `cmd`
in `NmtCommand`. -/
def CommandByteSent (n : CONode) (r : CONode × CONodeCommStates) (cmd : Nat) : Prop :=
  (r.2 = CONodeCommStates.eCO_NodeDone →
      ∃ f, r.1.Handler.can.offered = n.Handler.can.offered ++ [f]
        ∧ f.id = n.NmtCommand.Id
        ∧ f.data 0 = if n.RequestState = CONodeCommStates.eCO_NodeIdle then cmd
            else n.NmtCommand.payload 0)
    ∧ (n.RequestState = CONodeCommStates.eCO_NodeIdle →
        r.2 ≠ CONodeCommStates.eCO_NodeDone → r.1.NmtCommand.payload 0 = cmd)

/-- The node of id 3 attached to a router that is busy with the frame of another sender. -/
def nodeAttachedBusy : CONode :=
  (nodeAttached 3).withHandler { (nodeAttached 3).Handler with TxStatus := COTxStatus.eCOTxBusy }

/-- The memory behind the pointer passed to `ReadSDO`: a buffer of four bytes (zero), and
behind it eight bytes of other variables (0xEE each). -/
def fourByteBuffer : Nat → Nat :=
  memOf [0, 0, 0, 0, 0xEE, 0xEE, 0xEE, 0xEE, 0xEE, 0xEE, 0xEE, 0xEE]

/-! ## The drive (`CO402Drive`) -/

/-- Enumeration `CODriveCommStates`. -/
inductive CODriveCommStates where
  | eCO_DriveIdle
  | eCO_DriveWaiting
  | eCO_DriveRetry
  | eCO_DriveBusy
  | eCO_DriveDone
  | eCO_DriveError
  deriving DecidableEq, Repr

/-- Class `CO402Drive`, as far as `Update`, `InitPDOs` and `ResetComState` use it.  The
member `Node` is the node inside `PDOHandler` (the PDO handler points to it).  `OdCW` and
`OdSW` are the addresses of the entries of that name in the memory of the application;
their `Value` point to the members `CWValue` and `SWValue`. -/
structure CO402Drive where
  PDOHandler : COPDOHandler
  nodeId : Nat
  autoEnable : Bool
  isPDOsConfigured : Bool
  reConfigPDOs : Bool
  AccessStep : Nat
  OdCW : Nat
  OdSW : Nat

/-- The member `Node` of the drive. -/
def CO402Drive.Node (d : CO402Drive) : CONode := d.PDOHandler.Node

/-- The drive with its member `Node` replaced by `n`. -/
def CO402Drive.withNode (d : CO402Drive) (n : CONode) : CO402Drive :=
  { d with PDOHandler := { d.PDOHandler with Node := n } }

/-- Method `CO402Drive::ResetComState`. -/
def CO402Drive.ResetComState (d : CO402Drive) : CO402Drive :=
  { d with AccessStep := 0 }

/-- Method `CO402Drive::InitPDOs(actTime)`; `stale` as in `ConfigureRxTxPDO`.  The second
component is the value returned. -/
def CO402Drive.InitPDOs (d : CO402Drive) (od : Nat → ODEntry) (stale : COPDOCommStates)
    (actTime : Nat) : CO402Drive × CODriveCommStates :=
  let r := d.PDOHandler.ConfigurePresetPDOs od stale actTime
  let d1 := { d with PDOHandler := r.1 }
  if r.2 = COPDOCommStates.eCO_PDODone then
    ({ d1 with isPDOsConfigured := true }, CODriveCommStates.eCO_DriveDone)
  else
    (d1, CODriveCommStates.eCO_DriveBusy)

/-- Method `CO402Drive::Update(actTime, syncState)`; `od` is the memory of the application
with the entries of the object dictionary, `stale` as in `ConfigureRxTxPDO`.  The
components are the drive, the memory after the call and the value returned. -/
def CO402Drive.Update (d : CO402Drive) (od : Nat → ODEntry) (stale : COPDOCommStates)
    (actTime : Nat) (syncState : COSyncState) : CO402Drive × (Nat → ODEntry) × Int :=
  let d0 := d.withNode (d.Node.Update actTime)
  let NodeState := d0.Node.NodeState
  let r1 : CO402Drive × (Nat → ODEntry) :=
    if NodeState < eNMTStateReset then
      let od1 := Function.update od d0.OdCW
        { od d0.OdCW with Value := storeLE (od d0.OdCW).Value 2 0 }
      let od2 := Function.update od1 d0.OdSW
        { od1 d0.OdSW with Value := storeLE (od1 d0.OdSW).Value 2 0 }
      ({ d0 with isPDOsConfigured := false, PDOHandler := d0.PDOHandler.FlagPDOsInvalid }, od2)
    else (d0, od)
  let d1 := r1.1
  let d2 : CO402Drive :=
    if NodeState = eNMTStatePreOp then
      if d1.isPDOsConfigured = false then
        if d1.reConfigPDOs = true then
          let r := d1.InitPDOs r1.2 stale actTime
          if r.2 = CODriveCommStates.eCO_DriveDone then r.1.ResetComState else r.1
        else d1
      else
        if d1.autoEnable = true then d1.withNode d1.Node.SendStartNode.1 else d1
    else d1
  let d3 : CO402Drive :=
    if NodeState = eNMTStateOperational then
      { d2 with PDOHandler := (d2.PDOHandler.Update r1.2 actTime syncState).1 }
    else d2
  (d3, r1.2, NodeState)

/-- The drive of node 3 with the presets of `pdoPreset` (RPDO1 and TPDO1 mapped and flagged
valid) whose node has booted with heartbeat supervision (`bootWithHeartbeat`: producer time
1000 ms, last heartbeat at time 6) and whose PDOs have all been configured; the controlword
is at address 1 of `driveOD`, the statusword at address 3. -/
def driveHeartbeat : CO402Drive :=
  { PDOHandler := { pdoPreset 3 1000 with
      Node := (nodeAttached 3).run bootWithHeartbeat
      PDOsConfigured := 8 }
    nodeId := 3
    autoEnable := false
    isPDOsConfigured := true
    reConfigPDOs := true
    AccessStep := 0
    OdCW := 1
    OdSW := 3 }

/-! ## Scenarios of the mapping phase of a PDO configuration -/

/-- The response of the SDO server of node `node` that confirms the download the frame `f`
initiates: command byte 0x60 with the index and sub-index of `f`. -/
def ackOf (node : Nat) (f : can_frame_t) : CANMsg :=
  respMsg node [0x60, f.data 1, f.data 2, f.data 3, 0, 0, 0, 0]

/-- The handler after the server of node `node` has confirmed the write in progress, if
there is one: when the SDO client waits for a response, the transmission of the request
completes and the confirmation of the last frame posted is passed to the client. -/
def COPDOHandler.served (p : COPDOHandler) (node : Nat) : COPDOHandler :=
  if p.Node.RWSDO.SDORxTxState = COSDOCommStates.eCO_SDOWaiting then
    match p.Node.RWSDO.posted.getLast? with
    | some f => p.onSdoResponse (ackOf node f)
    | none => p
  else p

/-- The handler after `k` rounds of the mapping phase of RPDO `n`: a call of
`WriteRxPDOMapping`, then the confirmation by the server of node `node` if a write is in
progress. -/
def COPDOHandler.mapRounds (p : COPDOHandler) (od : Nat → ODEntry) (n node : Nat) :
    Nat → COPDOHandler
  | 0 => p
  | k + 1 =>
    ((COPDOHandler.mapRounds p od n node k).WriteRxPDOMapping od n).1.served node

/-- The value returned by call `k + 1` of `WriteRxPDOMapping` in the rounds of `mapRounds`. -/
def COPDOHandler.mapReturns (p : COPDOHandler) (od : Nat → ODEntry) (n node k : Nat) :
    COPDOCommStates :=
  ((p.mapRounds od n node k).WriteRxPDOMapping od n).2

/-- The object, the sub-index, the number `4 - n` of data bytes and the value of an
expedited SDO write. -/
def sdoWrite (f : can_frame_t) : Nat × Nat × Nat × Nat :=
  (msgIdx f.data, msgSubIdx f.data, 4 - ctl_n f.data, msgU32 f.data)

/-- The handler can start a configuration access: it has no access open, the SDO client of
its node is free and the transmitter takes a frame. -/
def COPDOHandler.writeReady (p : COPDOHandler) : Prop :=
  p.SDORxTxState = COSDOCommStates.eCO_SDOIdle
    ∧ p.Node.RWSDO.SDORxTxState = COSDOCommStates.eCO_SDOIdle
    ∧ p.Node.RWSDO.txReady ∧ p.Node.RWSDO.SDORequestMsg.isRTR = false

/-- In the first `m` rounds of the mapping phase of RPDO `n` every call returns Busy and the
frames posted are the expedited writes `ws`; after them the handler can start the access of
step `s`, and the presets of the PDOs are as before. -/
def COPDOHandler.mapsIn (p : COPDOHandler) (od : Nat → ODEntry) (n node m s : Nat)
    (ws : List (Nat × Nat × Nat × Nat)) : Prop :=
  (∀ j, j < m → p.mapReturns od n node j = COPDOCommStates.eCO_PDOBusy)
    ∧ (p.mapRounds od n node m).writeReady
    ∧ (p.mapRounds od n node m).PDOConfigSingleStepAccessStep = s
    ∧ (p.mapRounds od n node m).RxPDOMapping = p.RxPDOMapping
    ∧ (p.mapRounds od n node m).RxPDOSettings = p.RxPDOSettings
    ∧ ∃ fs, (p.mapRounds od n node m).Node.RWSDO.posted = p.Node.RWSDO.posted ++ fs
        ∧ fs.map sdoWrite = ws

/-- The handler `pdoPreset` in the mapping phase of the configuration of RPDO1
(`PDOConfigSequenceAccessStep` 1), the SDO client free. -/
def pdoMappingPhase : COPDOHandler :=
  { pdoPreset 3 1000 with
    PDOConfigSequenceAccessStep := 1
    SDORxTxState := COSDOCommStates.eCO_SDOIdle }

/-- A memory with five entries of two bytes at the addresses 1..5 (0x2001.00 .. 0x2005.00;
elsewhere as `fourWords`). -/
def fiveWords : Nat → ODEntry
  | 5 => { Idx := 0x2005, SubIdx := 0, Value := memOf [0, 0], len := 2 }
  | a => fourWords a

/-- The handler of node 3 in the mapping phase of RPDO1, preset with the five entries of
`fiveWords` (the array `Entries` of a mapping has `MaxPDOMappingEntries` = 8 elements). -/
def pdoFiveEntries : COPDOHandler :=
  { (((pdoAttached 3 1000).PresetRxPDOTransmission 0 255).PresetRxPDOMapping fiveWords 0 5
      (memOf [1, 2, 3, 4, 5])).PresetRxPDOisValid 0 true with
    PDOConfigSequenceAccessStep := 1
    SDORxTxState := COSDOCommStates.eCO_SDOIdle }

/-- The handler of node 3 in the mapping phase of RPDO1, which was preset with three
entries first and with one entry afterwards. -/
def pdoPresetTwice : COPDOHandler :=
  { ((((pdoAttached 3 1000).PresetRxPDOTransmission 0 255).PresetRxPDOMapping fourWords 0 3
      (memOf [1, 2, 3])).PresetRxPDOMapping fourWords 0 1 (memOf [4])).PresetRxPDOisValid 0
      true with
    PDOConfigSequenceAccessStep := 1
    SDORxTxState := COSDOCommStates.eCO_SDOIdle }

/-! ## Scenarios of a bulk read that the server aborts -/

/-- The answers of the server of node 3 to the reads of `twoObjects` when it refuses the
second: the four bytes of 0x1000.0, then the abort of the read of 0x1001.0 (abort code
0x06020000, the object does not exist). -/
def secondReadAborted : Nat → CANMsg
  | 0 => respMsg 3 [0x43, 0x00, 0x10, 0x00, 0x92, 0x01, 0x02, 0x00]
  | _ => respMsg 3 [0x80, 0x01, 0x10, 0x00, 0x00, 0x00, 0x02, 0x06]

/-- The client of node 3 after the bulk read of `twoObjects` that the server aborted at the
second entry (the fourth call of `ReadObjects` has returned Error), and after the
`ResetComState()` with which the caller clears the Error. -/
def abortedBulk : COSDOHandler :=
  ((attached 3).readObjectsLoop twoObjects 2 secondReadAborted 4).1.ResetComState

/-- Two entries of the identity object that have not been read yet (`len` 0): 0x1018.1
(vendor id) and 0x1018.2 (product code). -/
def identityObjects : Nat → ODEntry
  | 0 => { Idx := 0x1018, SubIdx := 1, Value := memOf [], len := 0 }
  | _ => { Idx := 0x1018, SubIdx := 2, Value := memOf [], len := 0 }

/-- The answer of the server of node 3 to the read of 0x1018.2: the four bytes
`34 12 00 00`. -/
def productCodeResponse : Nat → CANMsg :=
  fun _ => respMsg 3 [0x43, 0x18, 0x10, 0x02, 0x34, 0x12, 0x00, 0x00]

/-! ## Bit fields and byte arrays -/

theorem getBits_setBits_same (b v lo w : Nat) (h : (lo, w) ∈ ctlFields) :
    getBits (setBits b lo w v) lo w = v % 2 ^ w := by
  simp only [ctlFields, List.mem_cons, Prod.mk.injEq, List.mem_singleton, List.not_mem_nil,
    or_false] at h
  rcases h with ⟨rfl, rfl⟩ | ⟨rfl, rfl⟩ | ⟨rfl, rfl⟩ | ⟨rfl, rfl⟩ | ⟨rfl, rfl⟩ | ⟨rfl, rfl⟩ <;>
    simp only [getBits, setBits] <;> norm_num <;> omega

theorem getBits_setBits_disj (b v lo w lo' w' : Nat) (h : (lo, w) ∈ ctlFields)
    (h' : (lo', w') ∈ ctlFields) (hd : lo + w ≤ lo' ∨ lo' + w' ≤ lo) :
    getBits (setBits b lo w v) lo' w' = getBits b lo' w' := by
  simp only [ctlFields, List.mem_cons, Prod.mk.injEq, List.mem_singleton, List.not_mem_nil,
    or_false] at h h'
  rcases h with ⟨rfl, rfl⟩ | ⟨rfl, rfl⟩ | ⟨rfl, rfl⟩ | ⟨rfl, rfl⟩ | ⟨rfl, rfl⟩ | ⟨rfl, rfl⟩ <;>
    rcases h' with ⟨rfl, rfl⟩ | ⟨rfl, rfl⟩ | ⟨rfl, rfl⟩ | ⟨rfl, rfl⟩ | ⟨rfl, rfl⟩ | ⟨rfl, rfl⟩ <;>
    first
      | (exfalso; omega)
      | (simp only [getBits, setBits]; norm_num; omega)

@[simp] theorem setCtl_zero (p : Nat → Nat) (lo w v : Nat) :
    setCtl p lo w v 0 = setBits (p 0) lo w v := by
  simp [setCtl]

@[simp] theorem setCtl_succ (p : Nat → Nat) (lo w v i : Nat) :
    setCtl p lo w v (i + 1) = p (i + 1) := by
  simp [setCtl, Function.update_apply]

theorem setCtl_of_pos (p : Nat → Nat) (lo w v i : Nat) (h : 0 < i) :
    setCtl p lo w v i = p i := by
  obtain ⟨j, rfl⟩ : ∃ j, i = j + 1 := ⟨i - 1, by omega⟩
  simp

theorem forCopy_payload (p src sIdx : Nat → Nat) (n i : Nat) :
    forCopy p (fun iter => 1 + iter) src sIdx n i
      = if 1 ≤ i ∧ i ≤ n then src (sIdx (i - 1)) else p i := by
  induction n with
  | zero =>
    have : ¬ (1 ≤ i ∧ i ≤ 0) := by omega
    rw [if_neg this]
    rfl
  | succ k ih =>
    simp only [forCopy, Function.update_apply, ih]
    by_cases h1 : i = 1 + k
    · subst h1
      have : 1 ≤ 1 + k ∧ 1 + k ≤ k + 1 := by omega
      simp [this]
    · by_cases h2 : 1 ≤ i ∧ i ≤ k
      · have : 1 ≤ i ∧ i ≤ k + 1 := by omega
        simp [h1, h2, this]
      · have : ¬ (1 ≤ i ∧ i ≤ k + 1) := by omega
        simp [h1, h2, this]

theorem forCopy_memory (dst R : Nat → Nat) (A n i : Nat) (h : A + n ≤ 2 ^ 32) :
    forCopy dst (fun iter => (A + iter) % 2 ^ 32) R (fun iter => 1 + iter) n i
      = if A ≤ i ∧ i < A + n then R (1 + (i - A)) else dst i := by
  induction n with
  | zero =>
    have : ¬ (A ≤ i ∧ i < A + 0) := by omega
    rw [if_neg this]
    rfl
  | succ k ih =>
    have hk : (A + k) % 2 ^ 32 = A + k := Nat.mod_eq_of_lt (by omega)
    have ih := ih (by omega)
    simp only [forCopy, Function.update_apply, ih, hk]
    by_cases h1 : i = A + k
    · subst h1
      have : A ≤ A + k ∧ A + k < A + (k + 1) := by omega
      simp [this]
    · by_cases h2 : A ≤ i ∧ i < A + k
      · have : A ≤ i ∧ i < A + (k + 1) := by omega
        simp [h1, h2, this]
      · have : ¬ (A ≤ i ∧ i < A + (k + 1)) := by omega
        simp [h1, h2, this]

/-! ## Sending a request -/

theorem caseRetry_ready (s : COSDOHandler) (hTx : s.txReady)
    (hR : s.SDORequestMsg.isRTR = false) :
    s.caseRetry = { s with
      Handler := { s.Handler with
                   can := { s.Handler.can with
                      offered := s.Handler.can.offered ++ [frameOf s.SDORequestMsg]
                      posted := s.Handler.can.posted ++ [frameOf s.SDORequestMsg] }
                   TxStatus := COTxStatus.eCOTxBusy }
      SDORxTxState := COSDOCommStates.eCO_SDOWaiting
      BusyRetryCounter := 0
      RequestSentAt := s.actTime
      isTimerActive := true } := by
  obtain ⟨h1, h2⟩ := hTx
  simp [COSDOHandler.caseRetry, COSDOHandler.SendRequest, COMsgHandler.SendMsg, UNOR4CAN.send,
    h1, h2, hR, frameOf]

theorem sendSegment_ready (s : COSDOHandler) (hTx : s.txReady)
    (hR : s.SDORequestMsg.isRTR = false) :
    s.sendSegment = { s with
      Handler := { s.Handler with
                   can := { s.Handler.can with
                      offered := s.Handler.can.offered ++ [frameOf s.SDORequestMsg]
                      posted := s.Handler.can.posted ++ [frameOf s.SDORequestMsg] }
                   TxStatus := COTxStatus.eCOTxBusy }
      SDORxTxState := COSDOCommStates.eCO_SDOWaiting
      RequestSentAt := s.actTime
      BusyRetryCounter := 0 } := by
  obtain ⟨h1, h2⟩ := hTx
  simp [COSDOHandler.sendSegment, COSDOHandler.SendRequest, COMsgHandler.SendMsg, UNOR4CAN.send,
    h1, h2, hR, frameOf]

@[simp] theorem caseRetry_SDORequestMsg (s : COSDOHandler) :
    s.caseRetry.SDORequestMsg = s.SDORequestMsg := by
  unfold COSDOHandler.caseRetry COSDOHandler.SendRequest
  simp only []
  split_ifs <;> rfl

/-! ## `WriteSDO` from Idle with a transmitter that takes the frame -/

theorem WriteSDO_idle_seg (s : COSDOHandler) (Idx SubIdx : Nat) (Data : Nat → Nat) (len : Nat)
    (hIdle : s.SDORxTxState = COSDOCommStates.eCO_SDOIdle) (hTx : s.txReady)
    (hR : s.SDORequestMsg.isRTR = false) (h : 4 < len) :
    s.WriteSDO Idx SubIdx Data len = { s with
      SDORequestMsg := { s.SDORequestMsg with
        payload := setU32 (setCtl (setCtl (setCtl (setCtl (setSubIdx (setIdx s.SDOReqData Idx)
          SubIdx) 5 3 SDOInitDownloadReq) 1 1 0) 2 2 0) 0 1 1) len }
      ExpectedRxTxLen := len
      ActRxTxLen := 0
      ClientDataPtr := Data
      nextToggle := 0
      requestedService := COSDORequestType.eSDOWriteRequestExp
      requestedIdx := Idx
      requestedSub := SubIdx
      Handler := { s.Handler with
                   can := { s.Handler.can with
                      offered := s.Handler.can.offered ++ [frameOf { s.SDORequestMsg with
        payload := setU32 (setCtl (setCtl (setCtl (setCtl (setSubIdx (setIdx s.SDOReqData Idx)
          SubIdx) 5 3 SDOInitDownloadReq) 1 1 0) 2 2 0) 0 1 1) len }]
                      posted := s.Handler.can.posted ++ [frameOf { s.SDORequestMsg with
        payload := setU32 (setCtl (setCtl (setCtl (setCtl (setSubIdx (setIdx s.SDOReqData Idx)
          SubIdx) 5 3 SDOInitDownloadReq) 1 1 0) 2 2 0) 0 1 1) len }] }
                   TxStatus := COTxStatus.eCOTxBusy }
      SDORxTxState := COSDOCommStates.eCO_SDOWaiting
      BusyRetryCounter := 0
      RequestSentAt := s.actTime
      isTimerActive := true } := by
  have h' : ¬ len ≤ 4 := by omega
  unfold COSDOHandler.WriteSDO
  rw [hIdle]
  simp only [h', if_false]
  rw [caseRetry_ready]
  exacts [hTx, hR]

theorem WriteSDO_idle_posted (s : COSDOHandler) (Idx SubIdx : Nat) (Data : Nat → Nat)
    (len : Nat) (hIdle : s.SDORxTxState = COSDOCommStates.eCO_SDOIdle) (hTx : s.txReady)
    (hR : s.SDORequestMsg.isRTR = false) :
    (s.WriteSDO Idx SubIdx Data len).posted
      = s.posted ++ [frameOf (s.WriteSDO Idx SubIdx Data len).SDORequestMsg] := by
  unfold COSDOHandler.WriteSDO
  rw [hIdle]
  simp only []
  by_cases h : len ≤ 4
  · simp only [h, if_true]
    rw [caseRetry_ready]
    · rfl
    exacts [hTx, hR]
  · simp only [h, if_false]
    rw [caseRetry_ready]
    · rfl
    exacts [hTx, hR]

theorem WriteSDO_idle_exp_ctl (s : COSDOHandler) (Idx SubIdx : Nat) (Data : Nat → Nat)
    (len : Nat) (hIdle : s.SDORxTxState = COSDOCommStates.eCO_SDOIdle) (h : len ≤ 4) :
    (s.WriteSDO Idx SubIdx Data len).SDORequestMsg.payload 0
      = setBits (setBits (setBits (setBits (setBits (s.SDOReqData 0)
          5 3 SDOInitDownloadReq) 1 1 1) 2 2 (4 - len)) 0 1 1) 4 1 0 := by
  unfold COSDOHandler.WriteSDO
  rw [hIdle]
  simp only [h, if_true, caseRetry_SDORequestMsg]
  split_ifs <;>
    simp [setU32, setSubIdx, setIdx, Function.update_apply]

theorem WriteSDO_idle_seg_ctl (s : COSDOHandler) (Idx SubIdx : Nat) (Data : Nat → Nat)
    (len : Nat) (hIdle : s.SDORxTxState = COSDOCommStates.eCO_SDOIdle) (h : 4 < len) :
    (s.WriteSDO Idx SubIdx Data len).SDORequestMsg.payload 0
      = setBits (setBits (setBits (setBits (s.SDOReqData 0)
          5 3 SDOInitDownloadReq) 1 1 0) 2 2 0) 0 1 1 := by
  have h' : ¬ len ≤ 4 := by omega
  unfold COSDOHandler.WriteSDO
  rw [hIdle]
  simp only [h', if_false, caseRetry_SDORequestMsg]
  simp [setU32, setSubIdx, setIdx, Function.update_apply]

theorem WriteSDO_idle_seg_data (s : COSDOHandler) (Idx SubIdx : Nat) (Data : Nat → Nat)
    (len : Nat) (hIdle : s.SDORxTxState = COSDOCommStates.eCO_SDOIdle) (h : 4 < len) :
    (s.WriteSDO Idx SubIdx Data len).SDORequestMsg.payload 4 = len % 256
      ∧ (s.WriteSDO Idx SubIdx Data len).SDORequestMsg.payload 5 = len / 256 % 256
      ∧ (s.WriteSDO Idx SubIdx Data len).SDORequestMsg.payload 6 = len / 65536 % 256
      ∧ (s.WriteSDO Idx SubIdx Data len).SDORequestMsg.payload 7 = len / 16777216 % 256 := by
  have h' : ¬ len ≤ 4 := by omega
  unfold COSDOHandler.WriteSDO
  rw [hIdle]
  simp only [h', if_false, caseRetry_SDORequestMsg]
  simp [setU32, Function.update_apply]

/-! ## Segmented download: the steps of `OnRxHandler` -/

theorem onDownloadSegResp_more (s : COSDOHandler) (hTx : s.txReady)
    (hR : s.SDORequestMsg.isRTR = false) (hlt : s.ActRxTxLen < s.ExpectedRxTxLen)
    (h32 : s.ExpectedRxTxLen < 2 ^ 32) :
    s.onDownloadSegResp.SDORxTxState = COSDOCommStates.eCO_SDOWaiting
      ∧ s.onDownloadSegResp.requestedService = s.requestedService
      ∧ s.onDownloadSegResp.ExpectedRxTxLen = s.ExpectedRxTxLen
      ∧ s.onDownloadSegResp.ActRxTxLen
          = s.ActRxTxLen + min (s.ExpectedRxTxLen - s.ActRxTxLen) 7
      ∧ s.onDownloadSegResp.nextToggle = (if s.nextToggle ≠ 0 then 0 else 1)
      ∧ s.onDownloadSegResp.ClientDataPtr = s.ClientDataPtr
      ∧ s.onDownloadSegResp.Handler.can.busy = false
      ∧ s.onDownloadSegResp.SDORequestMsg.isRTR = false
      ∧ s.onDownloadSegResp.posted = s.posted ++ [frameOf s.onDownloadSegResp.SDORequestMsg]
      ∧ ctl_cs s.onDownloadSegResp.SDOReqData = ctl_cs s.SDOReqData
      ∧ seg_t s.onDownloadSegResp.SDOReqData = (if s.nextToggle ≠ 0 then 0 else 1)
      ∧ seg_c s.onDownloadSegResp.SDOReqData
          = (if s.ExpectedRxTxLen - s.ActRxTxLen < 8 then 1 else 0)
      ∧ seg_n s.onDownloadSegResp.SDOReqData = 7 - min (s.ExpectedRxTxLen - s.ActRxTxLen) 7
      ∧ ∀ j, j < min (s.ExpectedRxTxLen - s.ActRxTxLen) 7 →
          s.onDownloadSegResp.SDOReqData (1 + j) = s.ClientDataPtr (s.ActRxTxLen + j) := by
  have hr : (s.ExpectedRxTxLen + 2 ^ 32 - s.ActRxTxLen) % 2 ^ 32
      = s.ExpectedRxTxLen - s.ActRxTxLen := by
    have : s.ExpectedRxTxLen + 2 ^ 32 - s.ActRxTxLen
        = (s.ExpectedRxTxLen - s.ActRxTxLen) + 2 ^ 32 := by omega
    rw [this, Nat.add_mod_right]
    exact Nat.mod_eq_of_lt (by omega)
  have hpos : s.ExpectedRxTxLen - s.ActRxTxLen > 0 := by omega
  unfold COSDOHandler.onDownloadSegResp
  simp only [hr, hpos, if_true]
  rw [sendSegment_ready]
  · refine ⟨rfl, rfl, rfl, ?_, rfl, rfl, hTx.2, hR, rfl, ?_, ?_, ?_, ?_, ?_⟩
    · dsimp only
      split_ifs with h8
      · rw [Nat.mod_eq_of_lt (by omega)]; omega
      · rw [Nat.mod_eq_of_lt (by omega)]; omega
    · dsimp only [ctl_cs, COSDOHandler.SDOReqData]
      split_ifs <;>
        simp [forCopy_payload, getBits_setBits_same, getBits_setBits_disj, ctlFields]
    · dsimp only [seg_t, COSDOHandler.SDOReqData]
      split_ifs <;>
        simp [forCopy_payload, getBits_setBits_same, getBits_setBits_disj, ctlFields]
    · dsimp only [seg_c, COSDOHandler.SDOReqData]
      split_ifs <;>
        simp [forCopy_payload, getBits_setBits_same, getBits_setBits_disj, ctlFields]
    · dsimp only [seg_n, COSDOHandler.SDOReqData]
      split_ifs with h8 <;>
        simp [forCopy_payload, getBits_setBits_same, getBits_setBits_disj, ctlFields]
      all_goals omega
    · intro j hj
      dsimp only [COSDOHandler.SDOReqData]
      rw [forCopy_payload]
      have hc : 1 ≤ 1 + j ∧ 1 + j ≤
          (if s.ExpectedRxTxLen - s.ActRxTxLen < 8 then s.ExpectedRxTxLen - s.ActRxTxLen
            else 7) := by
        split_ifs <;> omega
      rw [if_pos hc]
      have h1 : 1 + j - 1 = j := by omega
      have h2 : (s.ActRxTxLen + j) % 2 ^ 32 = s.ActRxTxLen + j :=
        Nat.mod_eq_of_lt (by omega)
      simp only [h1, h2]
  exacts [hTx, hR]

theorem onDownloadSegResp_done (s : COSDOHandler)
    (hA : s.ActRxTxLen = s.ExpectedRxTxLen) :
    s.onDownloadSegResp = { s with
      SDORxTxState := COSDOCommStates.eCO_SDODone, isTimerActive := false } := by
  have hr : (s.ExpectedRxTxLen + 2 ^ 32 - s.ActRxTxLen) % 2 ^ 32 = 0 := by
    rw [hA, Nat.add_sub_cancel_left, Nat.mod_self]
  unfold COSDOHandler.onDownloadSegResp
  simp only [hr, gt_iff_lt, lt_self_iff_false, if_false]

theorem onDownloadInitResp_first (s : COSDOHandler) (R : Nat → Nat) (hTx : s.txReady)
    (hR : s.SDORequestMsg.isRTR = false) (hI : msgIdx R = s.requestedIdx)
    (hSub : msgSubIdx R = s.requestedSub) (hL : 4 < s.ExpectedRxTxLen)
    (h32 : s.ExpectedRxTxLen < 2 ^ 32) (hA : s.ActRxTxLen = 0) :
    (s.onDownloadInitResp R).SDORxTxState = COSDOCommStates.eCO_SDOWaiting
      ∧ (s.onDownloadInitResp R).requestedService = COSDORequestType.eSDOWriteRequestSeg
      ∧ (s.onDownloadInitResp R).ExpectedRxTxLen = s.ExpectedRxTxLen
      ∧ (s.onDownloadInitResp R).ActRxTxLen = min s.ExpectedRxTxLen 7
      ∧ (s.onDownloadInitResp R).nextToggle = 0
      ∧ (s.onDownloadInitResp R).ClientDataPtr = s.ClientDataPtr
      ∧ (s.onDownloadInitResp R).Handler.can.busy = false
      ∧ (s.onDownloadInitResp R).SDORequestMsg.isRTR = false
      ∧ (s.onDownloadInitResp R).posted
          = s.posted ++ [frameOf (s.onDownloadInitResp R).SDORequestMsg]
      ∧ ctl_cs (s.onDownloadInitResp R).SDOReqData = SDODownloadSegReq
      ∧ seg_t (s.onDownloadInitResp R).SDOReqData = 0
      ∧ seg_c (s.onDownloadInitResp R).SDOReqData = (if s.ExpectedRxTxLen < 8 then 1 else 0)
      ∧ ∀ j, j < min s.ExpectedRxTxLen 7 →
          (s.onDownloadInitResp R).SDOReqData (1 + j) = s.ClientDataPtr j := by
  have hL' : ¬ s.ExpectedRxTxLen ≤ 4 := by omega
  unfold COSDOHandler.onDownloadInitResp
  simp only [hI, hSub, and_self, if_true, hL', if_false, hA]
  rw [sendSegment_ready]
  · refine ⟨rfl, rfl, rfl, ?_, rfl, rfl, hTx.2, hR, rfl, ?_, ?_, ?_, ?_⟩
    · dsimp only
      split_ifs with h8 <;> omega
    · dsimp only [ctl_cs, COSDOHandler.SDOReqData]
      split_ifs <;>
        simp [forCopy_payload, getBits_setBits_same, getBits_setBits_disj, ctlFields,
          SDODownloadSegReq]
    · dsimp only [seg_t, COSDOHandler.SDOReqData]
      split_ifs <;>
        simp [forCopy_payload, getBits_setBits_same, getBits_setBits_disj, ctlFields]
    · dsimp only [seg_c, COSDOHandler.SDOReqData]
      split_ifs <;>
        simp [forCopy_payload, getBits_setBits_same, getBits_setBits_disj, ctlFields]
    · intro j hj
      dsimp only [COSDOHandler.SDOReqData]
      rw [forCopy_payload]
      have hc : 1 ≤ 1 + j ∧ 1 + j ≤
          (if s.ExpectedRxTxLen < 8 then s.ExpectedRxTxLen else 7) := by
        split_ifs <;> omega
      rw [if_pos hc]
      have h1 : 1 + j - 1 = j := by omega
      have h2 : (0 + j) % 2 ^ 32 = j := by
        rw [Nat.zero_add]; exact Nat.mod_eq_of_lt (by omega)
      simp only [h1, h2]
  exacts [hTx, hR]

theorem OnRxHandler_downloadSeg (s : COSDOHandler) (Msg : CANMsg)
    (hS : s.requestedService = COSDORequestType.eSDOWriteRequestSeg)
    (hcs : ctl_cs Msg.payload = SDODownloadSegResp) :
    s.OnRxHandler Msg = s.onDownloadSegResp := by
  simp [COSDOHandler.OnRxHandler, hS, hcs, SDODownloadSegResp, SDOErrorReqResp]

theorem OnRxHandler_downloadInit (s : COSDOHandler) (Msg : CANMsg)
    (hS : s.requestedService = COSDORequestType.eSDOWriteRequestExp)
    (hcs : ctl_cs Msg.payload = SDOInitDownloadResp) :
    s.OnRxHandler Msg = s.onDownloadInitResp Msg.payload := by
  simp [COSDOHandler.OnRxHandler, hS, hcs, SDOInitDownloadResp, SDOErrorReqResp]

theorem onResponse_eq (s : COSDOHandler) (Msg : CANMsg) :
    s.onResponse Msg = s.afterTxComplete.OnRxHandler Msg := rfl

theorem txReady_afterTxComplete (s : COSDOHandler) (hb : s.Handler.can.busy = false) :
    s.afterTxComplete.txReady :=
  ⟨rfl, hb⟩

@[simp] theorem afterTxComplete_ExpectedRxTxLen (s : COSDOHandler) :
    s.afterTxComplete.ExpectedRxTxLen = s.ExpectedRxTxLen := rfl

@[simp] theorem afterTxComplete_ActRxTxLen (s : COSDOHandler) :
    s.afterTxComplete.ActRxTxLen = s.ActRxTxLen := rfl

@[simp] theorem afterTxComplete_ClientDataPtr (s : COSDOHandler) :
    s.afterTxComplete.ClientDataPtr = s.ClientDataPtr := rfl

@[simp] theorem afterTxComplete_nextToggle (s : COSDOHandler) :
    s.afterTxComplete.nextToggle = s.nextToggle := rfl

@[simp] theorem afterTxComplete_requestedService (s : COSDOHandler) :
    s.afterTxComplete.requestedService = s.requestedService := rfl

@[simp] theorem afterTxComplete_requestedIdx (s : COSDOHandler) :
    s.afterTxComplete.requestedIdx = s.requestedIdx := rfl

@[simp] theorem afterTxComplete_requestedSub (s : COSDOHandler) :
    s.afterTxComplete.requestedSub = s.requestedSub := rfl

@[simp] theorem afterTxComplete_SDORequestMsg (s : COSDOHandler) :
    s.afterTxComplete.SDORequestMsg = s.SDORequestMsg := rfl

@[simp] theorem afterTxComplete_SDORxTxState (s : COSDOHandler) :
    s.afterTxComplete.SDORxTxState = s.SDORxTxState := rfl

@[simp] theorem afterTxComplete_posted (s : COSDOHandler) :
    s.afterTxComplete.posted = s.posted := rfl

@[simp] theorem afterTxComplete_offered (s : COSDOHandler) :
    s.afterTxComplete.offered = s.offered := rfl

@[simp] theorem afterTxComplete_SDOReqData (s : COSDOHandler) :
    s.afterTxComplete.SDOReqData = s.SDOReqData := rfl

@[simp] theorem afterTxComplete_MaxRxLen (s : COSDOHandler) :
    s.afterTxComplete.MaxRxLen = s.MaxRxLen := rfl

@[simp] theorem afterTxComplete_isTimerActive (s : COSDOHandler) :
    s.afterTxComplete.isTimerActive = s.isTimerActive := rfl

@[simp] theorem afterTxComplete_busy (s : COSDOHandler) :
    s.afterTxComplete.Handler.can.busy = s.Handler.can.busy := rfl

/-! ## Segmented download: the run -/

theorem DlInv_first (s : COSDOHandler) (Msg : CANMsg) (P0 : List can_frame_t)
    (init : can_frame_t) (Data : Nat → Nat) (L : Nat)
    (hS : s.requestedService = COSDORequestType.eSDOWriteRequestExp)
    (hE : s.ExpectedRxTxLen = L) (hA : s.ActRxTxLen = 0) (hD : s.ClientDataPtr = Data)
    (hb : s.Handler.can.busy = false) (hR : s.SDORequestMsg.isRTR = false)
    (hL : 4 < L) (h32 : L < 2 ^ 32) (hp : s.posted = P0 ++ [init])
    (hinit : ctl_cs init.data = SDOInitDownloadReq)
    (hcs : ctl_cs Msg.payload = SDOInitDownloadResp)
    (hI : msgIdx Msg.payload = s.requestedIdx) (hSub : msgSubIdx Msg.payload = s.requestedSub) :
    DlInv P0 Data L 1 (s.onResponse Msg) := by
  rw [onResponse_eq, OnRxHandler_downloadInit s.afterTxComplete Msg hS hcs]
  obtain ⟨h1, h2, h3, h4, h5, h6, h7, h8, h9, h10, h11, h12, h13⟩ :=
    onDownloadInitResp_first s.afterTxComplete
      Msg.payload (txReady_afterTxComplete s hb) hR hI hSub
      (by rw [afterTxComplete_ExpectedRxTxLen, hE]; exact hL)
      (by rw [afterTxComplete_ExpectedRxTxLen, hE]; exact h32) hA
  simp only [afterTxComplete_ExpectedRxTxLen, afterTxComplete_ClientDataPtr,
    afterTxComplete_posted, hE, hD] at h3 h4 h6 h9 h12 h13
  unfold DlInv
  refine ⟨h1, h2, h3, ?_, h5, h6, h7, h8, h10, init,
    [frameOf (s.afterTxComplete.onDownloadInitResp Msg.payload).SDORequestMsg],
    ?_, hinit, rfl, ?_⟩
  · rw [h4]; omega
  · rw [h9, hp]; simp
  · intro k f hk
    have hk0 : k = 0 := by
      rcases k with _ | k
      · rfl
      · simp at hk
    subst hk0
    simp only [List.getElem?_cons_zero, Option.some.injEq] at hk
    subst hk
    refine ⟨h10, h11, ?_, ?_⟩
    · rw [show seg_c (frameOf _).data = _ from h12]
      split_ifs <;> omega
    · intro j hj hjL
      rw [show (frameOf _).data (1 + j) = _ from h13 j (by omega)]
      simp

theorem DlInv_step (s : COSDOHandler) (Msg : CANMsg) (P0 : List can_frame_t)
    (Data : Nat → Nat) (L m : Nat) (hinv : DlInv P0 Data L m s) (hlt : 7 * m < L)
    (h32 : L < 2 ^ 32) (hcs : ctl_cs Msg.payload = SDODownloadSegResp) :
    DlInv P0 Data L (m + 1) (s.onResponse Msg) := by
  obtain ⟨_, hS, hE, hA, hT, hD, hb, hR, hc, init, segs, hp, hinit, hlen, hseg⟩ := hinv
  have hA7 : s.ActRxTxLen = 7 * m := by rw [hA]; omega
  rw [onResponse_eq, OnRxHandler_downloadSeg s.afterTxComplete Msg hS hcs]
  obtain ⟨h1, h2, h3, h4, h5, h6, h7, h8, h9, h10, h11, h12, _, h14⟩ :=
    onDownloadSegResp_more s.afterTxComplete
      (txReady_afterTxComplete s hb) hR (by show s.ActRxTxLen < s.ExpectedRxTxLen; omega)
      (by show s.ExpectedRxTxLen < 2 ^ 32; omega)
  simp only [afterTxComplete_ExpectedRxTxLen, afterTxComplete_ClientDataPtr,
    afterTxComplete_posted, afterTxComplete_ActRxTxLen, afterTxComplete_nextToggle,
    afterTxComplete_requestedService, afterTxComplete_SDOReqData, hE, hD, hA7, hT, hS, hc]
    at h2 h3 h4 h5 h6 h9 h10 h11 h12 h14
  unfold DlInv
  refine ⟨h1, h2, h3, ?_, ?_, h6, h7, h8, h10,
    init, segs ++ [frameOf s.afterTxComplete.onDownloadSegResp.SDORequestMsg],
    ?_, hinit, ?_, ?_⟩
  · rw [h4]; omega
  · rw [h5]
    split_ifs <;> omega
  · rw [h9, hp]; simp
  · simp [hlen]
  · intro k f hk
    by_cases hkm : k < m
    · rw [List.getElem?_append_left (by omega)] at hk
      exact hseg k f hk
    · have hkeq : k = m := by
        by_contra hne
        rw [List.getElem?_eq_none (by simp [hlen]; omega)] at hk
        cases hk
      subst hkeq
      rw [List.getElem?_append_right (by omega)] at hk
      simp only [hlen, Nat.sub_self, List.getElem?_cons_zero, Option.some.injEq] at hk
      subst hk
      refine ⟨h10, ?_, ?_, ?_⟩
      · rw [show seg_t (frameOf _).data = _ from h11]
        split_ifs <;> omega
      · rw [show seg_c (frameOf _).data = _ from h12]
        split_ifs <;> omega
      · intro j hj hjL
        rw [show (frameOf _).data (1 + j) = _ from h14 j (by omega)]

theorem DlInv_last (s : COSDOHandler) (Msg : CANMsg) (P0 : List can_frame_t)
    (Data : Nat → Nat) (L m : Nat) (hinv : DlInv P0 Data L m s) (hle : L ≤ 7 * m)
    (hcs : ctl_cs Msg.payload = SDODownloadSegResp) :
    (s.onResponse Msg).SDORxTxState = COSDOCommStates.eCO_SDODone
      ∧ (s.onResponse Msg).posted = s.posted := by
  obtain ⟨_, hS, hE, hA, _⟩ := hinv
  rw [onResponse_eq, OnRxHandler_downloadSeg s.afterTxComplete Msg hS hcs,
    onDownloadSegResp_done]
  · exact ⟨rfl, rfl⟩
  · show s.ActRxTxLen = s.ExpectedRxTxLen
    rw [hA, hE]; omega

theorem DlInv_run (s1 : COSDOHandler) (resp : Nat → CANMsg) (P0 : List can_frame_t)
    (init : can_frame_t) (Data : Nat → Nat) (L : Nat)
    (hS : s1.requestedService = COSDORequestType.eSDOWriteRequestExp)
    (hE : s1.ExpectedRxTxLen = L) (hA : s1.ActRxTxLen = 0) (hD : s1.ClientDataPtr = Data)
    (hb : s1.Handler.can.busy = false) (hR : s1.SDORequestMsg.isRTR = false)
    (hL : 4 < L) (h32 : L < 2 ^ 32) (hp : s1.posted = P0 ++ [init])
    (hinit : ctl_cs init.data = SDOInitDownloadReq)
    (hcs : ctl_cs (resp 0).payload = SDOInitDownloadResp)
    (hI : msgIdx (resp 0).payload = s1.requestedIdx)
    (hSub : msgSubIdx (resp 0).payload = s1.requestedSub)
    (hk : ∀ k, ctl_cs (resp (k + 1)).payload = SDODownloadSegResp) :
    ∀ m, 7 * m < L → DlInv P0 Data L (m + 1) (s1.feed resp (m + 1)) := by
  intro m
  induction m with
  | zero =>
    intro _
    exact DlInv_first s1 (resp 0) P0 init Data L hS hE hA hD hb hR hL h32 hp hinit hcs hI hSub
  | succ m ih =>
    intro hm
    exact DlInv_step _ (resp (m + 1)) P0 Data L (m + 1) (ih (by omega)) hm h32 (hk m)

theorem WriteSDO_idle_seg_cs (s : COSDOHandler) (Idx SubIdx : Nat) (Data : Nat → Nat)
    (len : Nat) (hIdle : s.SDORxTxState = COSDOCommStates.eCO_SDOIdle) (h : 4 < len) :
    ctl_cs (frameOf (s.WriteSDO Idx SubIdx Data len).SDORequestMsg).data
      = SDOInitDownloadReq := by
  have hc := WriteSDO_idle_seg_ctl s Idx SubIdx Data len hIdle h
  simp only [frameOf, ctl_cs, hc]
  simp [getBits_setBits_same, getBits_setBits_disj, ctlFields, SDOInitDownloadReq]

/-! ## Segmented upload: the steps -/

theorem ReadSDO_idle (s : COSDOHandler) (Idx SubIdx : Nat) (dataptr : Nat → Nat) (length : Nat)
    (hIdle : s.SDORxTxState = COSDOCommStates.eCO_SDOIdle) (hTx : s.txReady)
    (hR : s.SDORequestMsg.isRTR = false) :
    (s.ReadSDO Idx SubIdx dataptr length).1.SDORxTxState = COSDOCommStates.eCO_SDOWaiting
      ∧ (s.ReadSDO Idx SubIdx dataptr length).1.requestedService
          = COSDORequestType.eSDOReadRequestInit
      ∧ (s.ReadSDO Idx SubIdx dataptr length).1.requestedIdx = Idx
      ∧ (s.ReadSDO Idx SubIdx dataptr length).1.requestedSub = SubIdx
      ∧ (s.ReadSDO Idx SubIdx dataptr length).1.ActRxTxLen = 0
      ∧ (s.ReadSDO Idx SubIdx dataptr length).1.nextToggle = 0
      ∧ (s.ReadSDO Idx SubIdx dataptr length).1.ClientDataPtr = dataptr
      ∧ (s.ReadSDO Idx SubIdx dataptr length).1.Handler.can.busy = false
      ∧ (s.ReadSDO Idx SubIdx dataptr length).1.SDORequestMsg.isRTR = false
      ∧ (s.ReadSDO Idx SubIdx dataptr length).1.posted
          = s.posted ++ [frameOf (s.ReadSDO Idx SubIdx dataptr length).1.SDORequestMsg]
      ∧ ctl_cs (s.ReadSDO Idx SubIdx dataptr length).1.SDOReqData = SDOInitUploadReq := by
  unfold COSDOHandler.ReadSDO
  rw [hIdle]
  dsimp only
  rw [caseRetry_ready]
  · refine ⟨?_, ?_, ?_, ?_, ?_, ?_, ?_, ?_, ?_, ?_, ?_⟩
    all_goals first
      | trivial
      | rfl
      | exact hTx.2
      | exact hR
      | (dsimp only [ctl_cs, COSDOHandler.SDOReqData]
         simp [setU32, setSubIdx, setIdx, Function.update_apply, getBits_setBits_same,
           getBits_setBits_disj, ctlFields, SDOInitUploadReq])
  exacts [hTx, hR]

theorem OnRxHandler_uploadInit (s : COSDOHandler) (Msg : CANMsg)
    (hS : s.requestedService = COSDORequestType.eSDOReadRequestInit)
    (hcs : ctl_cs Msg.payload = SDOInitUploadResponse) :
    s.OnRxHandler Msg = s.onUploadInitResp Msg.payload := by
  simp [COSDOHandler.OnRxHandler, hS, hcs, SDOInitUploadResponse, SDOErrorReqResp]

theorem OnRxHandler_uploadSeg (s : COSDOHandler) (Msg : CANMsg)
    (hS : s.requestedService = COSDORequestType.eSDOReadRequestSeg)
    (hcs : ctl_cs Msg.payload = SDOUploadSegResp) :
    s.OnRxHandler Msg = s.onUploadSegResp Msg.payload := by
  simp [COSDOHandler.OnRxHandler, hS, hcs, SDOUploadSegResp, SDOErrorReqResp]

theorem onUploadInitResp_seg (s : COSDOHandler) (R : Nat → Nat) (hTx : s.txReady)
    (hR : s.SDORequestMsg.isRTR = false) (hI : msgIdx R = s.requestedIdx)
    (hSub : msgSubIdx R = s.requestedSub) (he : ctl_e R = 0) (hs : ctl_s R = 1) :
    (s.onUploadInitResp R).SDORxTxState = COSDOCommStates.eCO_SDOWaiting
      ∧ (s.onUploadInitResp R).requestedService = COSDORequestType.eSDOReadRequestSeg
      ∧ (s.onUploadInitResp R).ActRxTxLen = 0
      ∧ (s.onUploadInitResp R).nextToggle = s.nextToggle
      ∧ (s.onUploadInitResp R).ClientDataPtr = s.ClientDataPtr
      ∧ (s.onUploadInitResp R).Handler.can.busy = false
      ∧ (s.onUploadInitResp R).SDORequestMsg.isRTR = false
      ∧ (s.onUploadInitResp R).posted
          = s.posted ++ [frameOf (s.onUploadInitResp R).SDORequestMsg]
      ∧ ctl_cs (s.onUploadInitResp R).SDOReqData = SDOUploadSegReq
      ∧ seg_t (s.onUploadInitResp R).SDOReqData = s.nextToggle % 2 := by
  have he' : ¬ (ctl_e R = 1 ∧ ctl_s R = 1) := by
    rw [he]; simp
  unfold COSDOHandler.onUploadInitResp
  simp only [hI, hSub, and_self, if_true, he', if_false, he, hs]
  rw [sendSegment_ready]
  · refine ⟨rfl, rfl, rfl, rfl, rfl, hTx.2, hR, rfl, ?_, ?_⟩
    · dsimp only [ctl_cs, COSDOHandler.SDOReqData]
      simp [forCopy_payload, getBits_setBits_same, getBits_setBits_disj, ctlFields,
        SDOUploadSegReq]
    · dsimp only [seg_t, COSDOHandler.SDOReqData]
      simp [forCopy_payload, getBits_setBits_same, getBits_setBits_disj, ctlFields]
  exacts [hTx, hR]

theorem onUploadSegResp_more (s : COSDOHandler) (R : Nat → Nat) (hTx : s.txReady)
    (hR : s.SDORequestMsg.isRTR = false) (ht : seg_t R = s.nextToggle) (hc : seg_c R = 0)
    (h32 : s.ActRxTxLen + (7 - seg_n R) < 2 ^ 32) :
    (s.onUploadSegResp R).SDORxTxState = COSDOCommStates.eCO_SDOWaiting
      ∧ (s.onUploadSegResp R).requestedService = s.requestedService
      ∧ (s.onUploadSegResp R).ActRxTxLen = s.ActRxTxLen + (7 - seg_n R)
      ∧ (s.onUploadSegResp R).nextToggle = (if s.nextToggle ≠ 0 then 0 else 1)
      ∧ (s.onUploadSegResp R).ClientDataPtr
          = (fun i => if s.ActRxTxLen ≤ i ∧ i < s.ActRxTxLen + (7 - seg_n R)
              then R (1 + (i - s.ActRxTxLen)) else s.ClientDataPtr i)
      ∧ (s.onUploadSegResp R).Handler.can.busy = false
      ∧ (s.onUploadSegResp R).SDORequestMsg.isRTR = false
      ∧ (s.onUploadSegResp R).posted
          = s.posted ++ [frameOf (s.onUploadSegResp R).SDORequestMsg]
      ∧ ctl_cs (s.onUploadSegResp R).SDOReqData = ctl_cs s.SDOReqData
      ∧ seg_t (s.onUploadSegResp R).SDOReqData = (if s.nextToggle ≠ 0 then 0 else 1) := by
  unfold COSDOHandler.onUploadSegResp
  simp only [ht, if_true, hc]
  rw [sendSegment_ready]
  · refine ⟨rfl, rfl, ?_, rfl, ?_, hTx.2, hR, rfl, ?_, ?_⟩
    · exact Nat.mod_eq_of_lt h32
    · funext i
      exact forCopy_memory _ _ _ _ _ (by omega)
    · dsimp only [ctl_cs, COSDOHandler.SDOReqData]
      simp [getBits_setBits_same, getBits_setBits_disj, ctlFields]
    · dsimp only [seg_t, COSDOHandler.SDOReqData]
      split_ifs <;> simp [getBits_setBits_same, getBits_setBits_disj, ctlFields]
  exacts [hTx, hR]

theorem onUploadSegResp_last (s : COSDOHandler) (R : Nat → Nat)
    (ht : seg_t R = s.nextToggle) (hc : seg_c R = 1)
    (h32 : s.ActRxTxLen + (7 - seg_n R) < 2 ^ 32) :
    (s.onUploadSegResp R).SDORxTxState = COSDOCommStates.eCO_SDODone
      ∧ (s.onUploadSegResp R).ActRxTxLen = s.ActRxTxLen + (7 - seg_n R)
      ∧ (s.onUploadSegResp R).ClientDataPtr
          = (fun i => if s.ActRxTxLen ≤ i ∧ i < s.ActRxTxLen + (7 - seg_n R)
              then R (1 + (i - s.ActRxTxLen)) else s.ClientDataPtr i)
      ∧ (s.onUploadSegResp R).posted = s.posted := by
  unfold COSDOHandler.onUploadSegResp
  simp only [ht, if_true, hc, one_ne_zero, if_false]
  refine ⟨?_, ?_, ?_, ?_⟩
  all_goals first
    | trivial
    | rfl
    | exact Nat.mod_eq_of_lt h32
    | (funext i
       exact forCopy_memory _ _ _ _ _ (by omega))

/-! ## Segmented upload: the run -/

theorem segOff_mono (resp : Nat → CANMsg) (m n : Nat) (h : m ≤ n) :
    segOff resp m ≤ segOff resp n := by
  induction n with
  | zero =>
    have : m = 0 := by omega
    rw [this]
  | succ n ih =>
    by_cases hm : m = n + 1
    · rw [hm]
    · have := ih (by omega)
      show segOff resp m ≤ segOff resp n + segLen resp n
      omega

theorem uploaded_seg (buf : Nat → Nat) (resp : Nat → CANMsg) (M k j : Nat) (hk : k < M)
    (hj : j < segLen resp k) :
    uploaded buf resp M (segOff resp k + j) = (resp (k + 1)).payload (1 + j) := by
  induction M with
  | zero => omega
  | succ M ih =>
    show (if segOff resp M ≤ segOff resp k + j
        ∧ segOff resp k + j < segOff resp M + segLen resp M then
      (resp (M + 1)).payload (1 + (segOff resp k + j - segOff resp M))
      else uploaded buf resp M (segOff resp k + j)) = _
    by_cases hkM : k = M
    · subst hkM
      rw [if_pos ⟨by omega, by omega⟩]
      congr 2
      omega
    · have h1 : segOff resp (k + 1) ≤ segOff resp M := segOff_mono resp (k + 1) M (by omega)
      have h2 : segOff resp (k + 1) = segOff resp k + segLen resp k := rfl
      rw [if_neg (by omega)]
      exact ih (by omega)

theorem uploaded_rest (buf : Nat → Nat) (resp : Nat → CANMsg) (M i : Nat)
    (hi : segOff resp M ≤ i) : uploaded buf resp M i = buf i := by
  induction M with
  | zero => rfl
  | succ M ih =>
    have h2 : segOff resp (M + 1) = segOff resp M + segLen resp M := rfl
    show (if segOff resp M ≤ i ∧ i < segOff resp M + segLen resp M then
      (resp (M + 1)).payload (1 + (i - segOff resp M)) else uploaded buf resp M i) = _
    rw [if_neg (by omega)]
    exact ih (by omega)

theorem UlInv_first (s : COSDOHandler) (Msg : CANMsg) (P0 : List can_frame_t)
    (init : can_frame_t) (buf : Nat → Nat) (resp : Nat → CANMsg)
    (hS : s.requestedService = COSDORequestType.eSDOReadRequestInit)
    (hT : s.nextToggle = 0) (hD : s.ClientDataPtr = buf)
    (hb : s.Handler.can.busy = false) (hR : s.SDORequestMsg.isRTR = false)
    (hp : s.posted = P0 ++ [init]) (hinit : ctl_cs init.data = SDOInitUploadReq)
    (hcs : ctl_cs Msg.payload = SDOInitUploadResponse)
    (hI : msgIdx Msg.payload = s.requestedIdx) (hSub : msgSubIdx Msg.payload = s.requestedSub)
    (he : ctl_e Msg.payload = 0) (hs : ctl_s Msg.payload = 1) :
    UlInv P0 buf resp 0 (s.onResponse Msg) := by
  rw [onResponse_eq, OnRxHandler_uploadInit s.afterTxComplete Msg hS hcs]
  obtain ⟨h1, h2, h3, h4, h5, h6, h7, h8, h9, h10⟩ :=
    onUploadInitResp_seg s.afterTxComplete Msg.payload (txReady_afterTxComplete s hb) hR hI hSub
      he hs
  simp only [afterTxComplete_ClientDataPtr, afterTxComplete_posted, afterTxComplete_nextToggle,
    hD, hT, hp] at h4 h5 h8 h10
  unfold UlInv
  refine ⟨h1, h2, h3, h4, h5, h6, h7, h9, init,
    [frameOf (s.afterTxComplete.onUploadInitResp Msg.payload).SDORequestMsg], ?_, hinit, rfl, ?_⟩
  · rw [h8]; simp
  · intro k f hk
    have hk0 : k = 0 := by
      rcases k with _ | k
      · rfl
      · simp at hk
    subst hk0
    simp only [List.getElem?_cons_zero, Option.some.injEq] at hk
    subst hk
    exact ⟨h9, h10⟩

theorem UlInv_step (s : COSDOHandler) (P0 : List can_frame_t) (buf : Nat → Nat)
    (resp : Nat → CANMsg) (m : Nat) (hinv : UlInv P0 buf resp m s)
    (hcs : ctl_cs (resp (m + 1)).payload = SDOUploadSegResp)
    (ht : seg_t (resp (m + 1)).payload = m % 2) (hc : seg_c (resp (m + 1)).payload = 0)
    (h32 : segOff resp (m + 1) < 2 ^ 32) :
    UlInv P0 buf resp (m + 1) (s.onResponse (resp (m + 1))) := by
  obtain ⟨_, hS, hA, hT, hD, hb, hR, hcq, init, reqs, hp, hinit, hlen, hreq⟩ := hinv
  rw [onResponse_eq, OnRxHandler_uploadSeg s.afterTxComplete _ hS hcs]
  obtain ⟨h1, h2, h3, h4, h5, h6, h7, h8, h9, h10⟩ :=
    onUploadSegResp_more s.afterTxComplete (resp (m + 1)).payload (txReady_afterTxComplete s hb)
      hR (by rw [afterTxComplete_nextToggle, hT, ht])
      hc (by rw [afterTxComplete_ActRxTxLen, hA]; exact h32)
  simp only [afterTxComplete_ClientDataPtr, afterTxComplete_posted, afterTxComplete_nextToggle,
    afterTxComplete_ActRxTxLen, afterTxComplete_requestedService, afterTxComplete_SDOReqData,
    hD, hT, hp, hA, hS, hcq] at h2 h3 h4 h5 h8 h9 h10
  unfold UlInv
  refine ⟨h1, h2, h3, ?_, h5, h6, h7, h9, init,
    reqs ++ [frameOf (s.afterTxComplete.onUploadSegResp (resp (m + 1)).payload).SDORequestMsg],
    ?_, hinit, ?_, ?_⟩
  · rw [h4]
    split_ifs <;> omega
  · rw [h8]; simp
  · simp [hlen]
  · intro k f hk
    by_cases hkm : k < m + 1
    · rw [List.getElem?_append_left (by omega)] at hk
      exact hreq k f hk
    · have hkeq : k = m + 1 := by
        by_contra hne
        rw [List.getElem?_eq_none (by simp [hlen]; omega)] at hk
        cases hk
      subst hkeq
      rw [List.getElem?_append_right (by omega)] at hk
      simp only [hlen, Nat.sub_self, List.getElem?_cons_zero, Option.some.injEq] at hk
      subst hk
      refine ⟨h9, ?_⟩
      rw [show seg_t (frameOf _).data = _ from h10]
      split_ifs <;> omega

theorem UlInv_last (s : COSDOHandler) (P0 : List can_frame_t) (buf : Nat → Nat)
    (resp : Nat → CANMsg) (m : Nat) (hinv : UlInv P0 buf resp m s)
    (hcs : ctl_cs (resp (m + 1)).payload = SDOUploadSegResp)
    (ht : seg_t (resp (m + 1)).payload = m % 2) (hc : seg_c (resp (m + 1)).payload = 1)
    (h32 : segOff resp (m + 1) < 2 ^ 32) :
    (s.onResponse (resp (m + 1))).SDORxTxState = COSDOCommStates.eCO_SDODone
      ∧ (s.onResponse (resp (m + 1))).ActRxTxLen = segOff resp (m + 1)
      ∧ (s.onResponse (resp (m + 1))).ClientDataPtr = uploaded buf resp (m + 1)
      ∧ (s.onResponse (resp (m + 1))).posted = s.posted := by
  obtain ⟨_, hS, hA, hT, hD, hb, hR, hcq, _⟩ := hinv
  rw [onResponse_eq, OnRxHandler_uploadSeg s.afterTxComplete _ hS hcs]
  obtain ⟨h1, h2, h3, h4⟩ :=
    onUploadSegResp_last s.afterTxComplete (resp (m + 1)).payload
      (by rw [afterTxComplete_nextToggle, hT, ht])
      hc (by rw [afterTxComplete_ActRxTxLen, hA]; exact h32)
  simp only [afterTxComplete_ClientDataPtr, afterTxComplete_posted,
    afterTxComplete_ActRxTxLen, hD, hA] at h2 h3 h4
  exact ⟨h1, h2, h3, h4⟩

theorem UlInv_run (s1 : COSDOHandler) (resp : Nat → CANMsg) (P0 : List can_frame_t)
    (init : can_frame_t) (buf : Nat → Nat) (K : Nat)
    (hS : s1.requestedService = COSDORequestType.eSDOReadRequestInit)
    (hT : s1.nextToggle = 0) (hD : s1.ClientDataPtr = buf)
    (hb : s1.Handler.can.busy = false) (hR : s1.SDORequestMsg.isRTR = false)
    (hp : s1.posted = P0 ++ [init]) (hinit : ctl_cs init.data = SDOInitUploadReq)
    (hcs : ctl_cs (resp 0).payload = SDOInitUploadResponse)
    (hI : msgIdx (resp 0).payload = s1.requestedIdx)
    (hSub : msgSubIdx (resp 0).payload = s1.requestedSub)
    (he : ctl_e (resp 0).payload = 0) (hs : ctl_s (resp 0).payload = 1)
    (hseg : ∀ k, k ≤ K → ctl_cs (resp (k + 1)).payload = SDOUploadSegResp
      ∧ seg_t (resp (k + 1)).payload = k % 2)
    (hc0 : ∀ k, k < K → seg_c (resp (k + 1)).payload = 0)
    (h32 : segOff resp (K + 1) < 2 ^ 32) :
    ∀ m, m ≤ K → UlInv P0 buf resp m (s1.feed resp (m + 1)) := by
  intro m
  induction m with
  | zero =>
    intro _
    exact UlInv_first s1 (resp 0) P0 init buf resp hS hT hD hb hR hp hinit hcs hI hSub he hs
  | succ m ih =>
    intro hm
    have hmono := segOff_mono resp (m + 1) (K + 1) (by omega)
    exact UlInv_step _ P0 buf resp m (ih (by omega)) (hseg m (by omega)).1
      (hseg m (by omega)).2 (hc0 m (by omega)) (by omega)

theorem ReadSDO_done (s : COSDOHandler) (Idx SubIdx : Nat) (dataptr : Nat → Nat)
    (length : Nat) (h : s.SDORxTxState = COSDOCommStates.eCO_SDODone) :
    (s.ReadSDO Idx SubIdx dataptr length).2 = s.ActRxTxLen := by
  unfold COSDOHandler.ReadSDO
  rw [h]

theorem ctl_n_lt (p : Nat → Nat) : ctl_n p < 4 := by
  unfold ctl_n getBits
  exact Nat.mod_lt _ (by norm_num)

/-! ## Calls of `ReadSDO` and `WriteSDO` while the transmitter takes no frame -/

theorem SendMsg_blocked (h : COMsgHandler) (msg : CANMsg)
    (hB : h.TxStatus ≠ COTxStatus.eCOTxIdle ∨ h.can.busy = true) :
    (h.SendMsg msg).1 = false ∧ (h.SendMsg msg).2.can.posted = h.can.posted
      ∧ ((h.SendMsg msg).2.TxStatus ≠ COTxStatus.eCOTxIdle
          ∨ (h.SendMsg msg).2.can.busy = true) := by
  unfold COMsgHandler.SendMsg UNOR4CAN.send
  by_cases h1 : h.TxStatus = COTxStatus.eCOTxIdle
  · have h2 : h.can.busy = true := by
      rcases hB with hB | hB
      · exact absurd h1 hB
      · exact hB
    simp [h1, h2]
  · simp [h1]

theorem caseRetry_blocked (s : COSDOHandler) (hB : s.txBlocked) :
    s.caseRetry.SDORxTxState
        = (if (s.BusyRetryCounter + 1) % 256 > s.BusyRetryMax
            then COSDOCommStates.eCO_SDOError else COSDOCommStates.eCO_SDORetry)
      ∧ s.caseRetry.BusyRetryCounter = (s.BusyRetryCounter + 1) % 256
      ∧ s.caseRetry.BusyRetryMax = s.BusyRetryMax
      ∧ s.caseRetry.posted = s.posted
      ∧ s.caseRetry.txBlocked := by
  obtain ⟨a, b, c⟩ := SendMsg_blocked s.Handler s.SDORequestMsg hB
  unfold COSDOHandler.caseRetry COSDOHandler.SendRequest COSDOHandler.txBlocked
    COSDOHandler.posted
  simp only [a, Bool.false_eq_true, if_false]
  by_cases hc : (s.BusyRetryCounter + 1) % 256 > s.BusyRetryMax
  · rw [if_pos hc, if_pos hc]
    exact ⟨rfl, rfl, rfl, b, c⟩
  · rw [if_neg hc, if_neg hc]
    exact ⟨rfl, rfl, rfl, b, c⟩

theorem ReadSDO_of_idle_blocked (s : COSDOHandler) (Idx SubIdx : Nat) (dataptr : Nat → Nat)
    (length : Nat) (hIdle : s.SDORxTxState = COSDOCommStates.eCO_SDOIdle)
    (hB : s.txBlocked) :
    (s.ReadSDO Idx SubIdx dataptr length).1.SDORxTxState
        = (if (s.BusyRetryCounter + 1) % 256 > s.BusyRetryMax
            then COSDOCommStates.eCO_SDOError else COSDOCommStates.eCO_SDORetry)
      ∧ (s.ReadSDO Idx SubIdx dataptr length).1.BusyRetryCounter
          = (s.BusyRetryCounter + 1) % 256
      ∧ (s.ReadSDO Idx SubIdx dataptr length).1.BusyRetryMax = s.BusyRetryMax
      ∧ (s.ReadSDO Idx SubIdx dataptr length).1.posted = s.posted
      ∧ (s.ReadSDO Idx SubIdx dataptr length).1.txBlocked := by
  unfold COSDOHandler.ReadSDO
  rw [hIdle]
  exact caseRetry_blocked _ hB

theorem ReadSDO_of_retry (s : COSDOHandler) (Idx SubIdx : Nat) (dataptr : Nat → Nat)
    (length : Nat) (h : s.SDORxTxState = COSDOCommStates.eCO_SDORetry) :
    (s.ReadSDO Idx SubIdx dataptr length).1 = s.caseRetry := by
  unfold COSDOHandler.ReadSDO
  rw [h]

theorem ReadSDO_of_error (s : COSDOHandler) (Idx SubIdx : Nat) (dataptr : Nat → Nat)
    (length : Nat) (h : s.SDORxTxState = COSDOCommStates.eCO_SDOError) :
    s.ReadSDO Idx SubIdx dataptr length = (s, length) := by
  unfold COSDOHandler.ReadSDO
  rw [h]

theorem WriteSDO_of_idle_blocked (s : COSDOHandler) (Idx SubIdx : Nat) (Data : Nat → Nat)
    (len : Nat) (hIdle : s.SDORxTxState = COSDOCommStates.eCO_SDOIdle)
    (hB : s.txBlocked) :
    (s.WriteSDO Idx SubIdx Data len).SDORxTxState
        = (if (s.BusyRetryCounter + 1) % 256 > s.BusyRetryMax
            then COSDOCommStates.eCO_SDOError else COSDOCommStates.eCO_SDORetry)
      ∧ (s.WriteSDO Idx SubIdx Data len).BusyRetryCounter = (s.BusyRetryCounter + 1) % 256
      ∧ (s.WriteSDO Idx SubIdx Data len).BusyRetryMax = s.BusyRetryMax
      ∧ (s.WriteSDO Idx SubIdx Data len).posted = s.posted
      ∧ (s.WriteSDO Idx SubIdx Data len).txBlocked := by
  unfold COSDOHandler.WriteSDO
  rw [hIdle]
  dsimp only
  by_cases h : len ≤ 4
  · rw [if_pos h]
    exact caseRetry_blocked _ hB
  · rw [if_neg h]
    exact caseRetry_blocked _ hB

theorem WriteSDO_of_retry (s : COSDOHandler) (Idx SubIdx : Nat) (Data : Nat → Nat)
    (len : Nat) (h : s.SDORxTxState = COSDOCommStates.eCO_SDORetry) :
    s.WriteSDO Idx SubIdx Data len = s.caseRetry := by
  unfold COSDOHandler.WriteSDO
  rw [h]

theorem WriteSDO_of_error (s : COSDOHandler) (Idx SubIdx : Nat) (Data : Nat → Nat)
    (len : Nat) (h : s.SDORxTxState = COSDOCommStates.eCO_SDOError) :
    s.WriteSDO Idx SubIdx Data len = s := by
  unfold COSDOHandler.WriteSDO
  rw [h]

/-- While the transmitter takes no frame, call `k ≥ 1` of `ReadSDO` from a reset client
leaves the busy counter at `k` and the state at Retry as long as `k ≤ BusyRetryMax`. -/
theorem readCalls_blocked (s : COSDOHandler) (Idx SubIdx : Nat) (dataptr : Nat → Nat)
    (length : Nat) (hIdle : s.SDORxTxState = COSDOCommStates.eCO_SDOIdle)
    (hC : s.BusyRetryCounter = 0) (hB : s.txBlocked) (hmax : s.BusyRetryMax ≤ 255) :
    ∀ k, k ≤ s.BusyRetryMax →
      (k = 0 ∨ (s.readCalls Idx SubIdx dataptr length k).SDORxTxState
        = COSDOCommStates.eCO_SDORetry)
      ∧ (s.readCalls Idx SubIdx dataptr length k).BusyRetryCounter = k
      ∧ (s.readCalls Idx SubIdx dataptr length k).BusyRetryMax = s.BusyRetryMax
      ∧ (s.readCalls Idx SubIdx dataptr length k).posted = s.posted
      ∧ (s.readCalls Idx SubIdx dataptr length k).txBlocked := by
  intro k
  induction k with
  | zero =>
    intro _
    exact ⟨Or.inl rfl, hC, rfl, rfl, hB⟩
  | succ k ih =>
    intro hk
    obtain ⟨i1, i2, i3, i4, i5⟩ := ih (by omega)
    have hmod : (k + 1) % 256 = k + 1 := Nat.mod_eq_of_lt (by omega)
    show (_ ∨ ((COSDOHandler.readCalls s Idx SubIdx dataptr length k).ReadSDO
      Idx SubIdx dataptr length).1.SDORxTxState = _) ∧
      ((COSDOHandler.readCalls s Idx SubIdx dataptr length k).ReadSDO
        Idx SubIdx dataptr length).1.BusyRetryCounter = _ ∧
      ((COSDOHandler.readCalls s Idx SubIdx dataptr length k).ReadSDO
        Idx SubIdx dataptr length).1.BusyRetryMax = _ ∧
      ((COSDOHandler.readCalls s Idx SubIdx dataptr length k).ReadSDO
        Idx SubIdx dataptr length).1.posted = _ ∧
      ((COSDOHandler.readCalls s Idx SubIdx dataptr length k).ReadSDO
        Idx SubIdx dataptr length).1.txBlocked
    have key : ∀ t : COSDOHandler,
        t.SDORxTxState
            = (if (k + 1) % 256 > s.BusyRetryMax
                then COSDOCommStates.eCO_SDOError else COSDOCommStates.eCO_SDORetry)
          ∧ t.BusyRetryCounter = (k + 1) % 256 ∧ t.BusyRetryMax = s.BusyRetryMax
          ∧ t.posted = s.posted ∧ t.txBlocked →
        (k + 1 = 0 ∨ t.SDORxTxState = COSDOCommStates.eCO_SDORetry)
          ∧ t.BusyRetryCounter = k + 1 ∧ t.BusyRetryMax = s.BusyRetryMax
          ∧ t.posted = s.posted ∧ t.txBlocked := by
      intro t ⟨a, b, c, d, e⟩
      rw [hmod] at a b
      rw [if_neg (by omega)] at a
      exact ⟨Or.inr a, b, c, d, e⟩
    apply key
    rcases i1 with rfl | i1
    · have := ReadSDO_of_idle_blocked s Idx SubIdx dataptr length hIdle hB
      rw [hC] at this
      exact this
    · rw [ReadSDO_of_retry _ _ _ _ _ i1]
      have := caseRetry_blocked _ i5
      rw [i2, i3, i4] at this
      exact this

theorem readCalls_last (s : COSDOHandler) (Idx SubIdx : Nat) (dataptr : Nat → Nat)
    (length : Nat) (hIdle : s.SDORxTxState = COSDOCommStates.eCO_SDOIdle)
    (hC : s.BusyRetryCounter = 0) (hB : s.txBlocked) (hmax : s.BusyRetryMax < 255) :
    (s.readCalls Idx SubIdx dataptr length (s.BusyRetryMax + 1)).SDORxTxState
        = COSDOCommStates.eCO_SDOError
      ∧ (s.readCalls Idx SubIdx dataptr length (s.BusyRetryMax + 1)).posted = s.posted := by
  obtain ⟨i1, i2, i3, i4, i5⟩ :=
    readCalls_blocked s Idx SubIdx dataptr length hIdle hC hB (by omega) s.BusyRetryMax
      (le_refl _)
  have hmod : (s.BusyRetryMax + 1) % 256 = s.BusyRetryMax + 1 := Nat.mod_eq_of_lt (by omega)
  show ((COSDOHandler.readCalls s Idx SubIdx dataptr length s.BusyRetryMax).ReadSDO
      Idx SubIdx dataptr length).1.SDORxTxState = _ ∧
    ((COSDOHandler.readCalls s Idx SubIdx dataptr length s.BusyRetryMax).ReadSDO
      Idx SubIdx dataptr length).1.posted = _
  have key : ∀ t : COSDOHandler,
      t.SDORxTxState
          = (if (s.BusyRetryMax + 1) % 256 > s.BusyRetryMax
              then COSDOCommStates.eCO_SDOError else COSDOCommStates.eCO_SDORetry)
        ∧ t.BusyRetryCounter = (s.BusyRetryMax + 1) % 256 ∧ t.BusyRetryMax = s.BusyRetryMax
        ∧ t.posted = s.posted ∧ t.txBlocked →
      t.SDORxTxState = COSDOCommStates.eCO_SDOError ∧ t.posted = s.posted := by
    intro t ⟨a, _, _, d, _⟩
    rw [hmod, if_pos (by omega)] at a
    exact ⟨a, d⟩
  apply key
  rcases i1 with h0 | i1
  · have := ReadSDO_of_idle_blocked s Idx SubIdx dataptr length hIdle hB
    rw [hC] at this
    rw [h0]
    rw [h0] at this
    exact this
  · rw [ReadSDO_of_retry _ _ _ _ _ i1]
    have := caseRetry_blocked _ i5
    rw [i2, i3, i4] at this
    exact this

theorem readCalls_error_stays (s : COSDOHandler) (Idx SubIdx : Nat) (dataptr : Nat → Nat)
    (length j : Nat)
    (h : (s.readCalls Idx SubIdx dataptr length j).SDORxTxState
      = COSDOCommStates.eCO_SDOError) :
    ∀ d, s.readCalls Idx SubIdx dataptr length (j + d)
      = s.readCalls Idx SubIdx dataptr length j := by
  intro d
  induction d with
  | zero => rfl
  | succ d ih =>
    show ((COSDOHandler.readCalls s Idx SubIdx dataptr length (j + d)).ReadSDO
      Idx SubIdx dataptr length).1 = _
    rw [ih, ReadSDO_of_error _ _ _ _ _ h]

/-- While the transmitter takes no frame, call `k ≥ 1` of `WriteSDO` from a reset client
leaves the busy counter at `k` and the state at Retry as long as `k ≤ BusyRetryMax`. -/
theorem writeCalls_blocked (s : COSDOHandler) (Idx SubIdx : Nat) (dataptr : Nat → Nat)
    (length : Nat) (hIdle : s.SDORxTxState = COSDOCommStates.eCO_SDOIdle)
    (hC : s.BusyRetryCounter = 0) (hB : s.txBlocked) (hmax : s.BusyRetryMax ≤ 255) :
    ∀ k, k ≤ s.BusyRetryMax →
      (k = 0 ∨ (s.writeCalls Idx SubIdx dataptr length k).SDORxTxState
        = COSDOCommStates.eCO_SDORetry)
      ∧ (s.writeCalls Idx SubIdx dataptr length k).BusyRetryCounter = k
      ∧ (s.writeCalls Idx SubIdx dataptr length k).BusyRetryMax = s.BusyRetryMax
      ∧ (s.writeCalls Idx SubIdx dataptr length k).posted = s.posted
      ∧ (s.writeCalls Idx SubIdx dataptr length k).txBlocked := by
  intro k
  induction k with
  | zero =>
    intro _
    exact ⟨Or.inl rfl, hC, rfl, rfl, hB⟩
  | succ k ih =>
    intro hk
    obtain ⟨i1, i2, i3, i4, i5⟩ := ih (by omega)
    have hmod : (k + 1) % 256 = k + 1 := Nat.mod_eq_of_lt (by omega)
    show (_ ∨ ((COSDOHandler.writeCalls s Idx SubIdx dataptr length k).WriteSDO
      Idx SubIdx dataptr length).SDORxTxState = _) ∧
      ((COSDOHandler.writeCalls s Idx SubIdx dataptr length k).WriteSDO
        Idx SubIdx dataptr length).BusyRetryCounter = _ ∧
      ((COSDOHandler.writeCalls s Idx SubIdx dataptr length k).WriteSDO
        Idx SubIdx dataptr length).BusyRetryMax = _ ∧
      ((COSDOHandler.writeCalls s Idx SubIdx dataptr length k).WriteSDO
        Idx SubIdx dataptr length).posted = _ ∧
      ((COSDOHandler.writeCalls s Idx SubIdx dataptr length k).WriteSDO
        Idx SubIdx dataptr length).txBlocked
    have key : ∀ t : COSDOHandler,
        t.SDORxTxState
            = (if (k + 1) % 256 > s.BusyRetryMax
                then COSDOCommStates.eCO_SDOError else COSDOCommStates.eCO_SDORetry)
          ∧ t.BusyRetryCounter = (k + 1) % 256 ∧ t.BusyRetryMax = s.BusyRetryMax
          ∧ t.posted = s.posted ∧ t.txBlocked →
        (k + 1 = 0 ∨ t.SDORxTxState = COSDOCommStates.eCO_SDORetry)
          ∧ t.BusyRetryCounter = k + 1 ∧ t.BusyRetryMax = s.BusyRetryMax
          ∧ t.posted = s.posted ∧ t.txBlocked := by
      intro t ⟨a, b, c, d, e⟩
      rw [hmod] at a b
      rw [if_neg (by omega)] at a
      exact ⟨Or.inr a, b, c, d, e⟩
    apply key
    rcases i1 with rfl | i1
    · have := WriteSDO_of_idle_blocked s Idx SubIdx dataptr length hIdle hB
      rw [hC] at this
      exact this
    · rw [WriteSDO_of_retry _ _ _ _ _ i1]
      have := caseRetry_blocked _ i5
      rw [i2, i3, i4] at this
      exact this

theorem writeCalls_last (s : COSDOHandler) (Idx SubIdx : Nat) (dataptr : Nat → Nat)
    (length : Nat) (hIdle : s.SDORxTxState = COSDOCommStates.eCO_SDOIdle)
    (hC : s.BusyRetryCounter = 0) (hB : s.txBlocked) (hmax : s.BusyRetryMax < 255) :
    (s.writeCalls Idx SubIdx dataptr length (s.BusyRetryMax + 1)).SDORxTxState
        = COSDOCommStates.eCO_SDOError
      ∧ (s.writeCalls Idx SubIdx dataptr length (s.BusyRetryMax + 1)).posted = s.posted := by
  obtain ⟨i1, i2, i3, i4, i5⟩ :=
    writeCalls_blocked s Idx SubIdx dataptr length hIdle hC hB (by omega) s.BusyRetryMax
      (le_refl _)
  have hmod : (s.BusyRetryMax + 1) % 256 = s.BusyRetryMax + 1 := Nat.mod_eq_of_lt (by omega)
  show ((COSDOHandler.writeCalls s Idx SubIdx dataptr length s.BusyRetryMax).WriteSDO
      Idx SubIdx dataptr length).SDORxTxState = _ ∧
    ((COSDOHandler.writeCalls s Idx SubIdx dataptr length s.BusyRetryMax).WriteSDO
      Idx SubIdx dataptr length).posted = _
  have key : ∀ t : COSDOHandler,
      t.SDORxTxState
          = (if (s.BusyRetryMax + 1) % 256 > s.BusyRetryMax
              then COSDOCommStates.eCO_SDOError else COSDOCommStates.eCO_SDORetry)
        ∧ t.BusyRetryCounter = (s.BusyRetryMax + 1) % 256 ∧ t.BusyRetryMax = s.BusyRetryMax
        ∧ t.posted = s.posted ∧ t.txBlocked →
      t.SDORxTxState = COSDOCommStates.eCO_SDOError ∧ t.posted = s.posted := by
    intro t ⟨a, _, _, d, _⟩
    rw [hmod, if_pos (by omega)] at a
    exact ⟨a, d⟩
  apply key
  rcases i1 with h0 | i1
  · have := WriteSDO_of_idle_blocked s Idx SubIdx dataptr length hIdle hB
    rw [hC] at this
    rw [h0]
    rw [h0] at this
    exact this
  · rw [WriteSDO_of_retry _ _ _ _ _ i1]
    have := caseRetry_blocked _ i5
    rw [i2, i3, i4] at this
    exact this

theorem writeCalls_error_stays (s : COSDOHandler) (Idx SubIdx : Nat) (dataptr : Nat → Nat)
    (length j : Nat)
    (h : (s.writeCalls Idx SubIdx dataptr length j).SDORxTxState
      = COSDOCommStates.eCO_SDOError) :
    ∀ d, s.writeCalls Idx SubIdx dataptr length (j + d)
      = s.writeCalls Idx SubIdx dataptr length j := by
  intro d
  induction d with
  | zero => rfl
  | succ d ih =>
    show ((COSDOHandler.writeCalls s Idx SubIdx dataptr length (j + d)).WriteSDO
      Idx SubIdx dataptr length) = _
    rw [ih, WriteSDO_of_error _ _ _ _ _ h]

theorem readCalls_succ (s : COSDOHandler) (Idx SubIdx : Nat) (dataptr : Nat → Nat)
    (length k : Nat) :
    s.readCalls Idx SubIdx dataptr length (k + 1)
      = ((s.readCalls Idx SubIdx dataptr length k).ReadSDO Idx SubIdx dataptr length).1 := rfl

/-! ## Zero-length upload, time-outs, vectors of objects -/

theorem onUploadInitResp_expected (s : COSDOHandler) (R : Nat → Nat)
    (hI : msgIdx R = s.requestedIdx) (hSub : msgSubIdx R = s.requestedSub)
    (he : ctl_e R = 0) (hs : ctl_s R = 1) :
    (s.onUploadInitResp R).ExpectedRxTxLen = msgU32 R := by
  have he' : ¬ (ctl_e R = 1 ∧ ctl_s R = 1) := by
    rw [he]; simp
  unfold COSDOHandler.onUploadInitResp
  rw [if_pos ⟨hI, hSub⟩, if_neg he', if_pos ⟨he, hs⟩]
  unfold COSDOHandler.sendSegment COSDOHandler.SendRequest
  dsimp only
  split_ifs <;> rfl

theorem caseRetry_cursor (s : COSDOHandler) :
    s.caseRetry.RWObjectsAccessStep = s.RWObjectsAccessStep := by
  unfold COSDOHandler.caseRetry COSDOHandler.SendRequest
  dsimp only
  split_ifs <;> rfl

theorem ReadSDO_cursor (s : COSDOHandler) (Idx SubIdx : Nat) (dataptr : Nat → Nat)
    (length : Nat) :
    (s.ReadSDO Idx SubIdx dataptr length).1.RWObjectsAccessStep = s.RWObjectsAccessStep := by
  unfold COSDOHandler.ReadSDO
  cases s.SDORxTxState <;> first | rfl | exact caseRetry_cursor _

theorem WriteSDO_cursor (s : COSDOHandler) (Idx SubIdx : Nat) (Data : Nat → Nat)
    (len : Nat) :
    (s.WriteSDO Idx SubIdx Data len).RWObjectsAccessStep = s.RWObjectsAccessStep := by
  unfold COSDOHandler.WriteSDO
  cases s.SDORxTxState <;> first
    | rfl
    | exact caseRetry_cursor _
    | (dsimp only
       split_ifs <;> exact caseRetry_cursor _)

/-! ## The response timer -/

theorem SetActTime_fires (s : COSDOHandler) (t : Nat) (hT : s.isTimerActive = true)
    (hlt : (s.RequestSentAt + SDORespTimeOut) % 2 ^ 32 < t)
    (hc : s.TORetryCounter < s.TORetryMax) :
    s.SetActTime t = { s with
      actTime := t
      SDORxTxState := COSDOCommStates.eCO_SDORetry
      TORetryCounter := (s.TORetryCounter + 1) % 256
      isTimerActive := false } := by
  unfold COSDOHandler.SetActTime COSDOHandler.OnTimeOut
  dsimp only
  rw [if_pos ⟨hT, hlt⟩, if_pos hc]

theorem SetActTime_fires_last (s : COSDOHandler) (t : Nat) (hT : s.isTimerActive = true)
    (hlt : (s.RequestSentAt + SDORespTimeOut) % 2 ^ 32 < t)
    (hc : ¬ s.TORetryCounter < s.TORetryMax) :
    s.SetActTime t = { s with
      actTime := t
      SDORxTxState := COSDOCommStates.eCO_SDOTimeout
      TORetryCounter := 0
      isTimerActive := false } := by
  unfold COSDOHandler.SetActTime COSDOHandler.OnTimeOut
  dsimp only
  rw [if_pos ⟨hT, hlt⟩, if_neg hc]

theorem SetActTime_quiet (s : COSDOHandler) (t : Nat)
    (h : ¬ (s.isTimerActive = true ∧ (s.RequestSentAt + SDORespTimeOut) % 2 ^ 32 < t)) :
    s.SetActTime t = { s with actTime := t } := by
  unfold COSDOHandler.SetActTime
  dsimp only
  rw [if_neg h]

theorem ReadSDO_of_timeout (s : COSDOHandler) (Idx SubIdx : Nat) (dataptr : Nat → Nat)
    (length : Nat) (h : s.SDORxTxState = COSDOCommStates.eCO_SDOTimeout) :
    s.ReadSDO Idx SubIdx dataptr length = (s, length) := by
  unfold COSDOHandler.ReadSDO
  rw [h]

theorem ReadSDO_idle_full (s : COSDOHandler) (Idx SubIdx : Nat) (dataptr : Nat → Nat)
    (length : Nat) (hIdle : s.SDORxTxState = COSDOCommStates.eCO_SDOIdle) (hTx : s.txReady)
    (hR : s.SDORequestMsg.isRTR = false) :
    (s.ReadSDO Idx SubIdx dataptr length).1.SDORxTxState = COSDOCommStates.eCO_SDOWaiting
      ∧ (s.ReadSDO Idx SubIdx dataptr length).1.isTimerActive = true
      ∧ (s.ReadSDO Idx SubIdx dataptr length).1.RequestSentAt = s.actTime
      ∧ (s.ReadSDO Idx SubIdx dataptr length).1.TORetryCounter = s.TORetryCounter
      ∧ (s.ReadSDO Idx SubIdx dataptr length).1.TORetryMax = s.TORetryMax
      ∧ (s.ReadSDO Idx SubIdx dataptr length).1.posted.length = s.posted.length + 1
      ∧ (s.ReadSDO Idx SubIdx dataptr length).1.Handler.can.busy = false
      ∧ (s.ReadSDO Idx SubIdx dataptr length).1.SDORequestMsg.isRTR = false := by
  unfold COSDOHandler.ReadSDO
  rw [hIdle]
  dsimp only
  rw [caseRetry_ready]
  · refine ⟨rfl, rfl, rfl, rfl, rfl, ?_, hTx.2, hR⟩
    simp [COSDOHandler.posted]
  exacts [hTx, hR]

theorem caseRetry_ready_full (s : COSDOHandler) (hTx : s.txReady)
    (hR : s.SDORequestMsg.isRTR = false) :
    s.caseRetry.SDORxTxState = COSDOCommStates.eCO_SDOWaiting
      ∧ s.caseRetry.isTimerActive = true
      ∧ s.caseRetry.RequestSentAt = s.actTime
      ∧ s.caseRetry.TORetryCounter = s.TORetryCounter
      ∧ s.caseRetry.TORetryMax = s.TORetryMax
      ∧ s.caseRetry.posted.length = s.posted.length + 1
      ∧ s.caseRetry.Handler.can.busy = false
      ∧ s.caseRetry.SDORequestMsg.isRTR = false := by
  rw [caseRetry_ready s hTx hR]
  refine ⟨rfl, rfl, rfl, rfl, rfl, ?_, hTx.2, hR⟩
  simp [COSDOHandler.posted]

theorem pollRead_succ (s : COSDOHandler) (Idx SubIdx : Nat) (dataptr : Nat → Nat)
    (length : Nat) (now : Nat → Nat) (k : Nat) :
    s.pollRead Idx SubIdx dataptr length now (k + 1)
      = (((s.pollRead Idx SubIdx dataptr length now k).afterTxComplete.SetActTime
          (now k)).ReadSDO Idx SubIdx dataptr length).1 := rfl

theorem pollRead_waiting (s : COSDOHandler) (Idx SubIdx : Nat) (dataptr : Nat → Nat)
    (length : Nat) (now : Nat → Nat)
    (hIdle : s.SDORxTxState = COSDOCommStates.eCO_SDOIdle)
    (hT : s.isTimerActive = false) (hC : s.TORetryCounter = 0)
    (hmax : s.TORetryMax ≤ 255) (hb : s.Handler.can.busy = false)
    (hR : s.SDORequestMsg.isRTR = false)
    (hstep : ∀ k, now k + 20 < now (k + 1)) (h32 : ∀ k, now k + 20 < 2 ^ 32) :
    ∀ k, k ≤ s.TORetryMax →
      (s.pollRead Idx SubIdx dataptr length now (k + 1)).SDORxTxState
          = COSDOCommStates.eCO_SDOWaiting
      ∧ (s.pollRead Idx SubIdx dataptr length now (k + 1)).isTimerActive = true
      ∧ (s.pollRead Idx SubIdx dataptr length now (k + 1)).RequestSentAt = now k
      ∧ (s.pollRead Idx SubIdx dataptr length now (k + 1)).TORetryCounter = k
      ∧ (s.pollRead Idx SubIdx dataptr length now (k + 1)).TORetryMax = s.TORetryMax
      ∧ (s.pollRead Idx SubIdx dataptr length now (k + 1)).posted.length
          = s.posted.length + k + 1
      ∧ (s.pollRead Idx SubIdx dataptr length now (k + 1)).Handler.can.busy = false
      ∧ (s.pollRead Idx SubIdx dataptr length now (k + 1)).SDORequestMsg.isRTR = false := by
  intro k
  induction k with
  | zero =>
    intro _
    have hq : s.afterTxComplete.SetActTime (now 0)
        = { s.afterTxComplete with actTime := now 0 } :=
      SetActTime_quiet _ _ (by
        rintro ⟨h, _⟩
        rw [afterTxComplete_isTimerActive, hT] at h
        cases h)
    rw [pollRead_succ, show s.pollRead Idx SubIdx dataptr length now 0 = s from rfl, hq]
    obtain ⟨a1, a2, a3, a4, a5, a6, a7, a8⟩ :=
      ReadSDO_idle_full ({ s.afterTxComplete with actTime := now 0 } : COSDOHandler)
        Idx SubIdx dataptr length hIdle ⟨rfl, hb⟩ hR
    exact ⟨a1, a2, a3, a4.trans hC, a5, a6, a7, a8⟩
  | succ k ih =>
    intro hk
    obtain ⟨i1, i2, i3, i4, i5, i6, i7, i8⟩ := ih (by omega)
    rw [pollRead_succ]
    generalize s.pollRead Idx SubIdx dataptr length now (k + 1) = sk at i1 i2 i3 i4 i5 i6 i7 i8
    have hlt : (sk.afterTxComplete.RequestSentAt + SDORespTimeOut) % 2 ^ 32 < now (k + 1) := by
      show (sk.RequestSentAt + 20) % 2 ^ 32 < now (k + 1)
      rw [i3, Nat.mod_eq_of_lt (h32 k)]
      exact hstep k
    have hf := SetActTime_fires sk.afterTxComplete (now (k + 1)) i2 hlt
      (by show sk.TORetryCounter < sk.TORetryMax; omega)
    rw [hf, ReadSDO_of_retry _ _ _ _ _ rfl]
    obtain ⟨a1, a2, a3, a4, a5, a6, a7, a8⟩ :=
      caseRetry_ready_full ({ sk.afterTxComplete with
        actTime := now (k + 1)
        SDORxTxState := COSDOCommStates.eCO_SDORetry
        TORetryCounter := (sk.afterTxComplete.TORetryCounter + 1) % 256
        isTimerActive := false } : COSDOHandler) ⟨rfl, i7⟩ i8
    refine ⟨a1, a2, a3, ?_, a5.trans i5, ?_, a7, a8⟩
    · rw [a4]
      show (sk.TORetryCounter + 1) % 256 = k + 1
      rw [i4]
      exact Nat.mod_eq_of_lt (by omega)
    · rw [a6]
      show sk.posted.length + 1 = _
      omega

/-! ## Vectors of objects -/

theorem caseRetry_not_done (s : COSDOHandler) :
    s.caseRetry.SDORxTxState ≠ COSDOCommStates.eCO_SDODone := by
  unfold COSDOHandler.caseRetry
  dsimp only
  split_ifs <;> exact fun h => COSDOCommStates.noConfusion h

theorem ReadSDO_done_iff (s : COSDOHandler) (Idx SubIdx : Nat) (dataptr : Nat → Nat)
    (length : Nat) :
    (s.ReadSDO Idx SubIdx dataptr length).1.SDORxTxState = COSDOCommStates.eCO_SDODone
      ↔ s.SDORxTxState = COSDOCommStates.eCO_SDODone := by
  unfold COSDOHandler.ReadSDO
  cases h : s.SDORxTxState
  case eCO_SDOIdle =>
    dsimp only
    exact ⟨fun x => absurd x (caseRetry_not_done _), fun x => COSDOCommStates.noConfusion x⟩
  case eCO_SDORetry =>
    dsimp only
    exact ⟨fun x => absurd x (caseRetry_not_done _), fun x => COSDOCommStates.noConfusion x⟩
  all_goals simp [h]

theorem ReadObjects_step (s : COSDOHandler) (Objects : Nat → ODEntry) (n : Nat)
    (hn : n ≤ 255) (hk : s.RWObjectsAccessStep < n) :
    ((s.ReadObjects Objects n).2.2 = COSDOCommStates.eCO_SDODone
        ↔ (s.readStep Objects).1.SDORxTxState = COSDOCommStates.eCO_SDODone
          ∧ s.RWObjectsAccessStep + 1 = n)
      ∧ ((s.ReadObjects Objects n).2.2 = COSDOCommStates.eCO_SDOError
        ↔ (s.readStep Objects).1.SDORxTxState = COSDOCommStates.eCO_SDOError)
      ∧ ((s.ReadObjects Objects n).2.2 = COSDOCommStates.eCO_SDODone
        ∨ (s.ReadObjects Objects n).2.2 = COSDOCommStates.eCO_SDOError
        ∨ (s.ReadObjects Objects n).2.2 = COSDOCommStates.eCO_SDOBusy)
      ∧ ((s.readStep Objects).1.SDORxTxState = COSDOCommStates.eCO_SDODone →
          (s.ReadObjects Objects n).1.RWObjectsAccessStep
              = (if s.RWObjectsAccessStep + 1 = n then 0 else s.RWObjectsAccessStep + 1)
          ∧ (s.ReadObjects Objects n).1.SDORxTxState = COSDOCommStates.eCO_SDOIdle
          ∧ (s.ReadObjects Objects n).2.1 = Function.update Objects s.RWObjectsAccessStep
              { Objects s.RWObjectsAccessStep with len := s.ActRxTxLen })
      ∧ ((s.readStep Objects).1.SDORxTxState ≠ COSDOCommStates.eCO_SDODone →
          (s.ReadObjects Objects n).1 = (s.readStep Objects).1
          ∧ (s.ReadObjects Objects n).1.RWObjectsAccessStep = s.RWObjectsAccessStep
          ∧ (s.ReadObjects Objects n).2.1 = Objects) := by
  have hc := ReadSDO_cursor s (Objects s.RWObjectsAccessStep).Idx
    (Objects s.RWObjectsAccessStep).SubIdx (Objects s.RWObjectsAccessStep).Value 0
  have hd := ReadSDO_done_iff s (Objects s.RWObjectsAccessStep).Idx
    (Objects s.RWObjectsAccessStep).SubIdx (Objects s.RWObjectsAccessStep).Value 0
  have hl := ReadSDO_done s (Objects s.RWObjectsAccessStep).Idx
    (Objects s.RWObjectsAccessStep).SubIdx (Objects s.RWObjectsAccessStep).Value 0
  unfold COSDOHandler.ReadObjects COSDOHandler.readStep
  dsimp only
  generalize s.ReadSDO (Objects s.RWObjectsAccessStep).Idx
    (Objects s.RWObjectsAccessStep).SubIdx (Objects s.RWObjectsAccessStep).Value 0 = r
    at hc hd hl
  have hmod : (s.RWObjectsAccessStep + 1) % 256 = s.RWObjectsAccessStep + 1 :=
    Nat.mod_eq_of_lt (by omega)
  rw [hc, hmod]
  by_cases h1 : r.1.SDORxTxState = COSDOCommStates.eCO_SDODone
  · rw [if_pos h1, hl (hd.1 h1)]
    by_cases h2 : s.RWObjectsAccessStep + 1 = n
    · rw [if_pos h2]
      simp [h1, h2, COSDOHandler.ResetComState]
    · rw [if_neg h2]
      simp [h1, h2, COSDOHandler.ResetComState]
  · rw [if_neg h1]
    by_cases h3 : r.1.SDORxTxState = COSDOCommStates.eCO_SDOError
    · rw [if_pos h3]
      simp [h1, h3, hc]
    · rw [if_neg h3]
      simp [h1, h3, hc]

theorem WriteObjects_step (s : COSDOHandler) (Objects : Nat → ODEntry) (n : Nat)
    (hn : n ≤ 255) (hk : s.RWObjectsAccessStep < n) :
    ((s.WriteObjects Objects n).2 = COSDOCommStates.eCO_SDODone
        ↔ (s.writeStep Objects).SDORxTxState = COSDOCommStates.eCO_SDODone
          ∧ s.RWObjectsAccessStep + 1 = n)
      ∧ ((s.WriteObjects Objects n).2 = COSDOCommStates.eCO_SDOError
        ↔ (s.writeStep Objects).SDORxTxState = COSDOCommStates.eCO_SDOError)
      ∧ ((s.WriteObjects Objects n).2 = COSDOCommStates.eCO_SDODone
        ∨ (s.WriteObjects Objects n).2 = COSDOCommStates.eCO_SDOError
        ∨ (s.WriteObjects Objects n).2 = COSDOCommStates.eCO_SDOBusy)
      ∧ ((s.writeStep Objects).SDORxTxState = COSDOCommStates.eCO_SDODone →
          (s.WriteObjects Objects n).1.RWObjectsAccessStep
              = (if s.RWObjectsAccessStep + 1 = n then 0 else s.RWObjectsAccessStep + 1)
          ∧ (s.WriteObjects Objects n).1.SDORxTxState = COSDOCommStates.eCO_SDOIdle)
      ∧ ((s.writeStep Objects).SDORxTxState ≠ COSDOCommStates.eCO_SDODone →
          (s.WriteObjects Objects n).1 = s.writeStep Objects
          ∧ (s.WriteObjects Objects n).1.RWObjectsAccessStep = s.RWObjectsAccessStep) := by
  have hc := WriteSDO_cursor s (Objects s.RWObjectsAccessStep).Idx
    (Objects s.RWObjectsAccessStep).SubIdx (Objects s.RWObjectsAccessStep).Value
    (Objects s.RWObjectsAccessStep).len
  unfold COSDOHandler.WriteObjects COSDOHandler.writeStep
  dsimp only
  generalize s.WriteSDO (Objects s.RWObjectsAccessStep).Idx
    (Objects s.RWObjectsAccessStep).SubIdx (Objects s.RWObjectsAccessStep).Value
    (Objects s.RWObjectsAccessStep).len = r at hc
  have hmod : (s.RWObjectsAccessStep + 1) % 256 = s.RWObjectsAccessStep + 1 :=
    Nat.mod_eq_of_lt (by omega)
  rw [hc, hmod]
  by_cases h1 : r.SDORxTxState = COSDOCommStates.eCO_SDODone
  · rw [if_pos h1]
    by_cases h2 : s.RWObjectsAccessStep + 1 = n
    · rw [if_pos h2]
      simp [h1, h2, COSDOHandler.ResetComState]
    · rw [if_neg h2]
      simp [h1, h2, COSDOHandler.ResetComState]
  · rw [if_neg h1]
    by_cases h3 : r.SDORxTxState = COSDOCommStates.eCO_SDOError
    · rw [if_pos h3]
      simp [h1, h3, hc]
    · rw [if_neg h3]
      simp [h1, h3, hc]

/-! ## The receive ring of the router -/

theorem forCopy_id (p src : Nat → Nat) (n i : Nat) :
    forCopy p (fun i => i) src (fun i => i) n i = if i < n then src i else p i := by
  induction n with
  | zero => rfl
  | succ k ih =>
    simp only [forCopy, Function.update_apply, ih]
    by_cases h1 : i = k
    · subst h1
      simp
    · by_cases h2 : i < k
      · have : i < k + 1 := by omega
        simp [h1, h2, this]
      · have : ¬ i < k + 1 := by omega
        simp [h1, h2, this]

theorem onRxComplete_stored (h : COMsgHandler) (f : can_frame_t) :
    storedAs ((h.onRxComplete f).CORxVector h.CORxNextWrite) f := by
  unfold COMsgHandler.onRxComplete storedAs
  dsimp only
  rw [Function.update_same]
  cases hf : f.type
  · rw [if_neg (by simp)]
    refine ⟨rfl, rfl, by simp, rfl, ?_⟩
    intro _ i hi
    show forCopy _ _ _ _ _ i = _
    rw [forCopy_id, if_pos hi]
  · rw [if_pos rfl]
    exact ⟨rfl, rfl, by simp, rfl, fun x => by cases x⟩

theorem onRxComplete_ring (h : COMsgHandler) (f : can_frame_t)
    (hw : h.CORxNextWrite < NumRxBuffers) :
    (h.onRxComplete f).CORxNextWrite = (h.CORxNextWrite + 1) % NumRxBuffers
      ∧ (h.onRxComplete f).CORxNextRead = h.CORxNextRead
      ∧ (∀ i, i ≠ h.CORxNextWrite → (h.onRxComplete f).CORxVector i = h.CORxVector i)
      ∧ (h.onRxComplete f).nodeId = h.nodeId
      ∧ (h.onRxComplete f).OnRxSDOCb = h.OnRxSDOCb
      ∧ (h.onRxComplete f).OnRxNmtCb = h.OnRxNmtCb
      ∧ (h.onRxComplete f).OnRxEMCYCb = h.OnRxEMCYCb
      ∧ (h.onRxComplete f).OnRxPDOCb = h.OnRxPDOCb := by
  unfold NumRxBuffers at hw
  refine ⟨?_, rfl, ?_, rfl, rfl, rfl, rfl, rfl⟩
  · show (if (h.CORxNextWrite + 1) % 256 = NumRxBuffers then 0
      else (h.CORxNextWrite + 1) % 256) = _
    unfold NumRxBuffers
    split_ifs <;> omega
  · intro i hi
    show Function.update h.CORxVector h.CORxNextWrite _ i = _
    rw [Function.update_noteq hi]

theorem rxAll_cons (h : COMsgHandler) (f : can_frame_t) (fs : List can_frame_t) :
    h.rxAll (f :: fs) = (h.onRxComplete f).rxAll fs := rfl

theorem rxAll_ring (fs : List can_frame_t) :
    ∀ h : COMsgHandler, h.CORxNextWrite < NumRxBuffers →
      (h.rxAll fs).CORxNextWrite = (h.CORxNextWrite + fs.length) % NumRxBuffers
      ∧ (h.rxAll fs).CORxNextRead = h.CORxNextRead
      ∧ (∀ i, (∀ j, j < fs.length → (h.CORxNextWrite + j) % NumRxBuffers ≠ i) →
          (h.rxAll fs).CORxVector i = h.CORxVector i)
      ∧ (h.rxAll fs).nodeId = h.nodeId
      ∧ (h.rxAll fs).OnRxSDOCb = h.OnRxSDOCb
      ∧ (h.rxAll fs).OnRxNmtCb = h.OnRxNmtCb
      ∧ (h.rxAll fs).OnRxEMCYCb = h.OnRxEMCYCb
      ∧ (h.rxAll fs).OnRxPDOCb = h.OnRxPDOCb := by
  induction fs with
  | nil =>
    intro h hw
    refine ⟨?_, rfl, fun _ _ => rfl, rfl, rfl, rfl, rfl, rfl⟩
    show h.CORxNextWrite = (h.CORxNextWrite + 0) % NumRxBuffers
    rw [Nat.add_zero, Nat.mod_eq_of_lt hw]
  | cons f fs ih =>
    intro h hw
    obtain ⟨a1, a2, a3, a4, a5, a6, a7, a8⟩ := onRxComplete_ring h f hw
    have hw1 : (h.onRxComplete f).CORxNextWrite < NumRxBuffers := by
      rw [a1]
      exact Nat.mod_lt _ (by decide)
    obtain ⟨b1, b2, b3, b4, b5, b6, b7, b8⟩ := ih (h.onRxComplete f) hw1
    rw [rxAll_cons]
    refine ⟨?_, b2.trans a2, ?_, b4.trans a4, b5.trans a5, b6.trans a6, b7.trans a7,
      b8.trans a8⟩
    · rw [b1, a1]
      unfold NumRxBuffers
      simp only [List.length_cons]
      omega
    · intro i hi
      rw [b3 i, a3 i]
      · have := hi 0 (by simp)
        rw [Nat.add_zero, Nat.mod_eq_of_lt hw] at this
        exact fun e => this e.symm
      · intro j hj
        have := hi (j + 1) (by simp only [List.length_cons]; omega)
        rw [a1]
        unfold NumRxBuffers at this ⊢
        omega

theorem rxAll_stored (fs : List can_frame_t) :
    ∀ h : COMsgHandler, h.CORxNextWrite < NumRxBuffers → fs.length ≤ NumRxBuffers →
      ∀ k f, fs[k]? = some f →
        storedAs ((h.rxAll fs).CORxVector ((h.CORxNextWrite + k) % NumRxBuffers)) f := by
  induction fs with
  | nil =>
    intro h _ _ k f hk
    simp at hk
  | cons f0 fs ih =>
    intro h hw hlen k f hk
    obtain ⟨a1, -, -, -, -, -, -, -⟩ := onRxComplete_ring h f0 hw
    have hw1 : (h.onRxComplete f0).CORxNextWrite < NumRxBuffers := by
      rw [a1]
      exact Nat.mod_lt _ (by decide)
    have hlen1 : fs.length ≤ 19 := by
      simp only [List.length_cons] at hlen
      unfold NumRxBuffers at hlen
      omega
    rw [rxAll_cons]
    cases k with
    | zero =>
      rw [List.getElem?_cons_zero] at hk
      cases hk
      obtain ⟨-, -, b3, -, -, -, -, -⟩ := rxAll_ring fs (h.onRxComplete f0) hw1
      rw [Nat.add_zero, Nat.mod_eq_of_lt hw, b3]
      · exact onRxComplete_stored h f0
      · intro j hj
        rw [a1]
        unfold NumRxBuffers at hw ⊢
        omega
    | succ k =>
      rw [List.getElem?_cons_succ] at hk
      have := ih (h.onRxComplete f0) hw1 (by unfold NumRxBuffers; omega) k f hk
      rw [a1] at this
      have e : ((h.CORxNextWrite + 1) % NumRxBuffers + k) % NumRxBuffers
          = (h.CORxNextWrite + (k + 1)) % NumRxBuffers := by
        unfold NumRxBuffers
        omega
      rw [e] at this
      exact this

theorem Update_ring (h : COMsgHandler) (t : Nat) :
    (h.Update t).1.CORxVector = h.CORxVector
      ∧ (h.Update t).1.CORxNextWrite = h.CORxNextWrite
      ∧ (h.Update t).1.nodeId = h.nodeId
      ∧ (h.Update t).1.OnRxSDOCb = h.OnRxSDOCb
      ∧ (h.Update t).1.OnRxNmtCb = h.OnRxNmtCb
      ∧ (h.Update t).1.OnRxEMCYCb = h.OnRxEMCYCb
      ∧ (h.Update t).1.OnRxPDOCb = h.OnRxPDOCb := by
  unfold COMsgHandler.Update
  dsimp only
  split_ifs <;> exact ⟨rfl, rfl, rfl, rfl, rfl, rfl, rfl⟩

theorem Update_pending (h : COMsgHandler) (t : Nat) (hr : h.CORxNextRead < NumRxBuffers)
    (hne : h.CORxNextWrite ≠ h.CORxNextRead) :
    (h.Update t).1.CORxNextRead = (h.CORxNextRead + 1) % NumRxBuffers
      ∧ (h.Update t).2 = h.callsFor (h.CORxVector h.CORxNextRead) := by
  unfold COMsgHandler.Update
  dsimp only
  rw [if_pos hne]
  refine ⟨?_, rfl⟩
  dsimp only
  unfold NumRxBuffers at hr ⊢
  split_ifs <;> omega

theorem Update_empty (h : COMsgHandler) (t : Nat)
    (he : h.CORxNextWrite = h.CORxNextRead) :
    (h.Update t).1.CORxNextRead = h.CORxNextRead ∧ (h.Update t).2 = [] := by
  unfold COMsgHandler.Update
  dsimp only
  rw [if_neg (fun x => x he)]
  exact ⟨rfl, rfl⟩

theorem Update_calls (h : COMsgHandler) (t : Nat)
    (hne : h.CORxNextWrite ≠ h.CORxNextRead) :
    (h.Update t).2 = h.callsFor (h.CORxVector h.CORxNextRead) := by
  unfold COMsgHandler.Update
  dsimp only
  rw [if_pos hne]
  rfl

theorem updates_succ (h : COMsgHandler) (now : Nat → Nat) (k : Nat) :
    h.updates now (k + 1) = ((h.updates now k).Update (now k)).1 := rfl

theorem updates_ring (h : COMsgHandler) (now : Nat → Nat)
    (hr : h.CORxNextRead < NumRxBuffers) (hw : h.CORxNextWrite < NumRxBuffers) :
    ∀ k, (h.updates now k).CORxNextRead = (h.CORxNextRead + min k h.pending) % NumRxBuffers
      ∧ (h.updates now k).CORxNextWrite = h.CORxNextWrite
      ∧ (h.updates now k).CORxVector = h.CORxVector
      ∧ (h.updates now k).nodeId = h.nodeId
      ∧ (h.updates now k).OnRxSDOCb = h.OnRxSDOCb
      ∧ (h.updates now k).OnRxNmtCb = h.OnRxNmtCb
      ∧ (h.updates now k).OnRxEMCYCb = h.OnRxEMCYCb
      ∧ (h.updates now k).OnRxPDOCb = h.OnRxPDOCb := by
  intro k
  induction k with
  | zero =>
    refine ⟨?_, rfl, rfl, rfl, rfl, rfl, rfl, rfl⟩
    show h.CORxNextRead = _
    rw [Nat.zero_min, Nat.add_zero, Nat.mod_eq_of_lt hr]
  | succ k ih =>
    obtain ⟨i1, i2, i3, i4, i5, i6, i7, i8⟩ := ih
    obtain ⟨u1, u2, u3, u4, u5, u6, u7⟩ := Update_ring (h.updates now k) (now k)
    rw [updates_succ]
    refine ⟨?_, u2.trans i2, u1.trans i3, u3.trans i4, u4.trans i5, u5.trans i6, u6.trans i7,
      u7.trans i8⟩
    have hrk : (h.updates now k).CORxNextRead < NumRxBuffers := by
      rw [i1]
      exact Nat.mod_lt _ (by decide)
    by_cases hk : k < h.pending
    · have hne : (h.updates now k).CORxNextWrite ≠ (h.updates now k).CORxNextRead := by
        rw [i1, i2]
        unfold COMsgHandler.pending NumRxBuffers at *
        omega
      rw [(Update_pending _ (now k) hrk hne).1, i1]
      unfold COMsgHandler.pending NumRxBuffers at *
      omega
    · have he : (h.updates now k).CORxNextWrite = (h.updates now k).CORxNextRead := by
        rw [i1, i2]
        unfold COMsgHandler.pending NumRxBuffers at *
        omega
      rw [(Update_empty _ (now k) he).1, i1]
      unfold COMsgHandler.pending NumRxBuffers at *
      omega

theorem findUpTo_congr (h g : COMsgHandler) (hn : g.nodeId = h.nodeId) (N : Nat) :
    ∀ k, g.findUpTo N k = h.findUpTo N k := by
  intro k
  induction k with
  | zero => rfl
  | succ k ih =>
    show (if castU8 (g.nodeId k) = N then k else g.findUpTo N k)
      = (if castU8 (h.nodeId k) = N then k else h.findUpTo N k)
    rw [hn, ih]

theorem callsFor_congr (h g : COMsgHandler) (m : CANMsg) (hn : g.nodeId = h.nodeId)
    (h1 : g.OnRxSDOCb = h.OnRxSDOCb) (h2 : g.OnRxNmtCb = h.OnRxNmtCb)
    (h3 : g.OnRxEMCYCb = h.OnRxEMCYCb) (h4 : g.OnRxPDOCb = h.OnRxPDOCb) :
    g.callsFor m = h.callsFor m := by
  unfold COMsgHandler.callsFor COMsgHandler.FindNode COMsgHandler.dispatch
  dsimp only
  rw [findUpTo_congr h g hn, h1, h2, h3, h4]

/-! ## Looking up the node and the service of a received frame -/

theorem castU8_eq_iff (x : Int) (N : Nat) (hx : -1 ≤ x ∧ x ≤ 255) (hN : N ≤ 127) :
    castU8 x = N ↔ x = (N : Int) := by
  unfold castU8
  omega

theorem findUpTo_spec (h : COMsgHandler) (N : Nat) :
    ∀ k, k ≤ 255 →
      (h.findUpTo N k = InvalidSlot ∧ ∀ i, i < k → castU8 (h.nodeId i) ≠ N)
      ∨ (h.findUpTo N k < k ∧ castU8 (h.nodeId (h.findUpTo N k)) = N) := by
  intro k
  induction k with
  | zero => exact fun _ => Or.inl ⟨rfl, fun i hi => absurd hi (by omega)⟩
  | succ k ih =>
    intro hk
    show (((if castU8 (h.nodeId k) = N then k else h.findUpTo N k) = InvalidSlot ∧ _)
      ∨ ((if castU8 (h.nodeId k) = N then k else h.findUpTo N k) < k + 1
        ∧ castU8 (h.nodeId (if castU8 (h.nodeId k) = N then k else h.findUpTo N k)) = N))
    by_cases hc : castU8 (h.nodeId k) = N
    · rw [if_pos hc]
      exact Or.inr ⟨by omega, hc⟩
    · rw [if_neg hc]
      rcases ih (by omega) with ⟨e, hall⟩ | ⟨hlt, he⟩
      · refine Or.inl ⟨e, fun i hi => ?_⟩
        by_cases hik : i = k
        · rw [hik]
          exact hc
        · exact hall i (by omega)
      · exact Or.inr ⟨by omega, he⟩

theorem and_FF80_of_lt (id : Nat) (h : id < 2048) : id &&& 0xFF80 = id &&& 0x780 := by
  have e : id &&& (2 ^ 11 - 1) = id := Nat.and_pow_two_sub_one_of_lt_two_pow h
  calc id &&& 0xFF80 = (id &&& (2 ^ 11 - 1)) &&& 0xFF80 := by rw [e]
    _ = id &&& ((2 ^ 11 - 1) &&& 0xFF80) := Nat.and_assoc _ _ _
    _ = id &&& 0x780 := by rw [show ((2 ^ 11 - 1) &&& 0xFF80 : Nat) = 0x780 from by decide]

theorem and_7F_le (id : Nat) : id &&& 0x7F ≤ 127 := by
  have := Nat.and_lt_two_pow id (show 0x7F < 2 ^ 7 by decide)
  omega

theorem FindNode_spec (h : COMsgHandler) (N : Nat) (hN : N ≤ 127)
    (htab : ∀ i, i < MsgHandler_MaxNodes → -1 ≤ h.nodeId i ∧ h.nodeId i ≤ 255) :
    (h.FindNode N = InvalidSlot ∧ ∀ i, i < MsgHandler_MaxNodes → h.nodeId i ≠ (N : Int))
      ∨ (h.FindNode N < MsgHandler_MaxNodes ∧ h.nodeId (h.FindNode N) = (N : Int)) := by
  unfold COMsgHandler.FindNode
  rcases findUpTo_spec h N MsgHandler_MaxNodes (by decide) with ⟨e, hall⟩ | ⟨hlt, he⟩
  · exact Or.inl ⟨e, fun i hi hc =>
      hall i hi ((castU8_eq_iff _ N (htab i hi) hN).2 hc)⟩
  · exact Or.inr ⟨hlt, (castU8_eq_iff _ N (htab _ hlt) hN).1 he⟩

theorem callsFor_spec (h : COMsgHandler) (m : CANMsg) (hid : m.Id < 2048)
    (hst : m.serviceType = m.Id &&& 0xFF80)
    (htab : ∀ i, i < MsgHandler_MaxNodes → -1 ≤ h.nodeId i ∧ h.nodeId i ≤ 255) :
    (h.callsFor m).length ≤ 1
      ∧ (∀ c, c ∈ h.callsFor m →
          c.NodeHandle = h.FindNode (m.Id &&& 0x7F)
          ∧ c.NodeHandle < MsgHandler_MaxNodes
          ∧ h.nodeId c.NodeHandle = ((m.Id &&& 0x7F : Nat) : Int)
          ∧ h.registeredCb c.cb c.NodeHandle = true
          ∧ c.Msg = m)
      ∧ ((∃ c, c ∈ h.callsFor m ∧ c.cb = COCallback.SDO)
          ↔ m.Id &&& 0x780 = 0x580 ∧ h.FindNode (m.Id &&& 0x7F) ≠ InvalidSlot
            ∧ h.OnRxSDOCb (h.FindNode (m.Id &&& 0x7F)) = true)
      ∧ ((∃ c, c ∈ h.callsFor m ∧ c.cb = COCallback.Nmt)
          ↔ m.Id &&& 0x780 = 0x700 ∧ h.FindNode (m.Id &&& 0x7F) ≠ InvalidSlot
            ∧ h.OnRxNmtCb (h.FindNode (m.Id &&& 0x7F)) = true)
      ∧ ((∃ c, c ∈ h.callsFor m ∧ c.cb = COCallback.EMCY)
          ↔ m.Id &&& 0x780 = 0x080 ∧ h.FindNode (m.Id &&& 0x7F) ≠ InvalidSlot
            ∧ h.OnRxEMCYCb (h.FindNode (m.Id &&& 0x7F)) = true)
      ∧ ((∃ c, c ∈ h.callsFor m ∧ c.cb = COCallback.PDO)
          ↔ (m.Id &&& 0x780 = 0x180 ∨ m.Id &&& 0x780 = 0x280 ∨ m.Id &&& 0x780 = 0x380
              ∨ m.Id &&& 0x780 = 0x480) ∧ h.FindNode (m.Id &&& 0x7F) ≠ InvalidSlot
            ∧ h.OnRxPDOCb (h.FindNode (m.Id &&& 0x7F)) = true) := by
  have hsv : m.serviceType = m.Id &&& 0x780 := hst.trans (and_FF80_of_lt _ hid)
  have hF := FindNode_spec h (m.Id &&& 0x7F) (and_7F_le _) htab
  unfold COMsgHandler.callsFor COMsgHandler.dispatch
  dsimp only
  rw [hsv]
  generalize m.Id &&& 0x780 = sv
  generalize h.FindNode (m.Id &&& 0x7F) = slot at hF
  rcases hF with ⟨e, -⟩ | ⟨hlt, he⟩
  · subst e
    simp
  · have hne : slot ≠ InvalidSlot := by
      unfold MsgHandler_MaxNodes at hlt
      unfold InvalidSlot
      omega
    rw [if_pos hne]
    simp only [eCANSyncEmcy, eCANSdoResp, eCANTPDO1, eCANTPDO2, eCANTPDO3, eCANTPDO4,
      eCANGuarding]
    split_ifs <;> simp_all [COMsgHandler.registeredCb] <;> intro hx <;> omega

/-! ## C1: the initiate-download frame -/

/-- C1, as amended: a `WriteSDO` started in Idle with a transmitter that takes the frame
posts one initiate-download frame; it has `e = 1`, `s = 1` and `n = (4 - len) mod 4` (the
field `n` has two bits) if and only if `len ≤ 4`; for `len > 4` it has `e = 0`, `s = 1`,
`n = 0` and its data bytes 4..7 are `len` as a little-endian 32-bit number. -/
theorem WriteSDO_initiate_frame (s : COSDOHandler) (Idx SubIdx : Nat) (Data : Nat → Nat)
    (len : Nat) (hIdle : s.SDORxTxState = COSDOCommStates.eCO_SDOIdle) (hTx : s.txReady)
    (hR : s.SDORequestMsg.isRTR = false) :
    ∃ f, (s.WriteSDO Idx SubIdx Data len).posted = s.posted ++ [f]
      ∧ ((ctl_e f.data = 1 ∧ ctl_s f.data = 1 ∧ ctl_n f.data = (4 - len) % 4) ↔ len ≤ 4)
      ∧ (4 < len → ctl_e f.data = 0 ∧ ctl_s f.data = 1 ∧ ctl_n f.data = 0
          ∧ f.data 4 = len % 256 ∧ f.data 5 = len / 256 % 256
          ∧ f.data 6 = len / 65536 % 256 ∧ f.data 7 = len / 16777216 % 256) := by
  refine ⟨frameOf (s.WriteSDO Idx SubIdx Data len).SDORequestMsg,
    WriteSDO_idle_posted s Idx SubIdx Data len hIdle hTx hR, ?_, ?_⟩
  · by_cases h : len ≤ 4
    · have hc := WriteSDO_idle_exp_ctl s Idx SubIdx Data len hIdle h
      simp only [frameOf, ctl_e, ctl_s, ctl_n, hc, h, iff_true]
      simp [getBits_setBits_same, getBits_setBits_disj, ctlFields]
    · have hc := WriteSDO_idle_seg_ctl s Idx SubIdx Data len hIdle (by omega)
      simp only [frameOf, ctl_e, ctl_s, ctl_n, hc, h, iff_false]
      simp [getBits_setBits_same, getBits_setBits_disj, ctlFields]
  · intro h
    have hc := WriteSDO_idle_seg_ctl s Idx SubIdx Data len hIdle h
    have hd := WriteSDO_idle_seg_data s Idx SubIdx Data len hIdle h
    simp only [frameOf, ctl_e, ctl_s, ctl_n, hc]
    refine ⟨?_, ?_, ?_, hd⟩ <;>
      simp [getBits_setBits_same, getBits_setBits_disj, ctlFields]

/-- C1, witness: the download of ten bytes to 0x2000.0 of node 3 from the attached client. -/
theorem WriteSDO_initiate_frame_witness :
    ∃ f, ((attached 3).WriteSDO 0x2000 0 tenBytes 10).posted = (attached 3).posted ++ [f]
      ∧ ((ctl_e f.data = 1 ∧ ctl_s f.data = 1 ∧ ctl_n f.data = (4 - 10) % 4) ↔ 10 ≤ 4)
      ∧ (4 < 10 → ctl_e f.data = 0 ∧ ctl_s f.data = 1 ∧ ctl_n f.data = 0
          ∧ f.data 4 = 10 % 256 ∧ f.data 5 = 10 / 256 % 256
          ∧ f.data 6 = 10 / 65536 % 256 ∧ f.data 7 = 10 / 16777216 % 256) :=
  WriteSDO_initiate_frame (attached 3) 0x2000 0 tenBytes 10 rfl ⟨rfl, rfl⟩ rfl

/-- C1, counterexample: for `len = 0` (which is `≤ 4`) the frame posted by `WriteSDO` does
not have `n = 4 - len`, so "`e = 1`, `s = 1`, `n = 4 - len` iff `len ≤ 4`" fails there. -/
theorem initiate_frame_len_zero :
    ¬ (∀ f ∈ ((attached 3).WriteSDO 0x2000 0 (memOf []) 0).posted,
        ((ctl_e f.data = 1 ∧ ctl_s f.data = 1 ∧ ctl_n f.data = 4 - 0) ↔ 0 ≤ 4)) := by
  intro h
  have hp := WriteSDO_idle_posted (attached 3) 0x2000 0 (memOf []) 0 rfl ⟨rfl, rfl⟩ rfl
  have h1 := (h (frameOf ((attached 3).WriteSDO 0x2000 0 (memOf []) 0).SDORequestMsg)
    (by rw [hp]; exact List.mem_append_right _ (List.mem_singleton_self _))).mpr (Nat.zero_le 4)
  have h2 := ctl_n_lt (frameOf ((attached 3).WriteSDO 0x2000 0 (memOf []) 0).SDORequestMsg).data
  omega

/-! ## C2: the expedited download frame -/

/-- The frame of the spec's scenario: writing 0x1017.0 = 500 with `len = 2` to node 3 posts
`ID = 0x603 [2B 17 10 00 F4 01 00 00]`. -/
theorem WriteSDO_expedited_len_two :
    ((attached 3).WriteSDO 0x1017 0 (memOf [0xF4, 0x01]) 2).posted.map wire
      = [(0x603, 8, [0x2B, 0x17, 0x10, 0x00, 0xF4, 0x01, 0, 0])] := by
  decide

/-- C2, the code at the failing input `len = 3`: the frame announces three data bytes
(`n = 1`, command byte 0x27), but the bytes `11 22 33` of the caller are not in it; the
data field is all zero, because `WriteSDO` copies the data only for `len` 1, 2 and 4. -/
theorem WriteSDO_expedited_len_three :
    ((attached 3).WriteSDO 0x2000 0 (memOf [0x11, 0x22, 0x33]) 3).posted.map wire
      = [(0x603, 8, [0x27, 0x00, 0x20, 0x00, 0, 0, 0, 0])] := by
  decide

/-! ## C3: segmented download -/

/-- C3: a `WriteSDO` of `L > 4` bytes, started in Idle, with a transmitter that takes every
frame and a server whose responses are well-formed (the initiate-download response for the
requested object, then download-segment responses), posts behind the initiate frame exactly
`ceil(L/7)` download-segment frames; segment `k` (from 0) has toggle `k mod 2` and carries
the bytes `7k .. min(7k+7, L) - 1` of the caller's buffer, only the last one has `c = 1`; the
client waits after each of the first `ceil(L/7)` responses and the response to the last
segment moves it to Done. -/
theorem segmented_download (s : COSDOHandler) (Idx SubIdx : Nat) (Data : Nat → Nat) (L : Nat)
    (resp : Nat → CANMsg) (hIdle : s.SDORxTxState = COSDOCommStates.eCO_SDOIdle)
    (hTx : s.txReady) (hR : s.SDORequestMsg.isRTR = false) (hL : 4 < L) (h32 : L < 2 ^ 32)
    (hcs : ctl_cs (resp 0).payload = SDOInitDownloadResp)
    (hI : msgIdx (resp 0).payload = Idx) (hSub : msgSubIdx (resp 0).payload = SubIdx)
    (hk : ∀ k, ctl_cs (resp (k + 1)).payload = SDODownloadSegResp) :
    ∃ init segs,
      ((s.WriteSDO Idx SubIdx Data L).feed resp ((L + 6) / 7 + 1)).posted
          = s.posted ++ init :: segs
      ∧ ctl_cs init.data = SDOInitDownloadReq
      ∧ segs.length = (L + 6) / 7
      ∧ (∀ k f, segs[k]? = some f →
          ctl_cs f.data = SDODownloadSegReq ∧ seg_t f.data = k % 2
          ∧ (seg_c f.data = 1 ↔ k + 1 = (L + 6) / 7)
          ∧ ∀ j, j < 7 → 7 * k + j < L → f.data (1 + j) = Data (7 * k + j))
      ∧ (∀ m, m ≤ (L + 6) / 7 →
          ((s.WriteSDO Idx SubIdx Data L).feed resp m).SDORxTxState
            = COSDOCommStates.eCO_SDOWaiting)
      ∧ ((s.WriteSDO Idx SubIdx Data L).feed resp ((L + 6) / 7 + 1)).SDORxTxState
          = COSDOCommStates.eCO_SDODone := by
  have hw := WriteSDO_idle_seg s Idx SubIdx Data L hIdle hTx hR hL
  have hpost := WriteSDO_idle_posted s Idx SubIdx Data L hIdle hTx hR
  have hinit := WriteSDO_idle_seg_cs s Idx SubIdx Data L hIdle hL
  have hrun := DlInv_run (s.WriteSDO Idx SubIdx Data L) resp s.posted
    (frameOf (s.WriteSDO Idx SubIdx Data L).SDORequestMsg) Data L
    (by rw [hw]) (by rw [hw]) (by rw [hw]) (by rw [hw]) (by rw [hw]; exact hTx.2)
    (by rw [hw]; exact hR) hL h32 hpost hinit hcs (by rw [hw]; exact hI)
    (by rw [hw]; exact hSub) hk
  obtain ⟨N, hN⟩ : ∃ N, (L + 6) / 7 = N + 1 := ⟨(L + 6) / 7 - 1, by omega⟩
  have hNL : 7 * N < L := by omega
  have hLN : L ≤ 7 * (N + 1) := by omega
  have hfin := hrun N hNL
  have hlast := DlInv_last _ (resp (N + 1)) s.posted Data L (N + 1) hfin hLN (hk N)
  obtain ⟨_, _, _, _, _, _, _, _, _, init, segs, hp, hi, hlen, hseg⟩ := hfin
  rw [hN]
  refine ⟨init, segs, ?_, hi, hlen, ?_, ?_, hlast.1⟩
  · show ((COSDOHandler.feed _ resp (N + 1)).onResponse (resp (N + 1))).posted = _
    rw [hlast.2, hp]
  · intro k f hkf
    have hkN : k < N + 1 := by
      rw [← hlen]
      exact (List.getElem?_eq_some.mp hkf).1
    obtain ⟨a, b, c, d⟩ := hseg k f hkf
    refine ⟨a, b, ?_, d⟩
    rw [c]
    by_cases h : L ≤ 7 * k + 7
    · rw [if_pos h]
      exact ⟨fun _ => by omega, fun _ => rfl⟩
    · rw [if_neg h]
      exact ⟨fun h0 => absurd h0 (by decide), fun h1 => by omega⟩
  · intro m hm
    rcases m with _ | m
    · show (s.WriteSDO Idx SubIdx Data L).SDORxTxState = _
      rw [hw]
    · exact (hrun m (by omega)).1

/-- C3, witness: ten bytes to 0x2000.0 of node 3 (two segments). -/
theorem segmented_download_witness :
    ∃ init segs,
      (((attached 3).WriteSDO 0x2000 0 tenBytes 10).feed downloadResponses
          ((10 + 6) / 7 + 1)).posted = (attached 3).posted ++ init :: segs
      ∧ ctl_cs init.data = SDOInitDownloadReq
      ∧ segs.length = (10 + 6) / 7
      ∧ (∀ k f, segs[k]? = some f →
          ctl_cs f.data = SDODownloadSegReq ∧ seg_t f.data = k % 2
          ∧ (seg_c f.data = 1 ↔ k + 1 = (10 + 6) / 7)
          ∧ ∀ j, j < 7 → 7 * k + j < 10 → f.data (1 + j) = tenBytes (7 * k + j))
      ∧ (∀ m, m ≤ (10 + 6) / 7 →
          (((attached 3).WriteSDO 0x2000 0 tenBytes 10).feed downloadResponses m).SDORxTxState
            = COSDOCommStates.eCO_SDOWaiting)
      ∧ (((attached 3).WriteSDO 0x2000 0 tenBytes 10).feed downloadResponses
          ((10 + 6) / 7 + 1)).SDORxTxState = COSDOCommStates.eCO_SDODone :=
  segmented_download (attached 3) 0x2000 0 tenBytes 10 downloadResponses rfl ⟨rfl, rfl⟩ rfl
    (by decide) (by decide) (by decide) (by decide) (by decide)
    (fun k => by
      cases k with
      | zero => decide
      | succ n =>
        show ctl_cs (respMsg 3 [0x30, 0, 0, 0, 0, 0, 0, 0]).payload = SDODownloadSegResp
        decide)

/-- The frames of the spec's scenario 2 as the code posts them: the last segment has the
command byte 0x19 (toggle 1, `n = 4`, `c = 1`). -/
theorem scenario_download_ten_bytes :
    (((attached 3).WriteSDO 0x2000 0 tenBytes 10).feed downloadResponses 3).posted.map wire
      = [(0x603, 8, [0x21, 0x00, 0x20, 0x00, 0x0A, 0, 0, 0]),
         (0x603, 8, [0x00, 1, 2, 3, 4, 5, 6, 7]),
         (0x603, 8, [0x19, 8, 9, 10, 0, 0, 0, 0])]
    ∧ (((attached 3).WriteSDO 0x2000 0 tenBytes 10).feed downloadResponses 3).SDORxTxState
      = COSDOCommStates.eCO_SDODone := by
  decide

/-! ## C4: the command byte of the initiate frame of a segmented download -/

/-- C4, the code at the failing input: a second segmented download, started from Idle after
a first one that ended with toggle bit 1 in the request buffer (last segment `19 ..`), has
the initiate command byte 0x31 and not 0x21: `WriteSDO` clears `control.x` (bit 4) only in
the expedited branch. -/
theorem WriteSDO_segmented_stale_toggle :
    ((((attached 3).WriteSDO 0x2000 0 tenBytes 10).feed downloadResponses
        3).ResetComState.WriteSDO 0x2000 0 tenBytes 10).posted.map wire
      = [(0x603, 8, [0x21, 0x00, 0x20, 0x00, 0x0A, 0, 0, 0]),
         (0x603, 8, [0x00, 1, 2, 3, 4, 5, 6, 7]),
         (0x603, 8, [0x19, 8, 9, 10, 0, 0, 0, 0]),
         (0x603, 8, [0x31, 0x00, 0x20, 0x00, 0x0A, 0, 0, 0])] := by
  decide

/-! ## C5: the field `n` of the download segments -/

/-- C5, the code at the failing input `L = 5`: the single segment carries the five bytes
`01 .. 05`, has `c = 1` and `n = 0` (command byte 0x01) where `n = 2` is due; the branch
for the first segment never assigns `control.n`.  The transfer then ends in Done. -/
theorem first_download_segment_n :
    (((attached 3).WriteSDO 0x2000 0 tenBytes 5).feed downloadResponses 2).posted.map
        (fun f => (seg_n f.data, seg_c f.data, bytes8 f.data))
      = [(0, 1, [0x21, 0x00, 0x20, 0x00, 5, 0, 0, 0]), (0, 1, [0x01, 1, 2, 3, 4, 5, 6, 7])]
    ∧ (((attached 3).WriteSDO 0x2000 0 tenBytes 5).feed downloadResponses 2).SDORxTxState
      = COSDOCommStates.eCO_SDODone := by
  decide

/-! ## C6: expedited upload -/

/-- C6, the code at the failing input `n = 1`: the response `47 00 20 00 11 22 33 00` to a
read of 0x2000.0 moves the client to Done with received length 3, but none of the three
bytes is stored; the caller's buffer still holds `AA AA AA AA`. -/
theorem expedited_upload_three_bytes :
    (((attached 3).ReadSDO 0x2000 0 (memOf [0xAA, 0xAA, 0xAA, 0xAA]) 4).1.onResponse
        uploadThreeBytes).SDORxTxState = COSDOCommStates.eCO_SDODone
    ∧ ((((attached 3).ReadSDO 0x2000 0 (memOf [0xAA, 0xAA, 0xAA, 0xAA]) 4).1.onResponse
        uploadThreeBytes).ReadSDO 0x2000 0 (memOf [0xAA, 0xAA, 0xAA, 0xAA]) 4).2 = 3
    ∧ bytes8 (((attached 3).ReadSDO 0x2000 0 (memOf [0xAA, 0xAA, 0xAA, 0xAA]) 4).1.onResponse
        uploadThreeBytes).ClientDataPtr = [0xAA, 0xAA, 0xAA, 0xAA, 0, 0, 0, 0] := by
  decide

/-- What does hold of C6: for `n` = 0, 2 and 3 (four, two and one data bytes) the expedited
initiate-upload response for the requested object stores the first `4 - n` data bytes in the
caller's buffer, records the length `4 - n` and moves the client to Done, and nothing is
passed to the driver. -/
theorem expedited_upload_stored (s : COSDOHandler) (Msg : CANMsg)
    (hS : s.requestedService = COSDORequestType.eSDOReadRequestInit)
    (hcs : ctl_cs Msg.payload = SDOInitUploadResponse)
    (hI : msgIdx Msg.payload = s.requestedIdx) (hSub : msgSubIdx Msg.payload = s.requestedSub)
    (he : ctl_e Msg.payload = 1) (hs : ctl_s Msg.payload = 1) (hn : ctl_n Msg.payload ≠ 1) :
    (s.OnRxHandler Msg).SDORxTxState = COSDOCommStates.eCO_SDODone
      ∧ (s.OnRxHandler Msg).ActRxTxLen = 4 - ctl_n Msg.payload
      ∧ (∀ j, j < 4 - ctl_n Msg.payload →
          (s.OnRxHandler Msg).ClientDataPtr j = Msg.payload (4 + j))
      ∧ (s.OnRxHandler Msg).offered = s.offered := by
  rw [OnRxHandler_uploadInit s Msg hS hcs]
  unfold COSDOHandler.onUploadInitResp
  simp only [hI, hSub, he, hs, and_self, if_true]
  have hlt := ctl_n_lt Msg.payload
  refine ⟨trivial, trivial, ?_, rfl⟩
  intro j hj
  generalize ctl_n Msg.payload = n at hn hlt hj
  interval_cases n
  · interval_cases j <;> simp [Function.update_apply]
  · exact absurd rfl hn
  · interval_cases j <;> simp [Function.update_apply]
  · interval_cases j
    simp [Function.update_apply]

/-! ## C7: segmented upload -/

/-- C7: a `ReadSDO` started in Idle with a transmitter that takes every frame, answered by
the segmented initiate-upload response for the requested object and by upload-segment
responses that carry the expected toggle bit, of which response `K` (from 0) is the first
with `c = 1`: behind the initiate request the client posts `K + 1` upload-segment requests
with toggle 0, 1, 0, ..; it waits after every response before that of segment `K` and is
Done after it; the caller's buffer then holds the `7 - n` data bytes of every segment, in
the order of arrival one behind the other, and is unchanged behind them; the length reported
by `ReadSDO` is the sum of the `7 - n`. -/
theorem segmented_upload (s : COSDOHandler) (Idx SubIdx : Nat) (buf : Nat → Nat) (maxLen : Nat)
    (resp : Nat → CANMsg) (K : Nat)
    (hIdle : s.SDORxTxState = COSDOCommStates.eCO_SDOIdle) (hTx : s.txReady)
    (hR : s.SDORequestMsg.isRTR = false)
    (hcs : ctl_cs (resp 0).payload = SDOInitUploadResponse)
    (hI : msgIdx (resp 0).payload = Idx) (hSub : msgSubIdx (resp 0).payload = SubIdx)
    (he : ctl_e (resp 0).payload = 0) (hs : ctl_s (resp 0).payload = 1)
    (hseg : ∀ k, k ≤ K → ctl_cs (resp (k + 1)).payload = SDOUploadSegResp
      ∧ seg_t (resp (k + 1)).payload = k % 2)
    (hc0 : ∀ k, k < K → seg_c (resp (k + 1)).payload = 0)
    (hcK : seg_c (resp (K + 1)).payload = 1)
    (h32 : segOff resp (K + 1) < 2 ^ 32) :
    (∃ init reqs,
      ((s.ReadSDO Idx SubIdx buf maxLen).1.feed resp (K + 2)).posted
          = s.posted ++ init :: reqs
      ∧ ctl_cs init.data = SDOInitUploadReq
      ∧ reqs.length = K + 1
      ∧ ∀ k f, reqs[k]? = some f → ctl_cs f.data = SDOUploadSegReq ∧ seg_t f.data = k % 2)
    ∧ (∀ m, m ≤ K + 1 →
        ((s.ReadSDO Idx SubIdx buf maxLen).1.feed resp m).SDORxTxState
          = COSDOCommStates.eCO_SDOWaiting)
    ∧ ((s.ReadSDO Idx SubIdx buf maxLen).1.feed resp (K + 2)).SDORxTxState
        = COSDOCommStates.eCO_SDODone
    ∧ (∀ k j, k ≤ K → j < segLen resp k →
        ((s.ReadSDO Idx SubIdx buf maxLen).1.feed resp (K + 2)).ClientDataPtr
          (segOff resp k + j) = (resp (k + 1)).payload (1 + j))
    ∧ (∀ i, segOff resp (K + 1) ≤ i →
        ((s.ReadSDO Idx SubIdx buf maxLen).1.feed resp (K + 2)).ClientDataPtr i = buf i)
    ∧ (((s.ReadSDO Idx SubIdx buf maxLen).1.feed resp (K + 2)).ReadSDO
        Idx SubIdx buf maxLen).2 = segOff resp (K + 1) := by
  obtain ⟨r1, r2, r3, r4, _, r6, r7, r8, r9, r10, r11⟩ :=
    ReadSDO_idle s Idx SubIdx buf maxLen hIdle hTx hR
  have hrun := UlInv_run (s.ReadSDO Idx SubIdx buf maxLen).1 resp s.posted
    (frameOf (s.ReadSDO Idx SubIdx buf maxLen).1.SDORequestMsg) buf K r2 r6 r7 r8 r9 r10 r11
    hcs (by rw [r3]; exact hI) (by rw [r4]; exact hSub) he hs hseg hc0 h32
  have hfin := hrun K (le_refl K)
  obtain ⟨l1, l2, l3, l4⟩ := UlInv_last _ s.posted buf resp K hfin (hseg K (le_refl K)).1
    (hseg K (le_refl K)).2 hcK h32
  have hfeed : (s.ReadSDO Idx SubIdx buf maxLen).1.feed resp (K + 2)
      = ((s.ReadSDO Idx SubIdx buf maxLen).1.feed resp (K + 1)).onResponse (resp (K + 1)) := rfl
  rw [hfeed]
  obtain ⟨_, _, _, _, _, _, _, _, init, reqs, hp, hi, hlen, hreq⟩ := hfin
  refine ⟨⟨init, reqs, ?_, hi, hlen, hreq⟩, ?_, l1, ?_, ?_, ?_⟩
  · rw [l4, hp]
  · intro m hm
    rcases m with _ | m
    · exact r1
    · exact (hrun m (by omega)).1
  · intro k j hk hj
    rw [l3]
    exact uploaded_seg buf resp (K + 1) k j (by omega) hj
  · intro i hi'
    rw [l3]
    exact uploaded_rest buf resp (K + 1) i hi'
  · rw [ReadSDO_done _ _ _ _ _ l1, l2]

/-- C7, witness: the upload of ten bytes in two segments from 0x2000.0 of node 3. -/
theorem segmented_upload_witness :
    (∃ init reqs,
      (((attached 3).ReadSDO 0x2000 0 (memOf []) 32).1.feed uploadResponses (1 + 2)).posted
          = (attached 3).posted ++ init :: reqs
      ∧ ctl_cs init.data = SDOInitUploadReq
      ∧ reqs.length = 1 + 1
      ∧ ∀ k f, reqs[k]? = some f → ctl_cs f.data = SDOUploadSegReq ∧ seg_t f.data = k % 2)
    ∧ (∀ m, m ≤ 1 + 1 →
        (((attached 3).ReadSDO 0x2000 0 (memOf []) 32).1.feed uploadResponses m).SDORxTxState
          = COSDOCommStates.eCO_SDOWaiting)
    ∧ (((attached 3).ReadSDO 0x2000 0 (memOf []) 32).1.feed uploadResponses
        (1 + 2)).SDORxTxState = COSDOCommStates.eCO_SDODone
    ∧ (∀ k j, k ≤ 1 → j < segLen uploadResponses k →
        (((attached 3).ReadSDO 0x2000 0 (memOf []) 32).1.feed uploadResponses
          (1 + 2)).ClientDataPtr (segOff uploadResponses k + j)
            = (uploadResponses (k + 1)).payload (1 + j))
    ∧ (∀ i, segOff uploadResponses (1 + 1) ≤ i →
        (((attached 3).ReadSDO 0x2000 0 (memOf []) 32).1.feed uploadResponses
          (1 + 2)).ClientDataPtr i = memOf [] i)
    ∧ ((((attached 3).ReadSDO 0x2000 0 (memOf []) 32).1.feed uploadResponses (1 + 2)).ReadSDO
        0x2000 0 (memOf []) 32).2 = segOff uploadResponses (1 + 1) :=
  segmented_upload (attached 3) 0x2000 0 (memOf []) 32 uploadResponses 1 rfl ⟨rfl, rfl⟩ rfl
    (by decide) (by decide) (by decide) (by decide) (by decide)
    (by intro k hk; interval_cases k <;> decide)
    (by intro k hk; interval_cases k; decide)
    (by decide) (by decide)

/-- The upload of `uploadResponses` as the code performs it: the three requests, the ten
bytes in the buffer, the reported length 10. -/
theorem scenario_upload_ten_bytes :
    (((attached 3).ReadSDO 0x2000 0 (memOf []) 32).1.feed uploadResponses 3).posted.map wire
      = [(0x603, 8, [0x40, 0x00, 0x20, 0x00, 0, 0, 0, 0]), (0x603, 8, [0x60, 0, 0, 0, 0, 0, 0, 0]),
         (0x603, 8, [0x70, 0, 0, 0, 0, 0, 0, 0])]
    ∧ (List.range 12).map
        (((attached 3).ReadSDO 0x2000 0 (memOf []) 32).1.feed uploadResponses 3).ClientDataPtr
      = [1, 2, 3, 4, 5, 6, 7, 8, 9, 10, 0, 0]
    ∧ ((((attached 3).ReadSDO 0x2000 0 (memOf []) 32).1.feed uploadResponses 3).ReadSDO
        0x2000 0 (memOf []) 32).2 = 10 := by
  decide

/-! ## C8: wrong toggle in an upload segment -/

/-- C8: an upload-segment response received during a segmented read whose toggle bit is not
the expected one moves the client to Error; the caller's buffer is as before and no frame is
passed to the driver in that call of `OnRxHandler`. -/
theorem upload_segment_wrong_toggle (s : COSDOHandler) (Msg : CANMsg)
    (hS : s.requestedService = COSDORequestType.eSDOReadRequestSeg)
    (hcs : ctl_cs Msg.payload = SDOUploadSegResp)
    (ht : seg_t Msg.payload ≠ s.nextToggle) :
    (s.OnRxHandler Msg).SDORxTxState = COSDOCommStates.eCO_SDOError
      ∧ (s.OnRxHandler Msg).ClientDataPtr = s.ClientDataPtr
      ∧ (s.OnRxHandler Msg).offered = s.offered
      ∧ (s.OnRxHandler Msg).posted = s.posted := by
  have h4 : ¬ (ctl_cs Msg.payload = SDOErrorReqResp) := by
    rw [hcs]; decide
  have h2 : ¬ (ctl_cs Msg.payload = SDOInitUploadResponse) := by
    rw [hcs]; decide
  simp [COSDOHandler.OnRxHandler, COSDOHandler.onUploadSegResp, hS, hcs, h4, ht,
    COSDOHandler.offered, COSDOHandler.posted, SDOUploadSegResp, SDOErrorReqResp]

/-- C8, witness: the third segment of `uploadRepeatedToggle` carries toggle 1 where 0 is
expected. -/
theorem upload_segment_wrong_toggle_witness :
    ((((attached 3).ReadSDO 0x2000 0 (memOf []) 32).1.feed uploadRepeatedToggle 3).OnRxHandler
        (uploadRepeatedToggle 3)).SDORxTxState = COSDOCommStates.eCO_SDOError
      ∧ ((((attached 3).ReadSDO 0x2000 0 (memOf []) 32).1.feed uploadRepeatedToggle 3).OnRxHandler
        (uploadRepeatedToggle 3)).ClientDataPtr
          = (((attached 3).ReadSDO 0x2000 0 (memOf []) 32).1.feed uploadRepeatedToggle
              3).ClientDataPtr
      ∧ ((((attached 3).ReadSDO 0x2000 0 (memOf []) 32).1.feed uploadRepeatedToggle 3).OnRxHandler
        (uploadRepeatedToggle 3)).offered
          = (((attached 3).ReadSDO 0x2000 0 (memOf []) 32).1.feed uploadRepeatedToggle 3).offered
      ∧ ((((attached 3).ReadSDO 0x2000 0 (memOf []) 32).1.feed uploadRepeatedToggle 3).OnRxHandler
        (uploadRepeatedToggle 3)).posted
          = (((attached 3).ReadSDO 0x2000 0 (memOf []) 32).1.feed uploadRepeatedToggle 3).posted :=
  upload_segment_wrong_toggle _ _ (by decide) (by decide) (by decide)

/-! ## C9: leaving Error without `ResetComState` -/

/-- C9, the code at the failing input: the third segment response of `uploadRepeatedToggle`
puts the client into Error with the response timer still running; `SetActTime(21)` then
moves it from Error to Retry, and the next `ReadSDO` sends the segment request again
(`60 00 ..`) and returns Waiting, all without `ResetComState`. -/
theorem error_left_by_timeout :
    (((attached 3).ReadSDO 0x2000 0 (memOf []) 32).1.feed uploadRepeatedToggle 4).SDORxTxState
      = COSDOCommStates.eCO_SDOError
    ∧ ((((attached 3).ReadSDO 0x2000 0 (memOf []) 32).1.feed uploadRepeatedToggle 4).SetActTime
        21).SDORxTxState = COSDOCommStates.eCO_SDORetry
    ∧ (((((attached 3).ReadSDO 0x2000 0 (memOf []) 32).1.feed uploadRepeatedToggle 4).SetActTime
        21).ReadSDO 0x2000 0 (memOf []) 32).1.SDORxTxState = COSDOCommStates.eCO_SDOWaiting
    ∧ (((attached 3).ReadSDO 0x2000 0 (memOf []) 32).1.feed uploadRepeatedToggle 4).posted.map wire
      = [(0x603, 8, [0x40, 0x00, 0x20, 0x00, 0, 0, 0, 0]), (0x603, 8, [0x60, 0, 0, 0, 0, 0, 0, 0]),
         (0x603, 8, [0x70, 0, 0, 0, 0, 0, 0, 0]), (0x603, 8, [0x60, 0, 0, 0, 0, 0, 0, 0])]
    ∧ (((((attached 3).ReadSDO 0x2000 0 (memOf []) 32).1.feed uploadRepeatedToggle 4).SetActTime
        21).ReadSDO 0x2000 0 (memOf []) 32).1.posted.map wire
      = [(0x603, 8, [0x40, 0x00, 0x20, 0x00, 0, 0, 0, 0]), (0x603, 8, [0x60, 0, 0, 0, 0, 0, 0, 0]),
         (0x603, 8, [0x70, 0, 0, 0, 0, 0, 0, 0]), (0x603, 8, [0x60, 0, 0, 0, 0, 0, 0, 0]),
         (0x603, 8, [0x60, 0, 0, 0, 0, 0, 0, 0])] := by
  decide

/-! ## C10: wrong toggle in a download-segment response -/

/-- C10, the code at the failing input: the first download segment of ten bytes is sent with
toggle 0 and answered with toggle 1 (`30 ..`); the client does not go to Error but sends the
next segment (`19 08 09 0A ..`) and waits. -/
theorem download_segment_wrong_toggle :
    (((attached 3).WriteSDO 0x2000 0 tenBytes 10).feed downloadWrongToggle 2).SDORxTxState
      = COSDOCommStates.eCO_SDOWaiting
    ∧ (((attached 3).WriteSDO 0x2000 0 tenBytes 10).feed downloadWrongToggle 2).posted.map wire
      = [(0x603, 8, [0x21, 0x00, 0x20, 0x00, 0x0A, 0, 0, 0]),
         (0x603, 8, [0x00, 1, 2, 3, 4, 5, 6, 7]),
         (0x603, 8, [0x19, 8, 9, 10, 0, 0, 0, 0])] := by
  decide

/-! ## C11: wrong index or sub-index in an initiate response -/

/-- C11: an initiate-upload response received for a pending initiate-upload request, or an
initiate-download response received for a pending initiate-download request, whose index or
sub-index is not the requested one, moves the client to Error; the caller's buffer is as
before and no frame is passed to the driver. -/
theorem initiate_response_wrong_object (s : COSDOHandler) (Msg : CANMsg)
    (hkind : (s.requestedService = COSDORequestType.eSDOReadRequestInit
        ∧ ctl_cs Msg.payload = SDOInitUploadResponse)
      ∨ (s.requestedService = COSDORequestType.eSDOWriteRequestExp
        ∧ ctl_cs Msg.payload = SDOInitDownloadResp))
    (hobj : msgIdx Msg.payload ≠ s.requestedIdx ∨ msgSubIdx Msg.payload ≠ s.requestedSub) :
    (s.OnRxHandler Msg).SDORxTxState = COSDOCommStates.eCO_SDOError
      ∧ (s.OnRxHandler Msg).ClientDataPtr = s.ClientDataPtr
      ∧ (s.OnRxHandler Msg).offered = s.offered
      ∧ (s.OnRxHandler Msg).posted = s.posted := by
  have hne : ¬ (msgIdx Msg.payload = s.requestedIdx
      ∧ msgSubIdx Msg.payload = s.requestedSub) := by
    rintro ⟨a, b⟩
    rcases hobj with h | h
    · exact h a
    · exact h b
  rcases hkind with ⟨hS, hcs⟩ | ⟨hS, hcs⟩
  · rw [OnRxHandler_uploadInit s Msg hS hcs]
    unfold COSDOHandler.onUploadInitResp
    rw [if_neg hne]
    exact ⟨rfl, rfl, rfl, rfl⟩
  · rw [OnRxHandler_downloadInit s Msg hS hcs]
    unfold COSDOHandler.onDownloadInitResp
    rw [if_neg hne]
    exact ⟨rfl, rfl, rfl, rfl⟩

/-- C11, witness: the client of node 3 waits for the initiate-upload response of 0x2000.0
and receives the one of 0x2001.0. -/
theorem initiate_response_wrong_object_witness :
    (((attached 3).ReadSDO 0x2000 0 (memOf []) 4).1.OnRxHandler
        (respMsg 3 [0x43, 0x01, 0x20, 0x00, 1, 2, 3, 4])).SDORxTxState
        = COSDOCommStates.eCO_SDOError
      ∧ (((attached 3).ReadSDO 0x2000 0 (memOf []) 4).1.OnRxHandler
        (respMsg 3 [0x43, 0x01, 0x20, 0x00, 1, 2, 3, 4])).ClientDataPtr
        = ((attached 3).ReadSDO 0x2000 0 (memOf []) 4).1.ClientDataPtr
      ∧ (((attached 3).ReadSDO 0x2000 0 (memOf []) 4).1.OnRxHandler
        (respMsg 3 [0x43, 0x01, 0x20, 0x00, 1, 2, 3, 4])).offered
        = ((attached 3).ReadSDO 0x2000 0 (memOf []) 4).1.offered
      ∧ (((attached 3).ReadSDO 0x2000 0 (memOf []) 4).1.OnRxHandler
        (respMsg 3 [0x43, 0x01, 0x20, 0x00, 1, 2, 3, 4])).posted
        = ((attached 3).ReadSDO 0x2000 0 (memOf []) 4).1.posted :=
  initiate_response_wrong_object _ _ (Or.inl ⟨by decide, by decide⟩) (Or.inl (by decide))

/-! ## C12: calls while a transaction is in flight -/

/-- C12: in state Waiting a call of `ReadSDO` or of `WriteSDO`, whatever its arguments,
returns Waiting and changes nothing: the client (requested object, request buffer, data
pointer, counters, the router with the frames passed to the driver) and `*length` are as
before. -/
theorem calls_while_waiting (s : COSDOHandler) (Idx SubIdx : Nat) (data : Nat → Nat)
    (len : Nat) (hW : s.SDORxTxState = COSDOCommStates.eCO_SDOWaiting) :
    s.ReadSDO Idx SubIdx data len = (s, len)
      ∧ (s.ReadSDO Idx SubIdx data len).1.SDORxTxState = COSDOCommStates.eCO_SDOWaiting
      ∧ s.WriteSDO Idx SubIdx data len = s
      ∧ (s.WriteSDO Idx SubIdx data len).SDORxTxState = COSDOCommStates.eCO_SDOWaiting := by
  have h1 : s.ReadSDO Idx SubIdx data len = (s, len) := by
    unfold COSDOHandler.ReadSDO
    rw [hW]
  have h2 : s.WriteSDO Idx SubIdx data len = s := by
    unfold COSDOHandler.WriteSDO
    rw [hW]
  refine ⟨h1, ?_, h2, ?_⟩
  · rw [h1]; exact hW
  · rw [h2]; exact hW

/-- C12, witness: the client of node 3 after it has sent the read request for 0x2000.0; a
read of 0x1000.0 and a write to 0x1017.0 are tried. -/
theorem calls_while_waiting_witness :
    ((attached 3).ReadSDO 0x2000 0 (memOf []) 4).1.ReadSDO 0x1000 0 (memOf [0xF4, 0x01]) 2
        = (((attached 3).ReadSDO 0x2000 0 (memOf []) 4).1, 2)
      ∧ (((attached 3).ReadSDO 0x2000 0 (memOf []) 4).1.ReadSDO 0x1000 0
          (memOf [0xF4, 0x01]) 2).1.SDORxTxState = COSDOCommStates.eCO_SDOWaiting
      ∧ ((attached 3).ReadSDO 0x2000 0 (memOf []) 4).1.WriteSDO 0x1000 0
          (memOf [0xF4, 0x01]) 2 = ((attached 3).ReadSDO 0x2000 0 (memOf []) 4).1
      ∧ (((attached 3).ReadSDO 0x2000 0 (memOf []) 4).1.WriteSDO 0x1000 0
          (memOf [0xF4, 0x01]) 2).SDORxTxState = COSDOCommStates.eCO_SDOWaiting :=
  calls_while_waiting _ 0x1000 0 (memOf [0xF4, 0x01]) 2 (by decide)

/-! ## C13: the response time-out -/

/-- C13, the code at the failing input: the client of node 3 sends its read request at
time 4294967290 (six ms before the 32-bit millisecond counter wraps); `SetActTime` one ms
later already lets the timer expire, the request is sent a second time, and one ms after
that the state is Timeout, two ms after the first transmission. -/
theorem timeout_at_wraparound :
    ((attached 3).pollRead 0x1000 0 (memOf []) 4 (fun k => 4294967290 + k) 1).SDORxTxState
        = COSDOCommStates.eCO_SDOWaiting
      ∧ ((attached 3).pollRead 0x1000 0 (memOf []) 4 (fun k => 4294967290 + k) 1).RequestSentAt
        = 4294967290
      ∧ (((attached 3).pollRead 0x1000 0 (memOf []) 4
          (fun k => 4294967290 + k) 1).afterTxComplete.SetActTime 4294967291).SDORxTxState
        = COSDOCommStates.eCO_SDORetry
      ∧ ((attached 3).pollRead 0x1000 0 (memOf []) 4
          (fun k => 4294967290 + k) 2).posted.length = 2
      ∧ ((attached 3).pollRead 0x1000 0 (memOf []) 4 (fun k => 4294967290 + k) 3).SDORxTxState
        = COSDOCommStates.eCO_SDOTimeout := by
  decide

/-- What does hold of C13 about the moment of the time-out: while the client waits with the
timer running and `RequestSentAt + 20` does not pass `2 ^ 32`, `SetActTime(now)` leaves the
state Waiting exactly as long as `now` is at most 20 ms behind the send time. -/
theorem SetActTime_waiting_iff (s : COSDOHandler) (now : Nat)
    (hW : s.SDORxTxState = COSDOCommStates.eCO_SDOWaiting) (hT : s.isTimerActive = true)
    (h32 : s.RequestSentAt + SDORespTimeOut < 2 ^ 32) :
    (s.SetActTime now).SDORxTxState = COSDOCommStates.eCO_SDOWaiting
      ↔ now ≤ s.RequestSentAt + 20 := by
  have hmod : (s.RequestSentAt + SDORespTimeOut) % 2 ^ 32 = s.RequestSentAt + 20 :=
    Nat.mod_eq_of_lt h32
  by_cases hlt : s.RequestSentAt + 20 < now
  · have hlt' : (s.RequestSentAt + SDORespTimeOut) % 2 ^ 32 < now := by rw [hmod]; exact hlt
    by_cases hc : s.TORetryCounter < s.TORetryMax
    · rw [SetActTime_fires s now hT hlt' hc]
      constructor
      · intro h; cases h
      · intro h; omega
    · rw [SetActTime_fires_last s now hT hlt' hc]
      constructor
      · intro h; cases h
      · intro h; omega
  · rw [SetActTime_quiet s now (by rw [hmod]; exact fun h => hlt h.2)]
    constructor
    · intro _; omega
    · intro _; exact hW

/-- What does hold of C13 about the number of transmissions: from a freshly reset client
with `TORetryMax = m`, a transmitter that takes every frame, no response, and rounds
`SetActTime(now k)`, `ReadSDO` whose times are more than 20 ms apart and stay below
`2 ^ 32 - 20`, the request is posted in each of the first `m + 1` rounds, round `m + 2` ends
in Timeout, and from then on the state is Timeout and nothing more is posted. -/
theorem timeout_after_retries (s : COSDOHandler) (Idx SubIdx : Nat) (dataptr : Nat → Nat)
    (length : Nat) (now : Nat → Nat)
    (hIdle : s.SDORxTxState = COSDOCommStates.eCO_SDOIdle)
    (hT : s.isTimerActive = false) (hC : s.TORetryCounter = 0)
    (hmax : s.TORetryMax ≤ 255) (hb : s.Handler.can.busy = false)
    (hR : s.SDORequestMsg.isRTR = false)
    (hstep : ∀ k, now k + 20 < now (k + 1)) (h32 : ∀ k, now k + 20 < 2 ^ 32) :
    (∀ k, k ≤ s.TORetryMax →
        (s.pollRead Idx SubIdx dataptr length now (k + 1)).SDORxTxState
            = COSDOCommStates.eCO_SDOWaiting
        ∧ (s.pollRead Idx SubIdx dataptr length now (k + 1)).posted.length
            = s.posted.length + k + 1)
      ∧ ∀ d, (s.pollRead Idx SubIdx dataptr length now (s.TORetryMax + 2 + d)).SDORxTxState
            = COSDOCommStates.eCO_SDOTimeout
        ∧ (s.pollRead Idx SubIdx dataptr length now (s.TORetryMax + 2 + d)).posted.length
            = s.posted.length + s.TORetryMax + 1 := by
  have hw := pollRead_waiting s Idx SubIdx dataptr length now hIdle hT hC hmax hb hR hstep h32
  refine ⟨fun k hk => ⟨(hw k hk).1, (hw k hk).2.2.2.2.2.1⟩, ?_⟩
  have key : ∀ d,
      (s.pollRead Idx SubIdx dataptr length now (s.TORetryMax + 2 + d)).SDORxTxState
          = COSDOCommStates.eCO_SDOTimeout
      ∧ (s.pollRead Idx SubIdx dataptr length now (s.TORetryMax + 2 + d)).isTimerActive = false
      ∧ (s.pollRead Idx SubIdx dataptr length now (s.TORetryMax + 2 + d)).posted.length
          = s.posted.length + s.TORetryMax + 1 := by
    intro d
    induction d with
    | zero =>
      obtain ⟨i1, i2, i3, i4, i5, i6, i7, i8⟩ := hw s.TORetryMax (le_refl _)
      show (s.pollRead Idx SubIdx dataptr length now (s.TORetryMax + 1 + 1)).SDORxTxState = _
        ∧ (s.pollRead Idx SubIdx dataptr length now (s.TORetryMax + 1 + 1)).isTimerActive = _
        ∧ (s.pollRead Idx SubIdx dataptr length now (s.TORetryMax + 1 + 1)).posted.length = _
      rw [pollRead_succ]
      generalize s.pollRead Idx SubIdx dataptr length now (s.TORetryMax + 1) = sk
        at i1 i2 i3 i4 i5 i6 i7 i8
      have hlt : (sk.afterTxComplete.RequestSentAt + SDORespTimeOut) % 2 ^ 32
          < now (s.TORetryMax + 1) := by
        show (sk.RequestSentAt + 20) % 2 ^ 32 < now (s.TORetryMax + 1)
        rw [i3, Nat.mod_eq_of_lt (h32 _)]
        exact hstep _
      have hf := SetActTime_fires_last sk.afterTxComplete (now (s.TORetryMax + 1)) i2 hlt
        (by show ¬ sk.TORetryCounter < sk.TORetryMax; omega)
      rw [hf, ReadSDO_of_timeout _ _ _ _ _ rfl]
      exact ⟨rfl, rfl, i6⟩
    | succ d ih =>
      obtain ⟨i1, i2, i3⟩ := ih
      show (s.pollRead Idx SubIdx dataptr length now (s.TORetryMax + 2 + d + 1)).SDORxTxState = _
        ∧ (s.pollRead Idx SubIdx dataptr length now (s.TORetryMax + 2 + d + 1)).isTimerActive = _
        ∧ (s.pollRead Idx SubIdx dataptr length now (s.TORetryMax + 2 + d + 1)).posted.length = _
      rw [pollRead_succ]
      generalize s.pollRead Idx SubIdx dataptr length now (s.TORetryMax + 2 + d) = sk
        at i1 i2 i3
      have hq := SetActTime_quiet sk.afterTxComplete (now (s.TORetryMax + 2 + d)) (by
        rintro ⟨h, _⟩
        rw [afterTxComplete_isTimerActive, i2] at h
        cases h)
      rw [hq, ReadSDO_of_timeout ({ sk.afterTxComplete with
        actTime := now (s.TORetryMax + 2 + d) } : COSDOHandler) Idx SubIdx dataptr length i1]
      exact ⟨i1, i2, i3⟩
  exact fun d => ⟨(key d).1, (key d).2.2⟩

/-! ## C14: the transmitter is busy on every attempt -/

/-- The code in general, for C14: with a transmitter that takes no frame and
`BusyRetryMax = b < 255`, from a reset client each of the first `b` calls of `ReadSDO` (of
`WriteSDO`) returns Retry, call `b + 1` returns Error, and no frame is transmitted in any
number of calls. -/
theorem busy_retry_bound (s : COSDOHandler) (Idx SubIdx : Nat) (data : Nat → Nat)
    (len b : Nat) (hIdle : s.SDORxTxState = COSDOCommStates.eCO_SDOIdle)
    (hC : s.BusyRetryCounter = 0) (hB : s.txBlocked) (hb : s.BusyRetryMax = b)
    (hb255 : b < 255) :
    (∀ k, 1 ≤ k → k ≤ b →
        (s.readCalls Idx SubIdx data len k).SDORxTxState = COSDOCommStates.eCO_SDORetry
        ∧ (s.writeCalls Idx SubIdx data len k).SDORxTxState = COSDOCommStates.eCO_SDORetry)
      ∧ (s.readCalls Idx SubIdx data len (b + 1)).SDORxTxState = COSDOCommStates.eCO_SDOError
      ∧ (s.writeCalls Idx SubIdx data len (b + 1)).SDORxTxState
          = COSDOCommStates.eCO_SDOError
      ∧ (∀ k, (s.readCalls Idx SubIdx data len k).posted = s.posted
          ∧ (s.writeCalls Idx SubIdx data len k).posted = s.posted) := by
  subst hb
  have r1 := readCalls_blocked s Idx SubIdx data len hIdle hC hB (by omega)
  have w1 := writeCalls_blocked s Idx SubIdx data len hIdle hC hB (by omega)
  have r2 := readCalls_last s Idx SubIdx data len hIdle hC hB hb255
  have w2 := writeCalls_last s Idx SubIdx data len hIdle hC hB hb255
  refine ⟨?_, r2.1, w2.1, ?_⟩
  · intro k hk1 hk
    refine ⟨?_, ?_⟩
    · rcases (r1 k hk).1 with h | h
      · omega
      · exact h
    · rcases (w1 k hk).1 with h | h
      · omega
      · exact h
  · intro k
    by_cases hk : k ≤ s.BusyRetryMax
    · exact ⟨(r1 k hk).2.2.2.1, (w1 k hk).2.2.2.1⟩
    · obtain ⟨d, rfl⟩ : ∃ d, k = s.BusyRetryMax + 1 + d := ⟨k - (s.BusyRetryMax + 1), by omega⟩
      rw [readCalls_error_stays s Idx SubIdx data len _ r2.1 d,
        writeCalls_error_stays s Idx SubIdx data len _ w2.1 d]
      exact ⟨r2.2, w2.2⟩

/-- An instance of `busy_retry_bound`: the client of node 3 with the default
`BusyRetryMax = 5` at a router whose earlier transmission has not completed. -/
theorem busy_retry_bound_witness :
    (∀ k, 1 ≤ k → k ≤ 5 →
        ((attachedBusy 3).readCalls 0x1000 0 (memOf []) 4 k).SDORxTxState
          = COSDOCommStates.eCO_SDORetry
        ∧ ((attachedBusy 3).writeCalls 0x1000 0 (memOf []) 4 k).SDORxTxState
          = COSDOCommStates.eCO_SDORetry)
      ∧ ((attachedBusy 3).readCalls 0x1000 0 (memOf []) 4 (5 + 1)).SDORxTxState
          = COSDOCommStates.eCO_SDOError
      ∧ ((attachedBusy 3).writeCalls 0x1000 0 (memOf []) 4 (5 + 1)).SDORxTxState
          = COSDOCommStates.eCO_SDOError
      ∧ (∀ k, ((attachedBusy 3).readCalls 0x1000 0 (memOf []) 4 k).posted
            = (attachedBusy 3).posted
          ∧ ((attachedBusy 3).writeCalls 0x1000 0 (memOf []) 4 k).posted
            = (attachedBusy 3).posted) :=
  busy_retry_bound (attachedBusy 3) 0x1000 0 (memOf []) 4 5 rfl rfl (Or.inl (by decide)) rfl
    (by decide)

/-- With `BusyRetryMax = 255` and a transmitter that takes no frame, every call of `ReadSDO`
from a client that is Idle leaves the state Retry, whatever the busy counter holds: the
counter is reduced modulo 256 and is never above 255. -/
theorem readCalls_blocked_255 (s : COSDOHandler) (Idx SubIdx : Nat) (dataptr : Nat → Nat)
    (length : Nat) (hIdle : s.SDORxTxState = COSDOCommStates.eCO_SDOIdle)
    (hB : s.txBlocked) (hmax : s.BusyRetryMax = 255) (k : Nat) :
    (s.readCalls Idx SubIdx dataptr length (k + 1)).SDORxTxState
        = COSDOCommStates.eCO_SDORetry
      ∧ (s.readCalls Idx SubIdx dataptr length (k + 1)).BusyRetryMax = 255
      ∧ (s.readCalls Idx SubIdx dataptr length (k + 1)).posted = s.posted
      ∧ (s.readCalls Idx SubIdx dataptr length (k + 1)).txBlocked := by
  induction k with
  | zero =>
    obtain ⟨a, -, c, d, e⟩ := ReadSDO_of_idle_blocked s Idx SubIdx dataptr length hIdle hB
    have hlt : ¬ (s.BusyRetryCounter + 1) % 256 > s.BusyRetryMax := by
      have := Nat.mod_lt (s.BusyRetryCounter + 1) (show 0 < 256 by norm_num)
      omega
    rw [if_neg hlt] at a
    exact ⟨a, c.trans hmax, d, e⟩
  | succ k ih =>
    obtain ⟨i1, i2, i3, i4⟩ := ih
    obtain ⟨a, -, c, d, e⟩ := caseRetry_blocked _ i4
    have hlt : ¬ ((s.readCalls Idx SubIdx dataptr length (k + 1)).BusyRetryCounter + 1) % 256
        > (s.readCalls Idx SubIdx dataptr length (k + 1)).BusyRetryMax := by
      have := Nat.mod_lt ((s.readCalls Idx SubIdx dataptr length (k + 1)).BusyRetryCounter + 1)
        (show 0 < 256 by norm_num)
      omega
    rw [if_neg hlt] at a
    show ((s.readCalls Idx SubIdx dataptr length (k + 1)).ReadSDO Idx SubIdx dataptr
        length).1.SDORxTxState = _
      ∧ ((s.readCalls Idx SubIdx dataptr length (k + 1)).ReadSDO Idx SubIdx dataptr
        length).1.BusyRetryMax = _
      ∧ ((s.readCalls Idx SubIdx dataptr length (k + 1)).ReadSDO Idx SubIdx dataptr
        length).1.posted = _
      ∧ ((s.readCalls Idx SubIdx dataptr length (k + 1)).ReadSDO Idx SubIdx dataptr
        length).1.txBlocked
    rw [ReadSDO_of_retry _ _ _ _ _ i1]
    exact ⟨a, c.trans i2, d.trans i3, e⟩

/-- The same for `WriteSDO`. -/
theorem writeCalls_blocked_255 (s : COSDOHandler) (Idx SubIdx : Nat) (Data : Nat → Nat)
    (len : Nat) (hIdle : s.SDORxTxState = COSDOCommStates.eCO_SDOIdle)
    (hB : s.txBlocked) (hmax : s.BusyRetryMax = 255) (k : Nat) :
    (s.writeCalls Idx SubIdx Data len (k + 1)).SDORxTxState = COSDOCommStates.eCO_SDORetry
      ∧ (s.writeCalls Idx SubIdx Data len (k + 1)).BusyRetryMax = 255
      ∧ (s.writeCalls Idx SubIdx Data len (k + 1)).posted = s.posted
      ∧ (s.writeCalls Idx SubIdx Data len (k + 1)).txBlocked := by
  induction k with
  | zero =>
    obtain ⟨a, -, c, d, e⟩ := WriteSDO_of_idle_blocked s Idx SubIdx Data len hIdle hB
    have hlt : ¬ (s.BusyRetryCounter + 1) % 256 > s.BusyRetryMax := by
      have := Nat.mod_lt (s.BusyRetryCounter + 1) (show 0 < 256 by norm_num)
      omega
    rw [if_neg hlt] at a
    exact ⟨a, c.trans hmax, d, e⟩
  | succ k ih =>
    obtain ⟨i1, i2, i3, i4⟩ := ih
    obtain ⟨a, -, c, d, e⟩ := caseRetry_blocked _ i4
    have hlt : ¬ ((s.writeCalls Idx SubIdx Data len (k + 1)).BusyRetryCounter + 1) % 256
        > (s.writeCalls Idx SubIdx Data len (k + 1)).BusyRetryMax := by
      have := Nat.mod_lt ((s.writeCalls Idx SubIdx Data len (k + 1)).BusyRetryCounter + 1)
        (show 0 < 256 by norm_num)
      omega
    rw [if_neg hlt] at a
    show ((s.writeCalls Idx SubIdx Data len (k + 1)).WriteSDO Idx SubIdx Data
        len).SDORxTxState = _
      ∧ ((s.writeCalls Idx SubIdx Data len (k + 1)).WriteSDO Idx SubIdx Data
        len).BusyRetryMax = _
      ∧ ((s.writeCalls Idx SubIdx Data len (k + 1)).WriteSDO Idx SubIdx Data len).posted = _
      ∧ ((s.writeCalls Idx SubIdx Data len (k + 1)).WriteSDO Idx SubIdx Data len).txBlocked
    rw [WriteSDO_of_retry _ _ _ _ _ i1]
    exact ⟨a, c.trans i2, d.trans i3, e⟩

/-- C14, the code at the failing input: the client of node 3 with `SetBusyRetryMax(255)` at
a router whose earlier transmission never completes.  Every call of `ReadSDO` and every call
of `WriteSDO` returns Retry: call 256 (`k = 255`), which is call b + 1, and every later one.
Error is never returned and no frame is transmitted.  `BusyRetryCounter` is a `uint8_t` as
`BusyRetryMax` is, so that `BusyRetryCounter > BusyRetryMax` cannot hold for the maximum
255: the counter wraps from 255 to 0. -/
theorem busy_retry_max_255 (k : Nat) :
    ((attachedBusy 3).SetBusyRetryMax 255).BusyRetryMax = 255
      ∧ (((attachedBusy 3).SetBusyRetryMax 255).readCalls 0x1000 0 (memOf []) 4
          (k + 1)).SDORxTxState = COSDOCommStates.eCO_SDORetry
      ∧ (((attachedBusy 3).SetBusyRetryMax 255).writeCalls 0x1000 0 (memOf []) 4
          (k + 1)).SDORxTxState = COSDOCommStates.eCO_SDORetry
      ∧ (((attachedBusy 3).SetBusyRetryMax 255).readCalls 0x1000 0 (memOf []) 4
          (k + 1)).posted.map wire = []
      ∧ (((attachedBusy 3).SetBusyRetryMax 255).writeCalls 0x1000 0 (memOf []) 4
          (k + 1)).posted.map wire = []
      ∧ (((attachedBusy 3).SetBusyRetryMax 255).readCalls 0x1000 0 (memOf []) 4
          255).BusyRetryCounter = 255
      ∧ (((attachedBusy 3).SetBusyRetryMax 255).readCalls 0x1000 0 (memOf []) 4
          (255 + 1)).BusyRetryCounter = 0 := by
  have hr := readCalls_blocked_255 ((attachedBusy 3).SetBusyRetryMax 255) 0x1000 0 (memOf [])
    4 rfl (Or.inl (by decide)) rfl k
  have hw := writeCalls_blocked_255 ((attachedBusy 3).SetBusyRetryMax 255) 0x1000 0
    (memOf []) 4 rfl (Or.inl (by decide)) rfl k
  obtain ⟨i1, i2, i3, i4, i5⟩ :=
    readCalls_blocked ((attachedBusy 3).SetBusyRetryMax 255) 0x1000 0 (memOf []) 4 rfl rfl
      (Or.inl (by decide)) (by decide) 255 (by decide)
  have hret : (((attachedBusy 3).SetBusyRetryMax 255).readCalls 0x1000 0 (memOf []) 4
      255).SDORxTxState = COSDOCommStates.eCO_SDORetry := by
    rcases i1 with h | h
    · exact absurd h (by decide)
    · exact h
  have hc := (caseRetry_blocked _ i5).2.1
  refine ⟨rfl, hr.1, hw.1, ?_, ?_, i2, ?_⟩
  · rw [hr.2.2.1]
    rfl
  · rw [hw.2.2.1]
    rfl
  · rw [readCalls_succ, ReadSDO_of_retry _ _ _ _ _ hret, hc, i2]

/-! ## C15: `ReadObjects` and `WriteObjects` -/

/-- The code in general, for C15: one call of `ReadObjects` or `WriteObjects` for a vector
of `n` entries (`1 ≤ n ≤ 255`) by a client whose cursor is below `n` performs the
single-entry operation on the entry at the cursor.  It returns Done exactly when that
operation returned Done and the entry was the last one, Error exactly when the operation
returned Error, and Busy otherwise.  The cursor moves on (to the next entry, from the last
one to 0) exactly when the operation returned Done, and stays below `n`; `ReadObjects` then
stores the received size in `len` of that entry and changes no other entry. -/
theorem objects_vector_step (s : COSDOHandler) (Objects : Nat → ODEntry) (n : Nat)
    (hn : n ≤ 255) (hk : s.RWObjectsAccessStep < n) :
    (((s.ReadObjects Objects n).2.2 = COSDOCommStates.eCO_SDODone
        ↔ (s.readStep Objects).1.SDORxTxState = COSDOCommStates.eCO_SDODone
          ∧ s.RWObjectsAccessStep + 1 = n)
      ∧ ((s.ReadObjects Objects n).2.2 = COSDOCommStates.eCO_SDOError
        ↔ (s.readStep Objects).1.SDORxTxState = COSDOCommStates.eCO_SDOError)
      ∧ ((s.ReadObjects Objects n).2.2 = COSDOCommStates.eCO_SDODone
        ∨ (s.ReadObjects Objects n).2.2 = COSDOCommStates.eCO_SDOError
        ∨ (s.ReadObjects Objects n).2.2 = COSDOCommStates.eCO_SDOBusy)
      ∧ ((s.readStep Objects).1.SDORxTxState = COSDOCommStates.eCO_SDODone →
          (s.ReadObjects Objects n).1.RWObjectsAccessStep
              = (if s.RWObjectsAccessStep + 1 = n then 0 else s.RWObjectsAccessStep + 1)
          ∧ (s.ReadObjects Objects n).1.SDORxTxState = COSDOCommStates.eCO_SDOIdle
          ∧ (s.ReadObjects Objects n).2.1 = Function.update Objects s.RWObjectsAccessStep
              { Objects s.RWObjectsAccessStep with len := s.ActRxTxLen })
      ∧ ((s.readStep Objects).1.SDORxTxState ≠ COSDOCommStates.eCO_SDODone →
          (s.ReadObjects Objects n).1 = (s.readStep Objects).1
          ∧ (s.ReadObjects Objects n).1.RWObjectsAccessStep = s.RWObjectsAccessStep
          ∧ (s.ReadObjects Objects n).2.1 = Objects))
    ∧ (((s.WriteObjects Objects n).2 = COSDOCommStates.eCO_SDODone
        ↔ (s.writeStep Objects).SDORxTxState = COSDOCommStates.eCO_SDODone
          ∧ s.RWObjectsAccessStep + 1 = n)
      ∧ ((s.WriteObjects Objects n).2 = COSDOCommStates.eCO_SDOError
        ↔ (s.writeStep Objects).SDORxTxState = COSDOCommStates.eCO_SDOError)
      ∧ ((s.WriteObjects Objects n).2 = COSDOCommStates.eCO_SDODone
        ∨ (s.WriteObjects Objects n).2 = COSDOCommStates.eCO_SDOError
        ∨ (s.WriteObjects Objects n).2 = COSDOCommStates.eCO_SDOBusy)
      ∧ ((s.writeStep Objects).SDORxTxState = COSDOCommStates.eCO_SDODone →
          (s.WriteObjects Objects n).1.RWObjectsAccessStep
              = (if s.RWObjectsAccessStep + 1 = n then 0 else s.RWObjectsAccessStep + 1)
          ∧ (s.WriteObjects Objects n).1.SDORxTxState = COSDOCommStates.eCO_SDOIdle)
      ∧ ((s.writeStep Objects).SDORxTxState ≠ COSDOCommStates.eCO_SDODone →
          (s.WriteObjects Objects n).1 = s.writeStep Objects
          ∧ (s.WriteObjects Objects n).1.RWObjectsAccessStep = s.RWObjectsAccessStep))
    ∧ (s.ReadObjects Objects n).1.RWObjectsAccessStep < n
    ∧ (s.WriteObjects Objects n).1.RWObjectsAccessStep < n := by
  have hr := ReadObjects_step s Objects n hn hk
  have hw := WriteObjects_step s Objects n hn hk
  refine ⟨hr, hw, ?_, ?_⟩
  · by_cases h : (s.readStep Objects).1.SDORxTxState = COSDOCommStates.eCO_SDODone
    · rw [(hr.2.2.2.1 h).1]
      split_ifs <;> omega
    · rw [(hr.2.2.2.2 h).2.1]
      exact hk
  · by_cases h : (s.writeStep Objects).SDORxTxState = COSDOCommStates.eCO_SDODone
    · rw [(hw.2.2.2.1 h).1]
      split_ifs <;> omega
    · rw [(hw.2.2.2.2 h).2]
      exact hk

/-- An instance of `objects_vector_step`: the client of node 3 reads the two entries of
`twoObjects`; after three
rounds of the caller's loop the response to the second read has arrived, and the fourth call
of `ReadObjects` returns Done, puts the cursor back to 0 and stores the size 1 in the second
entry. -/
theorem objects_vector_step_witness :
    (((attached 3).readObjectsLoop twoObjects 2 twoObjectsResponses 3).1.ReadObjects
        ((attached 3).readObjectsLoop twoObjects 2 twoObjectsResponses 3).2.1 2).2.2
        = COSDOCommStates.eCO_SDODone
      ∧ (((attached 3).readObjectsLoop twoObjects 2 twoObjectsResponses 3).1.ReadObjects
        ((attached 3).readObjectsLoop twoObjects 2 twoObjectsResponses 3).2.1 2).1.RWObjectsAccessStep
        = 0
      ∧ ((((attached 3).readObjectsLoop twoObjects 2 twoObjectsResponses 3).1.ReadObjects
        ((attached 3).readObjectsLoop twoObjects 2 twoObjectsResponses 3).2.1 2).2.1 1).len
        = 1 :=
  have h := objects_vector_step ((attached 3).readObjectsLoop twoObjects 2 twoObjectsResponses 3).1
    ((attached 3).readObjectsLoop twoObjects 2 twoObjectsResponses 3).2.1 2
    (by decide) (by decide)
  ⟨h.1.1.mpr ⟨by decide, by decide⟩,
    (h.1.2.2.2.1 (by decide)).1.trans (by decide),
    (congrArg (fun o => (o 1).len) (h.1.2.2.2.1 (by decide)).2.2).trans (by decide)⟩

/-- The reads of `twoObjects` as the code performs them: the calls of `ReadObjects` return
Busy, Busy, Busy, Done; two requests are posted; afterwards the entries hold the sizes 4 and
1, the cursor is 0 and the client is Idle. -/
theorem scenario_read_two_objects :
    (List.range 5).map (fun k =>
        ((attached 3).readObjectsLoop twoObjects 2 twoObjectsResponses k).2.2.1)
      = [COSDOCommStates.eCO_SDOBusy, COSDOCommStates.eCO_SDOBusy,
         COSDOCommStates.eCO_SDOBusy, COSDOCommStates.eCO_SDOBusy,
         COSDOCommStates.eCO_SDODone]
    ∧ ((attached 3).readObjectsLoop twoObjects 2 twoObjectsResponses 4).1.posted.map wire
      = [(0x603, 8, [0x40, 0x00, 0x10, 0x00, 0, 0, 0, 0]),
         (0x603, 8, [0x40, 0x01, 0x10, 0x00, 0, 0, 0, 0])]
    ∧ (((attached 3).readObjectsLoop twoObjects 2 twoObjectsResponses 4).2.1 0).len = 4
    ∧ (((attached 3).readObjectsLoop twoObjects 2 twoObjectsResponses 4).2.1 1).len = 1
    ∧ ((attached 3).readObjectsLoop twoObjects 2 twoObjectsResponses 4).1.RWObjectsAccessStep = 0
    ∧ ((attached 3).readObjectsLoop twoObjects 2 twoObjectsResponses 4).1.SDORxTxState
      = COSDOCommStates.eCO_SDOIdle := by
  decide

theorem ResetComState_keeps_cursor (s : COSDOHandler) :
    s.ResetComState.RWObjectsAccessStep = s.RWObjectsAccessStep :=
  rfl

/-- The code in general, for C15: a call of `ReadObjects` or `WriteObjects` in which the
single-entry operation does not return Done leaves the cursor where it is, also when it
returns Error; the cursor is set back to 0 only in the call that completes entry
`nrEntries - 1`. -/
theorem cursor_kept_unless_done (s : COSDOHandler) (Objects : Nat → ODEntry) (n : Nat) :
    ((s.readStep Objects).1.SDORxTxState ≠ COSDOCommStates.eCO_SDODone →
        (s.ReadObjects Objects n).1.RWObjectsAccessStep
          = (s.readStep Objects).1.RWObjectsAccessStep)
      ∧ ((s.writeStep Objects).SDORxTxState ≠ COSDOCommStates.eCO_SDODone →
        (s.WriteObjects Objects n).1.RWObjectsAccessStep
          = (s.writeStep Objects).RWObjectsAccessStep) := by
  constructor
  · intro h
    have h2 : ¬ (s.ReadSDO (Objects s.RWObjectsAccessStep).Idx
        (Objects s.RWObjectsAccessStep).SubIdx (Objects s.RWObjectsAccessStep).Value
        0).1.SDORxTxState = COSDOCommStates.eCO_SDODone := h
    unfold COSDOHandler.ReadObjects COSDOHandler.readStep
    dsimp only
    rw [if_neg h2]
    split_ifs <;> rfl
  · intro h
    have h2 : ¬ (s.WriteSDO (Objects s.RWObjectsAccessStep).Idx
        (Objects s.RWObjectsAccessStep).SubIdx (Objects s.RWObjectsAccessStep).Value
        (Objects s.RWObjectsAccessStep).len).SDORxTxState
          = COSDOCommStates.eCO_SDODone := h
    unfold COSDOHandler.WriteObjects COSDOHandler.writeStep
    dsimp only
    rw [if_neg h2]
    split_ifs <;> rfl

/-- C15, the code at the failing input: the server aborts the second read of a bulk read of
two entries; the fourth call of `ReadObjects` returns Error and the caller clears the state
with `ResetComState()`.  The cursor is still 1.  A new bulk read, of the two entries of
`identityObjects`, addresses entry 1 first (the request for 0x1018.2 is the only frame it
posts) and returns Done in its second call, when that read has completed: entry 0 was not
addressed and its `len` is as before.  For a vector of one entry the same first call
requests the element behind the end of the vector, and the call in which that read
completes returns Busy with the cursor at 2. -/
theorem bulk_starts_at_stale_cursor :
    ((attached 3).readObjectsLoop twoObjects 2 secondReadAborted 4).2.2.1
        = COSDOCommStates.eCO_SDOError
      ∧ abortedBulk.SDORxTxState = COSDOCommStates.eCO_SDOIdle
      ∧ abortedBulk.RWObjectsAccessStep = 1
      ∧ abortedBulk.posted.map wire
          = [(0x603, 8, [0x40, 0x00, 0x10, 0x00, 0, 0, 0, 0]),
             (0x603, 8, [0x40, 0x01, 0x10, 0x00, 0, 0, 0, 0])]
      ∧ (abortedBulk.readObjectsLoop identityObjects 2 productCodeResponse 1).2.2.1
          = COSDOCommStates.eCO_SDOBusy
      ∧ (abortedBulk.readObjectsLoop identityObjects 2 productCodeResponse 2).2.2.1
          = COSDOCommStates.eCO_SDODone
      ∧ (abortedBulk.readObjectsLoop identityObjects 2 productCodeResponse 2).1.posted.map wire
          = [(0x603, 8, [0x40, 0x00, 0x10, 0x00, 0, 0, 0, 0]),
             (0x603, 8, [0x40, 0x01, 0x10, 0x00, 0, 0, 0, 0]),
             (0x603, 8, [0x40, 0x18, 0x10, 0x02, 0, 0, 0, 0])]
      ∧ (List.range 2).map (fun i =>
            ((abortedBulk.readObjectsLoop identityObjects 2 productCodeResponse 2).2.1 i).len)
          = [0, 4]
      ∧ (abortedBulk.readObjectsLoop identityObjects 1 productCodeResponse 1).1.posted.map wire
          = [(0x603, 8, [0x40, 0x00, 0x10, 0x00, 0, 0, 0, 0]),
             (0x603, 8, [0x40, 0x01, 0x10, 0x00, 0, 0, 0, 0]),
             (0x603, 8, [0x40, 0x18, 0x10, 0x02, 0, 0, 0, 0])]
      ∧ (abortedBulk.readObjectsLoop identityObjects 1 productCodeResponse 2).2.2.1
          = COSDOCommStates.eCO_SDOBusy
      ∧ (abortedBulk.readObjectsLoop identityObjects 1 productCodeResponse
          2).1.RWObjectsAccessStep = 2 := by
  decide

/-! ## C16: segmented upload of length 0 -/

/-- C16, as amended: an initiate-upload response with the requested index and sub-index,
`s = 1`, `e = 0` and length field 0, received for a pending initiate-upload request while the
transmitter takes a frame, makes the client post one upload-segment request (toggle
`nextToggle`) and leaves it Waiting with received length 0; an upload-segment response with
that toggle, `c = 1` and `n = 7` then moves it to Done with received length 0, the caller's
buffer untouched and nothing more posted. -/
theorem upload_length_zero (s : COSDOHandler) (Msg Seg : CANMsg)
    (hS : s.requestedService = COSDORequestType.eSDOReadRequestInit)
    (hcs : ctl_cs Msg.payload = SDOInitUploadResponse)
    (hI : msgIdx Msg.payload = s.requestedIdx) (hSub : msgSubIdx Msg.payload = s.requestedSub)
    (he : ctl_e Msg.payload = 0) (hs : ctl_s Msg.payload = 1) (hlen : msgU32 Msg.payload = 0)
    (hTx : s.txReady) (hR : s.SDORequestMsg.isRTR = false)
    (hcs2 : ctl_cs Seg.payload = SDOUploadSegResp) (ht : seg_t Seg.payload = s.nextToggle)
    (hc : seg_c Seg.payload = 1) (hn : seg_n Seg.payload = 7) :
    (s.OnRxHandler Msg).SDORxTxState = COSDOCommStates.eCO_SDOWaiting
      ∧ (s.OnRxHandler Msg).ActRxTxLen = 0
      ∧ (s.OnRxHandler Msg).ExpectedRxTxLen = 0
      ∧ (∃ f, (s.OnRxHandler Msg).posted = s.posted ++ [f]
          ∧ ctl_cs f.data = SDOUploadSegReq ∧ seg_t f.data = s.nextToggle % 2)
      ∧ ((s.OnRxHandler Msg).OnRxHandler Seg).SDORxTxState = COSDOCommStates.eCO_SDODone
      ∧ ((s.OnRxHandler Msg).OnRxHandler Seg).ActRxTxLen = 0
      ∧ ((s.OnRxHandler Msg).OnRxHandler Seg).ClientDataPtr = s.ClientDataPtr
      ∧ ((s.OnRxHandler Msg).OnRxHandler Seg).posted = (s.OnRxHandler Msg).posted := by
  have hE := onUploadInitResp_expected s Msg.payload hI hSub he hs
  obtain ⟨a1, a2, a3, a4, a5, _, _, a8, a9, a10⟩ :=
    onUploadInitResp_seg s Msg.payload hTx hR hI hSub he hs
  rw [OnRxHandler_uploadInit s Msg hS hcs]
  rw [OnRxHandler_uploadSeg (s.onUploadInitResp Msg.payload) Seg a2 hcs2]
  obtain ⟨b1, b2, b3, b4⟩ := onUploadSegResp_last (s.onUploadInitResp Msg.payload) Seg.payload
    (ht.trans a4.symm) hc (by rw [a3, hn]; decide)
  refine ⟨a1, a3, hE.trans hlen, ⟨_, a8, a9, a10⟩, b1, ?_, ?_, b4⟩
  · rw [b2, a3, hn]
  · rw [b3, a3, hn, a5]
    funext i
    rw [if_neg (by omega)]

/-- C16, witness: the client of node 3 has asked for 0x2000.0 and receives
`41 00 20 00 00 00 00 00`, then the segment `0F 00 ..`. -/
theorem upload_length_zero_witness :
    ((((attached 3).ReadSDO 0x2000 0 (memOf []) 4).1.afterTxComplete.OnRxHandler
        uploadZeroLength).OnRxHandler uploadEmptySegment).SDORxTxState
        = COSDOCommStates.eCO_SDODone
      ∧ ((((attached 3).ReadSDO 0x2000 0 (memOf []) 4).1.afterTxComplete.OnRxHandler
        uploadZeroLength).OnRxHandler uploadEmptySegment).ActRxTxLen = 0 :=
  have h := upload_length_zero ((attached 3).ReadSDO 0x2000 0 (memOf []) 4).1.afterTxComplete
    uploadZeroLength uploadEmptySegment (by decide) (by decide) (by decide) (by decide)
    (by decide) (by decide) (by decide) ⟨by decide, by decide⟩ (by decide) (by decide)
    (by decide) (by decide) (by decide)
  ⟨h.2.2.2.2.1, h.2.2.2.2.2.1⟩

/-- C16, counterexample: the response `41 00 20 00 00 00 00 00` (segmented, length 0) to the
read request for 0x2000.0 leaves the client Waiting, not Done, and a second frame, the
upload-segment request `60 00 00 ..`, is posted. -/
theorem zero_length_upload_asks_segment :
    (((attached 3).ReadSDO 0x2000 0 (memOf []) 4).1.onResponse uploadZeroLength).SDORxTxState
        = COSDOCommStates.eCO_SDOWaiting
      ∧ ((((attached 3).ReadSDO 0x2000 0 (memOf []) 4).1.onResponse
          uploadZeroLength).posted.map wire)
        = [(0x603, 8, [0x40, 0x00, 0x20, 0x00, 0, 0, 0, 0]),
           (0x603, 8, [0x60, 0, 0, 0, 0, 0, 0, 0])] := by
  decide

/-! ## C17: the gate of the transmitter -/

/-- C17: `SendMsg` called while `TxStatus` is not Idle returns false and changes nothing (no
frame is passed to the driver, `TxStatus` is as before); called while Idle it passes exactly
one frame to the driver, with the identifier of the message, and leaves `TxStatus` Busy;
from then on `SendMsg` is refused, `Update` and every driver event other than
`CAN_EVENT_TX_COMPLETE` leave `TxStatus` as it is, and `CAN_EVENT_TX_COMPLETE` sets it back
to Idle. -/
theorem SendMsg_gate (h : COMsgHandler) (msg : CANMsg) :
    (h.TxStatus ≠ COTxStatus.eCOTxIdle → h.SendMsg msg = (false, h))
      ∧ (h.TxStatus = COTxStatus.eCOTxIdle →
          (∃ f, (h.SendMsg msg).2.can.offered = h.can.offered ++ [f] ∧ f.id = msg.Id)
          ∧ (h.SendMsg msg).2.TxStatus = COTxStatus.eCOTxBusy
          ∧ (∀ msg2, (h.SendMsg msg).2.SendMsg msg2 = (false, (h.SendMsg msg).2)))
      ∧ (∀ now, (h.Update now).1.TxStatus = h.TxStatus)
      ∧ (∀ p_args : can_callback_args_t,
          (h.OnRxHandler p_args).TxStatus
            = if p_args.event = can_event_t.CAN_EVENT_TX_COMPLETE
                then COTxStatus.eCOTxIdle else h.TxStatus) := by
  refine ⟨?_, ?_, ?_, ?_⟩
  · intro hne
    unfold COMsgHandler.SendMsg
    rw [if_neg hne]
  · intro hidle
    have hbusy : (h.SendMsg msg).2.TxStatus = COTxStatus.eCOTxBusy := by
      unfold COMsgHandler.SendMsg
      rw [if_pos hidle]
    refine ⟨?_, hbusy, ?_⟩
    · unfold COMsgHandler.SendMsg UNOR4CAN.send
      rw [if_pos hidle]
      by_cases hr : msg.isRTR = true <;> by_cases hb : h.can.busy = true <;>
        simp [hr, hb]
    · intro msg2
      have hne : (h.SendMsg msg).2.TxStatus ≠ COTxStatus.eCOTxIdle := by
        rw [hbusy]; decide
      generalize (h.SendMsg msg).2 = h2 at hne
      unfold COMsgHandler.SendMsg
      rw [if_neg hne]
  · intro now
    unfold COMsgHandler.Update
    dsimp only
    split_ifs <;> rfl
  · intro p_args
    unfold COMsgHandler.OnRxHandler
    cases hev : p_args.event <;> simp [COMsgHandler.OnTxComplete, COMsgHandler.onRxComplete]

/-- C17, witness: a frame offered to the busy router and to the open router. -/
theorem SendMsg_gate_witness :
    busyRouter.SendMsg (respMsg 3 [1]) = (false, busyRouter)
      ∧ ((∃ f, (openRouter.SendMsg (respMsg 3 [1])).2.can.offered
              = openRouter.can.offered ++ [f] ∧ f.id = (respMsg 3 [1]).Id)
          ∧ (openRouter.SendMsg (respMsg 3 [1])).2.TxStatus = COTxStatus.eCOTxBusy
          ∧ (∀ msg2, (openRouter.SendMsg (respMsg 3 [1])).2.SendMsg msg2
              = (false, (openRouter.SendMsg (respMsg 3 [1])).2))) :=
  ⟨(SendMsg_gate busyRouter (respMsg 3 [1])).1 (by decide),
    (SendMsg_gate openRouter (respMsg 3 [1])).2.1 rfl⟩

/-! ## C18: what one call of `Update` takes from the ring -/

/-- C18, as amended: one call of `Update(now)`, with no receive event during the call,
takes at most one frame from the ring.  If frames are pending, the one at the read index is
passed to the callback of its node and service or dropped, the read index moves on by one
slot and one frame less is pending; the write index is as before.  The ring is empty after
the call exactly when at most one frame was pending at entry. -/
theorem Update_takes_one (h : COMsgHandler) (now : Nat)
    (hr : h.CORxNextRead < NumRxBuffers) (hw : h.CORxNextWrite < NumRxBuffers) :
    (h.Update now).1.pending = h.pending - 1
      ∧ (h.Update now).1.CORxNextWrite = h.CORxNextWrite
      ∧ ((h.Update now).1.CORxNextRead = (h.Update now).1.CORxNextWrite ↔ h.pending ≤ 1)
      ∧ (h.pending = 0 →
          (h.Update now).2 = [] ∧ (h.Update now).1.CORxNextRead = h.CORxNextRead)
      ∧ (0 < h.pending →
          (h.Update now).2 = h.callsFor (h.CORxVector h.CORxNextRead)
          ∧ (h.Update now).1.CORxNextRead = (h.CORxNextRead + 1) % NumRxBuffers) := by
  have hW := (Update_ring h now).2.1
  by_cases he : h.CORxNextWrite = h.CORxNextRead
  · obtain ⟨e1, e2⟩ := Update_empty h now he
    have hp : h.pending = 0 := by
      unfold COMsgHandler.pending NumRxBuffers at *
      omega
    refine ⟨?_, hW, ?_, fun _ => ⟨e2, e1⟩, fun x => absurd x (by omega)⟩
    · unfold COMsgHandler.pending at hp ⊢
      rw [e1, hW, hp]
    · rw [e1, hW, hp]
      exact ⟨fun _ => by omega, fun _ => he.symm⟩
  · obtain ⟨p1, p2⟩ := Update_pending h now hr he
    have hp : 0 < h.pending := by
      unfold COMsgHandler.pending NumRxBuffers at *
      omega
    refine ⟨?_, hW, ?_, fun x => absurd x (by omega), fun _ => ⟨p2, p1⟩⟩
    · unfold COMsgHandler.pending at hp ⊢
      rw [p1, hW]
      unfold NumRxBuffers at *
      omega
    · rw [p1, hW]
      unfold COMsgHandler.pending NumRxBuffers at *
      omega

/-- C18, witness: the router with node 3 after one SDO response was received; `Update`
empties the ring. -/
theorem Update_takes_one_witness :
    ((routerNode3.rxAll [dataFrame 0x583 [0x60, 0, 0x20, 0, 0, 0, 0, 0]]).Update 5).1.pending = 0
      ∧ ((routerNode3.rxAll [dataFrame 0x583 [0x60, 0, 0x20, 0, 0, 0, 0, 0]]).Update 5).1.CORxNextRead
        = ((routerNode3.rxAll
            [dataFrame 0x583 [0x60, 0, 0x20, 0, 0, 0, 0, 0]]).Update 5).1.CORxNextWrite :=
  have h := Update_takes_one (routerNode3.rxAll [dataFrame 0x583 [0x60, 0, 0x20, 0, 0, 0, 0, 0]])
    5 (by decide) (by decide)
  ⟨h.1.trans (by decide), h.2.2.1.mpr (by decide)⟩

/-- C18, counterexample: two frames are pending when `Update` is called and no frame arrives
during the call; afterwards the read index is 1 and the write index 2, the second frame is
still in the ring, and one callback was called. -/
theorem Update_leaves_second :
    (routerNode3.rxAll [dataFrame 0x583 [0x60, 0, 0x20, 0, 0, 0, 0, 0],
        dataFrame 0x583 [0x20, 0, 0, 0, 0, 0, 0, 0]]).pending = 2
      ∧ ((routerNode3.rxAll [dataFrame 0x583 [0x60, 0, 0x20, 0, 0, 0, 0, 0],
        dataFrame 0x583 [0x20, 0, 0, 0, 0, 0, 0, 0]]).Update 5).1.CORxNextRead = 1
      ∧ ((routerNode3.rxAll [dataFrame 0x583 [0x60, 0, 0x20, 0, 0, 0, 0, 0],
        dataFrame 0x583 [0x20, 0, 0, 0, 0, 0, 0, 0]]).Update 5).1.CORxNextWrite = 2
      ∧ ((routerNode3.rxAll [dataFrame 0x583 [0x60, 0, 0x20, 0, 0, 0, 0, 0],
        dataFrame 0x583 [0x20, 0, 0, 0, 0, 0, 0, 0]]).Update 5).1.pending = 1
      ∧ ((routerNode3.rxAll [dataFrame 0x583 [0x60, 0, 0x20, 0, 0, 0, 0, 0],
        dataFrame 0x583 [0x20, 0, 0, 0, 0, 0, 0, 0]]).Update 5).2.length = 1 := by
  decide

/-! ## C19: frames leave the ring in the order of their arrival -/

/-- C19, as amended: at most 19 frames are received into the empty ring while none is
consumed.  Then call `k` of `Update` (counted from 0) takes the frame that arrived as number
`k`: the message at the read index is that frame, and the callbacks called are those for it.
After as many calls as frames arrived the ring is empty and further calls call nothing. -/
theorem ring_in_order (h : COMsgHandler) (fs : List can_frame_t) (now : Nat → Nat)
    (hw : h.CORxNextWrite < NumRxBuffers) (hempty : h.CORxNextRead = h.CORxNextWrite)
    (hlen : fs.length ≤ 19) :
    (∀ k f, fs[k]? = some f →
        storedAs (((h.rxAll fs).updates now k).CORxVector
          ((h.rxAll fs).updates now k).CORxNextRead) f
        ∧ (((h.rxAll fs).updates now k).Update (now k)).2
          = h.callsFor (((h.rxAll fs).updates now k).CORxVector
              ((h.rxAll fs).updates now k).CORxNextRead))
      ∧ (∀ k, fs.length ≤ k →
          ((h.rxAll fs).updates now k).CORxNextRead
            = ((h.rxAll fs).updates now k).CORxNextWrite
          ∧ (((h.rxAll fs).updates now k).Update (now k)).2 = []) := by
  obtain ⟨a1, a2, -, a4, a5, a6, a7, a8⟩ := rxAll_ring fs h hw
  have hst := rxAll_stored fs h hw (by unfold NumRxBuffers; omega)
  have hgr : (h.rxAll fs).CORxNextRead < NumRxBuffers := by
    rw [a2, hempty]
    exact hw
  have hgw : (h.rxAll fs).CORxNextWrite < NumRxBuffers := by
    rw [a1]
    exact Nat.mod_lt _ (by decide)
  have hp : (h.rxAll fs).pending = fs.length := by
    unfold COMsgHandler.pending
    rw [a1, a2, hempty]
    unfold NumRxBuffers at *
    omega
  have hu := updates_ring (h.rxAll fs) now hgr hgw
  constructor
  · intro k f hf
    have hk : k < fs.length := by
      by_contra hc
      rw [List.getElem?_eq_none (by omega)] at hf
      cases hf
    obtain ⟨u1, u2, u3, u4, u5, u6, u7, u8⟩ := hu k
    have hread : ((h.rxAll fs).updates now k).CORxNextRead
        = (h.CORxNextWrite + k) % NumRxBuffers := by
      rw [u1, hp, a2, hempty, Nat.min_eq_left (by omega)]
    have hne : ((h.rxAll fs).updates now k).CORxNextWrite
        ≠ ((h.rxAll fs).updates now k).CORxNextRead := by
      rw [hread, u2, a1]
      unfold NumRxBuffers at *
      omega
    have hrk : ((h.rxAll fs).updates now k).CORxNextRead < NumRxBuffers := by
      rw [hread]
      exact Nat.mod_lt _ (by decide)
    refine ⟨?_, ?_⟩
    · rw [hread, u3]
      exact hst k f hf
    · rw [(Update_pending _ (now k) hrk hne).2]
      exact callsFor_congr h _ _ (u4.trans a4) (u5.trans a5) (u6.trans a6) (u7.trans a7)
        (u8.trans a8)
  · intro k hk
    obtain ⟨u1, u2, -, -, -, -, -, -⟩ := hu k
    have he : ((h.rxAll fs).updates now k).CORxNextWrite
        = ((h.rxAll fs).updates now k).CORxNextRead := by
      rw [u1, u2, hp, a1, a2, hempty, Nat.min_eq_right hk]
    exact ⟨he.symm, (Update_empty _ (now k) he).2⟩

/-- C19, witness: the router with node 3 receives an SDO response and then a heartbeat of
node 3; the second call of `Update` finds the heartbeat at the read index, the third call
finds the ring empty. -/
theorem ring_in_order_witness :
    storedAs (((routerNode3.rxAll [dataFrame 0x583 [0x60, 0, 0x20, 0, 0, 0, 0, 0],
          dataFrame 0x703 [5]]).updates (fun _ => 0) 1).CORxVector
        ((routerNode3.rxAll [dataFrame 0x583 [0x60, 0, 0x20, 0, 0, 0, 0, 0],
          dataFrame 0x703 [5]]).updates (fun _ => 0) 1).CORxNextRead) (dataFrame 0x703 [5])
      ∧ (((routerNode3.rxAll [dataFrame 0x583 [0x60, 0, 0x20, 0, 0, 0, 0, 0],
          dataFrame 0x703 [5]]).updates (fun _ => 0) 2).Update 0).2 = [] :=
  have h := ring_in_order routerNode3
    [dataFrame 0x583 [0x60, 0, 0x20, 0, 0, 0, 0, 0], dataFrame 0x703 [5]] (fun _ => 0)
    (by decide) (by decide) (by decide)
  ⟨(h.1 1 (dataFrame 0x703 [5]) rfl).1, (h.2 2 (by decide)).2⟩

/-- C19, counterexample: 20 frames (SDO responses of node 3) are received into the empty
ring while none is consumed.  The write index is back at the read index, no frame is
pending, and the calls of `Update` that follow call no callback and process nothing. -/
theorem ring_of_twenty_loses_all :
    (routerNode3.rxAll (List.replicate 20
        (dataFrame 0x583 [0x60, 0, 0x20, 0, 0, 0, 0, 0]))).CORxNextWrite = 0
      ∧ (routerNode3.rxAll (List.replicate 20
        (dataFrame 0x583 [0x60, 0, 0x20, 0, 0, 0, 0, 0]))).CORxNextRead = 0
      ∧ (routerNode3.rxAll (List.replicate 20
        (dataFrame 0x583 [0x60, 0, 0x20, 0, 0, 0, 0, 0]))).NumRxMessages = 20
      ∧ ((routerNode3.rxAll (List.replicate 20
        (dataFrame 0x583 [0x60, 0, 0x20, 0, 0, 0, 0, 0]))).Update 0).2.length = 0
      ∧ ((routerNode3.rxAll (List.replicate 20
        (dataFrame 0x583 [0x60, 0, 0x20, 0, 0, 0, 0, 0]))).updates (fun _ => 0)
          20).NumProcessedMessages = 0 := by
  decide

/-! ## C20: which callback `Update` calls for a received frame -/

/-- C20: a frame with an 11-bit identifier is received into the empty ring of a router
whose node table holds node ids (or the mark of a free slot), and `Update` is called.  At
most one callback is called; it is one registered in the slot `FindNode` returns for
`id & 0x7F`, a slot of the table that holds this node id, and it is passed the frame.  The
SDO callback is called iff `id & 0x780` is 0x580, the node id is in the table and an SDO
callback is registered in its slot; likewise the NMT callback for 0x700, the EMCY callback
for 0x080 and the PDO callback for 0x180, 0x280, 0x380, 0x480.  No callback is called for
the function codes 0x000, 0x600, 0x200, 0x300, 0x400, 0x500, nor when no slot holds the
node id. -/
theorem Update_calls_by_node_and_service (h : COMsgHandler) (f : can_frame_t) (now : Nat)
    (hid : f.id < 2048) (hempty : h.CORxNextRead = h.CORxNextWrite)
    (htab : ∀ i, i < MsgHandler_MaxNodes → -1 ≤ h.nodeId i ∧ h.nodeId i ≤ 255) :
    ((h.OnRxHandler ⟨can_event_t.CAN_EVENT_RX_COMPLETE, f⟩).Update now).2.length ≤ 1
      ∧ (∀ c, c ∈ ((h.OnRxHandler ⟨can_event_t.CAN_EVENT_RX_COMPLETE, f⟩).Update now).2 →
          c.NodeHandle = h.FindNode (f.id &&& 0x7F)
          ∧ c.NodeHandle < MsgHandler_MaxNodes
          ∧ h.nodeId c.NodeHandle = ((f.id &&& 0x7F : Nat) : Int)
          ∧ h.registeredCb c.cb c.NodeHandle = true
          ∧ storedAs c.Msg f)
      ∧ ((∃ c, c ∈ ((h.OnRxHandler ⟨can_event_t.CAN_EVENT_RX_COMPLETE, f⟩).Update now).2
            ∧ c.cb = COCallback.SDO)
          ↔ f.id &&& 0x780 = 0x580 ∧ h.FindNode (f.id &&& 0x7F) ≠ InvalidSlot
            ∧ h.OnRxSDOCb (h.FindNode (f.id &&& 0x7F)) = true)
      ∧ ((∃ c, c ∈ ((h.OnRxHandler ⟨can_event_t.CAN_EVENT_RX_COMPLETE, f⟩).Update now).2
            ∧ c.cb = COCallback.Nmt)
          ↔ f.id &&& 0x780 = 0x700 ∧ h.FindNode (f.id &&& 0x7F) ≠ InvalidSlot
            ∧ h.OnRxNmtCb (h.FindNode (f.id &&& 0x7F)) = true)
      ∧ ((∃ c, c ∈ ((h.OnRxHandler ⟨can_event_t.CAN_EVENT_RX_COMPLETE, f⟩).Update now).2
            ∧ c.cb = COCallback.EMCY)
          ↔ f.id &&& 0x780 = 0x080 ∧ h.FindNode (f.id &&& 0x7F) ≠ InvalidSlot
            ∧ h.OnRxEMCYCb (h.FindNode (f.id &&& 0x7F)) = true)
      ∧ ((∃ c, c ∈ ((h.OnRxHandler ⟨can_event_t.CAN_EVENT_RX_COMPLETE, f⟩).Update now).2
            ∧ c.cb = COCallback.PDO)
          ↔ (f.id &&& 0x780 = 0x180 ∨ f.id &&& 0x780 = 0x280 ∨ f.id &&& 0x780 = 0x380
              ∨ f.id &&& 0x780 = 0x480) ∧ h.FindNode (f.id &&& 0x7F) ≠ InvalidSlot
            ∧ h.OnRxPDOCb (h.FindNode (f.id &&& 0x7F)) = true)
      ∧ (h.FindNode (f.id &&& 0x7F) = InvalidSlot
          ↔ ∀ i, i < MsgHandler_MaxNodes → h.nodeId i ≠ ((f.id &&& 0x7F : Nat) : Int))
      ∧ ((f.id &&& 0x780 = 0x000 ∨ f.id &&& 0x780 = 0x600 ∨ f.id &&& 0x780 = 0x200
            ∨ f.id &&& 0x780 = 0x300 ∨ f.id &&& 0x780 = 0x400 ∨ f.id &&& 0x780 = 0x500
            ∨ ∀ i, i < MsgHandler_MaxNodes → h.nodeId i ≠ ((f.id &&& 0x7F : Nat) : Int)) →
          ((h.OnRxHandler ⟨can_event_t.CAN_EVENT_RX_COMPLETE, f⟩).Update now).2 = []) := by
  have hne : (h.onRxComplete f).CORxNextWrite ≠ (h.onRxComplete f).CORxNextRead := by
    show (if (h.CORxNextWrite + 1) % 256 = NumRxBuffers then 0
      else (h.CORxNextWrite + 1) % 256) ≠ h.CORxNextRead
    rw [hempty]
    unfold NumRxBuffers
    split_ifs <;> omega
  have hcalls : ((h.OnRxHandler ⟨can_event_t.CAN_EVENT_RX_COMPLETE, f⟩).Update now).2
      = h.callsFor ((h.onRxComplete f).CORxVector h.CORxNextWrite) := by
    show ((h.onRxComplete f).Update now).2 = _
    rw [Update_calls _ now hne]
    show (h.onRxComplete f).callsFor ((h.onRxComplete f).CORxVector h.CORxNextRead) = _
    rw [hempty]
    exact callsFor_congr h _ _ rfl rfl rfl rfl rfl
  have hst := onRxComplete_stored h f
  rw [hcalls]
  generalize (h.onRxComplete f).CORxVector h.CORxNextWrite = m at hst
  obtain ⟨hId, -, -, hsvc, -⟩ := id hst
  obtain ⟨s1, s2, s3, s4, s5, s6⟩ := callsFor_spec h m (by rw [hId]; exact hid)
    (by rw [hsvc, hId]) htab
  rw [hId] at s2 s3 s4 s5 s6
  have hF := FindNode_spec h (f.id &&& 0x7F) (and_7F_le _) htab
  have hfind : h.FindNode (f.id &&& 0x7F) = InvalidSlot
      ↔ ∀ i, i < MsgHandler_MaxNodes → h.nodeId i ≠ ((f.id &&& 0x7F : Nat) : Int) := by
    rcases hF with ⟨e, hall⟩ | ⟨hlt, he⟩
    · exact ⟨fun _ => hall, fun _ => e⟩
    · constructor
      · intro e
        rw [e] at hlt
        exact absurd hlt (by decide)
      · intro hall
        exact absurd he (hall _ hlt)
  refine ⟨s1, ?_, s3, s4, s5, s6, hfind, ?_⟩
  · intro c hc
    obtain ⟨c1, c2, c3, c4, c5⟩ := s2 c hc
    exact ⟨c1, c2, c3, c4, c5 ▸ hst⟩
  · intro hno
    rw [List.eq_nil_iff_forall_not_mem]
    intro c hc
    have hslot : f.id &&& 0x780 = 0x000 ∨ f.id &&& 0x780 = 0x600 ∨ f.id &&& 0x780 = 0x200
        ∨ f.id &&& 0x780 = 0x300 ∨ f.id &&& 0x780 = 0x400 ∨ f.id &&& 0x780 = 0x500
        ∨ h.FindNode (f.id &&& 0x7F) = InvalidSlot := by
      rcases hno with x | x | x | x | x | x | x
      · exact Or.inl x
      · exact Or.inr (Or.inl x)
      · exact Or.inr (Or.inr (Or.inl x))
      · exact Or.inr (Or.inr (Or.inr (Or.inl x)))
      · exact Or.inr (Or.inr (Or.inr (Or.inr (Or.inl x))))
      · exact Or.inr (Or.inr (Or.inr (Or.inr (Or.inr (Or.inl x)))))
      · exact Or.inr (Or.inr (Or.inr (Or.inr (Or.inr (Or.inr (hfind.2 x))))))
    generalize h.FindNode (f.id &&& 0x7F) = slot at s3 s4 s5 s6 hslot
    generalize f.id &&& 0x780 = sv at s3 s4 s5 s6 hslot
    cases hcb : c.cb
    · obtain ⟨a, b, -⟩ := s3.1 ⟨c, hc, hcb⟩
      omega
    · obtain ⟨a, b, -⟩ := s4.1 ⟨c, hc, hcb⟩
      omega
    · obtain ⟨a, b, -⟩ := s5.1 ⟨c, hc, hcb⟩
      omega
    · obtain ⟨a, b, -⟩ := s6.1 ⟨c, hc, hcb⟩
      omega

/-- C20, witness: the router with node 3 and its SDO callback receives the frame with
identifier 0x583; `Update` calls the SDO callback of slot 0. -/
theorem Update_calls_by_node_and_service_witness :
    ∃ c, c ∈ ((routerNode3.OnRxHandler ⟨can_event_t.CAN_EVENT_RX_COMPLETE,
          dataFrame 0x583 [0x60, 0, 0x20, 0, 0, 0, 0, 0]⟩).Update 5).2
      ∧ c.cb = COCallback.SDO :=
  (Update_calls_by_node_and_service routerNode3 (dataFrame 0x583 [0x60, 0, 0x20, 0, 0, 0, 0, 0])
    5 (by decide) (by decide) (by decide)).2.2.1.mpr ⟨by decide, by decide, by decide⟩

/-! ## The node table -/

theorem findFree_spec (h : COMsgHandler) :
    ∀ k i, i + k ≤ 255 →
      h.findFree k i = InvalidSlot
      ∨ (i ≤ h.findFree k i ∧ h.findFree k i < i + k
          ∧ h.nodeId (h.findFree k i) = invalidNodeId) := by
  intro k
  induction k with
  | zero => exact fun _ _ => Or.inl rfl
  | succ k ih =>
    intro i hi
    show (if h.nodeId i = invalidNodeId then i else h.findFree k (i + 1)) = InvalidSlot
      ∨ (i ≤ (if h.nodeId i = invalidNodeId then i else h.findFree k (i + 1))
        ∧ (if h.nodeId i = invalidNodeId then i else h.findFree k (i + 1)) < i + (k + 1)
        ∧ h.nodeId (if h.nodeId i = invalidNodeId then i else h.findFree k (i + 1))
          = invalidNodeId)
    by_cases hc : h.nodeId i = invalidNodeId
    · rw [if_pos hc]
      exact Or.inr ⟨le_refl _, by omega, hc⟩
    · rw [if_neg hc]
      rcases ih (i + 1) (by omega) with e | ⟨a, b, c⟩
      · exact Or.inl e
      · exact Or.inr ⟨by omega, by omega, c⟩

theorem RegisterNode_oneSlot (h : COMsgHandler) (thisNodeId : Nat)
    (hinv : h.oneSlotPerNode)
    (hnew : ∀ i, i < MsgHandler_MaxNodes → h.nodeId i ≠ (thisNodeId : Int)) :
    (h.RegisterNode thisNodeId).1.oneSlotPerNode := by
  unfold COMsgHandler.RegisterNode
  dsimp only
  by_cases hs : h.findFree MsgHandler_MaxNodes 0 ≠ InvalidSlot
  · rw [if_pos hs]
    intro i j hi hj hne he
    dsimp only at hne he
    by_cases h1 : i = h.findFree MsgHandler_MaxNodes 0
    · by_cases h2 : j = h.findFree MsgHandler_MaxNodes 0
      · rw [h1, h2]
      · rw [h1, Function.update_same, Function.update_noteq h2] at he
        exact absurd he.symm (hnew j hj)
    · by_cases h2 : j = h.findFree MsgHandler_MaxNodes 0
      · rw [h2, Function.update_same, Function.update_noteq h1] at he
        exact absurd he (hnew i hi)
      · rw [Function.update_noteq h1] at hne
        rw [Function.update_noteq h1, Function.update_noteq h2] at he
        exact hinv i j hi hj hne he
  · rw [if_neg hs]
    exact hinv

theorem UnRegisterNode_oneSlot (h : COMsgHandler) (NodeHandle : Nat)
    (hinv : h.oneSlotPerNode) : (h.UnRegisterNode NodeHandle).oneSlotPerNode := by
  unfold COMsgHandler.UnRegisterNode
  split_ifs with hs
  · intro i j hi hj hne he
    dsimp only at hne he
    by_cases h1 : i = NodeHandle
    · rw [h1, Function.update_same] at hne
      exact absurd rfl hne
    · by_cases h2 : j = NodeHandle
      · rw [Function.update_noteq h1] at hne
        rw [Function.update_noteq h1, h2, Function.update_same] at he
        exact absurd he hne
      · rw [Function.update_noteq h1] at hne
        rw [Function.update_noteq h1, Function.update_noteq h2] at he
        exact hinv i j hi hj hne he
  · exact hinv

/-! ## C21: one slot per node id -/

/-- C21, as amended: from a router in which no node id is stored in more than one slot (the
constructor leaves all slots free), every sequence of `RegisterNode` and `UnRegisterNode`
calls in which `RegisterNode` is only called for node ids that no slot holds at that moment
leads to a router in which again no node id is stored in more than one slot. -/
theorem node_table_one_slot (cs : List NodeTableCall) :
    ∀ h : COMsgHandler, h.oneSlotPerNode → h.registersNew cs →
      (h.tableCalls cs).oneSlotPerNode := by
  induction cs with
  | nil => exact fun h hinv _ => hinv
  | cons c cs ih =>
    intro h hinv hnew
    cases c with
    | register thisNodeId =>
      exact ih _ (RegisterNode_oneSlot h thisNodeId hinv hnew.1) hnew.2
    | unregister NodeHandle =>
      exact ih _ (UnRegisterNode_oneSlot h NodeHandle hinv) hnew

/-- C21, witness: nodes 3 and 5 are registered, node 3 is unregistered and registered
again. -/
theorem node_table_one_slot_witness :
    (openRouter.tableCalls [NodeTableCall.register 3, NodeTableCall.register 5,
      NodeTableCall.unregister 0, NodeTableCall.register 3]).oneSlotPerNode :=
  node_table_one_slot _ openRouter
    (fun _ _ _ _ hne _ => absurd rfl hne)
    ⟨by decide, by decide, by decide, trivial⟩

/-- C21, counterexample: `RegisterNode(3)` called twice on the open router returns the
slots 0 and 1, and both slots hold node id 3. -/
theorem register_twice_two_slots :
    (openRouter.RegisterNode 3).2 = 0
      ∧ ((openRouter.RegisterNode 3).1.RegisterNode 3).2 = 1
      ∧ (openRouter.tableCalls [NodeTableCall.register 3, NodeTableCall.register 3]).nodeId 0
        = 3
      ∧ (openRouter.tableCalls [NodeTableCall.register 3, NodeTableCall.register 3]).nodeId 1
        = 3 := by
  decide

/-! ## NMT commands -/

theorem SendMsg_offered (h : COMsgHandler) (m : CANMsg)
    (hI : h.TxStatus = COTxStatus.eCOTxIdle) (hR : m.isRTR = false) :
    (h.SendMsg m).2.can.offered = h.can.offered ++ [frameOf m] := by
  unfold COMsgHandler.SendMsg UNOR4CAN.send
  rw [if_pos hI]
  by_cases hb : h.can.busy = true <;> simp [hb, hR, frameOf]

theorem CONode_SendRequest_spec (n : CONode) (Msg : CANMsg) :
    (n.SendRequest Msg).1.Handler = (n.Handler.SendMsg Msg).2
      ∧ (n.SendRequest Msg).1.NodeState = n.NodeState
      ∧ (n.SendRequest Msg).1.NmtCommand = n.NmtCommand
      ∧ ((n.Handler.SendMsg Msg).1 = true →
          (n.SendRequest Msg).2 = CONodeCommStates.eCO_NodeDone)
      ∧ ((n.Handler.SendMsg Msg).1 = false →
          (n.SendRequest Msg).2 ≠ CONodeCommStates.eCO_NodeDone) := by
  unfold CONode.SendRequest
  dsimp only
  by_cases hs : (n.Handler.SendMsg Msg).1 = true
  · rw [if_pos hs]
    exact ⟨rfl, rfl, rfl, fun _ => rfl, fun x => by rw [hs] at x; cases x⟩
  · rw [if_neg hs]
    split_ifs
    · exact ⟨rfl, rfl, rfl, fun x => absurd x hs, fun _ x => by cases x⟩
    · exact ⟨rfl, rfl, rfl, fun x => absurd x hs, fun _ x => by cases x⟩

theorem sendNmtCommand_spec (n : CONode) (after : CONode → CONode) (target : Int)
    (hH : ∀ m, (after m).Handler = m.Handler) (hS : ∀ m, (after m).NodeState = target) :
    (n.sendNmtCommand after).1.Handler = (n.Handler.SendMsg n.NmtCommand).2
      ∧ ((n.Handler.SendMsg n.NmtCommand).1 = true →
          (n.sendNmtCommand after).2 = CONodeCommStates.eCO_NodeDone
          ∧ (n.sendNmtCommand after).1.NodeState = target)
      ∧ ((n.Handler.SendMsg n.NmtCommand).1 = false →
          (n.sendNmtCommand after).2 ≠ CONodeCommStates.eCO_NodeDone
          ∧ (n.sendNmtCommand after).1.NodeState = n.NodeState) := by
  obtain ⟨a1, a2, -, a4, a5⟩ := CONode_SendRequest_spec n n.NmtCommand
  unfold CONode.sendNmtCommand
  dsimp only
  generalize n.SendRequest n.NmtCommand = r at a1 a2 a4 a5
  by_cases hd : r.2 = CONodeCommStates.eCO_NodeDone
  · rw [if_pos hd]
    refine ⟨?_, fun _ => ⟨hd, hS _⟩, fun x => absurd hd (a5 x)⟩
    show (after _).Handler = _
    rw [hH]
    exact a1
  · rw [if_neg hd]
    exact ⟨a1, fun x => absurd (a4 x) hd, fun _ => ⟨hd, a2⟩⟩

theorem nmtCommand_sent (n : CONode) (node cmd : Nat) (after : CONode → CONode)
    (target : Int) (hIdle : n.RequestState = CONodeCommStates.eCO_NodeIdle)
    (hId : n.NmtCommand.Id = eCANNMT) (hlen : n.NmtCommand.len = NMTCommandFrameLength)
    (hR : n.NmtCommand.isRTR = false) (hnode : n.NmtCommand.payload 1 = node)
    (hH : ∀ m, (after m).Handler = m.Handler) (hS : ∀ m, (after m).NodeState = target) :
    NmtCommandSent n node (n.nmtCommand cmd after) cmd target := by
  unfold CONode.nmtCommand
  rw [hIdle]
  dsimp only
  obtain ⟨b1, b2, b3⟩ := sendNmtCommand_spec ({ n with NmtCommand := { n.NmtCommand with
    payload := Function.update n.NmtCommand.payload 0 cmd } } : CONode) after target hH hS
  refine ⟨{ n.NmtCommand with payload := Function.update n.NmtCommand.payload 0 cmd },
    hId, hlen, hR, by simp, by simpa using hnode, b1, b2, b3, ?_⟩
  intro hI
  refine ⟨frameOf { n.NmtCommand with
    payload := Function.update n.NmtCommand.payload 0 cmd }, ?_, hId, hlen, rfl,
    by simp [frameOf], by simpa [frameOf] using hnode⟩
  exact (congrArg (fun h : COMsgHandler => h.can.offered) b1).trans
    (SendMsg_offered n.Handler _ hI hR)

/-! ## C22: the five NMT commands -/

/-- C22: `SendResetNode`, `SendResetCom`, `SendStartNode`, `SendStopNode` and
`SendPreopNode`, called with `RequestState` Idle on a node that `init` has attached for the
node id `node`, pass a message with identifier 0x000, length 2 and the data bytes
[command, node] to the router, with command 0x81, 0x82, 0x01, 0x02, 0x80.  If the router
sends it the call returns Done and the node state is WaitForBoot, WaitForBoot, Operational,
Stopped, PreOp; if not, the node state is as before. -/
theorem nmt_commands (n : CONode) (node : Nat)
    (hIdle : n.RequestState = CONodeCommStates.eCO_NodeIdle)
    (hId : n.NmtCommand.Id = eCANNMT) (hlen : n.NmtCommand.len = NMTCommandFrameLength)
    (hR : n.NmtCommand.isRTR = false) (hnode : n.NmtCommand.payload 1 = node) :
    NmtCommandSent n node n.SendResetNode 0x81 eNMTWaitForBoot
      ∧ NmtCommandSent n node n.SendResetCom 0x82 eNMTWaitForBoot
      ∧ NmtCommandSent n node n.SendStartNode 0x01 eNMTStateOperational
      ∧ NmtCommandSent n node n.SendStopNode 0x02 eNMTStateStopped
      ∧ NmtCommandSent n node n.SendPreopNode 0x80 eNMTStatePreOp :=
  ⟨nmtCommand_sent n node _ _ _ hIdle hId hlen hR hnode (fun _ => rfl) (fun _ => rfl),
    nmtCommand_sent n node _ _ _ hIdle hId hlen hR hnode (fun _ => rfl) (fun _ => rfl),
    nmtCommand_sent n node _ _ _ hIdle hId hlen hR hnode (fun _ => rfl) (fun _ => rfl),
    nmtCommand_sent n node _ _ _ hIdle hId hlen hR hnode (fun _ => rfl) (fun _ => rfl),
    nmtCommand_sent n node _ _ _ hIdle hId hlen hR hnode (fun _ => rfl) (fun _ => rfl)⟩

/-- C22, witness: the node attached for node id 5 to the open router. -/
theorem nmt_commands_witness :
    NmtCommandSent (nodeAttached 5) 5 (nodeAttached 5).SendResetNode 0x81 eNMTWaitForBoot
      ∧ NmtCommandSent (nodeAttached 5) 5 (nodeAttached 5).SendStartNode 0x01
          eNMTStateOperational :=
  have h := nmt_commands (nodeAttached 5) 5 (by decide) (by decide) (by decide) (by decide)
    (by decide)
  ⟨h.1, h.2.2.1⟩

/-- The NMT frames of node 5 as the code posts them: reset node is `81 05`, start is
`01 05`, both with identifier 0x000 and length 2; afterwards the node state is WaitForBoot
and Operational. -/
theorem scenario_nmt_frames :
    ((nodeAttached 5).SendResetNode.1.RWSDO.posted.map fun f =>
        (f.id, f.data_length_code, f.data 0, f.data 1)) = [(0, 2, 0x81, 5)]
      ∧ (nodeAttached 5).SendResetNode.2 = CONodeCommStates.eCO_NodeDone
      ∧ (nodeAttached 5).SendResetNode.1.NodeState = eNMTWaitForBoot
      ∧ ((nodeAttached 5).SendStartNode.1.RWSDO.posted.map fun f =>
        (f.id, f.data_length_code, f.data 0, f.data 1)) = [(0, 2, 0x01, 5)]
      ∧ (nodeAttached 5).SendStartNode.1.NodeState = eNMTStateOperational := by
  decide

/-! ## Guarding -/

set_option maxRecDepth 8000 in
/-- C25, the code at the failing input `guardingThenHeartbeat`: guarding is active after
`ConfigureGuarding(50, 3)` is Done; a second `ConfigureGuarding` is left after three of its
four writes, so that `ConfigStep` is 3; `ConfigureRemoteHeartbeatProducer(1000)` then enters
`ActivateHeartbeat` at step 3, past the step that switches guarding off, and when its write
is confirmed heartbeat supervision is active while guarding still is. -/
theorem guarding_and_heartbeat_active :
    ((nodeAttached 3).run (guardingThenHeartbeat.take 20)).isGuardingActive = true
      ∧ ((nodeAttached 3).run (guardingThenHeartbeat.take 20)).isHeartbeatActive = false
      ∧ ((nodeAttached 3).run (guardingThenHeartbeat.take 32)).ConfigStep = 3
      ∧ ((nodeAttached 3).run guardingThenHeartbeat).isGuardingActive = true
      ∧ ((nodeAttached 3).run guardingThenHeartbeat).isHeartbeatActive = true
      ∧ ((nodeAttached 3).run guardingThenHeartbeat).NodeState = eNMTStatePreOp := by
  decide

theorem configSwitch_flags (n : CONode) (c : COSDOCommStates) (onDone : CONode → CONode)
    (h : ∀ m, (onDone m).isGuardingActive = m.isGuardingActive
      ∧ (onDone m).isHeartbeatActive = m.isHeartbeatActive) :
    (n.configSwitch c onDone).isGuardingActive = n.isGuardingActive
      ∧ (n.configSwitch c onDone).isHeartbeatActive = n.isHeartbeatActive := by
  unfold CONode.configSwitch
  cases c <;> first | exact h n | exact ⟨rfl, rfl⟩

/-- What does hold of C25: an activation that is entered at its first step (`ConfigStep` 0)
switches the other supervision off at once, `ActivateGuarding` the heartbeat and
`ActivateHeartbeat` the guarding. -/
theorem activation_from_first_step (n : CONode) (h : n.ConfigStep = 0) :
    n.ActivateGuarding.1.isHeartbeatActive = false
      ∧ n.ActivateHeartbeat.1.isGuardingActive = false := by
  unfold CONode.ActivateGuarding CONode.ActivateHeartbeat
  dsimp only
  rw [if_pos h, if_pos h]
  constructor
  · refine (configSwitch_flags _ _ _ ?_).2.trans rfl
    exact fun _ => ⟨rfl, rfl⟩
  · refine (configSwitch_flags _ _ _ ?_).1.trans rfl
    exact fun _ => ⟨rfl, rfl⟩

/-! ## C26: the emergency message -/

/-- C26, the code at the failing input: the emergency message `10 81 11 34 12 00 00 00`
(error code 0x8110, byte 2 = 0x11, bytes 3-4 = 0x1234).  `EmcyCode` is 0x8110 and byte 2 is
stored in `FAULHABERErrorWord`, but of the word of bytes 3-4 only 0x34 is stored: it is
assigned to `CiA301ErrorWord`, which is a `uint8_t`. -/
theorem emcy_word_truncated :
    ((nodeAttached 3).EmcyHandler (emcyMsg 3 [0x10, 0x81, 0x11, 0x34, 0x12, 0, 0, 0])).EmcyCode
        = 0x8110
      ∧ ((nodeAttached 3).EmcyHandler
          (emcyMsg 3 [0x10, 0x81, 0x11, 0x34, 0x12, 0, 0, 0])).FAULHABERErrorWord = 0x11
      ∧ ((nodeAttached 3).EmcyHandler
          (emcyMsg 3 [0x10, 0x81, 0x11, 0x34, 0x12, 0, 0, 0])).CiA301ErrorWord = 0x34 := by
  decide

/-- What does hold of C26: for data bytes below 256 the code stores `byte0 + 256 * byte1` as
`EmcyCode`, byte 2 as `FAULHABERErrorWord`, and byte 3 alone as `CiA301ErrorWord`. -/
theorem emcy_stored (n : CONode) (Msg : CANMsg) (hb : ∀ i, Msg.payload i < 256) :
    (n.EmcyHandler Msg).EmcyCode = Msg.payload 0 + 256 * Msg.payload 1
      ∧ (n.EmcyHandler Msg).FAULHABERErrorWord = Msg.payload 2
      ∧ (n.EmcyHandler Msg).CiA301ErrorWord = Msg.payload 3 := by
  have key : ∀ a b : Nat, a < 256 → b * 256 ||| a = b * 256 + a := by
    intro a b ha
    rw [Nat.mul_comm b 256]
    exact (Nat.mul_add_lt_is_or (show a < 2 ^ 8 from ha) b).symm
  refine ⟨?_, rfl, ?_⟩
  · show (Msg.payload 1 * 256 ||| Msg.payload 0) % 65536 = _
    rw [key _ _ (hb 0)]
    have := hb 0
    have := hb 1
    omega
  · show (Msg.payload 4 * 256 ||| Msg.payload 3) % 256 = _
    rw [key _ _ (hb 3)]
    have := hb 3
    omega

/-! ## The configuration accesses of the PDO handler -/

theorem or_PDOInvalidFlag (c : Nat) (h : c < 65536) : c ||| PDOInvalidFlag = c + 2 ^ 31 := by
  have h2 : c < 2 ^ 31 := by omega
  have e : 2147483648 * 1 + c = 2147483648 * 1 ||| c := @Nat.mul_add_lt_is_or 31 c h2 1
  rw [Nat.mul_one] at e
  rw [Nat.lor_comm]
  unfold PDOInvalidFlag
  omega

theorem msgU32_leBytes (q : Nat → Nat) (v : Nat) (hv : v < 2 ^ 32)
    (h : msgU32 q = leBytes v 0 + 256 * leBytes v 1 + 65536 * leBytes v 2
      + 16777216 * leBytes v 3) : msgU32 q = v := by
  rw [h]
  simp only [leBytes]
  norm_num
  omega

theorem WriteSDO_idle_not_done (s : COSDOHandler) (Idx SubIdx : Nat) (Data : Nat → Nat)
    (len : Nat) (hIdle : s.SDORxTxState = COSDOCommStates.eCO_SDOIdle) :
    (s.WriteSDO Idx SubIdx Data len).SDORxTxState ≠ COSDOCommStates.eCO_SDODone := by
  unfold COSDOHandler.WriteSDO
  rw [hIdle]
  exact caseRetry_not_done _

theorem WriteSDOEntry_idle (s : COSDOHandler) (Object : ODEntry)
    (hIdle : s.SDORxTxState = COSDOCommStates.eCO_SDOIdle) :
    (s.WriteSDOEntry Object).1 = s.WriteSDO Object.Idx Object.SubIdx Object.Value Object.len := by
  unfold COSDOHandler.WriteSDOEntry
  dsimp only
  rw [if_neg (WriteSDO_idle_not_done s _ _ _ _ hIdle)]

theorem WriteSDO_idle_exp4 (s : COSDOHandler) (Idx SubIdx : Nat) (Data : Nat → Nat)
    (hIdle : s.SDORxTxState = COSDOCommStates.eCO_SDOIdle) :
    msgIdx (s.WriteSDO Idx SubIdx Data 4).SDORequestMsg.payload = Idx % 65536
      ∧ msgSubIdx (s.WriteSDO Idx SubIdx Data 4).SDORequestMsg.payload = SubIdx
      ∧ msgU32 (s.WriteSDO Idx SubIdx Data 4).SDORequestMsg.payload
          = Data 0 + 256 * Data 1 + 65536 * Data 2 + 16777216 * Data 3 := by
  unfold COSDOHandler.WriteSDO
  rw [hIdle]
  simp only [show (4 : Nat) ≤ 4 from le_refl 4, if_true, caseRetry_SDORequestMsg]
  simp [msgIdx, msgSubIdx, msgU32, setU32, setSubIdx, setIdx, setCtl_of_pos,
    Function.update_apply]
  omega

theorem ite_pair_fst (r : COPDOHandler × COPDOCommStates) (c : Prop) [Decidable c]
    (x : COPDOCommStates) : (if c then (r.1, x) else r).1 = r.1 := by
  split_ifs <;> rfl

theorem WriteObject_unknown (p : COPDOHandler) (Idx SubIdx v len : Nat)
    (hS : p.SDORxTxState = COSDOCommStates.eCO_SDOUnknown) :
    (p.WriteObject Idx SubIdx v len).1.Node.RWSDO
      = (p.Node.RWSDO.ResetComState.WriteSDOEntry
          { Idx := Idx, SubIdx := SubIdx, Value := leBytes v, len := len }).1 := by
  unfold COPDOHandler.WriteObject
  dsimp only
  rw [ite_pair_fst, hS]
  rfl

theorem WriteObject_idle (p : COPDOHandler) (Idx SubIdx v len : Nat)
    (hS : p.SDORxTxState = COSDOCommStates.eCO_SDOIdle) :
    (p.WriteObject Idx SubIdx v len).1.Node.RWSDO
      = (p.Node.RWSDO.WriteSDOEntry
          { Idx := Idx, SubIdx := SubIdx, Value := leBytes v, len := len }).1 := by
  unfold COPDOHandler.WriteObject
  dsimp only
  rw [ite_pair_fst, hS]
  rfl

/-- A `WriteObject` of four bytes that starts an access (the handler has no access open, the
SDO client is free and the transmitter takes the frame) posts one frame: the write of the
value to `Idx`.`SubIdx`. -/
theorem WriteObject_frame (p : COPDOHandler) (Idx SubIdx v : Nat)
    (hS : p.SDORxTxState = COSDOCommStates.eCO_SDOUnknown
      ∨ (p.SDORxTxState = COSDOCommStates.eCO_SDOIdle
        ∧ p.Node.RWSDO.SDORxTxState = COSDOCommStates.eCO_SDOIdle))
    (hTx : p.Node.RWSDO.txReady) (hR : p.Node.RWSDO.SDORequestMsg.isRTR = false)
    (hv : v < 2 ^ 32) :
    ∃ f, (p.WriteObject Idx SubIdx v 4).1.Node.RWSDO.posted = p.Node.RWSDO.posted ++ [f]
      ∧ msgIdx f.data = Idx % 65536 ∧ msgSubIdx f.data = SubIdx ∧ msgU32 f.data = v := by
  have key : ∀ s : COSDOHandler, s.SDORxTxState = COSDOCommStates.eCO_SDOIdle → s.txReady →
      s.SDORequestMsg.isRTR = false →
      ∃ f, (s.WriteSDOEntry { Idx := Idx, SubIdx := SubIdx, Value := leBytes v, len := 4 }).1.posted
          = s.posted ++ [f]
        ∧ msgIdx f.data = Idx % 65536 ∧ msgSubIdx f.data = SubIdx ∧ msgU32 f.data = v := by
    intro s hI hT hr
    rw [WriteSDOEntry_idle s _ hI]
    obtain ⟨a1, a2, a3⟩ := WriteSDO_idle_exp4 s Idx SubIdx (leBytes v) hI
    exact ⟨_, WriteSDO_idle_posted s Idx SubIdx (leBytes v) 4 hI hT hr, a1, a2,
      msgU32_leBytes _ v hv a3⟩
  rcases hS with h | ⟨h, h2⟩
  · rw [WriteObject_unknown p Idx SubIdx v 4 h]
    exact key p.Node.RWSDO.ResetComState rfl hTx hR
  · rw [WriteObject_idle p Idx SubIdx v 4 h]
    exact key p.Node.RWSDO h2 hTx hR

/-! ## C27: the COB-ID written in the first and in the final step of a PDO configuration -/

/-- C27: for a PDO number 0..3 and a handler that can start an access (no access open, the
SDO client free, the transmitter ready), each of `SetRxPDOValid`, `SetTxPDOValid`,
`SetRxPDOInvalid` and `SetTxPDOInvalid` posts one frame, the write of a 32-bit value to
sub-index 1 of 0x1400 + n (Rx) or 0x1800 + n (Tx).  The low 31 bits of the value are the
COB-ID of the descriptor.  In the final step (`Set..Valid`) bit 31 of the value is 0 if and
only if the descriptor is flagged valid and its mapping has at least one entry; in the first
step (`Set..Invalid`) bit 31 is 1. -/
theorem pdo_cobid_written (p : COPDOHandler) (PdoNr : Nat) (hNr : PdoNr < NrPDOs)
    (hS : p.SDORxTxState = COSDOCommStates.eCO_SDOUnknown
      ∨ (p.SDORxTxState = COSDOCommStates.eCO_SDOIdle
        ∧ p.Node.RWSDO.SDORxTxState = COSDOCommStates.eCO_SDOIdle))
    (hTx : p.Node.RWSDO.txReady) (hR : p.Node.RWSDO.SDORequestMsg.isRTR = false)
    (hRxId : (p.RxPDOSettings PdoNr).COBId < 65536)
    (hTxId : (p.TxPDOSettings PdoNr).COBId < 65536) :
    (∃ f, (p.SetRxPDOValid PdoNr).1.Node.RWSDO.posted = p.Node.RWSDO.posted ++ [f]
        ∧ msgIdx f.data = RxPDOTransmTypeBaseIndex + PdoNr
        ∧ msgSubIdx f.data = PDOComSettingsSubIdxCobId
        ∧ (msgU32 f.data / 2 ^ 31 = 0 ↔ (p.RxPDOSettings PdoNr).isValid = true
            ∧ 0 < (p.RxPDOMapping PdoNr).NrEntries)
        ∧ msgU32 f.data % 2 ^ 31 = (p.RxPDOSettings PdoNr).COBId)
      ∧ (∃ f, (p.SetTxPDOValid PdoNr).1.Node.RWSDO.posted = p.Node.RWSDO.posted ++ [f]
        ∧ msgIdx f.data = TxPDOTransmTypeBaseIndex + PdoNr
        ∧ msgSubIdx f.data = PDOComSettingsSubIdxCobId
        ∧ (msgU32 f.data / 2 ^ 31 = 0 ↔ (p.TxPDOSettings PdoNr).isValid = true
            ∧ 0 < (p.TxPDOMapping PdoNr).NrEntries)
        ∧ msgU32 f.data % 2 ^ 31 = (p.TxPDOSettings PdoNr).COBId)
      ∧ (∃ f, (p.SetRxPDOInvalid PdoNr).1.Node.RWSDO.posted = p.Node.RWSDO.posted ++ [f]
        ∧ msgIdx f.data = RxPDOTransmTypeBaseIndex + PdoNr
        ∧ msgSubIdx f.data = PDOComSettingsSubIdxCobId
        ∧ msgU32 f.data / 2 ^ 31 = 1
        ∧ msgU32 f.data % 2 ^ 31 = (p.RxPDOSettings PdoNr).COBId)
      ∧ (∃ f, (p.SetTxPDOInvalid PdoNr).1.Node.RWSDO.posted = p.Node.RWSDO.posted ++ [f]
        ∧ msgIdx f.data = TxPDOTransmTypeBaseIndex + PdoNr
        ∧ msgSubIdx f.data = PDOComSettingsSubIdxCobId
        ∧ msgU32 f.data / 2 ^ 31 = 1
        ∧ msgU32 f.data % 2 ^ 31 = (p.TxPDOSettings PdoNr).COBId) := by
  have hN : PdoNr < 4 := hNr
  have valid : ∀ (Idx c N : Nat) (isValid : Bool), Idx + PdoNr < 65536 → c < 65536 →
      ∃ f, (p.WriteObject (Idx + PdoNr) PDOComSettingsSubIdxCobId
            (if N = 0 ∨ ¬ isValid = true then c ||| PDOInvalidFlag else c)
            4).1.Node.RWSDO.posted = p.Node.RWSDO.posted ++ [f]
        ∧ msgIdx f.data = Idx + PdoNr ∧ msgSubIdx f.data = PDOComSettingsSubIdxCobId
        ∧ (msgU32 f.data / 2 ^ 31 = 0 ↔ isValid = true ∧ 0 < N)
        ∧ msgU32 f.data % 2 ^ 31 = c := by
    intro Idx c N isValid hI hc
    have e := or_PDOInvalidFlag c hc
    obtain ⟨f, a1, a2, a3, a4⟩ := WriteObject_frame p (Idx + PdoNr) PDOComSettingsSubIdxCobId
      (if N = 0 ∨ ¬ isValid = true then c ||| PDOInvalidFlag else c) hS hTx hR
      (by split_ifs <;> omega)
    refine ⟨f, a1, by rw [a2]; omega, a3, ?_, ?_⟩
    · rw [a4]
      by_cases hc2 : N = 0 ∨ ¬ isValid = true
      · rw [if_pos hc2, e]
        constructor
        · intro x; omega
        · rintro ⟨x1, x2⟩
          rcases hc2 with y | y
          · omega
          · exact absurd x1 y
      · rw [if_neg hc2]
        have hv : isValid = true := by
          by_contra y
          exact hc2 (Or.inr y)
        exact ⟨fun _ => ⟨hv, by omega⟩, fun _ => by omega⟩
    · rw [a4]
      split_ifs <;> omega
  have invalid : ∀ (Idx c : Nat), Idx + PdoNr < 65536 → c < 65536 →
      ∃ f, (p.WriteObject (Idx + PdoNr) PDOComSettingsSubIdxCobId (c ||| PDOInvalidFlag)
            4).1.Node.RWSDO.posted = p.Node.RWSDO.posted ++ [f]
        ∧ msgIdx f.data = Idx + PdoNr ∧ msgSubIdx f.data = PDOComSettingsSubIdxCobId
        ∧ msgU32 f.data / 2 ^ 31 = 1 ∧ msgU32 f.data % 2 ^ 31 = c := by
    intro Idx c hI hc
    have e := or_PDOInvalidFlag c hc
    obtain ⟨f, a1, a2, a3, a4⟩ := WriteObject_frame p (Idx + PdoNr) PDOComSettingsSubIdxCobId
      (c ||| PDOInvalidFlag) hS hTx hR (by omega)
    exact ⟨f, a1, by rw [a2]; omega, a3, by rw [a4]; omega, by rw [a4]; omega⟩
  exact ⟨valid RxPDOTransmTypeBaseIndex _ _ _ (by unfold RxPDOTransmTypeBaseIndex; omega) hRxId,
    valid TxPDOTransmTypeBaseIndex _ _ _ (by unfold TxPDOTransmTypeBaseIndex; omega) hTxId,
    invalid RxPDOTransmTypeBaseIndex _ (by unfold RxPDOTransmTypeBaseIndex; omega) hRxId,
    invalid TxPDOTransmTypeBaseIndex _ (by unfold TxPDOTransmTypeBaseIndex; omega) hTxId⟩

/-- C27, witness: the handler of node 3 with the presets of a drive.  RPDO1 (valid, two
entries) is written as `03 02 00 00` to 0x1400.01 in the final step and as `03 02 00 80` in
the first. -/
theorem pdo_cobid_written_witness :
    ((pdoPreset 3 1000).SetRxPDOValid 0).1.Node.RWSDO.posted.map wire
        = [(0x603, 8, [0x23, 0x00, 0x14, 0x01, 0x03, 0x02, 0, 0])]
      ∧ ((pdoPreset 3 1000).SetRxPDOInvalid 0).1.Node.RWSDO.posted.map wire
        = [(0x603, 8, [0x23, 0x00, 0x14, 0x01, 0x03, 0x02, 0, 0x80])]
      ∧ ∃ f, ((pdoPreset 3 1000).SetRxPDOValid 0).1.Node.RWSDO.posted
          = (pdoPreset 3 1000).Node.RWSDO.posted ++ [f]
        ∧ msgU32 f.data / 2 ^ 31 = 0 ∧ msgU32 f.data % 2 ^ 31 = 0x203 :=
  have h := pdo_cobid_written (pdoPreset 3 1000) 0 (by decide) (Or.inl (by decide))
    ⟨by decide, by decide⟩ (by decide) (by decide) (by decide)
  ⟨by decide, by decide,
    h.1.elim fun f hf => ⟨f, hf.1, hf.2.2.2.1.mpr ⟨by decide, by decide⟩,
      hf.2.2.2.2.trans (by decide)⟩⟩

/-- C27, second example: RPDO2 of the same handler has an entry mapped but is not flagged
valid, and TPDO2 is flagged valid but has no mapping; both are written with bit 31 set in the final step. -/
theorem pdo_cobid_invalid_examples :
    ((pdoPreset 3 1000).SetRxPDOValid 1).1.Node.RWSDO.posted.map wire
        = [(0x603, 8, [0x23, 0x01, 0x14, 0x01, 0x03, 0x03, 0, 0x80])]
      ∧ ((((pdoPreset 3 1000).PresetTxPDOTransmission 1 255 0 0).PresetTxPDOisValid 1
          true).SetTxPDOValid 1).1.Node.RWSDO.posted.map wire
        = [(0x603, 8, [0x23, 0x01, 0x18, 0x01, 0x83, 0x02, 0, 0x80])] := by
  decide

/-! ## C28: a failed step of the PDO configuration -/

theorem WriteObject_error (p : COPDOHandler) (Idx SubIdx v len : Nat)
    (hS : p.SDORxTxState = COSDOCommStates.eCO_SDOError
      ∨ p.SDORxTxState = COSDOCommStates.eCO_SDOTimeout) :
    p.WriteObject Idx SubIdx v len = (p, COPDOCommStates.eCO_PDOError) := by
  unfold COPDOHandler.WriteObject
  dsimp only
  rcases hS with h | h <;> rw [h] <;> dsimp only <;> split_ifs <;> rfl

theorem ConfigureRxTxPDO_error (p : COPDOHandler) (od : Nat → ODEntry)
    (stale : COPDOCommStates) (PdoNr : Nat) (Dir : PDODir) (time : Nat)
    (hS : p.SDORxTxState = COSDOCommStates.eCO_SDOError
      ∨ p.SDORxTxState = COSDOCommStates.eCO_SDOTimeout)
    (h0 : p.PDOConfigSequenceAccessStep = 0) :
    p.ConfigureRxTxPDO od stale PdoNr Dir time
      = ({ p with actTime := time }, COPDOCommStates.eCO_PDOError) := by
  have hS2 : ({ p with actTime := time } : COPDOHandler).SDORxTxState
        = COSDOCommStates.eCO_SDOError
      ∨ ({ p with actTime := time } : COPDOHandler).SDORxTxState
        = COSDOCommStates.eCO_SDOTimeout := hS
  unfold COPDOHandler.ConfigureRxTxPDO
  dsimp only
  rw [if_pos h0]
  cases Dir
  · rw [if_pos rfl]
    unfold COPDOHandler.SetRxPDOInvalid
    dsimp only
    rw [WriteObject_error _ _ _ _ _ hS2]
    dsimp only
    rw [if_neg (fun x => COPDOCommStates.noConfusion x), if_pos rfl]
    split_ifs <;> rfl
  · rw [if_neg (fun x => PDODir.noConfusion x)]
    unfold COPDOHandler.SetTxPDOInvalid
    dsimp only
    rw [WriteObject_error _ _ _ _ _ hS2]
    dsimp only
    rw [if_neg (fun x => COPDOCommStates.noConfusion x), if_pos rfl]
    split_ifs <;> rfl

theorem ConfigurePresetPDOs_stuck (p : COPDOHandler) (od : Nat → ODEntry)
    (stale : COPDOCommStates) (timestamp : Nat)
    (hS : p.SDORxTxState = COSDOCommStates.eCO_SDOError
      ∨ p.SDORxTxState = COSDOCommStates.eCO_SDOTimeout)
    (h0 : p.PDOConfigSequenceAccessStep = 0) (hN : p.PDOsConfigured < NrPDOs) :
    p.ConfigurePresetPDOs od stale timestamp
      = ({ p with actTime := timestamp }, COPDOCommStates.eCO_PDOBusy) := by
  unfold COPDOHandler.ConfigurePresetPDOs
  dsimp only
  rw [if_pos hN, ConfigureRxTxPDO_error p od stale _ _ _ hS h0]
  dsimp only
  rw [if_neg (fun x => COPDOCommStates.noConfusion x)]

theorem configCalls_stuck (p : COPDOHandler) (od : Nat → ODEntry) (stale : COPDOCommStates)
    (time : Nat → Nat)
    (hS : p.SDORxTxState = COSDOCommStates.eCO_SDOError
      ∨ p.SDORxTxState = COSDOCommStates.eCO_SDOTimeout)
    (h0 : p.PDOConfigSequenceAccessStep = 0) (hN : p.PDOsConfigured < NrPDOs) (k : Nat) :
    (p.configCalls od stale time k).SDORxTxState = p.SDORxTxState
      ∧ (p.configCalls od stale time k).PDOConfigSequenceAccessStep = 0
      ∧ (p.configCalls od stale time k).PDOsConfigured = p.PDOsConfigured := by
  induction k with
  | zero => exact ⟨rfl, h0, rfl⟩
  | succ k ih =>
    obtain ⟨a1, a2, a3⟩ := ih
    show ((p.configCalls od stale time k).ConfigurePresetPDOs od stale (time k)).1.SDORxTxState
        = _ ∧ ((p.configCalls od stale time k).ConfigurePresetPDOs od stale
          (time k)).1.PDOConfigSequenceAccessStep = 0
      ∧ ((p.configCalls od stale time k).ConfigurePresetPDOs od stale
          (time k)).1.PDOsConfigured = _
    rw [ConfigurePresetPDOs_stuck _ od stale _ (by rw [a1]; exact hS) a2 (by rw [a3]; exact hN)]
    exact ⟨a1, a2, a3⟩

/-- What does hold of C28: `ConfigurePresetPDOs` returns Busy or Done, whatever the state of
the handler and of the SDO client is. -/
theorem ConfigurePresetPDOs_busy_or_done (p : COPDOHandler) (od : Nat → ODEntry)
    (stale : COPDOCommStates) (timestamp : Nat) :
    (p.ConfigurePresetPDOs od stale timestamp).2 = COPDOCommStates.eCO_PDOBusy
      ∨ (p.ConfigurePresetPDOs od stale timestamp).2 = COPDOCommStates.eCO_PDODone := by
  unfold COPDOHandler.ConfigurePresetPDOs
  dsimp only
  split_ifs <;> first | exact Or.inl rfl | exact Or.inr rfl

/-- C28, the code at the failing input `abortedConfig`: the server has aborted the first
write of the configuration of RPDO1 and the SDO client reports Error.  In every later call,
at whatever time, the step `ConfigureRxTxPDO` returns Error, and `ConfigurePresetPDOs`,
which looks at that value for Done only, returns Busy. -/
theorem config_error_dropped (stale : COPDOCommStates) (time : Nat → Nat) (k : Nat) :
    abortedConfig.Node.RWSDO.SDORxTxState = COSDOCommStates.eCO_SDOError
      ∧ ((abortedConfig.configCalls driveOD stale time k).ConfigureRxTxPDO driveOD stale 0
          PDODir.eCO_PDORx (time k)).2 = COPDOCommStates.eCO_PDOError
      ∧ ((abortedConfig.configCalls driveOD stale time k).ConfigurePresetPDOs driveOD stale
          (time k)).2 = COPDOCommStates.eCO_PDOBusy := by
  have hS : abortedConfig.SDORxTxState = COSDOCommStates.eCO_SDOError := by decide
  obtain ⟨a1, a2, a3⟩ := configCalls_stuck abortedConfig driveOD stale time (Or.inl hS)
    (by decide) (by decide) k
  refine ⟨by decide, ?_, ?_⟩
  · rw [ConfigureRxTxPDO_error _ driveOD stale _ _ _ (by rw [a1]; exact Or.inl hS) a2]
  · rw [ConfigurePresetPDOs_stuck _ driveOD stale _ (by rw [a1]; exact Or.inl hS) a2
      (by rw [a3]; decide)]

/-! ## Assembly and decoding of a PDO -/

theorem lor_mul_two_pow (a b i : Nat) (h : a < 2 ^ i) : a ||| b * 2 ^ i = a + b * 2 ^ i := by
  rw [Nat.lor_comm, Nat.mul_comm, ← Nat.mul_add_lt_is_or h b, Nat.add_comm]

theorem pdoOffset_mono (od : Nat → ODEntry) (Entries : Nat → Nat) (i n : Nat) :
    pdoOffset od Entries i ≤ pdoOffset od Entries (i + n) := by
  induction n with
  | zero => exact le_refl _
  | succ n ih => exact le_trans ih (Nat.le_add_right _ _)

theorem txEntry_spec (od : Nat → ODEntry) (e o : Nat) (pl : Nat → Nat)
    (hw : (od e).len = 1 ∨ (od e).len = 2 ∨ (od e).len = 4) (ho : o + (od e).len < 256)
    (hb : ∀ b, b < (od e).len → (od e).Value b < 256) :
    (txEntry od e (pl, o)).2 = o + (od e).len
      ∧ (∀ b, b < (od e).len → (txEntry od e (pl, o)).1 (o + b) = (od e).Value b)
      ∧ (∀ x, x < o → (txEntry od e (pl, o)).1 x = pl x) := by
  rcases hw with h | h | h
  · have b0 := hb 0 (by omega)
    rw [h] at ho
    simp only [txEntry, h, if_true]
    refine ⟨by omega, ?_, ?_⟩
    · intro b hb1
      obtain rfl : b = 0 := by omega
      simp only [Nat.add_zero, Function.update_same]
      omega
    · intro x hx
      rw [Function.update_noteq (by omega)]
  · have b0 := hb 0 (by omega)
    have b1 := hb 1 (by omega)
    rw [h] at ho
    simp only [txEntry, h, if_true, show ¬ (2 : Nat) = 1 by decide, if_false]
    rw [show (o + 1) % 256 = o + 1 by omega]
    refine ⟨by omega, ?_, ?_⟩
    · intro b hb1
      have : b = 0 ∨ b = 1 := by omega
      rcases this with rfl | rfl
      · rw [Function.update_noteq (by omega)]
        simp only [Nat.add_zero, Function.update_same]
        omega
      · simp only [Function.update_same]
        omega
    · intro x hx
      rw [Function.update_noteq (by omega), Function.update_noteq (by omega)]
  · have b0 := hb 0 (by omega)
    have b1 := hb 1 (by omega)
    have b2 := hb 2 (by omega)
    have b3 := hb 3 (by omega)
    rw [h] at ho
    simp only [txEntry, h, if_true, show ¬ (4 : Nat) = 1 by decide,
      show ¬ (4 : Nat) = 2 by decide, if_false]
    rw [show (o + 1) % 256 = o + 1 by omega, show (o + 1 + 1) % 256 = o + 2 by omega,
      show (o + 2 + 1) % 256 = o + 3 by omega]
    refine ⟨by omega, ?_, ?_⟩
    · intro b hb1
      have : b = 0 ∨ b = 1 ∨ b = 2 ∨ b = 3 := by omega
      rcases this with rfl | rfl | rfl | rfl
      · rw [Function.update_noteq (by omega), Function.update_noteq (by omega),
          Function.update_noteq (by omega)]
        simp only [Nat.add_zero, Function.update_same]
        omega
      · rw [Function.update_noteq (by omega), Function.update_noteq (by omega)]
        simp only [Function.update_same]
        omega
      · rw [Function.update_noteq (by omega)]
        simp only [Function.update_same]
        omega
      · simp only [Function.update_same]
        omega
    · intro x hx
      rw [Function.update_noteq (by omega), Function.update_noteq (by omega),
        Function.update_noteq (by omega), Function.update_noteq (by omega)]

theorem txLoop_spec (od : Nat → ODEntry) (E : Nat → Nat) (n : Nat) :
    ∀ (iter : Nat) (pl : Nat → Nat),
      (∀ j, iter ≤ j → j < iter + n →
        ((od (E j)).len = 1 ∨ (od (E j)).len = 2 ∨ (od (E j)).len = 4)
          ∧ ∀ b, b < (od (E j)).len → (od (E j)).Value b < 256) →
      pdoOffset od E (iter + n) < 256 →
      (txLoop od E n iter (pl, pdoOffset od E iter)).2 = pdoOffset od E (iter + n)
        ∧ (∀ j, iter ≤ j → j < iter + n → ∀ b, b < (od (E j)).len →
            (txLoop od E n iter (pl, pdoOffset od E iter)).1 (pdoOffset od E j + b)
              = (od (E j)).Value b)
        ∧ (∀ x, x < pdoOffset od E iter →
            (txLoop od E n iter (pl, pdoOffset od E iter)).1 x = pl x) := by
  induction n with
  | zero =>
    intro iter pl _ _
    exact ⟨rfl, fun j h1 h2 => absurd h2 (by omega), fun x _ => rfl⟩
  | succ n ih =>
    intro iter pl hw htot
    have hm := pdoOffset_mono od E (iter + 1) n
    rw [show iter + 1 + n = iter + (n + 1) by omega] at hm
    have hs : pdoOffset od E (iter + 1) = pdoOffset od E iter + (od (E iter)).len := rfl
    obtain ⟨a1, a2, a3⟩ := txEntry_spec od (E iter) (pdoOffset od E iter) pl
      (hw iter (le_refl _) (by omega)).1 (by omega) (hw iter (le_refl _) (by omega)).2
    have e : txEntry od (E iter) (pl, pdoOffset od E iter)
        = ((txEntry od (E iter) (pl, pdoOffset od E iter)).1, pdoOffset od E (iter + 1)) :=
      Prod.ext rfl (a1.trans hs.symm)
    show (txLoop od E n (iter + 1) (txEntry od (E iter) (pl, pdoOffset od E iter))).2 = _
      ∧ (∀ j, iter ≤ j → j < iter + (n + 1) → ∀ b, b < (od (E j)).len →
          (txLoop od E n (iter + 1) (txEntry od (E iter) (pl, pdoOffset od E iter))).1
            (pdoOffset od E j + b) = (od (E j)).Value b)
      ∧ (∀ x, x < pdoOffset od E iter →
          (txLoop od E n (iter + 1) (txEntry od (E iter) (pl, pdoOffset od E iter))).1 x
            = pl x)
    rw [e]
    obtain ⟨c1, c2, c3⟩ := ih (iter + 1) (txEntry od (E iter) (pl, pdoOffset od E iter)).1
      (fun j h1 h2 => hw j (by omega) (by omega))
      (by rw [show iter + 1 + n = iter + (n + 1) by omega]; exact htot)
    refine ⟨by rw [c1, show iter + 1 + n = iter + (n + 1) by omega], ?_, ?_⟩
    · intro j h1 h2 b hb
      by_cases hj : j = iter
      · subst hj
        rw [c3 _ (by omega)]
        exact a2 b hb
      · exact c2 j (by omega) (by omega) b hb
    · intro x hx
      rw [c3 x (by omega)]
      exact a3 x hx

theorem le2_value (a b : Nat) (ha : a < 256) (hb : b < 256) :
    a % 65536 ||| b * 256 % 65536 = a + b * 256 := by
  rw [Nat.mod_eq_of_lt (by omega), Nat.mod_eq_of_lt (by omega)]
  exact lor_mul_two_pow a b 8 ha

theorem le4_value (a b c d : Nat) (ha : a < 256) (hb : b < 256) (hc : c < 256)
    (hd : d < 256) :
    a % 2 ^ 32 ||| b * 256 % 2 ^ 32 ||| c * 256 * 256 % 2 ^ 32
        ||| d * 256 * 256 * 256 % 2 ^ 32
      = a + b * 256 + c * 65536 + d * 16777216 := by
  rw [Nat.mod_eq_of_lt (show a < 2 ^ 32 by omega),
    Nat.mod_eq_of_lt (show b * 256 < 2 ^ 32 by omega),
    Nat.mod_eq_of_lt (show c * 256 * 256 < 2 ^ 32 by omega),
    Nat.mod_eq_of_lt (show d * 256 * 256 * 256 < 2 ^ 32 by omega)]
  have e1 := lor_mul_two_pow a b 8 ha
  have e2 := lor_mul_two_pow (a + b * 256) c 16 (by omega)
  have e3 := lor_mul_two_pow (a + b * 256 + c * 65536) d 24 (by omega)
  rw [show c * 256 * 256 = c * 2 ^ 16 by omega,
    show d * 256 * 256 * 256 = d * 2 ^ 24 by omega, show b * 256 = b * 2 ^ 8 by omega, e1,
    show a + b * 2 ^ 8 = a + b * 256 by omega, e2,
    show a + b * 256 + c * 2 ^ 16 = a + b * 256 + c * 65536 by omega, e3]
  omega

theorem rxEntry_spec (payload : Nat → Nat) (e o : Nat) (od1 : Nat → ODEntry)
    (hw : (od1 e).len = 1 ∨ (od1 e).len = 2 ∨ (od1 e).len = 4) (ho : o + (od1 e).len < 256)
    (hb : ∀ b, b < (od1 e).len → payload (o + b) < 256) :
    (rxEntry payload e (od1, o)).2 = o + (od1 e).len
      ∧ (∀ x, ((rxEntry payload e (od1, o)).1 x).len = (od1 x).len)
      ∧ (∀ b, b < (od1 e).len → ((rxEntry payload e (od1, o)).1 e).Value b = payload (o + b))
      ∧ (∀ x, x ≠ e → (rxEntry payload e (od1, o)).1 x = od1 x) := by
  have hlen : ∀ (r : ODEntry), r.len = (od1 e).len → ∀ x : Nat,
      (Function.update od1 e r x).len = (od1 x).len := by
    intro r hr x
    by_cases hx : x = e
    · subst hx
      rw [Function.update_same, hr]
    · rw [Function.update_noteq hx]
  rcases hw with h | h | h
  · have b0 : payload o < 256 := hb 0 (by omega)
    rw [h] at ho
    simp only [rxEntry, h, if_true]
    refine ⟨by omega, hlen _ h.symm, ?_, fun x hx => Function.update_noteq hx _ _⟩
    intro b hb1
    obtain rfl : b = 0 := by omega
    rw [Function.update_same]
    simp only [storeLE, leBytes, Nat.add_zero]
    norm_num
    omega
  · have b0 : payload o < 256 := hb 0 (by omega)
    have b1 := hb 1 (by omega)
    rw [h] at ho
    simp only [rxEntry, h, if_true, show ¬ (2 : Nat) = 1 by decide, if_false]
    rw [show (o + 1) % 256 = o + 1 by omega, le2_value _ _ b0 b1]
    refine ⟨by omega, hlen _ h.symm, ?_, fun x hx => Function.update_noteq hx _ _⟩
    intro b hb1
    rw [Function.update_same]
    have : b = 0 ∨ b = 1 := by omega
    rcases this with rfl | rfl <;> simp only [storeLE, leBytes] <;> norm_num <;> omega
  · have b0 : payload o < 256 := hb 0 (by omega)
    have b1 := hb 1 (by omega)
    have b2 := hb 2 (by omega)
    have b3 := hb 3 (by omega)
    rw [h] at ho
    simp only [rxEntry, h, if_true, show ¬ (4 : Nat) = 1 by decide,
      show ¬ (4 : Nat) = 2 by decide, if_false]
    rw [show (o + 1) % 256 = o + 1 by omega, show (o + 1 + 1) % 256 = o + 2 by omega,
      show (o + 2 + 1) % 256 = o + 3 by omega, le4_value _ _ _ _ b0 b1 b2 b3]
    refine ⟨by omega, hlen _ h.symm, ?_, fun x hx => Function.update_noteq hx _ _⟩
    intro b hb1
    rw [Function.update_same]
    have : b = 0 ∨ b = 1 ∨ b = 2 ∨ b = 3 := by omega
    rcases this with rfl | rfl | rfl | rfl <;> simp only [storeLE, leBytes] <;> norm_num <;>
      omega

theorem rxLoop_spec (payload : Nat → Nat) (E : Nat → Nat) (od : Nat → ODEntry) (n : Nat) :
    ∀ (iter : Nat) (od1 : Nat → ODEntry),
      (∀ j, iter ≤ j → j < iter + n →
        (od1 (E j)).len = (od (E j)).len
          ∧ ((od (E j)).len = 1 ∨ (od (E j)).len = 2 ∨ (od (E j)).len = 4)
          ∧ ∀ b, b < (od (E j)).len → payload (pdoOffset od E j + b) = (od (E j)).Value b
              ∧ (od (E j)).Value b < 256) →
      pdoOffset od E (iter + n) < 256 →
      (rxLoop payload E n iter (od1, pdoOffset od E iter)).2 = pdoOffset od E (iter + n)
        ∧ (∀ x, ((rxLoop payload E n iter (od1, pdoOffset od E iter)).1 x).len = (od1 x).len)
        ∧ (∀ x, (∀ b, b < (od x).len → (od1 x).Value b = (od x).Value b) →
            ∀ b, b < (od x).len →
              ((rxLoop payload E n iter (od1, pdoOffset od E iter)).1 x).Value b
                = (od x).Value b)
        ∧ (∀ j, iter ≤ j → j < iter + n → ∀ b, b < (od (E j)).len →
            ((rxLoop payload E n iter (od1, pdoOffset od E iter)).1 (E j)).Value b
              = (od (E j)).Value b)
        ∧ (∀ x, (∀ j, iter ≤ j → j < iter + n → E j ≠ x) →
            (rxLoop payload E n iter (od1, pdoOffset od E iter)).1 x = od1 x) := by
  induction n with
  | zero =>
    intro iter od1 _ _
    exact ⟨rfl, fun _ => rfl, fun _ h => h, fun j h1 h2 => absurd h2 (by omega), fun _ _ => rfl⟩
  | succ n ih =>
    intro iter od1 hw htot
    have hm := pdoOffset_mono od E (iter + 1) n
    rw [show iter + 1 + n = iter + (n + 1) by omega] at hm
    have hs : pdoOffset od E (iter + 1) = pdoOffset od E iter + (od (E iter)).len := rfl
    obtain ⟨w1, w2, w3⟩ := hw iter (le_refl _) (by omega)
    obtain ⟨a1, a2, a3, a4⟩ := rxEntry_spec payload (E iter) (pdoOffset od E iter) od1
      (by rw [w1]; exact w2) (by rw [w1]; omega)
      (fun b hb => by rw [(w3 b (by rw [← w1]; exact hb)).1]
                      exact (w3 b (by rw [← w1]; exact hb)).2)
    have e : rxEntry payload (E iter) (od1, pdoOffset od E iter)
        = ((rxEntry payload (E iter) (od1, pdoOffset od E iter)).1,
            pdoOffset od E (iter + 1)) :=
      Prod.ext rfl (by rw [a1, w1, hs])
    obtain ⟨c1, c2, c3, c4, c5⟩ := ih (iter + 1)
      (rxEntry payload (E iter) (od1, pdoOffset od E iter)).1
      (fun j h1 h2 => by
        obtain ⟨x1, x2, x3⟩ := hw j (by omega) (by omega)
        exact ⟨by rw [a2]; exact x1, x2, x3⟩)
      (by rw [show iter + 1 + n = iter + (n + 1) by omega]; exact htot)
    have good : ∀ x, (∀ b, b < (od x).len → (od1 x).Value b = (od x).Value b) →
        ∀ b, b < (od x).len →
          ((rxEntry payload (E iter) (od1, pdoOffset od E iter)).1 x).Value b
            = (od x).Value b := by
      intro x hx b hb
      by_cases hxe : x = E iter
      · subst hxe
        rw [a3 b (by rw [w1]; exact hb)]
        exact (w3 b hb).1
      · rw [a4 x hxe]
        exact hx b hb
    show (rxLoop payload E n (iter + 1)
          (rxEntry payload (E iter) (od1, pdoOffset od E iter))).2 = _
      ∧ (∀ x, ((rxLoop payload E n (iter + 1)
          (rxEntry payload (E iter) (od1, pdoOffset od E iter))).1 x).len = (od1 x).len)
      ∧ (∀ x, (∀ b, b < (od x).len → (od1 x).Value b = (od x).Value b) →
          ∀ b, b < (od x).len →
            ((rxLoop payload E n (iter + 1)
              (rxEntry payload (E iter) (od1, pdoOffset od E iter))).1 x).Value b
              = (od x).Value b)
      ∧ (∀ j, iter ≤ j → j < iter + (n + 1) → ∀ b, b < (od (E j)).len →
          ((rxLoop payload E n (iter + 1)
            (rxEntry payload (E iter) (od1, pdoOffset od E iter))).1 (E j)).Value b
            = (od (E j)).Value b)
      ∧ (∀ x, (∀ j, iter ≤ j → j < iter + (n + 1) → E j ≠ x) →
          (rxLoop payload E n (iter + 1)
            (rxEntry payload (E iter) (od1, pdoOffset od E iter))).1 x = od1 x)
    rw [e]
    refine ⟨by rw [c1, show iter + 1 + n = iter + (n + 1) by omega],
      fun x => (c2 x).trans (a2 x), fun x hx => c3 x (good x hx), ?_, ?_⟩
    · intro j h1 h2 b hb
      by_cases hj : j = iter
      · subst hj
        refine c3 (E j) ?_ b hb
        intro b2 hb2
        rw [a3 b2 (by rw [w1]; exact hb2)]
        exact (w3 b2 hb2).1
      · exact c4 j (by omega) (by omega) b hb
    · intro x hx
      rw [c5 x (fun j h1 h2 => hx j (by omega) (by omega))]
      exact a4 x (fun h => hx iter (le_refl _) (by omega) h.symm)

/-! ## C29: a PDO that is assembled and decoded over the same mapping -/

theorem rxLoop_congr (payload : Nat → Nat) (E E2 : Nat → Nat) (n : Nat) :
    ∀ (iter : Nat) (st : (Nat → ODEntry) × Nat),
      (∀ j, iter ≤ j → j < iter + n → E2 j = E j) →
      rxLoop payload E2 n iter st = rxLoop payload E n iter st := by
  induction n with
  | zero => intro _ _ _; rfl
  | succ n ih =>
    intro iter st h
    show rxLoop payload E2 n (iter + 1) (rxEntry payload (E2 iter) st)
      = rxLoop payload E n (iter + 1) (rxEntry payload (E iter) st)
    rw [h iter (le_refl _) (by omega), ih (iter + 1) _ (fun j h1 h2 => h j (by omega) (by omega))]

theorem PDO_SendRequest_ready (p : COPDOHandler) (Msg : CANMsg) (hTx : p.Node.RWSDO.txReady)
    (hR : Msg.isRTR = false) :
    (p.SendRequest Msg).2 = true
      ∧ (p.SendRequest Msg).1.Node.RWSDO.posted = p.Node.RWSDO.posted ++ [frameOf Msg]
      ∧ (p.SendRequest Msg).1.TxPDO = p.TxPDO := by
  obtain ⟨h1, h2⟩ := hTx
  have h1' : p.Node.RWSDO.Handler.TxStatus = COTxStatus.eCOTxIdle := h1
  have h2' : p.Node.RWSDO.Handler.can.busy = false := h2
  simp [COPDOHandler.SendRequest, COPDOHandler.Handler, CONode.Handler, COMsgHandler.SendMsg,
    UNOR4CAN.send, h1', h2', hR, frameOf, COPDOHandler.withHandler, CONode.withHandler,
    COSDOHandler.posted]

/-- C29: RPDO `n` of a handler is valid and maps `k ≥ 1` entries of the memory `od`, each 1, 2
or 4 bytes wide, 8 bytes in all; the handler is idle and the transmitter takes the frame.
Then `TransmitPdo` posts one frame with the COB-ID of the RPDO whose length is the sum of the
widths.  If a message with the payload of that frame is passed to `OnRxHandler` of a handler
`r` whose TPDO `m` is valid and has the same mapping, over a memory `od0` in which the mapped
entries have the same widths, then afterwards every mapped entry holds, in all its bytes, the
value it has in `od`; no width changes and entries that are not mapped are not touched. -/
theorem pdo_round_trip (p r : COPDOHandler) (od od0 : Nat → ODEntry) (n m : Nat)
    (RxMsg : CANMsg)
    (hIdle : p.RequestState = COPDOCommStates.eCO_PDOIdle)
    (hTx : p.Node.RWSDO.txReady) (hR : p.TxPDO.isRTR = false)
    (hV : (p.RxPDOSettings n).isValid = true)
    (hk : 0 < (p.RxPDOMapping n).NrEntries)
    (hw : ∀ i, i < (p.RxPDOMapping n).NrEntries →
      (p.RxPDOMapping n).Entries i ≠ 0
        ∧ ((od ((p.RxPDOMapping n).Entries i)).len = 1
          ∨ (od ((p.RxPDOMapping n).Entries i)).len = 2
          ∨ (od ((p.RxPDOMapping n).Entries i)).len = 4)
        ∧ ∀ b, b < (od ((p.RxPDOMapping n).Entries i)).len →
            (od ((p.RxPDOMapping n).Entries i)).Value b < 256)
    (htot : pdoOffset od (p.RxPDOMapping n).Entries (p.RxPDOMapping n).NrEntries ≤ 8)
    (hrV : (r.TxPDOSettings m).isValid = true)
    (hrN : (r.TxPDOMapping m).NrEntries = (p.RxPDOMapping n).NrEntries)
    (hrE : ∀ i, i < (p.RxPDOMapping n).NrEntries →
      (r.TxPDOMapping m).Entries i = (p.RxPDOMapping n).Entries i)
    (h0 : ∀ i, i < (p.RxPDOMapping n).NrEntries →
      (od0 ((p.RxPDOMapping n).Entries i)).len = (od ((p.RxPDOMapping n).Entries i)).len)
    (hId : (RxMsg.Id / 256 + 65535) % 65536 = m)
    (hP : RxMsg.payload = (p.TransmitPdo od n).1.TxPDO.payload) :
    (p.TransmitPdo od n).2 = true
      ∧ (p.TransmitPdo od n).1.Node.RWSDO.posted
          = p.Node.RWSDO.posted ++ [frameOf (p.TransmitPdo od n).1.TxPDO]
      ∧ (p.TransmitPdo od n).1.TxPDO.Id = (p.RxPDOSettings n).COBId
      ∧ (p.TransmitPdo od n).1.TxPDO.len
          = pdoOffset od (p.RxPDOMapping n).Entries (p.RxPDOMapping n).NrEntries
      ∧ (∀ i, i < (p.RxPDOMapping n).NrEntries →
          ∀ b, b < (od ((p.RxPDOMapping n).Entries i)).len →
            ((r.OnRxHandler od0 RxMsg) ((p.RxPDOMapping n).Entries i)).Value b
              = (od ((p.RxPDOMapping n).Entries i)).Value b)
      ∧ (∀ x, ((r.OnRxHandler od0 RxMsg) x).len = (od0 x).len)
      ∧ (∀ x, (∀ i, i < (p.RxPDOMapping n).NrEntries → (p.RxPDOMapping n).Entries i ≠ x) →
          (r.OnRxHandler od0 RxMsg) x = od0 x) := by
  generalize hE : (p.RxPDOMapping n).Entries = E at *
  generalize hK : (p.RxPDOMapping n).NrEntries = k at *
  obtain ⟨t1, t2, _⟩ := txLoop_spec od E k 0 p.TxPDO.payload
    (fun j _ h2 => ⟨(hw j (by omega)).2.1, (hw j (by omega)).2.2⟩)
    (by rw [Nat.zero_add]; omega)
  rw [Nat.zero_add] at t1
  have hT : p.TransmitPdo od n
      = ({ p with TxPDO := { p.TxPDO with
            payload := (txLoop od E k 0 (p.TxPDO.payload, 0)).1
            len := (txLoop od E k 0 (p.TxPDO.payload, 0)).2
            Id := (p.RxPDOSettings n).COBId } } : COPDOHandler).SendRequest
          { p.TxPDO with
            payload := (txLoop od E k 0 (p.TxPDO.payload, 0)).1
            len := (txLoop od E k 0 (p.TxPDO.payload, 0)).2
            Id := (p.RxPDOSettings n).COBId } := by
    unfold COPDOHandler.TransmitPdo
    dsimp only
    rw [if_pos hIdle, if_pos ⟨hV, by rw [hK]; exact hk⟩, hE, hK]
  obtain ⟨s1, s2, s3⟩ := PDO_SendRequest_ready ({ p with TxPDO := { p.TxPDO with
      payload := (txLoop od E k 0 (p.TxPDO.payload, 0)).1
      len := (txLoop od E k 0 (p.TxPDO.payload, 0)).2
      Id := (p.RxPDOSettings n).COBId } } : COPDOHandler)
    { p.TxPDO with
      payload := (txLoop od E k 0 (p.TxPDO.payload, 0)).1
      len := (txLoop od E k 0 (p.TxPDO.payload, 0)).2
      Id := (p.RxPDOSettings n).COBId } hTx hR
  rw [hT] at hP ⊢
  rw [s3] at hP ⊢
  have hP2 : RxMsg.payload = (txLoop od E k 0 (p.TxPDO.payload, 0)).1 := hP
  have hD : r.OnRxHandler od0 RxMsg
      = (rxLoop RxMsg.payload E k 0 (od0, pdoOffset od E 0)).1 := by
    unfold COPDOHandler.OnRxHandler
    dsimp only
    rw [hId, if_pos ⟨hrV, by rw [hrN]; exact hk⟩, hrN,
      rxLoop_congr _ E _ k 0 _ (fun j _ h2 => hrE j (by omega))]
    rfl
  obtain ⟨_, d2, _, d4, d5⟩ := rxLoop_spec RxMsg.payload E od k 0 od0
    (fun j _ h2 => ⟨h0 j (by omega), (hw j (by omega)).2.1, fun b hb =>
      ⟨by rw [hP2]; exact t2 j (Nat.zero_le _) (by omega) b hb,
        (hw j (by omega)).2.2 b hb⟩⟩)
    (by rw [Nat.zero_add]; omega)
  rw [hD]
  exact ⟨s1, s2, rfl, t1, fun i hi b hb => d4 i (Nat.zero_le _) (by omega) b hb, d2,
    fun x hx => d5 x (fun j _ h2 => hx j (by omega))⟩

/-- C29, witness: four entries of two bytes (0x1234, 0xABCD, 0x0001, 0xFFFF) mapped to RPDO1
and TPDO1 of node 3.  The frame posted has the identifier 0x203, the length 8 and the payload
`34 12 CD AB 01 00 FF FF`; decoded over a memory that holds 0x5555 in all four entries it
leaves the four values of the source there. -/
theorem pdo_round_trip_witness :
    (pdoFourWords.TransmitPdo fourWords 0).1.Node.RWSDO.posted.map wire
        = [(0x203, 8, [0x34, 0x12, 0xCD, 0xAB, 0x01, 0x00, 0xFF, 0xFF])]
      ∧ (pdoFourWords.TransmitPdo fourWords 0).1.TxPDO.len = 8
      ∧ ∀ i, i < 4 → ∀ b, b < 2 →
          ((pdoFourWords.OnRxHandler fourWordsOther
            (tpdoOf (pdoFourWords.TransmitPdo fourWords 0).1)) (i + 1)).Value b
            = (fourWords (i + 1)).Value b :=
  have h := pdo_round_trip pdoFourWords pdoFourWords fourWords fourWordsOther 0 0
    (tpdoOf (pdoFourWords.TransmitPdo fourWords 0).1) (by decide) ⟨by decide, by decide⟩
    (by decide) (by decide) (by decide) (by decide) (by decide) (by decide) (by decide)
    (by decide) (by decide) (by decide) rfl
  ⟨by decide, h.2.2.2.1.trans (by decide), by decide⟩

/-! ## C30: the asynchronous trigger -/

theorem iterate_inc256 (c x : Nat) :
    (fun y => (y + 1) % 256)^[c] x = if c = 0 then x else (x + c) % 256 := by
  induction c with
  | zero => rfl
  | succ c ih =>
    rw [Function.iterate_succ_apply', ih]
    by_cases h : c = 0
    · subst h
      simp
    · rw [if_neg h, if_neg (Nat.succ_ne_zero c)]
      omega

theorem withPending_self (p : COPDOHandler) :
    p.withPending (fun i => (p.RxPDOSettings i).pending) = p := rfl

theorem asyncEntry_withPending (p : COPDOHandler) (T entry i j : Nat) (f : Nat → Nat)
    (b : Bool) :
    COPDOHandler.asyncEntry T entry i (p.withPending f, b) j
      = (p.withPending
          (if (p.RxPDOMapping i).Entries j = entry ∧ (p.RxPDOSettings i).TransmType = T then
            Function.update f i ((f i + 1) % 256) else f),
        b || decide ((p.RxPDOMapping i).Entries j = entry)) := by
  unfold COPDOHandler.asyncEntry
  dsimp only
  have hM : (p.withPending f).RxPDOMapping = p.RxPDOMapping := rfl
  have hT : ((p.withPending f).RxPDOSettings i).TransmType = (p.RxPDOSettings i).TransmType :=
    rfl
  rw [hM, hT]
  by_cases h1 : (p.RxPDOMapping i).Entries j = entry
  · rw [if_pos h1]
    by_cases h2 : (p.RxPDOSettings i).TransmType = T
    · rw [if_pos h2, if_pos ⟨h1, h2⟩]
      refine Prod.ext ?_ (by simp [h1])
      show _ = p.withPending _
      unfold COPDOHandler.withPending
      dsimp only
      congr 1
      funext k
      by_cases hk : k = i
      · subst hk
        simp
      · simp [Function.update_noteq hk]
    · rw [if_neg h2, if_neg (fun x => h2 x.2)]
      exact Prod.ext rfl (by simp [h1])
  · rw [if_neg h1, if_neg (fun x => h1 x.1)]
    exact Prod.ext rfl (by simp [h1])

theorem asyncEntry_foldl (p : COPDOHandler) (T entry i : Nat) (l : List Nat) :
    ∀ (f : Nat → Nat) (b : Bool),
      l.foldl (COPDOHandler.asyncEntry T entry i) (p.withPending f, b)
        = (p.withPending
            (if (p.RxPDOSettings i).TransmType = T then
              Function.update f i ((fun y => (y + 1) % 256)^[l.countP fun j =>
                decide ((p.RxPDOMapping i).Entries j = entry)] (f i))
            else f),
          b || decide (0 < l.countP fun j => decide ((p.RxPDOMapping i).Entries j = entry))) := by
  induction l with
  | nil =>
    intro f b
    simp
  | cons j l ih =>
    intro f b
    rw [List.foldl_cons, asyncEntry_withPending, ih]
    by_cases h1 : (p.RxPDOMapping i).Entries j = entry
    · by_cases h2 : (p.RxPDOSettings i).TransmType = T
      · simp [h1, h2, List.countP_cons, Function.iterate_succ_apply]
      · simp [h1, h2, List.countP_cons]
    · by_cases h2 : (p.RxPDOSettings i).TransmType = T
      · simp [h1, h2, List.countP_cons]
      · simp [h1, h2, List.countP_cons]

theorem asyncPDO_withPending (p : COPDOHandler) (T entry i : Nat) (f : Nat → Nat) (b : Bool) :
    COPDOHandler.asyncPDO T entry (p.withPending f, b) i
      = (p.withPending
          (if (p.RxPDOSettings i).TransmType = T then
            Function.update f i
              ((fun y => (y + 1) % 256)^[(p.RxPDOMapping i).matchCount entry] (f i))
          else f),
        b || decide (0 < (p.RxPDOMapping i).matchCount entry)) := by
  unfold COPDOHandler.asyncPDO
  have hM : (p.withPending f).RxPDOMapping = p.RxPDOMapping := rfl
  dsimp only
  rw [hM, asyncEntry_foldl]
  rfl

theorem asyncPDO_foldl (p : COPDOHandler) (T entry : Nat) (L : List Nat) :
    L.Nodup → ∀ (f : Nat → Nat) (b : Bool),
      L.foldl (COPDOHandler.asyncPDO T entry) (p.withPending f, b)
        = (p.withPending
            (fun k => if k ∈ L ∧ (p.RxPDOSettings k).TransmType = T then
              (fun y => (y + 1) % 256)^[(p.RxPDOMapping k).matchCount entry] (f k)
            else f k),
          b || decide (∃ k, k ∈ L ∧ 0 < (p.RxPDOMapping k).matchCount entry)) := by
  induction L with
  | nil =>
    intro _ f b
    simp
  | cons i L ih =>
    intro hnd f b
    obtain ⟨hi, hL⟩ := List.nodup_cons.mp hnd
    rw [List.foldl_cons, asyncPDO_withPending, ih hL]
    refine Prod.ext ?_ ?_
    · dsimp only
      congr 1
      funext k
      by_cases hk : k = i
      · subst hk
        by_cases h2 : (p.RxPDOSettings k).TransmType = T
        · simp [hi, h2]
        · simp [hi, h2]
      · by_cases h2 : (p.RxPDOSettings i).TransmType = T
        · simp [hk, h2, Function.update_noteq hk]
        · simp [hk, h2]
    · dsimp only
      rw [Bool.or_assoc]
      congr 1
      by_cases h3 : 0 < (p.RxPDOMapping i).matchCount entry
      · simp [h3]
      · simp [h3]

theorem matchCount_pos (m : PDOMapping) (entry : Nat) :
    0 < m.matchCount entry ↔ ∃ j, j < m.NrEntries ∧ m.Entries j = entry := by
  unfold PDOMapping.matchCount
  rw [List.countP_pos_iff]
  simp [List.mem_range]

/-- C30, as amended: `TxPDOsAsync(e)` returns true if and only if `e` is one of the first
`NrEntries` elements of the mapping of one of the four RPDOs.  Of the handler only the
counters `pending` change: that of every RPDO whose transmission type is the constant
`TPDOTTypeAsync` grows by the number of its matches, modulo 256 (the counter has 8 bits);
the counters of all other RPDOs stay as they are. -/
theorem TxPDOsAsync_spec (p : COPDOHandler) (TPDOTTypeAsync entry : Nat)
    (hP : ∀ i, i < NrPDOs → (p.RxPDOSettings i).pending < 256) :
    ((p.TxPDOsAsync TPDOTTypeAsync entry).2 = true
        ↔ ∃ i, i < NrPDOs ∧ ∃ j, j < (p.RxPDOMapping i).NrEntries
            ∧ (p.RxPDOMapping i).Entries j = entry)
      ∧ (p.TxPDOsAsync TPDOTTypeAsync entry).1
        = p.withPending fun i =>
            if i < NrPDOs ∧ (p.RxPDOSettings i).TransmType = TPDOTTypeAsync then
              ((p.RxPDOSettings i).pending + (p.RxPDOMapping i).matchCount entry) % 256
            else (p.RxPDOSettings i).pending := by
  have h := asyncPDO_foldl p TPDOTTypeAsync entry (List.range NrPDOs) (List.nodup_range _)
    (fun i => (p.RxPDOSettings i).pending) false
  rw [withPending_self] at h
  unfold COPDOHandler.TxPDOsAsync
  rw [h]
  constructor
  · simp only [Bool.false_or, decide_eq_true_eq, List.mem_range, matchCount_pos]
  · dsimp only
    congr 1
    funext k
    by_cases hk : k < NrPDOs
    · by_cases h2 : (p.RxPDOSettings k).TransmType = TPDOTTypeAsync
      · rw [if_pos ⟨List.mem_range.mpr hk, h2⟩, if_pos ⟨hk, h2⟩, iterate_inc256]
        have := hP k hk
        split_ifs with h3
        · rw [h3]
          omega
        · rfl
      · rw [if_neg (fun x => h2 x.2), if_neg (fun x => h2 x.2)]
    · rw [if_neg (fun x => hk (List.mem_range.mp x.1)), if_neg (fun x => hk x.1)]

/-- C30, witness: the handler `pdoAsyncMix` with 255 as the constant.  The controlword (at
address 1) is mapped to RPDO1 (type 255) and to RPDO2 (type 254): the function returns true
and the only counter that grows is that of RPDO1.  The entry at address 5 is mapped
nowhere: the function returns false. -/
theorem TxPDOsAsync_spec_witness :
    (pdoAsyncMix.TxPDOsAsync 255 1).2 = true
      ∧ (pdoAsyncMix.TxPDOsAsync 255 1).1.pendings = [1, 0, 0, 0]
      ∧ (pdoAsyncMix.TxPDOsAsync 255 5).2 = false :=
  have h := TxPDOsAsync_spec pdoAsyncMix 255 1 (by decide)
  ⟨h.1.mpr ⟨0, by decide, 0, by decide, by decide⟩, by rw [h.2]; decide, by decide⟩

/-- C30, counterexample: the controlword is mapped to RPDO1 of type 255 and to RPDO2 of type
254.  The code compares the type with one constant: with 255 the counter of RPDO2 is not
incremented, with 254 that of RPDO1 is not.  A counter that stands at 255 is 0 after the
match. -/
theorem async_only_one_type :
    (pdoAsyncMix.TxPDOsAsync 255 1).1.pendings = [1, 0, 0, 0]
      ∧ (pdoAsyncMix.TxPDOsAsync 254 1).1.pendings = [0, 1, 0, 0]
      ∧ ((pdoAsyncMix.withPending fun _ => 255).TxPDOsAsync 255 1).1.pendings
          = [0, 255, 255, 255] := by
  decide

/-! ## C31: the SYNC producer -/

/-- C31, the code at the failing input: a sync handler that has just been attached is in the
state Offline; `Update(100)` offers the SYNC frame (identifier 0x080, length 0) to the
router and returns SyncSent.  The same happens in the state Stopped.  The second branch of
`Update` tests the constant `eSyncStateOperational`, which is 5 and so always true, and not
`SyncState == eSyncStateOperational`. -/
theorem sync_sent_while_offline :
    syncAttached.SyncState = eSyncStateOffline
      ∧ (syncAttached.Update 100).2 = COSyncState.eSyncSyncSent
      ∧ heads (syncAttached.Update 100).1.Handler.can.offered
          = [(0x080, can_frame_type_t.CAN_FRAME_TYPE_DATA, 0)]
      ∧ ((syncAttached.SetState eSyncStateStopped).Update 100).2 = COSyncState.eSyncSyncSent
      ∧ heads ((syncAttached.SetState eSyncStateStopped).Update 100).1.Handler.can.offered
          = [(0x080, can_frame_type_t.CAN_FRAME_TYPE_DATA, 0)] := by
  decide

theorem Sync_SendRequest_offered (y : COSyncHandler) (Msg : CANMsg) :
    (y.SendRequest Msg).1.Handler = (y.Handler.SendMsg Msg).2
      ∧ (y.SendRequest Msg).1.SyncMessage = y.SyncMessage
      ∧ (y.SendRequest Msg).1.SyncState = y.SyncState := by
  unfold COSyncHandler.SendRequest
  dsimp only
  split_ifs <;> exact ⟨rfl, rfl, rfl⟩

theorem hbStep_offered (y : COSyncHandler) (actTime : Nat) (hId : y.HBMessage.Id ≠ eCANSyncEmcy) :
    (∀ f, f ∈ (y.hbStep actTime).Handler.can.offered → f.id = eCANSyncEmcy →
        f ∈ y.Handler.can.offered)
      ∧ (y.hbStep actTime).SyncState = y.SyncState := by
  unfold COSyncHandler.hbStep
  have key : ∀ (m : CANMsg), m.Id ≠ eCANSyncEmcy →
      ∀ f, f ∈ (y.Handler.SendMsg m).2.can.offered → f.id = eCANSyncEmcy →
        f ∈ y.Handler.can.offered := by
    intro m hm f hf hid
    unfold COMsgHandler.SendMsg UNOR4CAN.send at hf
    by_cases h1 : y.Handler.TxStatus = COTxStatus.eCOTxIdle
    · by_cases h2 : y.Handler.can.busy = true
      · by_cases h3 : m.isRTR = true <;> simp [h1, h2, h3] at hf <;>
          rcases hf with hf | hf <;> first | exact hf | (rw [hf] at hid; exact absurd hid hm)
      · by_cases h3 : m.isRTR = true <;> simp [h1, h2, h3] at hf <;>
          rcases hf with hf | hf <;> first | exact hf | (rw [hf] at hid; exact absurd hid hm)
    · simp [h1] at hf
      exact hf
  by_cases h1 : y.ProducerHBTime > 0
  · rw [if_pos h1]
    by_cases h2 : sub32 actTime y.lastHB ≥ y.ProducerHBTime
    · rw [if_pos h2]
      dsimp only
      obtain ⟨a1, _, a3⟩ := Sync_SendRequest_offered ({ y with HBMessage := { y.HBMessage with
        payload := Function.update y.HBMessage.payload 0 (castU8 y.SyncState) } } : COSyncHandler)
        { y.HBMessage with
          payload := Function.update y.HBMessage.payload 0 (castU8 y.SyncState) }
      split_ifs
      · refine ⟨?_, a3⟩
        show ∀ f, f ∈ (COSyncHandler.SendRequest _ _).1.Handler.can.offered → _
        rw [a1]
        exact key _ hId
      · refine ⟨?_, a3⟩
        rw [a1]
        exact key _ hId
    · rw [if_neg h2]
      exact ⟨fun f hf _ => hf, rfl⟩
  · rw [if_neg h1]
    exact ⟨fun f hf _ => hf, rfl⟩

/-- What does hold of C31: in the state PreOp `Update` returns Idle and offers no frame with
the identifier 0x080 to the router (the heartbeat message of an attached handler has the
identifier 0x700 | id). -/
theorem sync_not_sent_in_preop (y : COSyncHandler) (actTime : Nat)
    (hS : y.SyncState = eSyncStatePreOp) (hId : y.HBMessage.Id ≠ eCANSyncEmcy) :
    (y.Update actTime).2 = COSyncState.eSyncIdle
      ∧ ∀ f, f ∈ (y.Update actTime).1.Handler.can.offered → f.id = eCANSyncEmcy →
          f ∈ y.Handler.can.offered := by
  unfold COSyncHandler.Update
  rw [if_pos hS]
  exact ⟨rfl, (hbStep_offered y actTime hId).1⟩

/-! ## C32: what the drive does on a liveness loss -/

theorem zeroed_words (od : Nat → ODEntry) (a c b : Nat) (hb : b < 2) :
    ((Function.update
        (Function.update od a { od a with Value := storeLE (od a).Value 2 0 }) c
        { Function.update od a { od a with Value := storeLE (od a).Value 2 0 } c with
          Value := storeLE
            (Function.update od a { od a with Value := storeLE (od a).Value 2 0 } c).Value
            2 0 }) a).Value b = 0
      ∧ ((Function.update
        (Function.update od a { od a with Value := storeLE (od a).Value 2 0 }) c
        { Function.update od a { od a with Value := storeLE (od a).Value 2 0 } c with
          Value := storeLE
            (Function.update od a { od a with Value := storeLE (od a).Value 2 0 } c).Value
            2 0 }) c).Value b = 0 := by
  constructor
  · by_cases hx : a = c
    · subst hx
      rw [Function.update_same]
      simp [storeLE, hb, leBytes]
    · rw [Function.update_noteq hx, Function.update_same]
      simp [storeLE, hb, leBytes]
  · rw [Function.update_same]
    simp [storeLE, hb, leBytes]

/-- C32, as amended: when the node reports a state below Reset (Offline, or one of the boot
states) to `Update` of the drive, afterwards the drive holds its PDOs for not configured
(`isPDOsConfigured` is false and the count `PDOsConfigured` of the PDO handler is 0, so that
the configuration is written again once the node is back in PreOp), and the controlword and
the statusword are 0.  The descriptors of the RPDOs and TPDOs, their flags `isValid`
included, and the mappings are as they were. -/
theorem liveness_loss_flags (d : CO402Drive) (od : Nat → ODEntry) (stale : COPDOCommStates)
    (actTime : Nat) (syncState : COSyncState)
    (hL : (d.Node.Update actTime).NodeState < eNMTStateReset) :
    (d.Update od stale actTime syncState).2.2 = (d.Node.Update actTime).NodeState
      ∧ (d.Update od stale actTime syncState).1.isPDOsConfigured = false
      ∧ (d.Update od stale actTime syncState).1.PDOHandler.PDOsConfigured = 0
      ∧ (d.Update od stale actTime syncState).1.PDOHandler.RxPDOSettings
          = d.PDOHandler.RxPDOSettings
      ∧ (d.Update od stale actTime syncState).1.PDOHandler.TxPDOSettings
          = d.PDOHandler.TxPDOSettings
      ∧ (d.Update od stale actTime syncState).1.PDOHandler.RxPDOMapping
          = d.PDOHandler.RxPDOMapping
      ∧ (d.Update od stale actTime syncState).1.PDOHandler.TxPDOMapping
          = d.PDOHandler.TxPDOMapping
      ∧ (∀ b, b < 2 → ((d.Update od stale actTime syncState).2.1 d.OdCW).Value b = 0)
      ∧ (∀ b, b < 2 → ((d.Update od stale actTime syncState).2.1 d.OdSW).Value b = 0) := by
  have hL2 : (d.withNode (d.Node.Update actTime)).Node.NodeState < eNMTStateReset := hL
  have h1 : ¬ (d.withNode (d.Node.Update actTime)).Node.NodeState = eNMTStatePreOp := by
    intro h
    rw [h] at hL2
    exact absurd hL2 (by decide)
  have h2 : ¬ (d.withNode (d.Node.Update actTime)).Node.NodeState = eNMTStateOperational := by
    intro h
    rw [h] at hL2
    exact absurd hL2 (by decide)
  unfold CO402Drive.Update
  dsimp only
  rw [if_pos hL2, if_neg h1, if_neg h2]
  exact ⟨rfl, rfl, rfl, rfl, rfl, rfl, rfl, fun b hb => (zeroed_words od _ _ b hb).1,
    fun b hb => (zeroed_words od _ _ b hb).2⟩

set_option maxRecDepth 8000 in
/-- C32, witness: the drive `driveHeartbeat` hears no heartbeat; at `Update(1257)` the node
goes Offline and the drive holds its PDOs for not configured. -/
theorem liveness_loss_flags_witness :
    (driveHeartbeat.Update driveOD COPDOCommStates.eCO_PDOBusy 1257 COSyncState.eSyncIdle).2.2
        = eNMTStateOffline
      ∧ (driveHeartbeat.Update driveOD COPDOCommStates.eCO_PDOBusy 1257
          COSyncState.eSyncIdle).1.isPDOsConfigured = false
      ∧ (driveHeartbeat.Update driveOD COPDOCommStates.eCO_PDOBusy 1257
          COSyncState.eSyncIdle).1.PDOHandler.PDOsConfigured = 0 :=
  have h := liveness_loss_flags driveHeartbeat driveOD COPDOCommStates.eCO_PDOBusy 1257
    COSyncState.eSyncIdle (by decide)
  ⟨h.1.trans (by decide), h.2.1, h.2.2.1⟩

set_option maxRecDepth 8000 in
/-- C32, counterexample: after the liveness loss of the witness (node Offline at
`Update(1257)`) the descriptors of RPDO1 and TPDO1 still have `isValid` set. -/
theorem liveness_loss_keeps_isValid :
    (driveHeartbeat.Update driveOD COPDOCommStates.eCO_PDOBusy 1257 COSyncState.eSyncIdle).2.2
        = eNMTStateOffline
      ∧ ((driveHeartbeat.Update driveOD COPDOCommStates.eCO_PDOBusy 1257
          COSyncState.eSyncIdle).1.PDOHandler.RxPDOSettings 0).isValid = true
      ∧ ((driveHeartbeat.Update driveOD COPDOCommStates.eCO_PDOBusy 1257
          COSyncState.eSyncIdle).1.PDOHandler.TxPDOSettings 0).isValid = true := by
  decide

/-! ## C33: the mapping phase of a PDO configuration -/

theorem sub32_self (a : Nat) : sub32 a a = 0 := by
  unfold sub32
  rw [Nat.add_sub_cancel_left, Nat.mod_self]

theorem WriteSDO_idle_exp_state (s : COSDOHandler) (Idx SubIdx : Nat) (Data : Nat → Nat)
    (len : Nat) (hIdle : s.SDORxTxState = COSDOCommStates.eCO_SDOIdle) (hTx : s.txReady)
    (hR : s.SDORequestMsg.isRTR = false) (h : len ≤ 4) :
    (s.WriteSDO Idx SubIdx Data len).SDORxTxState = COSDOCommStates.eCO_SDOWaiting
      ∧ (s.WriteSDO Idx SubIdx Data len).requestedService
          = COSDORequestType.eSDOWriteRequestExp
      ∧ (s.WriteSDO Idx SubIdx Data len).requestedIdx = Idx
      ∧ (s.WriteSDO Idx SubIdx Data len).requestedSub = SubIdx
      ∧ (s.WriteSDO Idx SubIdx Data len).ExpectedRxTxLen = len
      ∧ (s.WriteSDO Idx SubIdx Data len).Handler.can.busy = false
      ∧ (s.WriteSDO Idx SubIdx Data len).SDORequestMsg.isRTR = false := by
  unfold COSDOHandler.WriteSDO
  rw [hIdle]
  simp only [h, if_true]
  rw [caseRetry_ready]
  · exact ⟨rfl, rfl, rfl, rfl, rfl, hTx.2, hR⟩
  exacts [hTx, hR]

theorem WriteSDO_idle_exp1 (s : COSDOHandler) (Idx SubIdx : Nat) (Data : Nat → Nat)
    (hIdle : s.SDORxTxState = COSDOCommStates.eCO_SDOIdle) :
    msgIdx (s.WriteSDO Idx SubIdx Data 1).SDORequestMsg.payload = Idx % 65536
      ∧ msgSubIdx (s.WriteSDO Idx SubIdx Data 1).SDORequestMsg.payload = SubIdx
      ∧ msgU32 (s.WriteSDO Idx SubIdx Data 1).SDORequestMsg.payload = Data 0 := by
  unfold COSDOHandler.WriteSDO
  rw [hIdle]
  simp only [show (1 : Nat) ≤ 4 by decide, if_true, caseRetry_SDORequestMsg]
  simp [msgIdx, msgSubIdx, msgU32, setU32, setSubIdx, setIdx, setCtl_of_pos,
    Function.update_apply]
  omega

theorem WriteSDO_idle_exp_n (s : COSDOHandler) (Idx SubIdx : Nat) (Data : Nat → Nat)
    (len : Nat) (hIdle : s.SDORxTxState = COSDOCommStates.eCO_SDOIdle) (h : len ≤ 4) :
    ctl_n (s.WriteSDO Idx SubIdx Data len).SDORequestMsg.payload = (4 - len) % 4 := by
  have hc := WriteSDO_idle_exp_ctl s Idx SubIdx Data len hIdle h
  simp only [ctl_n, hc]
  simp [getBits_setBits_same, getBits_setBits_disj, ctlFields]

/-- A write of one or of four bytes started by a client that is free, with a transmitter
that takes the frame: the state of the client and the frame posted. -/
theorem expedited_write_frame (s : COSDOHandler) (Idx SubIdx v len : Nat)
    (hIdle : s.SDORxTxState = COSDOCommStates.eCO_SDOIdle) (hTx : s.txReady)
    (hR : s.SDORequestMsg.isRTR = false) (hI : Idx < 65536)
    (hl : (len = 1 ∧ v < 256) ∨ (len = 4 ∧ v < 2 ^ 32)) :
    ∃ f, (s.WriteSDO Idx SubIdx (leBytes v) len).posted = s.posted ++ [f]
      ∧ sdoWrite f = (Idx, SubIdx, len, v)
      ∧ msgIdx f.data = (s.WriteSDO Idx SubIdx (leBytes v) len).requestedIdx
      ∧ msgSubIdx f.data = (s.WriteSDO Idx SubIdx (leBytes v) len).requestedSub := by
  have hl4 : len ≤ 4 := by omega
  obtain ⟨-, -, b3, b4, -, -, -⟩ :=
    WriteSDO_idle_exp_state s Idx SubIdx (leBytes v) len hIdle hTx hR hl4
  have hn := WriteSDO_idle_exp_n s Idx SubIdx (leBytes v) len hIdle hl4
  refine ⟨_, WriteSDO_idle_posted s Idx SubIdx (leBytes v) len hIdle hTx hR, ?_, ?_, ?_⟩
  · rcases hl with ⟨rfl, hv⟩ | ⟨rfl, hv⟩
    · obtain ⟨a1, a2, a3⟩ := WriteSDO_idle_exp1 s Idx SubIdx (leBytes v) hIdle
      have e0 : leBytes v 0 = v := by
        simp only [leBytes]
        norm_num
        omega
      simp only [sdoWrite, frameOf, a1, a2, a3, hn, e0, Nat.mod_eq_of_lt hI]
    · obtain ⟨a1, a2, a3⟩ := WriteSDO_idle_exp4 s Idx SubIdx (leBytes v) hIdle
      simp only [sdoWrite, frameOf, a1, a2, msgU32_leBytes _ v hv a3, hn,
        Nat.mod_eq_of_lt hI]
  · rw [b3]
    rcases hl with ⟨rfl, -⟩ | ⟨rfl, -⟩
    · exact (WriteSDO_idle_exp1 s Idx SubIdx (leBytes v) hIdle).1.trans (Nat.mod_eq_of_lt hI)
    · exact (WriteSDO_idle_exp4 s Idx SubIdx (leBytes v) hIdle).1.trans (Nat.mod_eq_of_lt hI)
  · rw [b4]
    rcases hl with ⟨rfl, -⟩ | ⟨rfl, -⟩
    · exact (WriteSDO_idle_exp1 s Idx SubIdx (leBytes v) hIdle).2.1
    · exact (WriteSDO_idle_exp4 s Idx SubIdx (leBytes v) hIdle).2.1

theorem served_not_waiting (q : COPDOHandler) (node : Nat)
    (h : q.Node.RWSDO.SDORxTxState ≠ COSDOCommStates.eCO_SDOWaiting) : q.served node = q := by
  unfold COPDOHandler.served
  rw [if_neg h]

/-- The server confirms the expedited write the client waits for: the client is Done and
the transmitter is free again. -/
theorem served_waiting (q : COPDOHandler) (node : Nat) (P : List can_frame_t)
    (f : can_frame_t) (hW : q.Node.RWSDO.SDORxTxState = COSDOCommStates.eCO_SDOWaiting)
    (hP : q.Node.RWSDO.posted = P ++ [f])
    (hS : q.Node.RWSDO.requestedService = COSDORequestType.eSDOWriteRequestExp)
    (hI : msgIdx f.data = q.Node.RWSDO.requestedIdx)
    (hSub : msgSubIdx f.data = q.Node.RWSDO.requestedSub)
    (hL : q.Node.RWSDO.ExpectedRxTxLen ≤ 4) :
    q.served node = q.withRWSDO { q.Node.RWSDO.afterTxComplete with
      SDORxTxState := COSDOCommStates.eCO_SDODone
      isTimerActive := false
      ActRxTxLen := q.Node.RWSDO.ExpectedRxTxLen } := by
  have hP2 : q.Node.RWSDO.Handler.can.posted = P ++ [f] := hP
  unfold COPDOHandler.served
  rw [if_pos hW]
  unfold COSDOHandler.posted
  rw [hP2, List.getLast?_concat]
  dsimp only
  unfold COPDOHandler.onSdoResponse
  have hcs : ctl_cs (ackOf node f).payload = SDOInitDownloadResp := by
    show getBits 0x60 5 3 = 3
    decide
  rw [onResponse_eq, OnRxHandler_downloadInit _ _ (by simpa using hS) hcs]
  unfold COSDOHandler.onDownloadInitResp
  have e1 : msgIdx (ackOf node f).payload = q.Node.RWSDO.afterTxComplete.requestedIdx := by
    rw [afterTxComplete_requestedIdx, ← hI]
    rfl
  have e2 : msgSubIdx (ackOf node f).payload = q.Node.RWSDO.afterTxComplete.requestedSub := by
    rw [afterTxComplete_requestedSub, ← hSub]
    rfl
  rw [if_pos ⟨e1, e2⟩, if_pos (by simpa using hL)]
  simp only [afterTxComplete_ExpectedRxTxLen]

theorem WriteSDOEntry_start (s : COSDOHandler) (Idx SubIdx v len : Nat)
    (hIdle : s.SDORxTxState = COSDOCommStates.eCO_SDOIdle) (hTx : s.txReady)
    (hR : s.SDORequestMsg.isRTR = false) (hl : len ≤ 4) :
    s.WriteSDOEntry { Idx := Idx, SubIdx := SubIdx, Value := leBytes v, len := len }
      = (s.WriteSDO Idx SubIdx (leBytes v) len, COSDOCommStates.eCO_SDOWaiting) := by
  have hw := (WriteSDO_idle_exp_state s Idx SubIdx (leBytes v) len hIdle hTx hR hl).1
  unfold COSDOHandler.WriteSDOEntry
  dsimp only
  rw [hw, if_neg (by decide)]

/-- The first call of `WriteObject` for an access. -/
theorem WriteObject_start (p : COPDOHandler) (Idx SubIdx v len : Nat) (hR : p.writeReady)
    (hl : len ≤ 4) :
    p.WriteObject Idx SubIdx v len
      = ({ p with
            RequestSentAt := p.actTime
            Node := { p.Node with RWSDO := p.Node.RWSDO.WriteSDO Idx SubIdx (leBytes v) len }
            SDORxTxState := COSDOCommStates.eCO_SDOWaiting },
          COPDOCommStates.eCO_PDOBusy) := by
  obtain ⟨h1, h2, h3, h4⟩ := hR
  have e := WriteSDOEntry_start p.Node.RWSDO Idx SubIdx v len h2 h3 h4 hl
  unfold COPDOHandler.WriteObject
  simp only [h1, COPDOHandler.writeCase, COPDOHandler.withRWSDO, e, sub32_self]
  simp

/-- The call of `WriteObject` after the server has confirmed the write. -/
theorem WriteObject_confirmed (q : COPDOHandler) (Idx SubIdx v len : Nat)
    (hS : q.SDORxTxState = COSDOCommStates.eCO_SDOWaiting)
    (hD : q.Node.RWSDO.SDORxTxState = COSDOCommStates.eCO_SDODone)
    (hT : q.RequestSentAt = q.actTime) :
    q.WriteObject Idx SubIdx v len
      = ({ q with
            Node := { q.Node with RWSDO :=
              ({ q.Node.RWSDO with
                requestedService := COSDORequestType.eSDONoRequest } :
                COSDOHandler).ResetComState }
            SDORxTxState := COSDOCommStates.eCO_SDODone },
          COPDOCommStates.eCO_PDOBusy) := by
  have e : q.Node.RWSDO.WriteSDOEntry
        { Idx := Idx, SubIdx := SubIdx, Value := leBytes v, len := len }
      = (({ q.Node.RWSDO with requestedService := COSDORequestType.eSDONoRequest } :
          COSDOHandler).ResetComState, COSDOCommStates.eCO_SDODone) := by
    unfold COSDOHandler.WriteSDOEntry COSDOHandler.WriteSDO
    simp only [hD]
    simp
  unfold COPDOHandler.WriteObject
  simp only [hS, COPDOHandler.writeCase, COPDOHandler.withRWSDO, e, hT, sub32_self]
  simp

/-- The call of `WriteObject` that ends an access. -/
theorem WriteObject_done (q : COPDOHandler) (Idx SubIdx v len : Nat)
    (hS : q.SDORxTxState = COSDOCommStates.eCO_SDODone)
    (hT : q.RequestSentAt = q.actTime) :
    q.WriteObject Idx SubIdx v len
      = ({ q with SDORxTxState := COSDOCommStates.eCO_SDOIdle },
          COPDOCommStates.eCO_PDODone) := by
  unfold COPDOHandler.WriteObject
  simp only [hS, hT, sub32_self]
  simp

theorem mappingTransmit_busy (p X : COPDOHandler) (resetSDO : Bool)
    (Idx SubIdx v len : Nat) (ret : COPDOCommStates)
    (h : p.WriteObject Idx SubIdx v len = (X, COPDOCommStates.eCO_PDOBusy)) :
    p.mappingTransmit resetSDO true Idx SubIdx v len ret = (X, ret) := by
  unfold COPDOHandler.mappingTransmit
  simp [h]

theorem mappingTransmit_done (p X : COPDOHandler) (Idx SubIdx v len : Nat)
    (ret : COPDOCommStates)
    (h : p.WriteObject Idx SubIdx v len = (X, COPDOCommStates.eCO_PDODone)) :
    p.mappingTransmit true true Idx SubIdx v len ret
      = (({ X with PDOConfigSingleStepAccessStep :=
            (X.PDOConfigSingleStepAccessStep + 1) % 256 } : COPDOHandler).withRWSDO
          X.Node.RWSDO.ResetComState, ret) := by
  unfold COPDOHandler.mappingTransmit
  simp [h]

theorem mappingTransmit_skip (p : COPDOHandler) (resetSDO : Bool)
    (Idx SubIdx v len : Nat) (ret : COPDOCommStates) :
    p.mappingTransmit resetSDO false Idx SubIdx v len ret
      = ({ p with PDOConfigSingleStepAccessStep :=
            (p.PDOConfigSingleStepAccessStep + 1) % 256 }, ret) := by
  unfold COPDOHandler.mappingTransmit
  simp

theorem mapRounds_add (p : COPDOHandler) (od : Nat → ODEntry) (n node a b : Nat) :
    p.mapRounds od n node (a + b) = (p.mapRounds od n node a).mapRounds od n node b := by
  induction b with
  | zero => rfl
  | succ b ih =>
    show ((p.mapRounds od n node (a + b)).WriteRxPDOMapping od n).1.served node = _
    rw [ih]
    rfl

theorem mapsIn_trans (p : COPDOHandler) (od : Nat → ODEntry) (n node a b s t : Nat)
    (ws vs : List (Nat × Nat × Nat × Nat)) (h1 : p.mapsIn od n node a s ws)
    (h2 : (p.mapRounds od n node a).mapsIn od n node b t vs) :
    p.mapsIn od n node (a + b) t (ws ++ vs) := by
  obtain ⟨a1, -, -, a4, a5, fs, a6, a7⟩ := h1
  obtain ⟨b1, b2, b3, b4, b5, gs, b6, b7⟩ := h2
  unfold COPDOHandler.mapsIn
  rw [mapRounds_add]
  refine ⟨?_, b2, b3, b4.trans a4, b5.trans a5, fs ++ gs, ?_, ?_⟩
  · intro j hj
    by_cases hja : j < a
    · exact a1 j hja
    · obtain ⟨i, rfl⟩ : ∃ i, j = a + i := ⟨j - a, by omega⟩
      unfold COPDOHandler.mapReturns
      rw [mapRounds_add]
      exact b1 i (by omega)
  · rw [b6, a6, List.append_assoc]
  · rw [List.map_append, a7, b7]

/-- An access of one or four bytes takes three rounds: the call that posts the write (the
server confirms it), the call that sees the client Done, and the call that ends the access
and goes to the next step. -/
theorem access_cycle (p : COPDOHandler) (od : Nat → ODEntry) (n node Idx SubIdx v len : Nat)
    (hR : p.writeReady) (hI : Idx < 65536)
    (hl : (len = 1 ∧ v < 256) ∨ (len = 4 ∧ v < 2 ^ 32))
    (hs : p.PDOConfigSingleStepAccessStep < 255)
    (hD : ∀ q : COPDOHandler,
      q.PDOConfigSingleStepAccessStep = p.PDOConfigSingleStepAccessStep →
      q.RxPDOMapping = p.RxPDOMapping → q.RxPDOSettings = p.RxPDOSettings →
      q.WriteRxPDOMapping od n
        = q.mappingTransmit true true Idx SubIdx v len COPDOCommStates.eCO_PDOBusy) :
    p.mapsIn od n node 3 (p.PDOConfigSingleStepAccessStep + 1) [(Idx, SubIdx, len, v)] := by
  have hl4 : len ≤ 4 := by omega
  obtain ⟨r1, r2, r3, r4⟩ := hR
  obtain ⟨f, hP, hf, hfi, hfs⟩ :=
    expedited_write_frame p.Node.RWSDO Idx SubIdx v len r2 r3 r4 hI hl
  obtain ⟨c1, c2, -, -, c5, c6, c7⟩ :=
    WriteSDO_idle_exp_state p.Node.RWSDO Idx SubIdx (leBytes v) len r2 r3 r4 hl4
  have w0 := WriteObject_start p Idx SubIdx v len ⟨r1, r2, r3, r4⟩ hl4
  have e1 : (p.WriteRxPDOMapping od n) = (_, COPDOCommStates.eCO_PDOBusy) :=
    (hD p rfl rfl rfl).trans (mappingTransmit_busy p _ true Idx SubIdx v len _ w0)
  have s1 : p.mapRounds od n node 1 = _ :=
    (congrArg (fun r => r.1.served node) e1).trans
      (served_waiting _ node _ f c1 hP c2 hfi hfs (le_of_eq_of_le c5 hl4))
  have w1 := WriteObject_confirmed (p.mapRounds od n node 1) Idx SubIdx v len
    (by rw [s1]; rfl) (by rw [s1]; rfl) (by rw [s1]; rfl)
  have e2 : ((p.mapRounds od n node 1).WriteRxPDOMapping od n)
      = (_, COPDOCommStates.eCO_PDOBusy) :=
    (hD _ (by rw [s1]; rfl) (by rw [s1]; rfl) (by rw [s1]; rfl)).trans
      (mappingTransmit_busy _ _ true Idx SubIdx v len _ w1)
  have s2 : p.mapRounds od n node 2 = _ :=
    (congrArg (fun r => r.1.served node) e2).trans
      (served_not_waiting _ node (by simp [COSDOHandler.ResetComState]))
  have w2 := WriteObject_done (p.mapRounds od n node 2) Idx SubIdx v len
    (by rw [s2]) (by rw [s2, s1]; rfl)
  have e3 : ((p.mapRounds od n node 2).WriteRxPDOMapping od n)
      = (_, COPDOCommStates.eCO_PDOBusy) :=
    (hD _ (by rw [s2, s1]; rfl) (by rw [s2, s1]; rfl) (by rw [s2, s1]; rfl)).trans
      (mappingTransmit_done _ _ Idx SubIdx v len _ w2)
  have s3 : p.mapRounds od n node 3 = _ :=
    (congrArg (fun r => r.1.served node) e3).trans
      (served_not_waiting _ node (by simp [COSDOHandler.ResetComState, COPDOHandler.withRWSDO]))
  refine ⟨?_, ?_, ?_, ?_, ?_, [f], ?_, ?_⟩
  · intro j hj
    obtain rfl | rfl | rfl : j = 0 ∨ j = 1 ∨ j = 2 := by omega
    · exact congrArg Prod.snd e1
    · exact congrArg Prod.snd e2
    · exact congrArg Prod.snd e3
  · rw [s3, s2, s1]
    exact ⟨rfl, rfl, ⟨rfl, c6⟩, c7⟩
  · rw [s3, s2, s1]
    show (p.PDOConfigSingleStepAccessStep + 1) % 256 = _
    omega
  · rw [s3, s2, s1]
    rfl
  · rw [s3, s2, s1]
    rfl
  · rw [s3, s2, s1]
    exact hP
  · rw [List.map_singleton, hf]

theorem mapsIn_refl (p : COPDOHandler) (od : Nat → ODEntry) (n node : Nat)
    (hR : p.writeReady) :
    p.mapsIn od n node 0 p.PDOConfigSingleStepAccessStep [] :=
  ⟨fun _ hj => absurd hj (Nat.not_lt_zero _), hR, rfl, rfl, rfl, [],
    (List.append_nil _).symm, rfl⟩

/-- A step of the mapping phase whose entry is `NULL` takes one round and posts nothing. -/
theorem skipped_step (p : COPDOHandler) (od : Nat → ODEntry) (n node : Nat)
    (hR : p.writeReady) (h1 : 1 ≤ p.PDOConfigSingleStepAccessStep)
    (h4 : p.PDOConfigSingleStepAccessStep ≤ 4)
    (he : (p.RxPDOMapping n).Entries (p.PDOConfigSingleStepAccessStep - 1) = 0) :
    p.mapsIn od n node 1 (p.PDOConfigSingleStepAccessStep + 1) [] := by
  have h0 : ¬ p.PDOConfigSingleStepAccessStep = 0 := by omega
  have e1 : p.WriteRxPDOMapping od n
      = ({ p with PDOConfigSingleStepAccessStep :=
            (p.PDOConfigSingleStepAccessStep + 1) % 256 }, COPDOCommStates.eCO_PDOBusy) := by
    unfold COPDOHandler.WriteRxPDOMapping
    simp only [h0, h4, he, if_true, if_false, ne_eq, not_true_eq_false]
    exact mappingTransmit_skip _ _ _ _ _ _ _
  have s1 : p.mapRounds od n node 1 = _ :=
    (congrArg (fun r => r.1.served node) e1).trans
      (served_not_waiting _ node (by rw [hR.2.1]; decide))
  refine ⟨?_, ?_, ?_, ?_, ?_, [], ?_, rfl⟩
  · intro j hj
    obtain rfl : j = 0 := by omega
    exact congrArg Prod.snd e1
  · rw [s1]
    exact hR
  · rw [s1]
    show (p.PDOConfigSingleStepAccessStep + 1) % 256 = _
    omega
  · rw [s1]
  · rw [s1]
  · rw [s1, List.append_nil]

/-- A step of the mapping phase whose entry is not `NULL` writes the mapping word of the
entry to the sub-index that is the number of the step. -/
theorem written_step (p : COPDOHandler) (od : Nat → ODEntry) (n node : Nat)
    (hn : n < NrPDOs) (hR : p.writeReady) (h1 : 1 ≤ p.PDOConfigSingleStepAccessStep)
    (h4 : p.PDOConfigSingleStepAccessStep ≤ 4)
    (he : (p.RxPDOMapping n).Entries (p.PDOConfigSingleStepAccessStep - 1) ≠ 0) :
    p.mapsIn od n node 3 (p.PDOConfigSingleStepAccessStep + 1)
      [(RxPDOMappingTypeBaseIndex + n, p.PDOConfigSingleStepAccessStep, 4,
        mappingValue (od ((p.RxPDOMapping n).Entries
          (p.PDOConfigSingleStepAccessStep - 1))))] := by
  have hn4 : n < 4 := hn
  refine access_cycle p od n node _ _ _ 4 hR
    (by unfold RxPDOMappingTypeBaseIndex; omega)
    (Or.inr ⟨rfl, Nat.mod_lt _ (by norm_num)⟩) (by omega) ?_
  intro q hq hm _
  have h0 : ¬ q.PDOConfigSingleStepAccessStep = 0 := by omega
  have h4q : q.PDOConfigSingleStepAccessStep ≤ 4 := by omega
  have heq : (q.RxPDOMapping n).Entries (q.PDOConfigSingleStepAccessStep - 1) ≠ 0 := by
    rw [hm, hq]
    exact he
  unfold COPDOHandler.WriteRxPDOMapping
  simp only [h0, h4q, heq, if_true, if_false, ne_eq, not_false_eq_true]
  rw [hm, hq]

/-- The steps 1..j of the mapping phase of a mapping whose first `k` entries are not `NULL`
and whose entries `k`..3 are: the words of the entries below `min j k` are written. -/
theorem word_steps (p : COPDOHandler) (od : Nat → ODEntry) (n node k : Nat)
    (hn : n < NrPDOs) (hR : p.writeReady) (h1 : p.PDOConfigSingleStepAccessStep = 1)
    (hE : ∀ i, i < k → (p.RxPDOMapping n).Entries i ≠ 0)
    (hN : ∀ i, i < 4 → k ≤ i → (p.RxPDOMapping n).Entries i = 0) (j : Nat) (hj : j ≤ 4) :
    p.mapsIn od n node (3 * min j k + (j - k)) (j + 1)
      ((List.range (min j k)).map fun i =>
        (RxPDOMappingTypeBaseIndex + n, i + 1, 4,
          mappingValue (od ((p.RxPDOMapping n).Entries i)))) := by
  induction j with
  | zero =>
    have h := mapsIn_refl p od n node hR
    rw [h1] at h
    simpa using h
  | succ j ih =>
    have ih := ih (by omega)
    obtain ⟨-, a2, a3, a4, -, -⟩ := id ih
    by_cases hjk : j < k
    · have hw := written_step (p.mapRounds od n node (3 * min j k + (j - k))) od n node hn a2
        (by omega) (by omega) (by rw [a3, a4]; exact hE _ (by omega))
      have ht := mapsIn_trans p od n node _ _ _ _ _ _ ih hw
      rw [a3, a4] at ht
      have m1 : min j k = j := by omega
      have m2 : min (j + 1) k = j + 1 := by omega
      rw [m1] at ht
      rw [m2, List.range_succ, List.map_append, List.map_singleton]
      have e : 3 * (j + 1) + (j + 1 - k) = 3 * j + (j - k) + 3 := by omega
      rw [e]
      exact ht
    · have hs := skipped_step (p.mapRounds od n node (3 * min j k + (j - k))) od n node a2
        (by omega) (by omega) (by rw [a3, a4]; exact hN _ (by omega) (by omega))
      have ht := mapsIn_trans p od n node _ _ _ _ _ _ ih hs
      rw [a3, List.append_nil] at ht
      have m1 : min j k = k := by omega
      have m2 : min (j + 1) k = k := by omega
      rw [m1] at ht
      rw [m2]
      have e : 3 * k + (j + 1 - k) = 3 * k + (j - k) + 1 := by omega
      rw [e]
      exact ht

/-- C33, as amended: for an RPDO n (0..3) whose mapping has k ≤ 4 entries, the first k
elements of `Entries` not `NULL` and the elements k..3 `NULL` (as after one preset of a
handler just constructed), the mapping phase (calls of `WriteRxPDOMapping` from step 0, the
server confirming each write) returns Busy 13 + 2k times and Done in the call after them,
and the frames it posts are the expedited writes of: one byte 0 to 0x1600 + n sub-index 0;
for i = 1..k the four bytes `(Idx << 16) | (SubIdx << 8) | (len * 8)` of entry i to
sub-index i; one byte k to sub-index 0; one byte, the transmission type, to 0x1400 + n
sub-index 2.  Nothing else is posted. -/
theorem mapping_phase_writes (p : COPDOHandler) (od : Nat → ODEntry) (n node k : Nat)
    (hn : n < NrPDOs) (hS : p.SDORxTxState = COSDOCommStates.eCO_SDOIdle)
    (hC : p.Node.RWSDO.SDORxTxState = COSDOCommStates.eCO_SDOIdle)
    (hTx : p.Node.RWSDO.txReady) (hR : p.Node.RWSDO.SDORequestMsg.isRTR = false)
    (h0 : p.PDOConfigSingleStepAccessStep = 0)
    (hk : (p.RxPDOMapping n).NrEntries = k) (hk4 : k ≤ 4)
    (hE : ∀ i, i < k → (p.RxPDOMapping n).Entries i ≠ 0)
    (hN : ∀ i, i < 4 → k ≤ i → (p.RxPDOMapping n).Entries i = 0)
    (hT : (p.RxPDOSettings n).TransmType < 256) :
    (∀ j, j < 13 + 2 * k → p.mapReturns od n node j = COPDOCommStates.eCO_PDOBusy)
      ∧ p.mapReturns od n node (13 + 2 * k) = COPDOCommStates.eCO_PDODone
      ∧ ∃ fs, ((p.mapRounds od n node (13 + 2 * k)).WriteRxPDOMapping od n).1.Node.RWSDO.posted
            = p.Node.RWSDO.posted ++ fs
          ∧ fs.map sdoWrite
            = (RxPDOMappingTypeBaseIndex + n, 0, 1, 0)
              :: ((List.range k).map fun i =>
                  (RxPDOMappingTypeBaseIndex + n, i + 1, 4,
                    mappingValue (od ((p.RxPDOMapping n).Entries i))))
              ++ [(RxPDOMappingTypeBaseIndex + n, 0, 1, k),
                  (RxPDOTransmTypeBaseIndex + n, PDOComSettingsSubIdxTType, 1,
                    (p.RxPDOSettings n).TransmType)] := by
  have hn4 : n < 4 := hn
  -- step 0: the number of mapped objects is set to 0
  have A : p.mapsIn od n node 3 1 [(RxPDOMappingTypeBaseIndex + n, 0, 1, 0)] := by
    have h := access_cycle p od n node (RxPDOMappingTypeBaseIndex + n) 0 0 1 ⟨hS, hC, hTx, hR⟩
      (by unfold RxPDOMappingTypeBaseIndex; omega) (Or.inl ⟨rfl, by norm_num⟩) (by omega)
      (by
        intro q hq _ _
        unfold COPDOHandler.WriteRxPDOMapping
        simp only [hq.trans h0, if_true])
    rw [h0] at h
    exact h
  obtain ⟨-, a2, a3, a4, a5, -⟩ := id A
  -- steps 1..4: the mapping words
  have B := word_steps (p.mapRounds od n node 3) od n node k hn a2 a3
    (by rw [a4]; exact hE) (by rw [a4]; exact hN) 4 (le_refl 4)
  rw [a4, Nat.min_eq_right hk4] at B
  have AB := mapsIn_trans p od n node _ _ _ _ _ _ A B
  obtain ⟨-, b2, b3, b4, b5, -⟩ := id AB
  -- step 5: the number of mapped objects
  have C : (p.mapRounds od n node (3 + (3 * k + (4 - k)))).mapsIn od n node 3 6
      [(RxPDOMappingTypeBaseIndex + n, 0, 1, k)] := by
    have h := access_cycle (p.mapRounds od n node (3 + (3 * k + (4 - k)))) od n node
      (RxPDOMappingTypeBaseIndex + n) 0 k 1 b2
      (by unfold RxPDOMappingTypeBaseIndex; omega) (Or.inl ⟨rfl, by omega⟩) (by omega)
      (by
        intro q hq hm _
        have e5 : q.PDOConfigSingleStepAccessStep = 5 := hq.trans b3
        unfold COPDOHandler.WriteRxPDOMapping
        simp only [e5, hm, b4, hk]
        simp)
    rw [b3] at h
    exact h
  have ABC := mapsIn_trans p od n node _ _ _ _ _ _ AB C
  obtain ⟨-, c2, c3, c4, c5, -⟩ := id ABC
  -- step 6: the transmission type
  have D : (p.mapRounds od n node (3 + (3 * k + (4 - k)) + 3)).mapsIn od n node 3 7
      [(RxPDOTransmTypeBaseIndex + n, PDOComSettingsSubIdxTType, 1,
        (p.RxPDOSettings n).TransmType)] := by
    have h := access_cycle (p.mapRounds od n node (3 + (3 * k + (4 - k)) + 3)) od n node
      (RxPDOTransmTypeBaseIndex + n) PDOComSettingsSubIdxTType
      (p.RxPDOSettings n).TransmType 1 c2
      (by unfold RxPDOTransmTypeBaseIndex; omega) (Or.inl ⟨rfl, hT⟩) (by omega)
      (by
        intro q hq _ hs
        have e6 : q.PDOConfigSingleStepAccessStep = 6 := hq.trans c3
        unfold COPDOHandler.WriteRxPDOMapping
        simp only [e6, hs, c5]
        simp)
    rw [c3] at h
    exact h
  have ABCD := mapsIn_trans p od n node _ _ _ _ _ _ ABC D
  have em : 3 + (3 * k + (4 - k)) + 3 + 3 = 13 + 2 * k := by omega
  rw [em] at ABCD
  obtain ⟨d1, -, d3, -, -, fs, d6, d7⟩ := ABCD
  -- step 7: done
  have E : (p.mapRounds od n node (13 + 2 * k)).WriteRxPDOMapping od n
      = ({ p.mapRounds od n node (13 + 2 * k) with PDOConfigSingleStepAccessStep := 1 },
          COPDOCommStates.eCO_PDODone) := by
    unfold COPDOHandler.WriteRxPDOMapping
    simp only [d3]
    simp [mappingTransmit_skip]
  refine ⟨d1, congrArg Prod.snd E, fs, ?_, ?_⟩
  · rw [E]
    exact d6
  · rw [d7]
    simp

set_option maxRecDepth 8000 in
/-- C33, witness: RPDO1 of the handler of node 3 with the presets of a drive (control word
and target position mapped, type 255).  The phase returns Done in call 18 and has posted
the writes 0x1600.00 = 0, 0x1600.01 = 0x60400010, 0x1600.02 = 0x607A0020, 0x1600.00 = 2 and
0x1400.02 = 255. -/
theorem mapping_phase_writes_witness :
    pdoMappingPhase.mapReturns driveOD 0 3 17 = COPDOCommStates.eCO_PDODone
      ∧ ((pdoMappingPhase.mapRounds driveOD 0 3 17).WriteRxPDOMapping driveOD
          0).1.Node.RWSDO.posted.map sdoWrite
        = [(0x1600, 0, 1, 0), (0x1600, 1, 4, 0x60400010), (0x1600, 2, 4, 0x607A0020),
            (0x1600, 0, 1, 2), (0x1400, 2, 1, 255)] :=
  have h := mapping_phase_writes pdoMappingPhase driveOD 0 3 2 (by decide) (by decide)
    (by decide) ⟨by decide, by decide⟩ (by decide) (by decide) (by decide) (by decide)
    (by decide) (by decide) (by decide)
  ⟨h.2.1, h.2.2.elim fun fs hf => by
    rw [hf.1, List.map_append, hf.2]
    decide⟩

set_option maxRecDepth 8000 in
/-- C33, counterexample: the number of words written is not `NrEntries`.  A mapping preset
with five entries (the array holds eight) has four words written and 5 written to
sub-index 0; a mapping preset with three entries and then with one entry has the words at
the sub-indices 2 and 3 written, which are above k = 1. -/
theorem mapping_words_not_NrEntries :
    (pdoFiveEntries.RxPDOMapping 0).NrEntries = 5
      ∧ pdoFiveEntries.mapReturns fiveWords 0 3 21 = COPDOCommStates.eCO_PDODone
      ∧ (pdoFiveEntries.mapRounds fiveWords 0 3 21).Node.RWSDO.posted.map sdoWrite
        = [(0x1600, 0, 1, 0), (0x1600, 1, 4, 0x20010010), (0x1600, 2, 4, 0x20020010),
            (0x1600, 3, 4, 0x20030010), (0x1600, 4, 4, 0x20040010), (0x1600, 0, 1, 5),
            (0x1400, 2, 1, 255)]
      ∧ (pdoPresetTwice.RxPDOMapping 0).NrEntries = 1
      ∧ pdoPresetTwice.mapReturns fourWords 0 3 19 = COPDOCommStates.eCO_PDODone
      ∧ (pdoPresetTwice.mapRounds fourWords 0 3 19).Node.RWSDO.posted.map sdoWrite
        = [(0x1600, 0, 1, 0), (0x1600, 1, 4, 0x20040010), (0x1600, 2, 4, 0x20020010),
            (0x1600, 3, 4, 0x20030010), (0x1600, 0, 1, 1), (0x1400, 2, 1, 255)] := by
  decide

/-! ## C34: the RPDOs sent with SYNC -/

theorem syncLoop_fold (L : List Nat) :
    L.Nodup → ∀ p : COPDOHandler,
      L.foldl
        (fun q iterPDO =>
          if (q.RxPDOSettings iterPDO).TransmType = 1 then
            { q with
              RxPDOSettings := Function.update q.RxPDOSettings iterPDO
                { q.RxPDOSettings iterPDO with pending := 1 } }
          else q)
        p
      = { p with
          RxPDOSettings := fun i =>
            if i ∈ L ∧ (p.RxPDOSettings i).TransmType = 1 then
              { p.RxPDOSettings i with pending := 1 }
            else p.RxPDOSettings i } := by
  induction L with
  | nil =>
    intro _ p
    simp
  | cons a L ih =>
    intro hnd p
    obtain ⟨ha, hL⟩ := List.nodup_cons.mp hnd
    rw [List.foldl_cons, ih hL]
    by_cases h : (p.RxPDOSettings a).TransmType = 1
    · rw [if_pos h]
      dsimp only
      congr 1
      funext i
      by_cases hi : i = a
      · subst hi
        simp [ha, h]
      · simp [hi, Function.update_noteq hi]
    · rw [if_neg h]
      congr 1
      funext i
      by_cases hi : i = a
      · subst hi
        simp [ha, h]
      · simp [hi]

/-- What does hold of C34: the sync handling of `Update` sets the counter `pending` of every
RPDO of transmission type 1 to 1 and changes nothing else; the counters of the RPDOs of any
other type stay as they are. -/
theorem syncLoop_sets_one (p : COPDOHandler) :
    p.syncLoop = { p with
      RxPDOSettings := fun i =>
        if i < NrPDOs ∧ (p.RxPDOSettings i).TransmType = 1 then
          { p.RxPDOSettings i with pending := 1 }
        else p.RxPDOSettings i } := by
  unfold COPDOHandler.syncLoop
  rw [syncLoop_fold _ (List.nodup_range _)]
  simp only [List.mem_range]

/-- C34, the code at the failing input `pdoSyncBusy`: RPDO1 has transmission type 1 and the
router is busy with another frame.  `Update(10, SyncSent)` takes the counter of RPDO1 from
0 to 1 and cannot send; at the entry of `Update(20, SyncSent)` the counter is 1, and after
the sync handling of that call (and after the call) it is still 1, not 2: the code assigns
`pending = true` where the claim, the comment of the member (`to be incremented`) and
`TxPDOsAsync` (`pending++`) count. -/
theorem sync_pending_not_incremented :
    (pdoSyncBusy.Update driveOD 10 COSyncState.eSyncSyncSent).1.pendings = [1, 0, 0, 0]
      ∧ (pdoSyncBusy.Update driveOD 10 COSyncState.eSyncSyncSent).1.syncLoop.pendings
          = [1, 0, 0, 0]
      ∧ ((pdoSyncBusy.Update driveOD 10 COSyncState.eSyncSyncSent).1.Update driveOD 20
          COSyncState.eSyncSyncSent).1.pendings = [1, 0, 0, 0]
      ∧ (pdoSyncBusy.Update driveOD 10 COSyncState.eSyncSyncSent).1.Node.RWSDO.posted.map wire
          = [] := by
  decide

/-! ## C35: the values a transmitted RPDO carries -/

theorem PDO_SendRequest_blocked (p : COPDOHandler) (Msg : CANMsg)
    (hB : p.Node.RWSDO.txBlocked) :
    (p.SendRequest Msg).2 = false
      ∧ (p.SendRequest Msg).1.RequestState ≠ COPDOCommStates.eCO_PDOIdle
      ∧ (p.SendRequest Msg).1.TxPDO = p.TxPDO
      ∧ (p.SendRequest Msg).1.RxPDOSettings = p.RxPDOSettings
      ∧ (p.SendRequest Msg).1.RxPDOMapping = p.RxPDOMapping := by
  have hb := (SendMsg_blocked p.Node.RWSDO.Handler Msg hB).1
  unfold COPDOHandler.SendRequest
  dsimp only
  rw [show p.Handler.SendMsg Msg = p.Node.RWSDO.Handler.SendMsg Msg from rfl, hb]
  simp only [Bool.false_eq_true, if_false]
  split_ifs <;>
    exact ⟨rfl, fun x => COPDOCommStates.noConfusion x, rfl, rfl, rfl⟩

theorem PDO_SendRequest_TxPDO (p : COPDOHandler) (Msg : CANMsg) :
    (p.SendRequest Msg).1.TxPDO = p.TxPDO := by
  unfold COPDOHandler.SendRequest
  dsimp only
  split_ifs <;> rfl

theorem TransmitPdo_idle (p : COPDOHandler) (od : Nat → ODEntry) (n : Nat)
    (hIdle : p.RequestState = COPDOCommStates.eCO_PDOIdle)
    (hV : (p.RxPDOSettings n).isValid = true) (hk : 0 < (p.RxPDOMapping n).NrEntries) :
    p.TransmitPdo od n
      = ({ p with TxPDO := { p.TxPDO with
            payload := (txLoop od (p.RxPDOMapping n).Entries (p.RxPDOMapping n).NrEntries 0
              (p.TxPDO.payload, 0)).1
            len := (txLoop od (p.RxPDOMapping n).Entries (p.RxPDOMapping n).NrEntries 0
              (p.TxPDO.payload, 0)).2
            Id := (p.RxPDOSettings n).COBId } } : COPDOHandler).SendRequest
          { p.TxPDO with
            payload := (txLoop od (p.RxPDOMapping n).Entries (p.RxPDOMapping n).NrEntries 0
              (p.TxPDO.payload, 0)).1
            len := (txLoop od (p.RxPDOMapping n).Entries (p.RxPDOMapping n).NrEntries 0
              (p.TxPDO.payload, 0)).2
            Id := (p.RxPDOSettings n).COBId } := by
  unfold COPDOHandler.TransmitPdo
  dsimp only
  rw [if_pos hIdle, if_pos ⟨hV, hk⟩]

theorem TransmitPdo_not_idle (p : COPDOHandler) (od : Nat → ODEntry) (n : Nat)
    (h : p.RequestState ≠ COPDOCommStates.eCO_PDOIdle) :
    p.TransmitPdo od n = p.SendRequest p.TxPDO := by
  unfold COPDOHandler.TransmitPdo
  dsimp only
  rw [if_neg h]

/-- C35, as amended: RPDO `n` is valid and maps `k ≥ 1` entries, each 1, 2 or 4 bytes wide, 8
bytes in all.  A `TransmitPdo` that finds the handler idle assembles the frame from the
values the mapped entries have at that call (`od1`), lowest byte first, and hands it to the
router if the transmitter takes it.  If the transmitter is blocked at that call, the call
returns false, and the next `TransmitPdo` with a transmitter that takes the frame hands
over the frame assembled then: it carries the values of `od1`, whatever the values `od2` at
the time of the second call are. -/
theorem transmitted_values (p : COPDOHandler) (od1 od2 : Nat → ODEntry) (n : Nat)
    (h : COMsgHandler)
    (hIdle : p.RequestState = COPDOCommStates.eCO_PDOIdle) (hR : p.TxPDO.isRTR = false)
    (hV : (p.RxPDOSettings n).isValid = true)
    (hk : 0 < (p.RxPDOMapping n).NrEntries)
    (hw : ∀ i, i < (p.RxPDOMapping n).NrEntries →
      ((od1 ((p.RxPDOMapping n).Entries i)).len = 1
          ∨ (od1 ((p.RxPDOMapping n).Entries i)).len = 2
          ∨ (od1 ((p.RxPDOMapping n).Entries i)).len = 4)
        ∧ ∀ b, b < (od1 ((p.RxPDOMapping n).Entries i)).len →
            (od1 ((p.RxPDOMapping n).Entries i)).Value b < 256)
    (htot : pdoOffset od1 (p.RxPDOMapping n).Entries (p.RxPDOMapping n).NrEntries ≤ 8)
    (hh : h.TxStatus = COTxStatus.eCOTxIdle ∧ h.can.busy = false) :
    (p.Node.RWSDO.txReady →
        (p.TransmitPdo od1 n).2 = true
        ∧ ∃ f, (p.TransmitPdo od1 n).1.Node.RWSDO.posted = p.Node.RWSDO.posted ++ [f]
          ∧ f.id = (p.RxPDOSettings n).COBId
          ∧ f.data_length_code
              = pdoOffset od1 (p.RxPDOMapping n).Entries (p.RxPDOMapping n).NrEntries
          ∧ ∀ i, i < (p.RxPDOMapping n).NrEntries →
              ∀ b, b < (od1 ((p.RxPDOMapping n).Entries i)).len →
                f.data (pdoOffset od1 (p.RxPDOMapping n).Entries i + b)
                  = (od1 ((p.RxPDOMapping n).Entries i)).Value b)
      ∧ (p.Node.RWSDO.txBlocked →
        (p.TransmitPdo od1 n).2 = false
        ∧ (((p.TransmitPdo od1 n).1.withHandler h).TransmitPdo od2 n).2 = true
        ∧ ∃ f, (((p.TransmitPdo od1 n).1.withHandler h).TransmitPdo od2 n).1.Node.RWSDO.posted
              = h.can.posted ++ [f]
          ∧ f.id = (p.RxPDOSettings n).COBId
          ∧ f.data_length_code
              = pdoOffset od1 (p.RxPDOMapping n).Entries (p.RxPDOMapping n).NrEntries
          ∧ ∀ i, i < (p.RxPDOMapping n).NrEntries →
              ∀ b, b < (od1 ((p.RxPDOMapping n).Entries i)).len →
                f.data (pdoOffset od1 (p.RxPDOMapping n).Entries i + b)
                  = (od1 ((p.RxPDOMapping n).Entries i)).Value b) := by
  have hT := TransmitPdo_idle p od1 n hIdle hV hk
  generalize hE : (p.RxPDOMapping n).Entries = E at *
  generalize hK : (p.RxPDOMapping n).NrEntries = k at *
  obtain ⟨t1, t2, _⟩ := txLoop_spec od1 E k 0 p.TxPDO.payload
    (fun j _ h2 => hw j (by omega)) (by rw [Nat.zero_add]; omega)
  rw [Nat.zero_add] at t1
  generalize hM : ({ p.TxPDO with
      payload := (txLoop od1 E k 0 (p.TxPDO.payload, 0)).1
      len := (txLoop od1 E k 0 (p.TxPDO.payload, 0)).2
      Id := (p.RxPDOSettings n).COBId } : CANMsg) = M at hT
  have m1 : M.isRTR = false := by rw [← hM]; exact hR
  have m2 : (frameOf M).id = (p.RxPDOSettings n).COBId := by rw [← hM]; rfl
  have m3 : (frameOf M).data_length_code = pdoOffset od1 E k := by rw [← hM]; exact t1
  have m4 : ∀ i, i < k → ∀ b, b < (od1 (E i)).len →
      (frameOf M).data (pdoOffset od1 E i + b) = (od1 (E i)).Value b := by
    intro i hi b hb
    rw [← hM]
    exact t2 i (Nat.zero_le _) (by omega) b hb
  constructor
  · intro hTx
    obtain ⟨s1, s2, _⟩ := PDO_SendRequest_ready ({ p with TxPDO := M } : COPDOHandler) M hTx m1
    rw [hT]
    exact ⟨s1, frameOf M, s2, m2, m3, m4⟩
  · intro hB
    obtain ⟨s1, s2, s3, _, _⟩ := PDO_SendRequest_blocked ({ p with TxPDO := M } : COPDOHandler)
      M hB
    rw [hT]
    have hne : ((({ p with TxPDO := M } : COPDOHandler).SendRequest M).1.withHandler
        h).RequestState ≠ COPDOCommStates.eCO_PDOIdle := s2
    have hTP : ((({ p with TxPDO := M } : COPDOHandler).SendRequest M).1.withHandler h).TxPDO
        = M := s3
    rw [TransmitPdo_not_idle _ od2 n hne, hTP]
    obtain ⟨r1, r2, _⟩ := PDO_SendRequest_ready
      ((({ p with TxPDO := M } : COPDOHandler).SendRequest M).1.withHandler h) M hh m1
    exact ⟨s1, r1, frameOf M, r2, m2, m3, m4⟩

/-- C35, witness: RPDO1 of `pdoPreset` (controlword and target position).  From the idle
handler with a free transmitter the frame carries the values of `driveOD`:
`0F 00 45 23 01 00`. -/
theorem transmitted_values_witness :
    ((pdoPreset 3 1000).TransmitPdo driveOD 0).2 = true
      ∧ ((pdoPreset 3 1000).TransmitPdo driveOD 0).1.Node.RWSDO.posted.map wire
          = [(0x203, 6, [0x0F, 0x00, 0x45, 0x23, 0x01, 0x00, 0, 0])] :=
  have h := transmitted_values (pdoPreset 3 1000) driveOD driveODLater 0 openRouter
    (by decide) (by decide) (by decide) (by decide) (by decide) (by decide)
    ⟨by decide, by decide⟩
  ⟨(h.1 ⟨by decide, by decide⟩).1, by decide⟩

/-- C35, counterexample: the first attempt to send RPDO1 finds the router busy and fails;
the transmission in progress completes, the application changes the controlword to 0x001F
and the target position to 0x00054321, and the second attempt succeeds.  The frame handed
to the router carries `0F 00 45 23 01 00`, the values of the first attempt, not
`1F 00 21 43 05 00`. -/
theorem retry_sends_old_values :
    (pdoPresetBusy.TransmitPdo driveOD 0).2 = false
      ∧ ((pdoPresetBusy.TransmitPdo driveOD 0).1.afterTxComplete.TransmitPdo driveODLater 0).2
          = true
      ∧ ((pdoPresetBusy.TransmitPdo driveOD 0).1.afterTxComplete.TransmitPdo driveODLater
          0).1.Node.RWSDO.posted.map wire
          = [(0x203, 6, [0x0F, 0x00, 0x45, 0x23, 0x01, 0x00, 0, 0])]
      ∧ ((pdoPreset 3 1000).TransmitPdo driveODLater 0).1.Node.RWSDO.posted.map wire
          = [(0x203, 6, [0x1F, 0x00, 0x21, 0x43, 0x05, 0x00, 0, 0])] := by
  decide

/-! ## C36: the resets of the PDO handler after a failed configuration step -/

theorem resets_keep_SDORxTxState (p : COPDOHandler) :
    p.ResetComState.ResetSDOState.SDORxTxState = p.SDORxTxState
      ∧ p.ResetComState.ResetSDOState.PDOConfigSequenceAccessStep = 0
      ∧ p.ResetComState.ResetSDOState.PDOsConfigured = p.PDOsConfigured
      ∧ p.ResetComState.ResetSDOState.Node.RWSDO.SDORxTxState = COSDOCommStates.eCO_SDOIdle :=
  ⟨rfl, rfl, rfl, rfl⟩

/-- C36, the code at the failing input: the first write of the configuration was aborted by
the server (`abortedConfig`), then `ResetComState()` and `ResetSDOState()` are called.  The
SDO client is Idle again, but the member `SDORxTxState` of the PDO handler, in which
`WriteObject` keeps the last answer of the client, is still Error: neither reset assigns
it.  In every later call `WriteObject` returns Error without calling the client,
`ConfigureRxTxPDO` returns Error, and no frame but the one of the aborted write has ever
been offered to the driver. -/
theorem reset_does_not_recover (stale : COPDOCommStates) (time : Nat → Nat) (k : Nat) :
    abortedConfig.ResetComState.ResetSDOState.Node.RWSDO.SDORxTxState
        = COSDOCommStates.eCO_SDOIdle
      ∧ abortedConfig.ResetComState.ResetSDOState.SDORxTxState = COSDOCommStates.eCO_SDOError
      ∧ ((abortedConfig.ResetComState.ResetSDOState.configCalls driveOD stale time
          k).WriteObject RxPDOTransmTypeBaseIndex PDOComSettingsSubIdxCobId 0x80000203 4).2
          = COPDOCommStates.eCO_PDOError
      ∧ ((abortedConfig.ResetComState.ResetSDOState.configCalls driveOD stale time
          k).ConfigureRxTxPDO driveOD stale 0 PDODir.eCO_PDORx (time k)).2
          = COPDOCommStates.eCO_PDOError
      ∧ ((abortedConfig.ResetComState.ResetSDOState.configCalls driveOD stale time
          (k + 1)).Node.RWSDO.offered.map wire)
          = [(0x603, 8, [0x23, 0x00, 0x14, 0x01, 0x03, 0x02, 0, 0x80])] := by
  have hS : abortedConfig.ResetComState.ResetSDOState.SDORxTxState
      = COSDOCommStates.eCO_SDOError := by decide
  have h0 : abortedConfig.ResetComState.ResetSDOState.PDOConfigSequenceAccessStep = 0 := rfl
  have hN : abortedConfig.ResetComState.ResetSDOState.PDOsConfigured < NrPDOs := by decide
  have off : ∀ j, (abortedConfig.ResetComState.ResetSDOState.configCalls driveOD stale time
      j).Node = abortedConfig.ResetComState.ResetSDOState.Node := by
    intro j
    induction j with
    | zero => rfl
    | succ j ih =>
      obtain ⟨a1, a2, a3⟩ := configCalls_stuck abortedConfig.ResetComState.ResetSDOState driveOD
        stale time (Or.inl hS) h0 hN j
      show ((abortedConfig.ResetComState.ResetSDOState.configCalls driveOD stale time
        j).ConfigurePresetPDOs driveOD stale (time j)).1.Node = _
      rw [ConfigurePresetPDOs_stuck _ driveOD stale _ (by rw [a1]; exact Or.inl hS) a2
        (by rw [a3]; exact hN)]
      exact ih
  obtain ⟨a1, a2, a3⟩ := configCalls_stuck abortedConfig.ResetComState.ResetSDOState driveOD
    stale time (Or.inl hS) h0 hN k
  refine ⟨by decide, hS, ?_, ?_, ?_⟩
  · rw [WriteObject_error _ _ _ _ _ (by rw [a1]; exact Or.inl hS)]
  · rw [ConfigureRxTxPDO_error _ driveOD stale _ _ _ (by rw [a1]; exact Or.inl hS) a2]
  · rw [off (k + 1)]
    decide

/-! ## C37: a frame the driver does not take -/

/-- C37, the code at the failing input: the router is Idle and the driver takes no frame.
`SendMsg` returns false and leaves `TxStatus` Busy: it is set before `send` is called and
not set back.  No frame has been posted, so no TX-complete event follows, and when the
driver is free again the next `SendMsg` returns false as well, without offering the frame
to the driver. -/
theorem rejected_frame_leaves_busy :
    driverBusyRouter.TxStatus = COTxStatus.eCOTxIdle
      ∧ (driverBusyRouter.SendMsg syncAttached.SyncMessage).1 = false
      ∧ (driverBusyRouter.SendMsg syncAttached.SyncMessage).2.TxStatus = COTxStatus.eCOTxBusy
      ∧ heads (driverBusyRouter.SendMsg syncAttached.SyncMessage).2.can.posted = []
      ∧ ((driverBusyRouter.SendMsg syncAttached.SyncMessage).2.driverFree.SendMsg
          syncAttached.SyncMessage).1 = false
      ∧ heads ((driverBusyRouter.SendMsg syncAttached.SyncMessage).2.driverFree.SendMsg
          syncAttached.SyncMessage).2.can.offered
          = [(0x080, can_frame_type_t.CAN_FRAME_TYPE_DATA, 0)] := by
  decide

/-- The code in general, for C37: `SendMsg` returns false either with `TxStatus` not Idle,
and then leaves it as it is, or with `TxStatus` Idle and a driver that takes no frame, and
then leaves it Busy. -/
theorem SendMsg_false_status (h : COMsgHandler) (msg : CANMsg)
    (hf : (h.SendMsg msg).1 = false) :
    (h.TxStatus ≠ COTxStatus.eCOTxIdle ∧ (h.SendMsg msg).2.TxStatus = h.TxStatus)
      ∨ (h.TxStatus = COTxStatus.eCOTxIdle ∧ h.can.busy = true
          ∧ (h.SendMsg msg).2.TxStatus = COTxStatus.eCOTxBusy) := by
  unfold COMsgHandler.SendMsg UNOR4CAN.send at hf ⊢
  by_cases h1 : h.TxStatus = COTxStatus.eCOTxIdle
  · right
    by_cases h2 : h.can.busy = true
    · simp [h1, h2]
    · simp [h1, h2] at hf
  · left
    simp [h1]

/-! ## C38: the command byte of an NMT command that was retried -/

theorem SendMsg_true_idle (h : COMsgHandler) (m : CANMsg) (ht : (h.SendMsg m).1 = true) :
    h.TxStatus = COTxStatus.eCOTxIdle := by
  by_contra hn
  unfold COMsgHandler.SendMsg at ht
  rw [if_neg hn] at ht
  cases ht

theorem sendNmtCommand_NmtCommand (n : CONode) (after : CONode → CONode)
    (hd : (n.sendNmtCommand after).2 ≠ CONodeCommStates.eCO_NodeDone) :
    (n.sendNmtCommand after).1.NmtCommand = n.NmtCommand := by
  obtain ⟨_, _, a3, _, _⟩ := CONode_SendRequest_spec n n.NmtCommand
  unfold CONode.sendNmtCommand at hd ⊢
  dsimp only at hd ⊢
  by_cases h : (n.SendRequest n.NmtCommand).2 = CONodeCommStates.eCO_NodeDone
  · rw [if_pos h] at hd
    exact absurd h hd
  · rw [if_neg h]
    exact a3

theorem nmtCommand_byte (n : CONode) (cmd : Nat) (after : CONode → CONode) (target : Int)
    (hH : ∀ m, (after m).Handler = m.Handler) (hS : ∀ m, (after m).NodeState = target)
    (hR : n.NmtCommand.isRTR = false) :
    CommandByteSent n (n.nmtCommand cmd after) cmd := by
  have sent : ∀ m : CONode, m.Handler = n.Handler → m.NmtCommand.isRTR = false →
      (m.sendNmtCommand after).2 = CONodeCommStates.eCO_NodeDone →
      (m.sendNmtCommand after).1.Handler.can.offered
        = n.Handler.can.offered ++ [frameOf m.NmtCommand] := by
    intro m hm hr hd
    obtain ⟨b1, _, b3⟩ := sendNmtCommand_spec m after target hH hS
    have ht : (m.Handler.SendMsg m.NmtCommand).1 = true := by
      by_contra hx
      exact (b3 (by simpa using hx)).1 hd
    rw [b1, SendMsg_offered _ _ (SendMsg_true_idle _ _ ht) hr, hm]
  unfold CONode.nmtCommand
  generalize hq : n.RequestState = q
  cases q
  case eCO_NodeIdle =>
    dsimp only
    refine ⟨fun hd => ⟨_, sent _ rfl hR hd, rfl, ?_⟩, fun _ hd => ?_⟩
    · simp [frameOf, CommandByteSent, hq]
    · rw [sendNmtCommand_NmtCommand _ _ hd]
      simp
  case eCO_NodeRetry =>
    dsimp only
    refine ⟨fun hd => ⟨_, sent n rfl hR hd, rfl, ?_⟩, fun hi _ => ?_⟩
    · simp [frameOf, hq]
    · rw [hq] at hi
      exact CONodeCommStates.noConfusion hi
  all_goals
    dsimp only
    refine ⟨fun hd => CONodeCommStates.noConfusion hd, fun hi _ => ?_⟩
    rw [hq] at hi
    exact CONodeCommStates.noConfusion hi

/-- The code in general, for C38: when one of `SendResetNode`, `SendResetCom`,
`SendStartNode`, `SendStopNode`, `SendPreopNode` returns Done, one NMT frame has been
offered to the driver in that call.  It carries the command byte of that operation (0x81,
0x82, 0x01, 0x02, 0x80) if the call found `RequestState` Idle; if it found `RequestState`
Retry, it carries the byte that the call which composed the message left in `NmtCommand`.  A
call that finds `RequestState` Idle and does not return Done leaves its own byte there, so
after a failed call a repetition of the same operation sends its own byte. -/
theorem nmt_command_byte (n : CONode) (hR : n.NmtCommand.isRTR = false) :
    CommandByteSent n n.SendResetNode NMT_ResetRemoteNode
      ∧ CommandByteSent n n.SendResetCom NMT_ResetComRemoteNode
      ∧ CommandByteSent n n.SendStartNode NMT_StartRemoteNode
      ∧ CommandByteSent n n.SendStopNode NMT_StopRemoteNode
      ∧ CommandByteSent n n.SendPreopNode NMT_EnterPreop :=
  ⟨nmtCommand_byte n _ _ _ (fun _ => rfl) (fun _ => rfl) hR,
    nmtCommand_byte n _ _ _ (fun _ => rfl) (fun _ => rfl) hR,
    nmtCommand_byte n _ _ _ (fun _ => rfl) (fun _ => rfl) hR,
    nmtCommand_byte n _ _ _ (fun _ => rfl) (fun _ => rfl) hR,
    nmtCommand_byte n _ _ _ (fun _ => rfl) (fun _ => rfl) hR⟩

/-- An instance of `nmt_command_byte`: node 3, whose `SendStopNode` has failed on a busy
router; when the transmission in progress has completed, `SendStopNode` again returns Done
and the frame carries 0x02. -/
theorem nmt_command_byte_witness :
    nodeAttachedBusy.SendStopNode.2 = CONodeCommStates.eCO_NodeRetry
      ∧ nodeAttachedBusy.SendStopNode.1.afterTxComplete.SendStopNode.2
          = CONodeCommStates.eCO_NodeDone
      ∧ ∃ f, nodeAttachedBusy.SendStopNode.1.afterTxComplete.SendStopNode.1.Handler.can.offered
            = nodeAttachedBusy.SendStopNode.1.afterTxComplete.Handler.can.offered ++ [f]
          ∧ f.data 0 = 0x02 :=
  have h := nmt_command_byte nodeAttachedBusy.SendStopNode.1.afterTxComplete (by decide)
  ⟨by decide, by decide,
    (h.2.2.2.1.1 (by decide)).elim fun f hf => ⟨f, hf.1, hf.2.2.trans (by decide)⟩⟩

/-- C38, the code at the failing input: `SendStopNode` of node 3 finds the router busy and
ends in Retry; the transmission in progress completes and `SendStartNode` is called.  It
returns Done and records the node state Operational, but the one frame posted is `02 03`,
the stop command for node 3: `RequestState` is shared by the five operations, and entered in
Retry `SendStartNode` does not write its command byte. -/
theorem start_sends_stop_command :
    nodeAttachedBusy.SendStopNode.2 = CONodeCommStates.eCO_NodeRetry
      ∧ nodeAttachedBusy.SendStopNode.1.afterTxComplete.SendStartNode.2
          = CONodeCommStates.eCO_NodeDone
      ∧ nodeAttachedBusy.SendStopNode.1.afterTxComplete.SendStartNode.1.NodeState
          = eNMTStateOperational
      ∧ (nodeAttachedBusy.SendStopNode.1.afterTxComplete.SendStartNode.1.RWSDO.posted.map
          fun f => (f.id, f.data_length_code, f.data 0, f.data 1)) = [(0, 2, 0x02, 3)] := by
  decide

/-! ## C39: the length of the caller's buffer -/

/-- C39, the code at the failing input: `ReadSDO(0x2000, 0, buf, &length)` with
`*length = 4`, and a server that answers with a segmented upload of ten bytes.  The client
reaches Done, has written the ten bytes `01 .. 0A` to `buf[0..9]`, over the six bytes
behind the buffer, and reports the length 10.  `MaxRxLen` holds the 4 and is compared with
nothing (`//todo //check against MaxRxLen` in `OnRxHandler`). -/
theorem read_exceeds_max_length :
    (((attached 3).ReadSDO 0x2000 0 fourByteBuffer 4).1.feed uploadResponses 3).SDORxTxState
        = COSDOCommStates.eCO_SDODone
      ∧ (((attached 3).ReadSDO 0x2000 0 fourByteBuffer 4).1.feed uploadResponses 3).MaxRxLen = 4
      ∧ (List.range 12).map
          (((attached 3).ReadSDO 0x2000 0 fourByteBuffer 4).1.feed uploadResponses
            3).ClientDataPtr
          = [1, 2, 3, 4, 5, 6, 7, 8, 9, 10, 0xEE, 0xEE]
      ∧ ((((attached 3).ReadSDO 0x2000 0 fourByteBuffer 4).1.feed uploadResponses 3).ReadSDO
          0x2000 0 fourByteBuffer 4).2 = 10 := by
  decide

/-! ## C40: an RPDO that is not valid or not mapped -/

/-- C40, the code at the failing input: RPDO2 of `pdoPreset` is mapped (to the modes of
operation, at address 5) but not flagged valid.  A write of the application to that entry
makes it pending (`TxPDOsAsync`), and the second `Update` after that posts a frame for it:
identifier 0x303, length 0.  The counter goes back to 0, as after a transmission.
`TransmitPdo` itself does so for every RPDO that is not valid or not mapped: for RPDO4,
which was never preset, the frame has the identifier 0 and the length 0. -/
theorem invalid_pdo_transmitted :
    ((pdoPreset 3 1000).RxPDOSettings 1).isValid = false
      ∧ ((pdoPreset 3 1000).TxPDOsAsync 255 5).1.pendings = [0, 1, 0, 0]
      ∧ ((((pdoPreset 3 1000).TxPDOsAsync 255 5).1.Update driveOD 10
          COSyncState.eSyncIdle).1.Update driveOD 11
          COSyncState.eSyncIdle).1.Node.RWSDO.posted.map wire
          = [(0x303, 0, [0, 0, 0, 0, 0, 0, 0, 0])]
      ∧ ((((pdoPreset 3 1000).TxPDOsAsync 255 5).1.Update driveOD 10
          COSyncState.eSyncIdle).1.Update driveOD 11
          COSyncState.eSyncIdle).1.pendings = [0, 0, 0, 0]
      ∧ ((pdoPreset 3 1000).TransmitPdo driveOD 1).2 = true
      ∧ ((pdoPreset 3 1000).TransmitPdo driveOD 3).1.Node.RWSDO.posted.map wire
          = [(0, 0, [0, 0, 0, 0, 0, 0, 0, 0])] := by
  decide

/-- The code in general, for C40: an idle handler whose transmitter takes the frame posts,
for an RPDO that is not flagged valid or has no mapping, a frame of length 0 with the
COB-ID of the descriptor, and `TransmitPdo` returns true. -/
theorem TransmitPdo_not_valid (p : COPDOHandler) (od : Nat → ODEntry) (PdoNr : Nat)
    (hIdle : p.RequestState = COPDOCommStates.eCO_PDOIdle)
    (hTx : p.Node.RWSDO.txReady) (hR : p.TxPDO.isRTR = false)
    (hV : (p.RxPDOSettings PdoNr).isValid = false ∨ (p.RxPDOMapping PdoNr).NrEntries = 0) :
    (p.TransmitPdo od PdoNr).2 = true
      ∧ ∃ f, (p.TransmitPdo od PdoNr).1.Node.RWSDO.posted = p.Node.RWSDO.posted ++ [f]
        ∧ f.id = (p.RxPDOSettings PdoNr).COBId ∧ f.data_length_code = 0 := by
  have hc : ¬ ((p.RxPDOSettings PdoNr).isValid = true
      ∧ (p.RxPDOMapping PdoNr).NrEntries > 0) := by
    rintro ⟨a, b⟩
    rcases hV with h | h
    · rw [h] at a
      exact Bool.noConfusion a
    · omega
  unfold COPDOHandler.TransmitPdo
  dsimp only
  rw [if_pos hIdle, if_neg hc]
  obtain ⟨s1, s2, _⟩ := PDO_SendRequest_ready ({ p with TxPDO := { p.TxPDO with
      payload := p.TxPDO.payload
      len := 0
      Id := (p.RxPDOSettings PdoNr).COBId } } : COPDOHandler)
    { p.TxPDO with
      payload := p.TxPDO.payload
      len := 0
      Id := (p.RxPDOSettings PdoNr).COBId } hTx hR
  exact ⟨s1, _, s2, rfl, rfl⟩

end CANopen4Drives
